import Mathlib

/-!
# Console server handle tables (`win32ss/user/consrv/handle.c`)

A shallow embedding of the console I/O handle functions of the ReactOS console
server, and theorems about them.

Modelling conventions.

* Pointers to `Object_t` and to `CONSOLE` are natural-number identifiers into the
  two maps of `ServerState`; a nullable pointer is an `Option`.
* `ProcessData->HandleTable` together with `ProcessData->HandleTableSize` is one
  value: `none` is the `NULL` table (size 0) and `some t` is an allocated array
  whose element count is `t.length`.  The code writes the two fields together
  at every place it writes either of them.
* `LONG` counters are `Int`; signed overflow is outside the embedding.  The
  `ULONG` arithmetic that builds a handle value wraps modulo `2^32`.
* The outcome of `RtlAllocateHeap` is the Boolean argument `alloc` of the
  function that calls it.  The outcomes of the external session factory
  `CsrInitConsole` and of `NtDuplicateObject` are arguments of the functions
  that call them as well; the external destructors `ConioDeleteScreenBuffer`
  and `ConioDeleteConsole` record their calls in the state.
* An `OUT` parameter is an argument carrying the caller's current value and a
  component of the result carrying the value after the call.
* Critical sections are hold depths: entering adds one, leaving removes one.
  Where the order of the lock calls matters, a function has beside it the list
  of the lock calls it makes, following the same control flow.
* A result of type `Option` is `none` where the C code dereferences `NULL` or
  works on a freed block.
-/

namespace Consrv

/-! ## Constants -/

/-- Modelled from the spec: access mask bit `READ`; the value is the Windows
SDK constant `GENERIC_READ`, whose header is absent. -/
def GENERIC_READ : Nat := 0x80000000

/-- Modelled from the spec: access mask bit `WRITE`; the value is the Windows
SDK constant `GENERIC_WRITE`, whose header is absent. -/
def GENERIC_WRITE : Nat := 0x40000000

/-- Modelled from the spec: share mask bit `SHARE_READ`; the value is the
Windows SDK constant `FILE_SHARE_READ`, whose header is absent. -/
def FILE_SHARE_READ : Nat := 0x00000001

/-- Modelled from the spec: share mask bit `SHARE_WRITE`; the value is the
Windows SDK constant `FILE_SHARE_WRITE`, whose header is absent. -/
def FILE_SHARE_WRITE : Nat := 0x00000002

/-- Object type magic number of the input buffer (`consrv.h`). -/
def CONIO_INPUT_BUFFER_MAGIC : Nat := 0x00000001

/-- Object type magic number of a screen buffer (`consrv.h`). -/
def CONIO_SCREEN_BUFFER_MAGIC : Nat := 0x00000002

/-- Growth step of a handle table, `#define IO_HANDLES_INCREMENT 2*3`. -/
def IO_HANDLES_INCREMENT : Nat := 2*3

/-- Handle values; `HANDLE` is a pointer-sized integer. -/
abbrev HANDLE := Nat

/-- Modelled from the spec: `INVALID_HANDLE_VALUE`, the all-ones handle of the
absent Windows headers (32-bit target). -/
def INVALID_HANDLE_VALUE : HANDLE := 0xFFFFFFFF

/-- The status codes that `handle.c` returns. -/
inductive NTSTATUS where
  | STATUS_SUCCESS
  | STATUS_UNSUCCESSFUL
  | STATUS_INVALID_HANDLE
  | STATUS_INVALID_PARAMETER
  | STATUS_NO_MEMORY
  deriving DecidableEq, Repr

/-- Modelled from the spec: `NT_SUCCESS` of the absent NT headers; of the
status codes above only `STATUS_SUCCESS` is non-negative. -/
def NT_SUCCESS : NTSTATUS → Bool
  | .STATUS_SUCCESS => true
  | _ => false

/-! ## Data model -/

/-- Header common to input and screen buffers, `Object_t` of `consrv.h`; the
field `Type_` is the C field `Type`. -/
structure Object_t where
  Type_ : Nat
  Console : Nat
  AccessRead : Int
  AccessWrite : Int
  ExclusiveRead : Int
  ExclusiveWrite : Int
  HandleCount : Int
  deriving DecidableEq, Repr

/-- One slot of a handle table, `CONSOLE_IO_HANDLE` of `consrv.h`. -/
structure CONSOLE_IO_HANDLE where
  Object : Option Nat
  Access : Nat
  Inheritable : Bool
  ShareMode : Nat
  deriving DecidableEq, Repr

/-- Per-process console data, `CONSOLE_PROCESS_DATA` of `consrv.h`.
`ConsoleLink` is the membership of `Process` in a console's `ProcessList`. -/
structure CONSOLE_PROCESS_DATA where
  Process : Nat := 0
  ConsoleEvent : Option Nat := none
  Console : Option Nat := none
  ParentConsole : Option Nat := none
  ConsoleApp : Bool := false
  HandleTableLock : Nat := 0
  HandleTable : Option (List CONSOLE_IO_HANDLE) := none
  CtrlDispatcher : Nat := 0
  deriving DecidableEq, Repr

/-- Modelled from the spec: `struct _CONSOLE` of the absent `conio.h`, reduced
to what `handle.c` reads and writes: the reference count, the session lock, the
input buffer, the active screen buffer, the ring of screen buffers (in `Flink`
order from the list head) and the list of attached processes. -/
structure CONSOLE where
  ReferenceCount : Int := 0
  Lock : Nat := 0
  InputBuffer : Nat := 0
  ActiveBuffer : Nat := 0
  BufferList : List Nat := []
  ProcessList : List Nat := []
  deriving DecidableEq, Repr

/-- Everything the handle functions reach through pointers: the objects, the
consoles, and the calls made so far to the two external destructors. -/
structure ServerState where
  Objects : Nat → Object_t
  Consoles : Nat → CONSOLE
  DeletedScreenBuffers : List Nat := []
  DeletedConsoles : List Nat := []

/-- A slot of zeroed memory (`HEAP_ZERO_MEMORY`). -/
def ZeroEntry : CONSOLE_IO_HANDLE :=
  { Object := none, Access := 0, Inheritable := false, ShareMode := 0 }

/-- The allocated slots of a process, none for the `NULL` table. -/
def HandleTableEntries (P : CONSOLE_PROCESS_DATA) : List CONSOLE_IO_HANDLE :=
  P.HandleTable.getD []

/-- The field `HandleTableSize`: the element count of the table. -/
def HandleTableSize (P : CONSOLE_PROCESS_DATA) : Nat :=
  (HandleTableEntries P).length

/-- The slot `ProcessData->HandleTable[i]`. -/
def HandleTableAt (P : CONSOLE_PROCESS_DATA) (i : Nat) : CONSOLE_IO_HANDLE :=
  (HandleTableEntries P).getD i ZeroEntry

/-- Enter the table lock of a process. -/
def RtlEnterCriticalSection (P : CONSOLE_PROCESS_DATA) : CONSOLE_PROCESS_DATA :=
  { P with HandleTableLock := P.HandleTableLock + 1 }

/-- Leave the table lock of a process. -/
def RtlLeaveCriticalSection (P : CONSOLE_PROCESS_DATA) : CONSOLE_PROCESS_DATA :=
  { P with HandleTableLock := P.HandleTableLock - 1 }

/-- Enter the lock of console `c`. -/
def EnterCriticalSection (S : ServerState) (c : Nat) : ServerState :=
  let C : CONSOLE := { S.Consoles c with Lock := (S.Consoles c).Lock + 1 }
  { S with Consoles := Function.update S.Consoles c C }

/-- The call `_InterlockedIncrement(&Console->ReferenceCount)` on console `c`. -/
def InterlockedIncrementReferenceCount (S : ServerState) (c : Nat) : ServerState :=
  let C : CONSOLE := { S.Consoles c with ReferenceCount := (S.Consoles c).ReferenceCount + 1 }
  { S with Consoles := Function.update S.Consoles c C }

/-- Modelled from the spec: the macro `IsConsoleHandle` of the absent console
header; a handle is recognized as belonging to this domain only if its low two
bits equal `0b11`. -/
def IsConsoleHandle (Handle : HANDLE) : Bool :=
  Handle &&& 0x3 == 0x3

/-- The handle value of slot `i`, `ULongToHandle((i << 2) | 0x3)` with `i` a
`ULONG`. -/
def ConsoleHandleOfIndex (i : Nat) : HANDLE :=
  ((i <<< 2) % 2 ^ 32) ||| 0x3

/-- The link `Buffer->ListEntry.Flink` computed from the ring of its console; `none` is
the list head. -/
def ListEntry_Flink : List Nat → Nat → Option Nat
  | [], _ => none
  | x :: rest, b => if x = b then rest.head? else ListEntry_Flink rest b

/-- The link `Buffer->ListEntry.Blink` computed from the ring of its console; `none` is
the list head. -/
def ListEntry_Blink (ring : List Nat) (b : Nat) : Option Nat :=
  ListEntry_Flink ring.reverse b

/-- Modelled from the spec: the external collaborator `DestroyBuffer`
(`ConioDeleteScreenBuffer`, not part of `handle.c`): the buffer leaves the ring
of its session and the call is recorded. -/
def ConioDeleteScreenBuffer (S : ServerState) (Buffer : Nat) : ServerState :=
  let c := (S.Objects Buffer).Console
  let C : CONSOLE := { S.Consoles c with BufferList := (S.Consoles c).BufferList.erase Buffer }
  { S with
    Consoles := Function.update S.Consoles c C
    DeletedScreenBuffers := S.DeletedScreenBuffers ++ [Buffer] }

/-! ## Private functions -/

/-- The function `AdjustHandleCounts(Entry, Change)`: returns the new `HandleCount`.  The
callers pass only entries whose `Object` is set. -/
def AdjustHandleCounts (S : ServerState) (Entry : CONSOLE_IO_HANDLE) (Change : Int) :
    Int × ServerState :=
  match Entry.Object with
  | none => (0, S)
  | some p =>
    let O := S.Objects p
    let O1 : Object_t :=
      { Type_ := O.Type_
        Console := O.Console
        AccessRead :=
          if Entry.Access &&& GENERIC_READ ≠ 0 then O.AccessRead + Change else O.AccessRead
        AccessWrite :=
          if Entry.Access &&& GENERIC_WRITE ≠ 0 then O.AccessWrite + Change else O.AccessWrite
        ExclusiveRead :=
          if Entry.ShareMode &&& FILE_SHARE_READ = 0 then O.ExclusiveRead + Change
          else O.ExclusiveRead
        ExclusiveWrite :=
          if Entry.ShareMode &&& FILE_SHARE_WRITE = 0 then O.ExclusiveWrite + Change
          else O.ExclusiveWrite
        HandleCount := O.HandleCount + Change }
    (O1.HandleCount, { S with Objects := Function.update S.Objects p O1 })

/-- The function `Win32CsrCreateHandleEntry(Entry)`. -/
def Win32CsrCreateHandleEntry (S : ServerState) (Entry : CONSOLE_IO_HANDLE) : ServerState :=
  (AdjustHandleCounts S Entry 1).2

/-- The function `Win32CsrCloseHandleEntry(Entry)`: the entry after the call and the new
state. -/
def Win32CsrCloseHandleEntry (S : ServerState) (Entry : CONSOLE_IO_HANDLE) :
    CONSOLE_IO_HANDLE × ServerState :=
  match Entry.Object with
  | none => (Entry, S)
  | some p =>
    let r := AdjustHandleCounts S Entry (-1)
    let S1 := r.2
    let S2 :=
      if r.1 = 0 then
        if (S1.Objects p).Type_ = CONIO_SCREEN_BUFFER_MAGIC then
          let ring := (S1.Consoles (S1.Objects p).Console).BufferList
          if ListEntry_Flink ring p ≠ ListEntry_Blink ring p then
            ConioDeleteScreenBuffer S1 p
          else S1
        else S1
      else S1
    ({ Entry with Object := none }, S2)

/-! ## Functions -/

/-- The search loop of `Win32CsrInsertObject`: the index of the first slot
whose `Object` is `NULL`, or the table size when there is none. -/
def FirstFreeSlot : List CONSOLE_IO_HANDLE → Nat
  | [] => 0
  | e :: t =>
    match e.Object with
    | none => 0
    | some _ => FirstFreeSlot t + 1

/-- The function `Win32CsrInsertObject(ProcessData, Handle, Object, Access, Inheritable,
ShareMode)`. -/
def Win32CsrInsertObject (P : CONSOLE_PROCESS_DATA) (S : ServerState) (Handle : HANDLE)
    (Object : Nat) (Access : Nat) (Inheritable : Bool) (ShareMode : Nat) (alloc : Bool) :
    NTSTATUS × HANDLE × CONSOLE_PROCESS_DATA × ServerState :=
  let P1 := RtlEnterCriticalSection P
  let i := FirstFreeSlot (HandleTableEntries P1)
  let grown : Option CONSOLE_PROCESS_DATA :=
    if i ≥ HandleTableSize P1 then
      if alloc then
        let Block := HandleTableEntries P1 ++ List.replicate IO_HANDLES_INCREMENT ZeroEntry
        some { P1 with HandleTable := some Block }
      else none
    else some P1
  match grown with
  | none => (.STATUS_UNSUCCESSFUL, Handle, RtlLeaveCriticalSection P1, S)
  | some P2 =>
    let Entry : CONSOLE_IO_HANDLE :=
      { Object := some Object, Access := Access, Inheritable := Inheritable,
        ShareMode := ShareMode }
    let P3 := { P2 with HandleTable := some ((HandleTableEntries P2).set i Entry) }
    let S1 := Win32CsrCreateHandleEntry S Entry
    (.STATUS_SUCCESS, ConsoleHandleOfIndex i, RtlLeaveCriticalSection P3, S1)

/-- The function `Win32CsrReleaseObject(ProcessData, Handle)`. -/
def Win32CsrReleaseObject (P : CONSOLE_PROCESS_DATA) (S : ServerState) (Handle : HANDLE) :
    NTSTATUS × CONSOLE_PROCESS_DATA × ServerState :=
  let h := Handle >>> 2
  let P1 := RtlEnterCriticalSection P
  if h ≥ HandleTableSize P1 ∨ (HandleTableAt P1 h).Object = none then
    (.STATUS_INVALID_HANDLE, RtlLeaveCriticalSection P1, S)
  else
    let r := Win32CsrCloseHandleEntry S (HandleTableAt P1 h)
    let P2 := { P1 with HandleTable := some ((HandleTableEntries P1).set h r.1) }
    (.STATUS_SUCCESS, RtlLeaveCriticalSection P2, r.2)

/-- The function `Win32CsrLockObject(ProcessData, Handle, Object, Access, LockConsole,
Type)`; the second component of the result is `*Object` after the call. -/
def Win32CsrLockObject (P : CONSOLE_PROCESS_DATA) (S : ServerState) (Handle : HANDLE)
    (Object : Option Nat) (Access : Nat) (LockConsole : Bool) (Type_ : Nat) :
    NTSTATUS × Option Nat × CONSOLE_PROCESS_DATA × ServerState :=
  let h := Handle >>> 2
  let P1 := RtlEnterCriticalSection P
  if IsConsoleHandle Handle = false ∨ h ≥ HandleTableSize P1 then
    (.STATUS_INVALID_HANDLE, Object, RtlLeaveCriticalSection P1, S)
  else
    match (HandleTableAt P1 h).Object with
    | none => (.STATUS_INVALID_HANDLE, none, RtlLeaveCriticalSection P1, S)
    | some o =>
      if (HandleTableAt P1 h).Access &&& Access = 0 ∨
          (Type_ ≠ 0 ∧ (S.Objects o).Type_ ≠ Type_) then
        (.STATUS_INVALID_HANDLE, some o, RtlLeaveCriticalSection P1, S)
      else
        let c := (S.Objects o).Console
        let S1 := InterlockedIncrementReferenceCount S c
        let P2 := RtlLeaveCriticalSection P1
        let S2 := if LockConsole then EnterCriticalSection S1 c else S1
        (.STATUS_SUCCESS, some o, P2, S2)

/-- The closing loop of `Win32CsrFreeHandlesTable` over the slots in index
order: the slots after the loop and the new state. -/
def CloseAllEntries (S : ServerState) :
    List CONSOLE_IO_HANDLE → List CONSOLE_IO_HANDLE × ServerState
  | [] => ([], S)
  | e :: t =>
    let r := Win32CsrCloseHandleEntry S e
    let rest := CloseAllEntries r.2 t
    (r.1 :: rest.1, rest.2)

/-- The function `Win32CsrFreeHandlesTable(ProcessData)`. -/
def Win32CsrFreeHandlesTable (P : CONSOLE_PROCESS_DATA) (S : ServerState) :
    CONSOLE_PROCESS_DATA × ServerState :=
  let P1 := RtlEnterCriticalSection P
  match P1.HandleTable with
  | none => (RtlLeaveCriticalSection P1, S)
  | some t =>
    let r := CloseAllEntries S t
    (RtlLeaveCriticalSection { P1 with HandleTable := none }, r.2)

/-- The result of `Win32CsrInitHandlesTable`: the status, the three `OUT`
handles, the process data and the state. -/
structure InitResult where
  Status : NTSTATUS
  InputHandle : HANDLE
  OutputHandle : HANDLE
  ErrorHandle : HANDLE
  ProcessData : CONSOLE_PROCESS_DATA
  State : ServerState

/-- The function `Win32CsrInitHandlesTable(ProcessData, pInputHandle, pOutputHandle,
pErrorHandle)`.  The three inserts take the allocation outcomes `a1`, `a2`,
`a3`.  The function dereferences `ProcessData->Console` unconditionally: the
result is `none` when that pointer is `NULL`. -/
def Win32CsrInitHandlesTable (P : CONSOLE_PROCESS_DATA) (S : ServerState)
    (pInputHandle pOutputHandle pErrorHandle : HANDLE) (a1 a2 a3 : Bool) :
    Option InitResult :=
  match P.Console with
  | none => none
  | some c =>
    let fail := fun (Status : NTSTATUS) (P0 : CONSOLE_PROCESS_DATA) (S0 : ServerState) =>
      let r := Win32CsrFreeHandlesTable (RtlLeaveCriticalSection P0) S0
      some (InitResult.mk Status pInputHandle pOutputHandle pErrorHandle r.1 r.2)
    let P1 := RtlEnterCriticalSection P
    let r1 := Win32CsrInsertObject P1 S INVALID_HANDLE_VALUE (S.Consoles c).InputBuffer
      (GENERIC_READ ||| GENERIC_WRITE) true (FILE_SHARE_READ ||| FILE_SHARE_WRITE) a1
    if NT_SUCCESS r1.1 = false then fail r1.1 r1.2.2.1 r1.2.2.2
    else
      let r2 := Win32CsrInsertObject r1.2.2.1 r1.2.2.2 INVALID_HANDLE_VALUE
        (r1.2.2.2.Consoles c).ActiveBuffer
        (GENERIC_READ ||| GENERIC_WRITE) true (FILE_SHARE_READ ||| FILE_SHARE_WRITE) a2
      if NT_SUCCESS r2.1 = false then fail r2.1 r2.2.2.1 r2.2.2.2
      else
        let r3 := Win32CsrInsertObject r2.2.2.1 r2.2.2.2 INVALID_HANDLE_VALUE
          (r2.2.2.2.Consoles c).ActiveBuffer
          (GENERIC_READ ||| GENERIC_WRITE) true (FILE_SHARE_READ ||| FILE_SHARE_WRITE) a3
        if NT_SUCCESS r3.1 = false then fail r3.1 r3.2.2.1 r3.2.2.2
        else
          some (InitResult.mk .STATUS_SUCCESS r1.2.1 r2.2.1 r3.2.1
            (RtlLeaveCriticalSection r3.2.2.1) r3.2.2.2)

/-- The table a successful `Win32CsrInsertObject` works on: the old slots,
followed by `IO_HANDLES_INCREMENT` zeroed slots when there is no free slot. -/
def InsertBlock (P : CONSOLE_PROCESS_DATA) : List CONSOLE_IO_HANDLE :=
  if FirstFreeSlot (HandleTableEntries P) ≥ HandleTableSize P then
    HandleTableEntries P ++ List.replicate IO_HANDLES_INCREMENT ZeroEntry
  else HandleTableEntries P

/-! ## Sequences of handle operations -/

/-- One call on a handle table: an insert with its arguments and allocation
outcome, or a release of a handle value. -/
inductive TableOp where
  | Insert (Object : Nat) (Access : Nat) (Inheritable : Bool) (ShareMode : Nat) (alloc : Bool)
  | Release (Handle : HANDLE)
  deriving DecidableEq, Repr

/-- Run one call; the status and the returned handle are dropped. -/
def StepTableOp (ps : CONSOLE_PROCESS_DATA × ServerState) :
    TableOp → CONSOLE_PROCESS_DATA × ServerState
  | .Insert Object Access Inheritable ShareMode alloc =>
    (Win32CsrInsertObject ps.1 ps.2 INVALID_HANDLE_VALUE Object Access Inheritable
      ShareMode alloc).2.2
  | .Release Handle => (Win32CsrReleaseObject ps.1 ps.2 Handle).2

/-- Run a sequence of calls from left to right. -/
def RunTableOps (ps : CONSOLE_PROCESS_DATA × ServerState) (ops : List TableOp) :
    CONSOLE_PROCESS_DATA × ServerState :=
  ops.foldl StepTableOp ps

/-- The number of occupied slots of a table whose `Object` is `o`. -/
def OpenEntries (t : List CONSOLE_IO_HANDLE) (o : Nat) : Nat :=
  t.countP (fun e => e.Object = some o)

/-- Insert one object per argument tuple `(Object, Access, Inheritable,
ShareMode)`, one call after the other, every allocation succeeding.  The result
is the list of returned handles, the number of calls that made the table
larger, and the final process data and state. -/
def InsertMany :
    CONSOLE_PROCESS_DATA → ServerState → List (Nat × Nat × Bool × Nat) →
      List HANDLE × Nat × CONSOLE_PROCESS_DATA × ServerState
  | P, S, [] => ([], 0, P, S)
  | P, S, a :: rest =>
    let r := Win32CsrInsertObject P S INVALID_HANDLE_VALUE a.1 a.2.1 a.2.2.1 a.2.2.2 true
    let k := if HandleTableSize r.2.2.1 > HandleTableSize P then 1 else 0
    let q := InsertMany r.2.2.1 r.2.2.2 rest
    (r.2.1 :: q.1, k + q.2.1, q.2.2.1, q.2.2.2)

/-! ## Inheriting a table -/

/-- The copy loop of `Win32CsrInheritHandlesTable` over the source slots in
index order, writing into zeroed memory: an occupied inheritable slot is copied
and referenced through `Win32CsrCreateHandleEntry`, any other slot stays
zeroed.  The result is the target slots and the new state. -/
def InheritEntries (S : ServerState) :
    List CONSOLE_IO_HANDLE → List CONSOLE_IO_HANDLE × ServerState
  | [] => ([], S)
  | e :: t =>
    if e.Object ≠ none ∧ e.Inheritable = true then
      let S1 := Win32CsrCreateHandleEntry S e
      let rest := InheritEntries S1 t
      (e :: rest.1, rest.2)
    else
      let rest := InheritEntries S t
      (ZeroEntry :: rest.1, rest.2)

/-- The function `Win32CsrInheritHandlesTable(SourceProcessData,
TargetProcessData)`: the status, the source and the target process data and the
state after the call. -/
def Win32CsrInheritHandlesTable (Source Target : CONSOLE_PROCESS_DATA) (S : ServerState)
    (alloc : Bool) : NTSTATUS × CONSOLE_PROCESS_DATA × CONSOLE_PROCESS_DATA × ServerState :=
  let Source1 := RtlEnterCriticalSection Source
  match Target.HandleTable with
  | some _ => (.STATUS_UNSUCCESSFUL, RtlLeaveCriticalSection Source1, Target, S)
  | none =>
    if alloc then
      let r := InheritEntries S (HandleTableEntries Source1)
      (.STATUS_SUCCESS, RtlLeaveCriticalSection Source1,
        { Target with HandleTable := some r.1 }, r.2)
    else (.STATUS_NO_MEMORY, RtlLeaveCriticalSection Source1, Target, S)

/-! ## Error codes and counters -/

/-- Modelled from the spec: the error codes surfaced to callers (section 6). -/
inductive ErrorCode where
  | InvalidHandle
  | InvalidParameter
  | ResourceExhausted
  | AlreadyInitialized
  | Unsuccessful
  deriving DecidableEq, Repr

/-- Modelled from the spec: the error code that a status of `handle.c` stands
for; `STATUS_NO_MEMORY` is the allocation failure `ResourceExhausted`,
`STATUS_UNSUCCESSFUL` is `Internal`/`Unsuccessful`, and no status of the file
stands for `AlreadyInitialized`. -/
def ErrorCodeOf : NTSTATUS → Option ErrorCode
  | .STATUS_SUCCESS => none
  | .STATUS_UNSUCCESSFUL => some .Unsuccessful
  | .STATUS_INVALID_HANDLE => some .InvalidHandle
  | .STATUS_INVALID_PARAMETER => some .InvalidParameter
  | .STATUS_NO_MEMORY => some .ResourceExhausted

/-- The five counters of an object header. -/
inductive CounterKind where
  | AccessRead
  | AccessWrite
  | ExclusiveRead
  | ExclusiveWrite
  | HandleCount
  deriving DecidableEq, Repr

/-- The value of one counter of an object. -/
def CounterValue : CounterKind → Object_t → Int
  | .AccessRead, O => O.AccessRead
  | .AccessWrite, O => O.AccessWrite
  | .ExclusiveRead, O => O.ExclusiveRead
  | .ExclusiveWrite, O => O.ExclusiveWrite
  | .HandleCount, O => O.HandleCount

/-- Whether an occupied slot is counted by a counter of its object: `AccessRead`
and `AccessWrite` count the slots whose `Access` has `GENERIC_READ` and
`GENERIC_WRITE`, `ExclusiveRead` and `ExclusiveWrite` the slots whose
`ShareMode` lacks `FILE_SHARE_READ` and `FILE_SHARE_WRITE`, `HandleCount` every
slot. -/
def CountsFor : CounterKind → CONSOLE_IO_HANDLE → Bool
  | .AccessRead, e => decide (e.Access &&& GENERIC_READ ≠ 0)
  | .AccessWrite, e => decide (e.Access &&& GENERIC_WRITE ≠ 0)
  | .ExclusiveRead, e => decide (e.ShareMode &&& FILE_SHARE_READ = 0)
  | .ExclusiveWrite, e => decide (e.ShareMode &&& FILE_SHARE_WRITE = 0)
  | .HandleCount, _ => true

/-- What one slot adds to counter `k` of object `o`: 1 when the slot references
`o` and is counted by `k`, else 0. -/
def EntryCount (k : CounterKind) (e : CONSOLE_IO_HANDLE) (o : Nat) : Nat :=
  if e.Object = some o ∧ CountsFor k e = true then 1 else 0

/-- The number of occupied slots of a table that reference object `o` and are
counted by counter `k`. -/
def CountEntries (k : CounterKind) (t : List CONSOLE_IO_HANDLE) (o : Nat) : Nat :=
  t.countP (fun e => decide (e.Object = some o) && CountsFor k e)

/-- The number of such slots over the tables of all processes. -/
def TotalEntries (k : CounterKind) (Ps : List CONSOLE_PROCESS_DATA) (o : Nat) : Nat :=
  (Ps.map (fun P => CountEntries k (HandleTableEntries P) o)).sum

/-- Counter `k` of object `o` and a table move in step between `(t, S)` and
`(t1, S1)`: the counter changed by exactly the change of the number of slots of
the table that it counts. -/
def Balanced (k : CounterKind) (o : Nat) (t : List CONSOLE_IO_HANDLE) (S : ServerState)
    (t1 : List CONSOLE_IO_HANDLE) (S1 : ServerState) : Prop :=
  CounterValue k (S1.Objects o) + CountEntries k t o =
    CounterValue k (S.Objects o) + CountEntries k t1 o

/-- The slot that `Win32CsrInheritHandlesTable` leaves in the target for a
source slot. -/
def InheritedSlot (e : CONSOLE_IO_HANDLE) : CONSOLE_IO_HANDLE :=
  if e.Object ≠ none ∧ e.Inheritable = true then e else ZeroEntry

/-- The process data `P` with its table replaced by the allocated table `t`. -/
def TargetWithTable (P : CONSOLE_PROCESS_DATA) (t : List CONSOLE_IO_HANDLE) :
    CONSOLE_PROCESS_DATA :=
  { P with HandleTable := some t }

/-! ## Several processes -/

/-- The processes of the server, indexed by position, and the shared state. -/
structure World where
  Processes : List CONSOLE_PROCESS_DATA
  State : ServerState

/-- One call of a handle table function on the process at index `pid` (for
`Inherit`: from the process at `src` into the process at `dst`), with the
outcomes of its allocations. -/
inductive WorldOp where
  | Insert (pid : Nat) (Object : Nat) (Access : Nat) (Inheritable : Bool) (ShareMode : Nat)
      (alloc : Bool)
  | Release (pid : Nat) (Handle : HANDLE)
  | Inherit (src dst : Nat) (alloc : Bool)
  | FreeAll (pid : Nat)
  | Init (pid : Nat) (a1 a2 a3 : Bool)
  deriving DecidableEq, Repr

/-- Run one call.  A call that names a process index out of range, and an
`Init` on a process without console (a `NULL` dereference in the code), leaves
everything as it is. -/
def StepWorldOp (W : World) : WorldOp → World
  | .Insert pid Object Access Inheritable ShareMode alloc =>
    match W.Processes[pid]? with
    | none => W
    | some P =>
      let r := Win32CsrInsertObject P W.State INVALID_HANDLE_VALUE Object Access Inheritable
        ShareMode alloc
      { Processes := W.Processes.set pid r.2.2.1, State := r.2.2.2 }
  | .Release pid Handle =>
    match W.Processes[pid]? with
    | none => W
    | some P =>
      let r := Win32CsrReleaseObject P W.State Handle
      { Processes := W.Processes.set pid r.2.1, State := r.2.2 }
  | .Inherit src dst alloc =>
    match W.Processes[src]?, W.Processes[dst]? with
    | some Source, some Target =>
      let r := Win32CsrInheritHandlesTable Source Target W.State alloc
      { Processes := (W.Processes.set src r.2.1).set dst r.2.2.1, State := r.2.2.2 }
    | _, _ => W
  | .FreeAll pid =>
    match W.Processes[pid]? with
    | none => W
    | some P =>
      let r := Win32CsrFreeHandlesTable P W.State
      { Processes := W.Processes.set pid r.1, State := r.2 }
  | .Init pid a1 a2 a3 =>
    match W.Processes[pid]? with
    | none => W
    | some P =>
      match Win32CsrInitHandlesTable P W.State INVALID_HANDLE_VALUE INVALID_HANDLE_VALUE
          INVALID_HANDLE_VALUE a1 a2 a3 with
      | none => W
      | some r => { Processes := W.Processes.set pid r.ProcessData, State := r.State }

/-- Run a sequence of calls from left to right. -/
def RunWorldOps (W : World) (ops : List WorldOp) : World :=
  ops.foldl StepWorldOp W

/-! ## Sessions: unlock, release, allocate -/

/-- Leave the lock of console `c`. -/
def LeaveCriticalSection (S : ServerState) (c : Nat) : ServerState :=
  let C : CONSOLE := { S.Consoles c with Lock := (S.Consoles c).Lock - 1 }
  { S with Consoles := Function.update S.Consoles c C }

/-- The call `_InterlockedDecrement(&Console->ReferenceCount)` on console `c`. -/
def InterlockedDecrementReferenceCount (S : ServerState) (c : Nat) : ServerState :=
  let C : CONSOLE := { S.Consoles c with ReferenceCount := (S.Consoles c).ReferenceCount - 1 }
  { S with Consoles := Function.update S.Consoles c C }

/-- The call `InsertHeadList(&Console->ProcessList, &ProcessData->ConsoleLink)`
for the process `Process` and the console `c`. -/
def InsertHeadList (S : ServerState) (c : Nat) (Process : Nat) : ServerState :=
  let C : CONSOLE := { S.Consoles c with ProcessList := Process :: (S.Consoles c).ProcessList }
  { S with Consoles := Function.update S.Consoles c C }

/-- The call `RemoveEntryList(&ProcessData->ConsoleLink)` for the process
`Process`, whose link sits in the process list of console `c`. -/
def RemoveEntryList (S : ServerState) (c : Nat) (Process : Nat) : ServerState :=
  let C : CONSOLE := { S.Consoles c with ProcessList := (S.Consoles c).ProcessList.erase Process }
  { S with Consoles := Function.update S.Consoles c C }

/-- Modelled from the spec: the external collaborator `DestroySession`
(`ConioDeleteConsole`, not part of `handle.c`): the call is recorded. -/
def ConioDeleteConsole (S : ServerState) (Console : Nat) : ServerState :=
  { S with DeletedConsoles := S.DeletedConsoles ++ [Console] }

/-- The function `Win32CsrUnlockConsole(Console, IsConsoleLocked)`. -/
def Win32CsrUnlockConsole (S : ServerState) (Console : Nat) (IsConsoleLocked : Bool) :
    ServerState :=
  let S1 := if IsConsoleLocked then LeaveCriticalSection S Console else S
  let S2 := InterlockedDecrementReferenceCount S1 Console
  if (S2.Consoles Console).ReferenceCount = 0 then ConioDeleteConsole S2 Console else S2

/-- The function `Win32CsrUnlockObject(Object, IsConsoleLocked)`. -/
def Win32CsrUnlockObject (S : ServerState) (Object : Nat) (IsConsoleLocked : Bool) :
    ServerState :=
  Win32CsrUnlockConsole S (S.Objects Object).Console IsConsoleLocked

/-- The function `Win32CsrReleaseConsole(ProcessData)`. -/
def Win32CsrReleaseConsole (P : CONSOLE_PROCESS_DATA) (S : ServerState) :
    CONSOLE_PROCESS_DATA × ServerState :=
  let r := Win32CsrFreeHandlesTable P S
  match r.1.Console with
  | none => r
  | some Console =>
    let P1 : CONSOLE_PROCESS_DATA := { r.1 with Console := none }
    let S1 := EnterCriticalSection r.2 Console
    let S2 := RemoveEntryList S1 Console P1.Process
    (P1, Win32CsrUnlockConsole S2 Console true)

/-- The result of `Win32CsrAllocateConsole`: the status, the three `OUT`
handles, the process data and the state. -/
structure AllocateResult where
  Status : NTSTATUS
  InputHandle : HANDLE
  OutputHandle : HANDLE
  ErrorHandle : HANDLE
  ProcessData : CONSOLE_PROCESS_DATA
  State : ServerState

/-- The function `Win32CsrAllocateConsole(ProcessData, pInputHandle, pOutputHandle,
pErrorHandle, ShowCmd, CsrProcess)`.  The external session factory
`CsrInitConsole` is not part of `handle.c`; modelled from the spec
(`CreateSession -> Session|Error`), its outcome is given by the arguments
`InitStatus` and `NewConsole`: on success it stores the console `NewConsole`,
whose record is the one of the state, in `ProcessData->Console`; on failure it
leaves the process data as they are.  The result is `none` only where
`Win32CsrInitHandlesTable` is, which the stored console excludes. -/
def Win32CsrAllocateConsole (P : CONSOLE_PROCESS_DATA) (S : ServerState)
    (pInputHandle pOutputHandle pErrorHandle : HANDLE) (InitStatus : NTSTATUS)
    (NewConsole : Nat) (a1 a2 a3 : Bool) : Option AllocateResult :=
  if NT_SUCCESS InitStatus = false then
    some (AllocateResult.mk InitStatus pInputHandle pOutputHandle pErrorHandle P S)
  else
    let P1 : CONSOLE_PROCESS_DATA := { P with Console := some NewConsole }
    match Win32CsrInitHandlesTable P1 S pInputHandle pOutputHandle pErrorHandle a1 a2 a3 with
    | none => none
    | some r =>
      if NT_SUCCESS r.Status = false then
        match r.ProcessData.Console with
        | none => none
        | some Console =>
          let S1 := ConioDeleteConsole r.State Console
          let P2 : CONSOLE_PROCESS_DATA := { r.ProcessData with Console := none }
          some (AllocateResult.mk r.Status r.InputHandle r.OutputHandle r.ErrorHandle P2 S1)
      else
        some (AllocateResult.mk r.Status r.InputHandle r.OutputHandle r.ErrorHandle
          r.ProcessData r.State)

/-- The function `ConioConsoleFromProcessData(ProcessData, Console, LockConsole)`;
the second component of the result is `*Console` after the call. -/
def ConioConsoleFromProcessData (P : CONSOLE_PROCESS_DATA) (S : ServerState)
    (LockConsole : Bool) : NTSTATUS × Option Nat × CONSOLE_PROCESS_DATA × ServerState :=
  let P1 := RtlEnterCriticalSection P
  match P1.Console with
  | none => (.STATUS_INVALID_HANDLE, none, RtlLeaveCriticalSection P1, S)
  | some ProcessConsole =>
    let S1 := InterlockedIncrementReferenceCount S ProcessConsole
    let P2 := RtlLeaveCriticalSection P1
    let S2 := if LockConsole then EnterCriticalSection S1 ProcessConsole else S1
    (.STATUS_SUCCESS, some ProcessConsole, P2, S2)

/-! ## Attach protocol -/

/-- Modelled from the spec: the `CSR_PROCESS` of the absent CSR headers,
reduced to what `handle.c` uses of it: its address (the value of a
`PCSR_PROCESS`), whether `Flags` has the bit `CsrProcessIsConsoleApp`
(`isConsoleCapable`), and the per-process data that `ConsoleGetPerProcessData`
returns. -/
structure CSR_PROCESS where
  Address : Nat
  IsConsoleApp : Bool
  ServerData : CONSOLE_PROCESS_DATA
  deriving DecidableEq, Repr

/-- The per-process data of the target after the initialisation at the top of
`ConsoleNewProcess`: zeroed memory, then the fields assigned one by one and the
table lock initialised. -/
def NewProcessData (TargetProcess : CSR_PROCESS) : CONSOLE_PROCESS_DATA :=
  { Process := TargetProcess.Address
    ConsoleEvent := none
    Console := none
    ParentConsole := none
    ConsoleApp := TargetProcess.IsConsoleApp
    HandleTableLock := 0
    HandleTable := none
    CtrlDispatcher := 0 }

/-- The function `ConsoleNewProcess(SourceProcess, TargetProcess)`; `alloc` is
the outcome of the allocation in `Win32CsrInheritHandlesTable`.  The result is
the status, the per-process data of the target after the call (`none` for the
`NULL` target) and the state.  A source at the address of the target shares
its per-process data, which the function has just zeroed. -/
def ConsoleNewProcess (SourceProcess TargetProcess : Option CSR_PROCESS) (S : ServerState)
    (alloc : Bool) : NTSTATUS × Option CONSOLE_PROCESS_DATA × ServerState :=
  match TargetProcess with
  | none => (.STATUS_INVALID_PARAMETER, none, S)
  | some Target =>
    let TargetProcessData := NewProcessData Target
    match SourceProcess with
    | none => (.STATUS_SUCCESS, some TargetProcessData, S)
    | some Source =>
      let SourceProcessData :=
        if Source.Address = Target.Address then TargetProcessData else Source.ServerData
      if SourceProcessData.Console ≠ none ∧ TargetProcessData.ConsoleApp = true then
        let r := Win32CsrInheritHandlesTable SourceProcessData TargetProcessData S alloc
        if NT_SUCCESS r.1 = false then (r.1, some r.2.2.1, r.2.2.2)
        else
          let T : CONSOLE_PROCESS_DATA :=
            { r.2.2.1 with ParentConsole := r.2.1.Console }
          (.STATUS_SUCCESS, some T, r.2.2.2)
      else (.STATUS_SUCCESS, some TargetProcessData, S)

/-- Modelled from the spec: the `CONSOLE_CONNECTION_INFO` of the absent console
message header, with the fields that `ConsoleConnect` reads and writes
(`wantsSession`, `requestedSession`, the three standard handles, the wait
handle and the control dispatcher). -/
structure CONSOLE_CONNECTION_INFO where
  ConsoleNeeded : Bool := true
  ShowCmd : Int := 0
  Console : Option Nat := none
  InputHandle : HANDLE := 0
  OutputHandle : HANDLE := 0
  ErrorHandle : HANDLE := 0
  InputWaitHandle : Option Nat := none
  CtrlDispatcher : Nat := 0
  deriving DecidableEq, Repr

/-- Modelled from the spec: `sizeof(CONSOLE_CONNECTION_INFO)`, eight fields of
four bytes on the 32-bit target; the connection info is well formed when its
length equals this number. -/
def sizeof_CONSOLE_CONNECTION_INFO : Nat := 32

/-- The result of `ConsoleConnect`: the status, the connection info after the
call, the process data and the state. -/
structure ConnectResult where
  Status : NTSTATUS
  ConnectionInfo : Option CONSOLE_CONNECTION_INFO
  ProcessData : CONSOLE_PROCESS_DATA
  State : ServerState

/-- The tail of `ConsoleConnect`, from the increment of the reference count
on: `DupStatus` and `DupHandle` are the outcome of the external
`NtDuplicateObject`, which stores the new handle in `ProcessData->ConsoleEvent`
on success.  The result is `none` when `ProcessData->Console` is `NULL`. -/
def ConnectAttach (P : CONSOLE_PROCESS_DATA) (S : ServerState)
    (ConnectInfo : CONSOLE_CONNECTION_INFO) (DupStatus : NTSTATUS) (DupHandle : Nat) :
    Option ConnectResult :=
  match P.Console with
  | none => none
  | some Console =>
    let S1 := InterlockedIncrementReferenceCount S Console
    let S2 := InsertHeadList S1 Console P.Process
    if NT_SUCCESS DupStatus = false then
      let r := Win32CsrReleaseConsole P S2
      some (ConnectResult.mk DupStatus (some ConnectInfo) r.1 r.2)
    else
      let P1 : CONSOLE_PROCESS_DATA := { P with ConsoleEvent := some DupHandle }
      let Info : CONSOLE_CONNECTION_INFO :=
        { ConnectInfo with Console := P1.Console, InputWaitHandle := P1.ConsoleEvent }
      let P2 : CONSOLE_PROCESS_DATA := { P1 with CtrlDispatcher := Info.CtrlDispatcher }
      some (ConnectResult.mk .STATUS_SUCCESS (some Info) P2 S2)

/-- The function `ConsoleConnect(CsrProcess, ConnectionInfo, ConnectionInfoLength)`
on the per-process data `P` of `CsrProcess`.  The arguments `InitStatus`,
`NewConsole` are the outcome of the session factory, `a1`, `a2`, `a3` those of
the allocations of `Win32CsrInitHandlesTable`, and `DupStatus`, `DupHandle`
that of `NtDuplicateObject`. -/
def ConsoleConnect (P : CONSOLE_PROCESS_DATA) (S : ServerState)
    (ConnectionInfo : Option CONSOLE_CONNECTION_INFO) (ConnectionInfoLength : Option Nat)
    (InitStatus : NTSTATUS) (NewConsole : Nat) (a1 a2 a3 : Bool)
    (DupStatus : NTSTATUS) (DupHandle : Nat) : Option ConnectResult :=
  match ConnectionInfo, ConnectionInfoLength with
  | some ConnectInfo, some Length =>
    if Length ≠ sizeof_CONSOLE_CONNECTION_INFO then
      some (ConnectResult.mk .STATUS_UNSUCCESSFUL ConnectionInfo P S)
    else if ConnectInfo.ConsoleNeeded = false ∨ P.ConsoleApp = false then
      some (ConnectResult.mk .STATUS_SUCCESS ConnectionInfo P S)
    else if ConnectInfo.Console = none ∨ ConnectInfo.Console ≠ P.ParentConsole then
      let r := Win32CsrReleaseConsole P S
      match Win32CsrAllocateConsole r.1 r.2 ConnectInfo.InputHandle ConnectInfo.OutputHandle
          ConnectInfo.ErrorHandle InitStatus NewConsole a1 a2 a3 with
      | none => none
      | some a =>
        let Info : CONSOLE_CONNECTION_INFO :=
          { ConnectInfo with
            InputHandle := a.InputHandle
            OutputHandle := a.OutputHandle
            ErrorHandle := a.ErrorHandle }
        if NT_SUCCESS a.Status = false then
          some (ConnectResult.mk a.Status (some Info) a.ProcessData a.State)
        else ConnectAttach a.ProcessData a.State Info DupStatus DupHandle
    else
      let P1 : CONSOLE_PROCESS_DATA := { P with Console := ConnectInfo.Console }
      ConnectAttach P1 S ConnectInfo DupStatus DupHandle
  | _, _ => some (ConnectResult.mk .STATUS_UNSUCCESSFUL ConnectionInfo P S)

/-- The call `RtlDeleteCriticalSection(&ProcessData->HandleTableLock)`: the
lock is gone, nobody holds it. -/
def RtlDeleteCriticalSection (P : CONSOLE_PROCESS_DATA) : CONSOLE_PROCESS_DATA :=
  { P with HandleTableLock := 0 }

/-- The function `ConsoleDisconnect(Process)` on the per-process data `P` of
`Process`. -/
def ConsoleDisconnect (P : CONSOLE_PROCESS_DATA) (S : ServerState) :
    CONSOLE_PROCESS_DATA × ServerState :=
  let r := if P.Console ≠ none ∨ P.HandleTable ≠ none then Win32CsrReleaseConsole P S
    else (P, S)
  (RtlDeleteCriticalSection r.1, r.2)

/-! ## Sessions across calls -/

/-- Two states agree on the sessions: every console has the same reference
count, lock depth, input buffer, active screen buffer and process list (only
its ring of screen buffers may differ), and the same destructor calls on
consoles were made. -/
def SameSessions (S S1 : ServerState) : Prop :=
  (∀ c, (S1.Consoles c).ReferenceCount = (S.Consoles c).ReferenceCount ∧
    (S1.Consoles c).Lock = (S.Consoles c).Lock ∧
    (S1.Consoles c).InputBuffer = (S.Consoles c).InputBuffer ∧
    (S1.Consoles c).ActiveBuffer = (S.Consoles c).ActiveBuffer ∧
    (S1.Consoles c).ProcessList = (S.Consoles c).ProcessList) ∧
  S1.DeletedConsoles = S.DeletedConsoles

/-! ## Example states -/

/-- Console 0 with input buffer 0 and the screen buffers 1 and 2, buffer 1
active, no handle open on any object. -/
def FreshState : ServerState :=
  { Objects := fun i =>
      if i = 0 then ⟨CONIO_INPUT_BUFFER_MAGIC, 0, 0, 0, 0, 0, 0⟩
      else ⟨CONIO_SCREEN_BUFFER_MAGIC, 0, 0, 0, 0, 0, 0⟩
    Consoles := fun _ =>
      { ReferenceCount := 0, InputBuffer := 0, ActiveBuffer := 1, BufferList := [1, 2] } }

/-- A process of console 0 with the `NULL` handle table. -/
def FreshProcess : CONSOLE_PROCESS_DATA :=
  { Console := some 0, ConsoleApp := true }

/-- The state `FreshState` after one handle was opened on screen buffer 1 for
reading, without sharing, by a process attached to console 0. -/
def ExampleState : ServerState :=
  { Objects := fun i =>
      if i = 0 then ⟨CONIO_INPUT_BUFFER_MAGIC, 0, 0, 0, 0, 0, 0⟩
      else if i = 1 then ⟨CONIO_SCREEN_BUFFER_MAGIC, 0, 1, 0, 1, 1, 1⟩
      else ⟨CONIO_SCREEN_BUFFER_MAGIC, 0, 0, 0, 0, 0, 0⟩
    Consoles := fun _ =>
      { ReferenceCount := 1, InputBuffer := 0, ActiveBuffer := 1, BufferList := [1, 2],
        ProcessList := [0] } }

/-- The process holding that handle: a table of one slot, open on object 1. -/
def ExampleProcess : CONSOLE_PROCESS_DATA :=
  { Console := some 0, ConsoleApp := true,
    HandleTable := some [⟨some 1, GENERIC_READ, true, 0⟩] }

/-- A state in which the input buffer 0 of console 0 is open five times for
reading with full sharing. -/
def BusyState : ServerState :=
  { Objects := fun i =>
      if i = 0 then ⟨CONIO_INPUT_BUFFER_MAGIC, 0, 5, 0, 0, 0, 5⟩
      else ⟨CONIO_SCREEN_BUFFER_MAGIC, 0, 0, 0, 0, 0, 0⟩
    Consoles := fun _ =>
      { ReferenceCount := 1, InputBuffer := 0, ActiveBuffer := 1, BufferList := [1, 2],
        ProcessList := [0] } }

/-- The process holding those five handles in a table of six slots, the last
one free. -/
def BusyProcess : CONSOLE_PROCESS_DATA :=
  { Console := some 0, ConsoleApp := true,
    HandleTable := some [⟨some 0, GENERIC_READ, true, 3⟩, ⟨some 0, GENERIC_READ, true, 3⟩,
      ⟨some 0, GENERIC_READ, true, 3⟩, ⟨some 0, GENERIC_READ, true, 3⟩,
      ⟨some 0, GENERIC_READ, true, 3⟩, ZeroEntry] }

/-- A process of console 0 whose table has two slots, both free. -/
def SmallProcess : CONSOLE_PROCESS_DATA :=
  { Console := some 0, ConsoleApp := true, HandleTable := some [ZeroEntry, ZeroEntry] }

/-- Two processes with the `NULL` table and the state `FreshState`. -/
def FreshWorld : World :=
  { Processes := [FreshProcess, FreshProcess], State := FreshState }

/-! ## Example processes of the attach protocol -/

/-- A console application at address 10 attached to console 0, whose table
holds an inheritable handle on screen buffer 1 and a non-inheritable alias of
it. -/
def ParentProcess : CSR_PROCESS :=
  { Address := 10
    IsConsoleApp := true
    ServerData :=
      { Process := 10, Console := some 0, ConsoleApp := true,
        HandleTable := some [⟨some 1, GENERIC_READ ||| GENERIC_WRITE, true, 3⟩,
          ⟨some 1, GENERIC_READ ||| GENERIC_WRITE, false, 3⟩] } }

/-- A console application at address 11, about to be created. -/
def ChildProcess : CSR_PROCESS :=
  { Address := 11, IsConsoleApp := true, ServerData := {} }

/-- A state with two consoles.  Console 0 has the input buffer 0 and the screen
buffers 1 (active) and 2; `ParentProcess` is attached to it and holds its two
handles on buffer 1.  Every other console is new: input buffer 3, screen
buffer 4, no process, reference count 0. -/
def ParentState : ServerState :=
  { Objects := fun i =>
      if i = 0 then ⟨CONIO_INPUT_BUFFER_MAGIC, 0, 0, 0, 0, 0, 0⟩
      else if i = 1 then ⟨CONIO_SCREEN_BUFFER_MAGIC, 0, 2, 2, 0, 0, 2⟩
      else if i = 2 then ⟨CONIO_SCREEN_BUFFER_MAGIC, 0, 0, 0, 0, 0, 0⟩
      else if i = 3 then ⟨CONIO_INPUT_BUFFER_MAGIC, 1, 0, 0, 0, 0, 0⟩
      else ⟨CONIO_SCREEN_BUFFER_MAGIC, 1, 0, 0, 0, 0, 0⟩
    Consoles := fun c =>
      if c = 0 then
        { ReferenceCount := 1, InputBuffer := 0, ActiveBuffer := 1, BufferList := [1, 2],
          ProcessList := [10] }
      else
        { ReferenceCount := 0, InputBuffer := 3, ActiveBuffer := 4, BufferList := [4],
          ProcessList := [] } }

/-- The per-process data of `ChildProcess` after its creation by
`ParentProcess`: no console yet, console 0 as `ParentConsole`, and the
inheritable handle of the parent in slot 0. -/
def InheritedProcess : CONSOLE_PROCESS_DATA :=
  { Process := 11, ParentConsole := some 0, ConsoleApp := true,
    HandleTable := some [⟨some 1, GENERIC_READ ||| GENERIC_WRITE, true, 3⟩, ZeroEntry] }

/-- The state `ParentState` after that creation: one more handle on screen
buffer 1. -/
def InheritedState : ServerState :=
  { Objects := fun i =>
      if i = 0 then ⟨CONIO_INPUT_BUFFER_MAGIC, 0, 0, 0, 0, 0, 0⟩
      else if i = 1 then ⟨CONIO_SCREEN_BUFFER_MAGIC, 0, 3, 3, 0, 0, 3⟩
      else if i = 2 then ⟨CONIO_SCREEN_BUFFER_MAGIC, 0, 0, 0, 0, 0, 0⟩
      else if i = 3 then ⟨CONIO_INPUT_BUFFER_MAGIC, 1, 0, 0, 0, 0, 0⟩
      else ⟨CONIO_SCREEN_BUFFER_MAGIC, 1, 0, 0, 0, 0, 0⟩
    Consoles := fun c =>
      if c = 0 then
        { ReferenceCount := 1, InputBuffer := 0, ActiveBuffer := 1, BufferList := [1, 2],
          ProcessList := [10] }
      else
        { ReferenceCount := 0, InputBuffer := 3, ActiveBuffer := 4, BufferList := [4],
          ProcessList := [] } }

/-! ## The table of a new console -/

/-- The slot that `Win32CsrInitHandlesTable` inserts for `Object`: read and
write access, inheritable, shared for reading and writing. -/
def StandardEntry (Object : Nat) : CONSOLE_IO_HANDLE :=
  ⟨some Object, GENERIC_READ ||| GENERIC_WRITE, true, FILE_SHARE_READ ||| FILE_SHARE_WRITE⟩

/-- The table that `Win32CsrInitHandlesTable` makes of the `NULL` table for
console `c`: the input buffer in slot 0, the active screen buffer in slots 1
and 2, and the three free slots that the growth step adds. -/
def StandardTable (S : ServerState) (c : Nat) : List CONSOLE_IO_HANDLE :=
  [StandardEntry (S.Consoles c).InputBuffer, StandardEntry (S.Consoles c).ActiveBuffer,
    StandardEntry (S.Consoles c).ActiveBuffer, ZeroEntry, ZeroEntry, ZeroEntry]

/-! ## Sessions over several processes -/

/-- The processes of the server, indexed by position, the shared state, and
the lookups not yet unlocked: for every successful `Win32CsrLockObject` or
`ConioConsoleFromProcessData` that no `Win32CsrUnlockObject` or
`Win32CsrUnlockConsole` has matched yet, the console whose reference it
holds. -/
structure SessionWorld where
  Processes : List CONSOLE_PROCESS_DATA
  State : ServerState
  Lookups : List Nat

/-- One call of the attach protocol or of a lookup, with the outcomes of the
external calls it makes.  A process is named by its index, which is also the
address of its `CSR_PROCESS`. -/
inductive SessionOp where
  | NewProcess (source : Option Nat) (target : Nat) (IsConsoleApp : Bool) (alloc : Bool)
  | Connect (pid : Nat) (ConnectionInfo : Option CONSOLE_CONNECTION_INFO)
      (ConnectionInfoLength : Option Nat) (InitStatus : NTSTATUS) (NewConsole : Nat)
      (a1 a2 a3 : Bool) (DupStatus : NTSTATUS) (DupHandle : Nat)
  | Detach (pid : Nat)
  | LockObject (pid : Nat) (Handle : HANDLE) (Access : Nat) (LockConsole : Bool) (Type_ : Nat)
  | ConsoleFromProcessData (pid : Nat) (LockConsole : Bool)
  | UnlockObject (Object : Nat) (IsConsoleLocked : Bool)
  | UnlockConsole (Console : Nat) (IsConsoleLocked : Bool)

/-- The console that a connection info asks for, if any. -/
def RequestedConsole (ConnectionInfo : Option CONSOLE_CONNECTION_INFO) : Option Nat :=
  match ConnectionInfo with
  | none => none
  | some ConnectInfo => ConnectInfo.Console

/-- The call `ConsoleNewProcess(SourceProcess, TargetProcess)` for the target
at index `target`, whose per-process data is `T`. -/
def NewProcessIn (W : SessionWorld) (SourceProcess : Option CSR_PROCESS) (target : Nat)
    (T : CONSOLE_PROCESS_DATA) (IsConsoleApp : Bool) (alloc : Bool) : SessionWorld :=
  let r := ConsoleNewProcess SourceProcess (some (CSR_PROCESS.mk target IsConsoleApp T))
    W.State alloc
  match r.2.1 with
  | none => W
  | some T1 => { W with Processes := W.Processes.set target T1, State := r.2.2 }

/-- Run one call: the function of `handle.c` on the per-process data of the
process named, whatever the state of that process and of the consoles.  A
successful lookup adds the console whose reference it took to `Lookups`, an
unlock removes one entry of its console from there.  A call that names a
process index out of range leaves everything as it is; `ConsoleConnect` gives a
result on every input. -/
def StepSessionOp (W : SessionWorld) : SessionOp → SessionWorld
  | .NewProcess source target IsConsoleApp alloc =>
    match W.Processes[target]? with
    | none => W
    | some T =>
      match source with
      | none => NewProcessIn W none target T IsConsoleApp alloc
      | some s =>
        match W.Processes[s]? with
        | none => W
        | some P =>
          NewProcessIn W (some (CSR_PROCESS.mk s P.ConsoleApp P)) target T IsConsoleApp alloc
  | .Connect pid ConnectionInfo ConnectionInfoLength InitStatus NewConsole a1 a2 a3 DupStatus
      DupHandle =>
    match W.Processes[pid]? with
    | none => W
    | some P =>
      match ConsoleConnect P W.State ConnectionInfo ConnectionInfoLength InitStatus
          NewConsole a1 a2 a3 DupStatus DupHandle with
      | none => W
      | some r => { W with Processes := W.Processes.set pid r.ProcessData, State := r.State }
  | .Detach pid =>
    match W.Processes[pid]? with
    | none => W
    | some P =>
      let r := ConsoleDisconnect P W.State
      { W with Processes := W.Processes.set pid r.1, State := r.2 }
  | .LockObject pid Handle Access LockConsole Type_ =>
    match W.Processes[pid]? with
    | none => W
    | some P =>
      let r := Win32CsrLockObject P W.State Handle none Access LockConsole Type_
      { Processes := W.Processes.set pid r.2.2.1
        State := r.2.2.2
        Lookups :=
          match r.1, r.2.1 with
          | .STATUS_SUCCESS, some Object => (W.State.Objects Object).Console :: W.Lookups
          | _, _ => W.Lookups }
  | .ConsoleFromProcessData pid LockConsole =>
    match W.Processes[pid]? with
    | none => W
    | some P =>
      let r := ConioConsoleFromProcessData P W.State LockConsole
      { Processes := W.Processes.set pid r.2.2.1
        State := r.2.2.2
        Lookups :=
          match r.1, r.2.1 with
          | .STATUS_SUCCESS, some Console => Console :: W.Lookups
          | _, _ => W.Lookups }
  | .UnlockObject Object IsConsoleLocked =>
    { W with
      State := Win32CsrUnlockObject W.State Object IsConsoleLocked
      Lookups := W.Lookups.erase (W.State.Objects Object).Console }
  | .UnlockConsole Console IsConsoleLocked =>
    { W with
      State := Win32CsrUnlockConsole W.State Console IsConsoleLocked
      Lookups := W.Lookups.erase Console }

/-- Run a sequence of calls from left to right. -/
def RunSessionOps (W : SessionWorld) (ops : List SessionOp) : SessionWorld :=
  ops.foldl StepSessionOp W

/-- Whether a call in the world `W` is one that the callers of `handle.c` are
meant to make; the functions themselves test none of this.  `ConsoleNewProcess`
is called on a process that has no console; so is `ConsoleConnect`, the session
factory hands it a new console (reference count 0, not destroyed), and the
console it asks for was not destroyed; the object of a successful
`Win32CsrLockObject` belongs to a console that was not destroyed; and an unlock
gives back the reference of a lookup not yet unlocked. -/
def ProtocolCall (W : SessionWorld) : SessionOp → Bool
  | .NewProcess _ target _ _ =>
    match W.Processes[target]? with
    | none => true
    | some T => decide (T.Console = none)
  | .Connect pid ConnectionInfo _ _ NewConsole _ _ _ _ _ =>
    match W.Processes[pid]? with
    | none => true
    | some P =>
      decide (P.Console = none ∧ (W.State.Consoles NewConsole).ReferenceCount = 0 ∧
        NewConsole ∉ W.State.DeletedConsoles ∧
        RequestedConsole ConnectionInfo ∉ W.State.DeletedConsoles.map some)
  | .Detach _ => true
  | .LockObject pid Handle Access LockConsole Type_ =>
    match W.Processes[pid]? with
    | none => true
    | some P =>
      let r := Win32CsrLockObject P W.State Handle none Access LockConsole Type_
      match r.1, r.2.1 with
      | .STATUS_SUCCESS, some Object =>
        decide ((W.State.Objects Object).Console ∉ W.State.DeletedConsoles)
      | _, _ => true
  | .ConsoleFromProcessData _ _ => true
  | .UnlockObject Object _ => decide ((W.State.Objects Object).Console ∈ W.Lookups)
  | .UnlockConsole Console _ => decide (Console ∈ W.Lookups)

/-- Whether every call of a run is a `ProtocolCall` in the world it is made
in. -/
def RunKeepsProtocol : SessionWorld → List SessionOp → Bool
  | _, [] => true
  | W, op :: ops => ProtocolCall W op && RunKeepsProtocol (StepSessionOp W op) ops

/-- The number of processes attached to console `c`. -/
def Attached (Ps : List CONSOLE_PROCESS_DATA) (c : Nat) : Nat :=
  Ps.countP (fun P => decide (P.Console = some c))

/-- The number of calls of `ConioDeleteConsole` on console `c` so far. -/
def DestructorCalls (S : ServerState) (c : Nat) : Nat :=
  S.DeletedConsoles.count c

/-- The reference count of every console equals the number of processes
attached to it plus the number of lookups on it not yet unlocked. -/
def ReferenceCountInvariant (W : SessionWorld) : Prop :=
  ∀ c, (W.State.Consoles c).ReferenceCount = (Attached W.Processes c : Int) + W.Lookups.count c

/-- What one call does to the sessions, between the world `W` before and the
world `W1` after: every reference count moves by the change of the number of
attached processes plus the change of the number of lookups not yet unlocked;
the call makes no destructor call or exactly one, on a console whose reference
count is 0 after the call; it makes that one call on every console whose
positive reference count it brings to 0; and a console that it destroys or
whose reference count it changes was not destroyed before, or was referenced
by a process or a lookup. -/
def SessionStep (W W1 : SessionWorld) : Prop :=
  (∀ c, (W1.State.Consoles c).ReferenceCount + (Attached W.Processes c : Int)
      + W.Lookups.count c
    = (W.State.Consoles c).ReferenceCount + (Attached W1.Processes c : Int)
      + W1.Lookups.count c) ∧
  ∃ D, W1.State.DeletedConsoles = W.State.DeletedConsoles ++ D ∧
    (D = [] ∨ ∃ c, D = [c] ∧ (W1.State.Consoles c).ReferenceCount = 0) ∧
    (∀ c, 0 < (W.State.Consoles c).ReferenceCount →
      (W1.State.Consoles c).ReferenceCount = 0 → D = [c]) ∧
    (∀ c, c ∈ D ∨ (W1.State.Consoles c).ReferenceCount ≠ (W.State.Consoles c).ReferenceCount →
      c ∉ W.State.DeletedConsoles ∨ 0 < Attached W.Processes c + W.Lookups.count c)

/-- A console application yet to connect and the memory of a process yet to be
created, with the state `FreshState` and no lookup under way. -/
def ParentAndChild : SessionWorld :=
  { Processes := [{ Process := 0, ConsoleApp := true }, {}]
    State := FreshState
    Lookups := [] }

/-- The calls of a parent that connects and gets the new console 0, creates the
console application at index 1, and exits. -/
def ParentExits : List SessionOp :=
  [.Connect 0 (some {}) (some sizeof_CONSOLE_CONNECTION_INFO) .STATUS_SUCCESS 0 true true true
      .STATUS_SUCCESS 77,
    .NewProcess (some 0) 1 true true,
    .Detach 0]

/-- The child at index 1 connects to the console of its parent. -/
def ChildConnects : SessionOp :=
  .Connect 1 (some { Console := some 0 }) (some sizeof_CONSOLE_CONNECTION_INFO) .STATUS_SUCCESS 1
    true true true .STATUS_SUCCESS 78

/-- Two console applications yet to connect, the second one created by a
process of console 0, with the state `FreshState` and no lookup under way. -/
def SessionExample : SessionWorld :=
  { Processes := [{ Process := 12, ConsoleApp := true },
      { Process := 13, ConsoleApp := true, ParentConsole := some 0 }]
    State := FreshState
    Lookups := [] }

/-! ## Server API: close, verify, duplicate -/

/-- Modelled from the spec: option bit of a handle duplication that closes the
source handle; the value is the Windows SDK constant `DUPLICATE_CLOSE_SOURCE`,
whose header is absent. -/
def DUPLICATE_CLOSE_SOURCE : Nat := 0x00000001

/-- Modelled from the spec: option bit of a handle duplication that takes the
access of the source handle; the value is the Windows SDK constant
`DUPLICATE_SAME_ACCESS`, whose header is absent. -/
def DUPLICATE_SAME_ACCESS : Nat := 0x00000002

/-- The function `SrvCloseHandle`, on the per-process data `P` of the calling
process and its request field `ConsoleHandle`. -/
def SrvCloseHandle (P : CONSOLE_PROCESS_DATA) (S : ServerState) (ConsoleHandle : HANDLE) :
    NTSTATUS × CONSOLE_PROCESS_DATA × ServerState :=
  Win32CsrReleaseObject P S ConsoleHandle

/-- The function `SrvVerifyConsoleIoHandle`, on the per-process data `P` of the
calling process and its request field `ConsoleHandle`; it reaches no object and
no console. -/
def SrvVerifyConsoleIoHandle (P : CONSOLE_PROCESS_DATA) (ConsoleHandle : HANDLE) :
    NTSTATUS × CONSOLE_PROCESS_DATA :=
  let Index := ConsoleHandle >>> 2
  let P1 := RtlEnterCriticalSection P
  let Status : NTSTATUS :=
    if IsConsoleHandle ConsoleHandle = false ∨ Index ≥ HandleTableSize P1 ∨
        (HandleTableAt P1 Index).Object = none then
      .STATUS_INVALID_HANDLE
    else .STATUS_SUCCESS
  (Status, RtlLeaveCriticalSection P1)

/-- The result of `SrvDuplicateHandle`: the status, the request field
`ConsoleHandle` after the call, the process data and the state. -/
structure DuplicateResult where
  Status : NTSTATUS
  ConsoleHandle : HANDLE
  ProcessData : CONSOLE_PROCESS_DATA
  State : ServerState

/-- The choice of `DesiredAccess` in `SrvDuplicateHandle`: the access of the
source entry under `DUPLICATE_SAME_ACCESS`; otherwise the requested access,
after the test `(Entry->Access & DesiredAccess) == 0`, whose failure is
`none`. -/
def DuplicateAccess (Entry : CONSOLE_IO_HANDLE) (Access Options : Nat) : Option Nat :=
  if Options &&& DUPLICATE_SAME_ACCESS ≠ 0 then some Entry.Access
  else if Entry.Access &&& Access = 0 then none
  else some Access

/-- The function `SrvDuplicateHandle`, on the per-process data `P` of the
calling process and the request fields `ConsoleHandle`, `Access`, `Inheritable`
and `Options`; `alloc` is the outcome of the allocation in
`Win32CsrInsertObject`.  The pointer `Entry` is taken before the insert.  When
the insert makes the table larger it frees the block that `Entry` points into,
and the call `Win32CsrCloseHandleEntry(Entry)` of `DUPLICATE_CLOSE_SOURCE` then
works on freed memory: the result is `none`.  Otherwise `Entry` is still the
slot `Index` of the table. -/
def SrvDuplicateHandle (P : CONSOLE_PROCESS_DATA) (S : ServerState) (ConsoleHandle : HANDLE)
    (Access : Nat) (Inheritable : Bool) (Options : Nat) (alloc : Bool) :
    Option DuplicateResult :=
  let Index := ConsoleHandle >>> 2
  let P1 := RtlEnterCriticalSection P
  if Index ≥ HandleTableSize P1 then
    some (DuplicateResult.mk .STATUS_INVALID_HANDLE ConsoleHandle (RtlLeaveCriticalSection P1) S)
  else
    let Entry := HandleTableAt P1 Index
    match Entry.Object with
    | none =>
      some (DuplicateResult.mk .STATUS_INVALID_HANDLE ConsoleHandle
        (RtlLeaveCriticalSection P1) S)
    | some Object =>
      match DuplicateAccess Entry Access Options with
      | none =>
        some (DuplicateResult.mk .STATUS_INVALID_PARAMETER ConsoleHandle
          (RtlLeaveCriticalSection P1) S)
      | some DesiredAccess =>
        let r := Win32CsrInsertObject P1 S ConsoleHandle Object DesiredAccess Inheritable
          Entry.ShareMode alloc
        if NT_SUCCESS r.1 = true ∧ Options &&& DUPLICATE_CLOSE_SOURCE ≠ 0 then
          if FirstFreeSlot (HandleTableEntries P1) ≥ HandleTableSize P1 then none
          else
            let c := Win32CsrCloseHandleEntry r.2.2.2 (HandleTableAt r.2.2.1 Index)
            let P2 : CONSOLE_PROCESS_DATA :=
              { r.2.2.1 with HandleTable := some ((HandleTableEntries r.2.2.1).set Index c.1) }
            some (DuplicateResult.mk r.1 r.2.1 (RtlLeaveCriticalSection P2) c.2)
        else
          some (DuplicateResult.mk r.1 r.2.1 (RtlLeaveCriticalSection r.2.2.1) r.2.2.2)

/-! ## Lock calls -/

/-- A call on a critical section: on the table lock of a process
(`RtlEnterCriticalSection` / `RtlLeaveCriticalSection` on
`ProcessData->HandleTableLock`) or on the lock of a console
(`EnterCriticalSection` / `LeaveCriticalSection` on `Console->Lock`). -/
inductive LockEvent where
  | EnterTable (Process : Nat)
  | LeaveTable (Process : Nat)
  | EnterConsole (Console : Nat)
  | LeaveConsole (Console : Nat)
  deriving DecidableEq, Repr

/-- The lock calls of `Win32CsrCreateHandleEntry`: none, its two calls on the
console lock are commented out (`/// LOCK ///`). -/
def CreateHandleEntryLocks (_Entry : CONSOLE_IO_HANDLE) : List LockEvent := []

/-- The lock calls of `Win32CsrCloseHandleEntry`: none, its two calls on the
console lock are commented out (`/// LOCK ///`). -/
def CloseHandleEntryLocks (_Entry : CONSOLE_IO_HANDLE) : List LockEvent := []

/-- The lock calls of `Win32CsrInsertObject`, in order. -/
def InsertObjectLocks (P : CONSOLE_PROCESS_DATA) (Object Access : Nat) (Inheritable : Bool)
    (ShareMode : Nat) (alloc : Bool) : List LockEvent :=
  if FirstFreeSlot (HandleTableEntries P) ≥ HandleTableSize P ∧ alloc = false then
    [.EnterTable P.Process, .LeaveTable P.Process]
  else
    [.EnterTable P.Process] ++
      CreateHandleEntryLocks ⟨some Object, Access, Inheritable, ShareMode⟩ ++
      [.LeaveTable P.Process]

/-- The lock calls of `Win32CsrReleaseObject`, in order. -/
def ReleaseObjectLocks (P : CONSOLE_PROCESS_DATA) (Handle : HANDLE) : List LockEvent :=
  if Handle >>> 2 ≥ HandleTableSize P ∨ (HandleTableAt P (Handle >>> 2)).Object = none then
    [.EnterTable P.Process, .LeaveTable P.Process]
  else
    [.EnterTable P.Process] ++ CloseHandleEntryLocks (HandleTableAt P (Handle >>> 2)) ++
      [.LeaveTable P.Process]

/-- The lock calls of `Win32CsrLockObject`, in order. -/
def LockObjectLocks (P : CONSOLE_PROCESS_DATA) (S : ServerState) (Handle : HANDLE)
    (Access : Nat) (LockConsole : Bool) (Type_ : Nat) : List LockEvent :=
  if IsConsoleHandle Handle = false ∨ Handle >>> 2 ≥ HandleTableSize P then
    [.EnterTable P.Process, .LeaveTable P.Process]
  else
    match (HandleTableAt P (Handle >>> 2)).Object with
    | none => [.EnterTable P.Process, .LeaveTable P.Process]
    | some o =>
      if (HandleTableAt P (Handle >>> 2)).Access &&& Access = 0 ∨
          (Type_ ≠ 0 ∧ (S.Objects o).Type_ ≠ Type_) then
        [.EnterTable P.Process, .LeaveTable P.Process]
      else
        [.EnterTable P.Process, .LeaveTable P.Process] ++
          (if LockConsole then [.EnterConsole (S.Objects o).Console] else [])

/-- The lock calls of the copying loop of `Win32CsrInheritHandlesTable`. -/
def InheritEntriesLocks : List CONSOLE_IO_HANDLE → List LockEvent
  | [] => []
  | e :: t =>
    if e.Object ≠ none ∧ e.Inheritable = true then
      CreateHandleEntryLocks e ++ InheritEntriesLocks t
    else InheritEntriesLocks t

/-- The lock calls of `Win32CsrInheritHandlesTable`, in order; only the table
lock of the source is taken. -/
def InheritHandlesTableLocks (Source Target : CONSOLE_PROCESS_DATA) (alloc : Bool) :
    List LockEvent :=
  match Target.HandleTable with
  | some _ => [.EnterTable Source.Process, .LeaveTable Source.Process]
  | none =>
    if alloc then
      [.EnterTable Source.Process] ++ InheritEntriesLocks (HandleTableEntries Source) ++
        [.LeaveTable Source.Process]
    else [.EnterTable Source.Process, .LeaveTable Source.Process]

/-- The lock calls of the closing loop of `Win32CsrFreeHandlesTable`. -/
def CloseAllEntriesLocks : List CONSOLE_IO_HANDLE → List LockEvent
  | [] => []
  | e :: t => CloseHandleEntryLocks e ++ CloseAllEntriesLocks t

/-- The lock calls of `Win32CsrFreeHandlesTable`, in order. -/
def FreeHandlesTableLocks (P : CONSOLE_PROCESS_DATA) : List LockEvent :=
  match P.HandleTable with
  | none => [.EnterTable P.Process, .LeaveTable P.Process]
  | some t => [.EnterTable P.Process] ++ CloseAllEntriesLocks t ++ [.LeaveTable P.Process]

/-- The lock calls of `Win32CsrInitHandlesTable`, in order; for a process
without a console, the one call made before the `NULL` console is used. -/
def InitHandlesTableLocks (P : CONSOLE_PROCESS_DATA) (S : ServerState) (a1 a2 a3 : Bool) :
    List LockEvent :=
  match P.Console with
  | none => [.EnterTable P.Process]
  | some c =>
    let P1 := RtlEnterCriticalSection P
    let r1 := Win32CsrInsertObject P1 S INVALID_HANDLE_VALUE (S.Consoles c).InputBuffer
      (GENERIC_READ ||| GENERIC_WRITE) true (FILE_SHARE_READ ||| FILE_SHARE_WRITE) a1
    let l1 := [LockEvent.EnterTable P.Process] ++
      InsertObjectLocks P1 (S.Consoles c).InputBuffer (GENERIC_READ ||| GENERIC_WRITE) true
        (FILE_SHARE_READ ||| FILE_SHARE_WRITE) a1
    if NT_SUCCESS r1.1 = false then
      l1 ++ [.LeaveTable P.Process] ++ FreeHandlesTableLocks (RtlLeaveCriticalSection r1.2.2.1)
    else
      let r2 := Win32CsrInsertObject r1.2.2.1 r1.2.2.2 INVALID_HANDLE_VALUE
        (r1.2.2.2.Consoles c).ActiveBuffer
        (GENERIC_READ ||| GENERIC_WRITE) true (FILE_SHARE_READ ||| FILE_SHARE_WRITE) a2
      let l2 := l1 ++
        InsertObjectLocks r1.2.2.1 (r1.2.2.2.Consoles c).ActiveBuffer
          (GENERIC_READ ||| GENERIC_WRITE) true (FILE_SHARE_READ ||| FILE_SHARE_WRITE) a2
      if NT_SUCCESS r2.1 = false then
        l2 ++ [.LeaveTable P.Process] ++
          FreeHandlesTableLocks (RtlLeaveCriticalSection r2.2.2.1)
      else
        let r3 := Win32CsrInsertObject r2.2.2.1 r2.2.2.2 INVALID_HANDLE_VALUE
          (r2.2.2.2.Consoles c).ActiveBuffer
          (GENERIC_READ ||| GENERIC_WRITE) true (FILE_SHARE_READ ||| FILE_SHARE_WRITE) a3
        let l3 := l2 ++
          InsertObjectLocks r2.2.2.1 (r2.2.2.2.Consoles c).ActiveBuffer
            (GENERIC_READ ||| GENERIC_WRITE) true (FILE_SHARE_READ ||| FILE_SHARE_WRITE) a3
        if NT_SUCCESS r3.1 = false then
          l3 ++ [.LeaveTable P.Process] ++
            FreeHandlesTableLocks (RtlLeaveCriticalSection r3.2.2.1)
        else l3 ++ [.LeaveTable P.Process]

/-- The lock calls of `Win32CsrUnlockConsole`. -/
def UnlockConsoleLocks (Console : Nat) (IsConsoleLocked : Bool) : List LockEvent :=
  if IsConsoleLocked then [.LeaveConsole Console] else []

/-- The lock calls of `Win32CsrReleaseConsole`, in order. -/
def ReleaseConsoleLocks (P : CONSOLE_PROCESS_DATA) (S : ServerState) : List LockEvent :=
  FreeHandlesTableLocks P ++
    match (Win32CsrFreeHandlesTable P S).1.Console with
    | none => []
    | some Console => [.EnterConsole Console] ++ UnlockConsoleLocks Console true

/-- The lock calls of `Win32CsrAllocateConsole`, in order; the session factory
is external. -/
def AllocateConsoleLocks (P : CONSOLE_PROCESS_DATA) (S : ServerState) (InitStatus : NTSTATUS)
    (NewConsole : Nat) (a1 a2 a3 : Bool) : List LockEvent :=
  if NT_SUCCESS InitStatus = false then []
  else
    let P1 : CONSOLE_PROCESS_DATA := { P with Console := some NewConsole }
    InitHandlesTableLocks P1 S a1 a2 a3

/-- The lock calls of the tail of `ConsoleConnect` that `ConnectAttach`
embeds. -/
def ConnectAttachLocks (P : CONSOLE_PROCESS_DATA) (S : ServerState) (DupStatus : NTSTATUS) :
    List LockEvent :=
  match P.Console with
  | none => []
  | some Console =>
    if NT_SUCCESS DupStatus = false then
      ReleaseConsoleLocks P
        (InsertHeadList (InterlockedIncrementReferenceCount S Console) Console P.Process)
    else []

/-- The lock calls of `ConsoleConnect`, in order. -/
def ConnectLocks (P : CONSOLE_PROCESS_DATA) (S : ServerState)
    (ConnectionInfo : Option CONSOLE_CONNECTION_INFO) (ConnectionInfoLength : Option Nat)
    (InitStatus : NTSTATUS) (NewConsole : Nat) (a1 a2 a3 : Bool) (DupStatus : NTSTATUS) :
    List LockEvent :=
  match ConnectionInfo, ConnectionInfoLength with
  | some ConnectInfo, some Length =>
    if Length ≠ sizeof_CONSOLE_CONNECTION_INFO then []
    else if ConnectInfo.ConsoleNeeded = false ∨ P.ConsoleApp = false then []
    else if ConnectInfo.Console = none ∨ ConnectInfo.Console ≠ P.ParentConsole then
      let r := Win32CsrReleaseConsole P S
      let l := ReleaseConsoleLocks P S ++
        AllocateConsoleLocks r.1 r.2 InitStatus NewConsole a1 a2 a3
      match Win32CsrAllocateConsole r.1 r.2 ConnectInfo.InputHandle ConnectInfo.OutputHandle
          ConnectInfo.ErrorHandle InitStatus NewConsole a1 a2 a3 with
      | none => l
      | some a =>
        if NT_SUCCESS a.Status = false then l
        else l ++ ConnectAttachLocks a.ProcessData a.State DupStatus
    else
      let P1 : CONSOLE_PROCESS_DATA := { P with Console := ConnectInfo.Console }
      ConnectAttachLocks P1 S DupStatus
  | _, _ => []

/-- The lock calls of `ConsoleDisconnect`, in order; after them the table lock
is deleted. -/
def DisconnectLocks (P : CONSOLE_PROCESS_DATA) (S : ServerState) : List LockEvent :=
  if P.Console ≠ none ∨ P.HandleTable ≠ none then ReleaseConsoleLocks P S else []

/-- How many table locks and how many console locks a thread holds. -/
structure HeldLocks where
  Table : Nat := 0
  Console : Nat := 0
  deriving DecidableEq, Repr

/-- The locks held after one lock call. -/
def HoldAfter (h : HeldLocks) : LockEvent → HeldLocks
  | .EnterTable _ => { h with Table := h.Table + 1 }
  | .LeaveTable _ => { h with Table := h.Table - 1 }
  | .EnterConsole _ => { h with Console := h.Console + 1 }
  | .LeaveConsole _ => { h with Console := h.Console - 1 }

/-- Whether a thread that holds `h` and makes the lock calls of the list in
order never holds a table lock and a console lock at the same time. -/
def LocksSeparate : HeldLocks → List LockEvent → Bool
  | h, [] => decide (h.Table = 0 ∨ h.Console = 0)
  | h, e :: es => decide (h.Table = 0 ∨ h.Console = 0) && LocksSeparate (HoldAfter h e) es

/-- The locks held after the lock calls of a list. -/
def HeldAfterAll (h : HeldLocks) (l : List LockEvent) : HeldLocks :=
  l.foldl HoldAfter h

/-! ## Concurrent closes -/

/-- The first part of `Win32CsrCloseHandleEntry` on an entry of object `p`: the
decrement `AdjustHandleCounts(Entry, -1)` and the tests up to
`Buffer->ListEntry.Flink != Buffer->ListEntry.Blink`.  The result is whether
`ConioDeleteScreenBuffer` is to be called, and the state. -/
def CloseHandleEntryCheck (S : ServerState) (Entry : CONSOLE_IO_HANDLE) (p : Nat) :
    Bool × ServerState :=
  let r := AdjustHandleCounts S Entry (-1)
  let S1 := r.2
  let ring := (S1.Consoles (S1.Objects p).Console).BufferList
  (decide (r.1 = 0 ∧ (S1.Objects p).Type_ = CONIO_SCREEN_BUFFER_MAGIC ∧
    ListEntry_Flink ring p ≠ ListEntry_Blink ring p), S1)

/-- The second part of `Win32CsrCloseHandleEntry`: the call of
`ConioDeleteScreenBuffer` when the tests have passed. -/
def CloseHandleEntryAct (S : ServerState) (p : Nat) (delete : Bool) : ServerState :=
  if delete then ConioDeleteScreenBuffer S p else S

/-- Two closes, of an entry of object `p1` and of an entry of object `p2`, by
two threads that each make the tests before the other one acts. -/
def InterleavedCloses (S : ServerState) (Entry1 : CONSOLE_IO_HANDLE) (p1 : Nat)
    (Entry2 : CONSOLE_IO_HANDLE) (p2 : Nat) : ServerState :=
  let c1 := CloseHandleEntryCheck S Entry1 p1
  let c2 := CloseHandleEntryCheck c1.2 Entry2 p2
  CloseHandleEntryAct (CloseHandleEntryAct c2.2 p1 c1.1) p2 c2.1

/-- The lock that a lock call names: `(true, p)` is the table lock of process
`p`, `(false, c)` the lock of console `c`. -/
def LockName : LockEvent → Bool × Nat
  | .EnterTable p => (true, p)
  | .LeaveTable p => (true, p)
  | .EnterConsole c => (false, c)
  | .LeaveConsole c => (false, c)

/-- Whether a lock call enters its lock. -/
def IsEnter : LockEvent → Bool
  | .EnterTable _ => true
  | .EnterConsole _ => true
  | _ => false

/-- Whether a schedule of lock calls, each made by the thread named with it,
respects the locks: no thread enters a lock that another thread holds.
`held` lists the locks held so far with their threads. -/
def Exclusive (held : List (Nat × (Bool × Nat))) : List (Nat × LockEvent) → Bool
  | [] => true
  | (t, e) :: rest =>
    if IsEnter e then
      if held.any (fun h => decide (h.2 = LockName e ∧ h.1 ≠ t)) then false
      else Exclusive ((t, LockName e) :: held) rest
    else Exclusive (held.erase (t, LockName e)) rest

/-- A state in which the two screen buffers 1 and 2 of console 0 have one
handle each. -/
def TwoBufferState : ServerState :=
  { Objects := fun i =>
      if i = 0 then ⟨CONIO_INPUT_BUFFER_MAGIC, 0, 0, 0, 0, 0, 0⟩
      else ⟨CONIO_SCREEN_BUFFER_MAGIC, 0, 1, 0, 0, 0, 1⟩
    Consoles := fun _ =>
      { ReferenceCount := 2, InputBuffer := 0, ActiveBuffer := 1, BufferList := [1, 2],
        ProcessList := [21, 20] } }

/-- The process 20 of console 0, holding the only handle on screen buffer 1. -/
def FirstCloser : CONSOLE_PROCESS_DATA :=
  { Process := 20, Console := some 0, ConsoleApp := true,
    HandleTable := some [⟨some 1, GENERIC_READ, true, 3⟩] }

/-- The process 21 of console 0, holding the only handle on screen buffer 2. -/
def SecondCloser : CONSOLE_PROCESS_DATA :=
  { Process := 21, Console := some 0, ConsoleApp := true,
    HandleTable := some [⟨some 2, GENERIC_READ, true, 3⟩] }

/-- Whether a table operation releases the slot `k`, by any handle that names
it. -/
def ReleasesSlot (k : Nat) : TableOp → Bool
  | .Release Handle => Handle >>> 2 == k
  | _ => false

/-- The lock calls of `SrvDuplicateHandle`, in order, on every path, the one
on which `Win32CsrCloseHandleEntry` works on the freed block included. -/
def DuplicateHandleLocks (P : CONSOLE_PROCESS_DATA) (S : ServerState) (ConsoleHandle : HANDLE)
    (Access : Nat) (Inheritable : Bool) (Options : Nat) (alloc : Bool) : List LockEvent :=
  let Index := ConsoleHandle >>> 2
  let P1 := RtlEnterCriticalSection P
  if Index ≥ HandleTableSize P1 then [.EnterTable P.Process, .LeaveTable P.Process]
  else
    let Entry := HandleTableAt P1 Index
    match Entry.Object with
    | none => [.EnterTable P.Process, .LeaveTable P.Process]
    | some Object =>
      match DuplicateAccess Entry Access Options with
      | none => [.EnterTable P.Process, .LeaveTable P.Process]
      | some DesiredAccess =>
        let r := Win32CsrInsertObject P1 S ConsoleHandle Object DesiredAccess Inheritable
          Entry.ShareMode alloc
        [LockEvent.EnterTable P.Process] ++
          InsertObjectLocks P1 Object DesiredAccess Inheritable Entry.ShareMode alloc ++
          (if NT_SUCCESS r.1 = true ∧ Options &&& DUPLICATE_CLOSE_SOURCE ≠ 0 then
            CloseHandleEntryLocks Entry
          else []) ++
          [.LeaveTable P.Process]

/-! ## Basic facts -/

@[simp] theorem leave_enter (P : CONSOLE_PROCESS_DATA) :
    RtlLeaveCriticalSection (RtlEnterCriticalSection P) = P := by
  cases P
  simp [RtlLeaveCriticalSection, RtlEnterCriticalSection]

@[simp] theorem entries_enter (P : CONSOLE_PROCESS_DATA) :
    HandleTableEntries (RtlEnterCriticalSection P) = HandleTableEntries P := rfl

@[simp] theorem entries_leave (P : CONSOLE_PROCESS_DATA) :
    HandleTableEntries (RtlLeaveCriticalSection P) = HandleTableEntries P := rfl

@[simp] theorem size_enter (P : CONSOLE_PROCESS_DATA) :
    HandleTableSize (RtlEnterCriticalSection P) = HandleTableSize P := rfl

@[simp] theorem at_enter (P : CONSOLE_PROCESS_DATA) (i : Nat) :
    HandleTableAt (RtlEnterCriticalSection P) i = HandleTableAt P i := rfl

@[simp] theorem at_leave (P : CONSOLE_PROCESS_DATA) (i : Nat) :
    HandleTableAt (RtlLeaveCriticalSection P) i = HandleTableAt P i := rfl

@[simp] theorem entries_with (P : CONSOLE_PROCESS_DATA) (t : List CONSOLE_IO_HANDLE) :
    HandleTableEntries { P with HandleTable := some t } = t := rfl

theorem isConsoleHandle_iff (Handle : HANDLE) :
    IsConsoleHandle Handle = true ↔ Handle &&& 3 = 3 := by
  simp [IsConsoleHandle]

/-! ## Lookup -/

/-- C2: `Win32CsrLockObject` returns `STATUS_INVALID_HANDLE` whenever the low
two bits of the handle are not `0b11`, or the slot index `Handle >> 2` is not
below the table size, or the indexed slot is free, whatever the requested
access, lock flag and type. -/
theorem lock_rejects_bad_handle (P : CONSOLE_PROCESS_DATA) (S : ServerState)
    (Handle : HANDLE) (Object : Option Nat) (Access : Nat) (LockConsole : Bool) (Type_ : Nat)
    (h : Handle &&& 3 ≠ 3 ∨ Handle >>> 2 ≥ HandleTableSize P ∨
      (HandleTableAt P (Handle >>> 2)).Object = none) :
    (Win32CsrLockObject P S Handle Object Access LockConsole Type_).1
      = NTSTATUS.STATUS_INVALID_HANDLE := by
  unfold Win32CsrLockObject
  simp only [size_enter, at_enter]
  by_cases h1 : IsConsoleHandle Handle = false ∨ Handle >>> 2 ≥ HandleTableSize P
  · simp [h1]
  · rw [if_neg h1]
    have h2 : (HandleTableAt P (Handle >>> 2)).Object = none := by
      rcases h with h | h | h
      · exact absurd (Or.inl (by
          cases hb : IsConsoleHandle Handle
          · rfl
          · exact absurd ((isConsoleHandle_iff Handle).1 hb) h)) h1
      · exact absurd (Or.inr h) h1
      · exact h
    simp [h2]

theorem lock_rejects_bad_handle_witness :
    (4 &&& 3 ≠ 3 ∨ 4 >>> 2 ≥ HandleTableSize ExampleProcess ∨
      (HandleTableAt ExampleProcess (4 >>> 2)).Object = none) ∧
    (Win32CsrLockObject ExampleProcess ExampleState 4 none GENERIC_READ false 0).1
      = NTSTATUS.STATUS_INVALID_HANDLE :=
  ⟨by decide,
    lock_rejects_bad_handle ExampleProcess ExampleState 4 none GENERIC_READ false 0
      (by decide)⟩

/-- C3: for a handle that carries the tag `0b11`, is in range and names an
occupied slot holding object `o`, `Win32CsrLockObject` returns
`STATUS_SUCCESS` with `*Object = o` exactly when the slot's access overlaps the
requested access and the requested type is 0 or equals the type of `o`;
otherwise it returns `STATUS_INVALID_HANDLE`. -/
theorem lock_succeeds_iff (P : CONSOLE_PROCESS_DATA) (S : ServerState)
    (Handle : HANDLE) (Object : Option Nat) (Access : Nat) (LockConsole : Bool) (Type_ : Nat)
    (o : Nat) (htag : Handle &&& 3 = 3) (hrange : Handle >>> 2 < HandleTableSize P)
    (hocc : (HandleTableAt P (Handle >>> 2)).Object = some o) :
    (((Win32CsrLockObject P S Handle Object Access LockConsole Type_).1
          = NTSTATUS.STATUS_SUCCESS ∧
        (Win32CsrLockObject P S Handle Object Access LockConsole Type_).2.1 = some o) ↔
      ((HandleTableAt P (Handle >>> 2)).Access &&& Access ≠ 0 ∧
        (Type_ = 0 ∨ (S.Objects o).Type_ = Type_))) ∧
    (¬ ((HandleTableAt P (Handle >>> 2)).Access &&& Access ≠ 0 ∧
        (Type_ = 0 ∨ (S.Objects o).Type_ = Type_)) →
      (Win32CsrLockObject P S Handle Object Access LockConsole Type_).1
        = NTSTATUS.STATUS_INVALID_HANDLE) := by
  have h1 : ¬ (IsConsoleHandle Handle = false ∨ Handle >>> 2 ≥ HandleTableSize P) := by
    have := (isConsoleHandle_iff Handle).2 htag
    simp [this, hrange]
  unfold Win32CsrLockObject
  simp only [size_enter, at_enter, if_neg h1, hocc]
  by_cases h2 : (HandleTableAt P (Handle >>> 2)).Access &&& Access = 0 ∨
      (Type_ ≠ 0 ∧ (S.Objects o).Type_ ≠ Type_)
  · rw [if_pos h2]
    have h3 : ¬ ((HandleTableAt P (Handle >>> 2)).Access &&& Access ≠ 0 ∧
        (Type_ = 0 ∨ (S.Objects o).Type_ = Type_)) := by
      rintro ⟨ha, ht⟩
      rcases h2 with h2 | ⟨h2, h2'⟩
      · exact ha h2
      · rcases ht with ht | ht
        · exact h2 ht
        · exact h2' ht
    simp [h3]
  · rw [if_neg h2]
    have h3 : (HandleTableAt P (Handle >>> 2)).Access &&& Access ≠ 0 ∧
        (Type_ = 0 ∨ (S.Objects o).Type_ = Type_) := by
      constructor
      · exact fun ha => h2 (Or.inl ha)
      · by_cases ht : Type_ = 0
        · exact Or.inl ht
        · right
          by_contra hne
          exact h2 (Or.inr ⟨ht, hne⟩)
    simp [h3]

theorem lock_succeeds_iff_witness :
    (3 &&& 3 = 3 ∧ 3 >>> 2 < HandleTableSize ExampleProcess ∧
      (HandleTableAt ExampleProcess (3 >>> 2)).Object = some 1) ∧
    (((Win32CsrLockObject ExampleProcess ExampleState 3 none GENERIC_READ false
            CONIO_SCREEN_BUFFER_MAGIC).1 = NTSTATUS.STATUS_SUCCESS ∧
        (Win32CsrLockObject ExampleProcess ExampleState 3 none GENERIC_READ false
            CONIO_SCREEN_BUFFER_MAGIC).2.1 = some 1) ↔
      ((HandleTableAt ExampleProcess (3 >>> 2)).Access &&& GENERIC_READ ≠ 0 ∧
        (CONIO_SCREEN_BUFFER_MAGIC = 0 ∨
          (ExampleState.Objects 1).Type_ = CONIO_SCREEN_BUFFER_MAGIC))) :=
  ⟨by decide,
    (lock_succeeds_iff ExampleProcess ExampleState 3 none GENERIC_READ false
      CONIO_SCREEN_BUFFER_MAGIC 1 (by decide) (by decide) (by decide)).1⟩

/-- A successful `Win32CsrLockObject` went through every check: the slot is
occupied by the returned object, and the new state is the old one with the
owning console's `ReferenceCount` incremented (and its lock entered when
`LockConsole` is set). -/
theorem lock_success_shape (P : CONSOLE_PROCESS_DATA) (S : ServerState)
    (Handle : HANDLE) (Object : Option Nat) (Access : Nat) (LockConsole : Bool) (Type_ : Nat)
    (hok : (Win32CsrLockObject P S Handle Object Access LockConsole Type_).1
      = NTSTATUS.STATUS_SUCCESS) :
    ∃ o, (HandleTableAt P (Handle >>> 2)).Object = some o ∧
      Win32CsrLockObject P S Handle Object Access LockConsole Type_ =
        (NTSTATUS.STATUS_SUCCESS, some o, P,
          (if LockConsole then
            EnterCriticalSection
              (InterlockedIncrementReferenceCount S (S.Objects o).Console)
              (S.Objects o).Console
          else InterlockedIncrementReferenceCount S (S.Objects o).Console)) := by
  unfold Win32CsrLockObject at hok ⊢
  simp only [size_enter, at_enter] at hok ⊢
  by_cases h1 : IsConsoleHandle Handle = false ∨ Handle >>> 2 ≥ HandleTableSize P
  · rw [if_pos h1] at hok
    simp at hok
  · rw [if_neg h1] at hok ⊢
    cases hobj : (HandleTableAt P (Handle >>> 2)).Object with
    | none => simp [hobj] at hok
    | some o =>
      simp only [hobj] at hok ⊢
      by_cases h2 : (HandleTableAt P (Handle >>> 2)).Access &&& Access = 0 ∨
          (Type_ ≠ 0 ∧ (S.Objects o).Type_ ≠ Type_)
      · rw [if_pos h2] at hok
        simp at hok
      · rw [if_neg h2]
        exact ⟨o, rfl, by simp⟩

/-- C4: a successful `Win32CsrLockObject` raises the `ReferenceCount` of the
console that owns the returned object by exactly 1, leaves the `ReferenceCount`
of every other console as it was, and changes neither the process data (table
size and every slot) nor any object (so none of its counters). -/
theorem lock_success_effect (P : CONSOLE_PROCESS_DATA) (S : ServerState)
    (Handle : HANDLE) (Object : Option Nat) (Access : Nat) (LockConsole : Bool) (Type_ : Nat)
    (hok : (Win32CsrLockObject P S Handle Object Access LockConsole Type_).1
      = NTSTATUS.STATUS_SUCCESS) :
    ∃ o, (Win32CsrLockObject P S Handle Object Access LockConsole Type_).2.1 = some o ∧
      ((Win32CsrLockObject P S Handle Object Access LockConsole Type_).2.2.2.Consoles
          (S.Objects o).Console).ReferenceCount
        = (S.Consoles (S.Objects o).Console).ReferenceCount + 1 ∧
      (∀ c, c ≠ (S.Objects o).Console →
        ((Win32CsrLockObject P S Handle Object Access LockConsole Type_).2.2.2.Consoles
            c).ReferenceCount = (S.Consoles c).ReferenceCount) ∧
      (Win32CsrLockObject P S Handle Object Access LockConsole Type_).2.2.1 = P ∧
      HandleTableSize (Win32CsrLockObject P S Handle Object Access LockConsole Type_).2.2.1
        = HandleTableSize P ∧
      (Win32CsrLockObject P S Handle Object Access LockConsole Type_).2.2.2.Objects
        = S.Objects := by
  obtain ⟨o, -, heq⟩ := lock_success_shape P S Handle Object Access LockConsole Type_ hok
  refine ⟨o, ?_⟩
  rw [heq]
  cases LockConsole
  · refine ⟨rfl, ?_, ?_, rfl, rfl, rfl⟩
    · simp [InterlockedIncrementReferenceCount]
    · intro c hc
      simp [InterlockedIncrementReferenceCount, Function.update_noteq hc]
  · refine ⟨rfl, ?_, ?_, rfl, rfl, rfl⟩
    · simp [EnterCriticalSection, InterlockedIncrementReferenceCount]
    · intro c hc
      simp [EnterCriticalSection, InterlockedIncrementReferenceCount, Function.update_noteq hc]

theorem lock_success_effect_witness :
    (Win32CsrLockObject ExampleProcess ExampleState 3 none GENERIC_READ false 0).1
        = NTSTATUS.STATUS_SUCCESS ∧
      ∃ o, (Win32CsrLockObject ExampleProcess ExampleState 3 none GENERIC_READ false 0).2.1
          = some o ∧
        ((Win32CsrLockObject ExampleProcess ExampleState 3 none GENERIC_READ false
            0).2.2.2.Consoles (ExampleState.Objects o).Console).ReferenceCount
          = (ExampleState.Consoles (ExampleState.Objects o).Console).ReferenceCount + 1 :=
  ⟨by decide,
    (lock_success_effect ExampleProcess ExampleState 3 none GENERIC_READ false 0
      (by decide)).imp (fun _ h => ⟨h.1, h.2.1⟩)⟩

/-- C5: whenever `Win32CsrLockObject` or `Win32CsrReleaseObject` returns
`STATUS_INVALID_HANDLE`, the process data (handle table included) and the
server state (every object with its five counters, every console with its
`ReferenceCount`) are the ones from before the call. -/
theorem invalid_handle_changes_nothing (P : CONSOLE_PROCESS_DATA) (S : ServerState)
    (Handle : HANDLE) (Object : Option Nat) (Access : Nat) (LockConsole : Bool) (Type_ : Nat) :
    ((Win32CsrLockObject P S Handle Object Access LockConsole Type_).1
        = NTSTATUS.STATUS_INVALID_HANDLE →
      (Win32CsrLockObject P S Handle Object Access LockConsole Type_).2.2.1 = P ∧
      (Win32CsrLockObject P S Handle Object Access LockConsole Type_).2.2.2 = S) ∧
    ((Win32CsrReleaseObject P S Handle).1 = NTSTATUS.STATUS_INVALID_HANDLE →
      (Win32CsrReleaseObject P S Handle).2.1 = P ∧
      (Win32CsrReleaseObject P S Handle).2.2 = S) := by
  constructor
  · unfold Win32CsrLockObject
    simp only [size_enter, at_enter]
    by_cases h1 : IsConsoleHandle Handle = false ∨ Handle >>> 2 ≥ HandleTableSize P
    · simp [h1]
    · rw [if_neg h1]
      cases hobj : (HandleTableAt P (Handle >>> 2)).Object with
      | none => simp
      | some o =>
        by_cases h2 : (HandleTableAt P (Handle >>> 2)).Access &&& Access = 0 ∨
            (Type_ ≠ 0 ∧ (S.Objects o).Type_ ≠ Type_)
        · simp [h2]
        · simp only [if_neg h2]
          intro hst
          exact absurd hst (by decide)
  · unfold Win32CsrReleaseObject
    simp only [size_enter, at_enter]
    intro hst
    split at hst
    · rename_i h1
      simp [h1]
    · simp at hst

theorem invalid_handle_changes_nothing_witness :
    ((Win32CsrLockObject ExampleProcess ExampleState 7 none GENERIC_READ false 0).1
        = NTSTATUS.STATUS_INVALID_HANDLE ∧
      (Win32CsrLockObject ExampleProcess ExampleState 7 none GENERIC_READ false 0).2.2.1
        = ExampleProcess ∧
      (Win32CsrLockObject ExampleProcess ExampleState 7 none GENERIC_READ false 0).2.2.2
        = ExampleState) ∧
    ((Win32CsrReleaseObject ExampleProcess ExampleState 7).1
        = NTSTATUS.STATUS_INVALID_HANDLE ∧
      (Win32CsrReleaseObject ExampleProcess ExampleState 7).2.1 = ExampleProcess ∧
      (Win32CsrReleaseObject ExampleProcess ExampleState 7).2.2 = ExampleState) :=
  ⟨⟨by decide,
      (invalid_handle_changes_nothing ExampleProcess ExampleState 7 none GENERIC_READ
        false 0).1 (by decide)⟩,
    ⟨by decide,
      (invalid_handle_changes_nothing ExampleProcess ExampleState 7 none GENERIC_READ
        false 0).2 (by decide)⟩⟩

/-! ## Handle encoding -/

theorem handleOfIndex_eq (i : Nat) (hi : i < 2 ^ 30) :
    ConsoleHandleOfIndex i = (4 * i + 3 : Nat) := by
  unfold ConsoleHandleOfIndex
  have h1 : (i <<< 2) % 2 ^ 32 = 2 ^ 2 * i := by
    rw [Nat.shiftLeft_eq, Nat.mod_eq_of_lt (by omega)]
    omega
  rw [h1, ← Nat.mul_add_lt_is_or (by decide) i]

theorem and_three (n : Nat) : n &&& 3 = n % 4 :=
  Nat.and_pow_two_sub_one_eq_mod n 2

theorem shiftRight_two (n : Nat) : n >>> 2 = n / 4 :=
  Nat.shiftRight_eq_div_pow n 2

theorem handleOfIndex_decode (i : Nat) (hi : i < 2 ^ 30) :
    ConsoleHandleOfIndex i >>> 2 = i := by
  rw [handleOfIndex_eq i hi, shiftRight_two]
  show ((4 * i + 3) / 4 : Nat) = i
  omega

theorem handleOfIndex_tag (i : Nat) : ConsoleHandleOfIndex i &&& 3 = 3 := by
  unfold ConsoleHandleOfIndex
  rw [Nat.and_distrib_right]
  have h4 : (i <<< 2) % 2 ^ 32 &&& 3 = 0 := by
    rw [and_three, Nat.shiftLeft_eq]
    omega
  rw [h4]
  rfl

/-- The handle a successful `Win32CsrInsertObject` returns is the handle value
of the first free slot of the table it was called on. -/
theorem insert_handle (P : CONSOLE_PROCESS_DATA) (S : ServerState) (Handle : HANDLE)
    (Object Access : Nat) (Inheritable : Bool) (ShareMode : Nat) (alloc : Bool)
    (hok : (Win32CsrInsertObject P S Handle Object Access Inheritable ShareMode alloc).1
      = NTSTATUS.STATUS_SUCCESS) :
    (Win32CsrInsertObject P S Handle Object Access Inheritable ShareMode alloc).2.1
      = ConsoleHandleOfIndex (FirstFreeSlot (HandleTableEntries P)) := by
  unfold Win32CsrInsertObject at hok ⊢
  simp only [size_enter, entries_enter] at hok ⊢
  split at hok
  · simp at hok
  · rename_i P2 hP2
    simp only [hP2]

/-- C6: for every slot index `i < 2^30` the handle that `Win32CsrInsertObject`
produces for slot `i` is `(i << 2) | 3`; its low two bits are `0b11`, so
`IsConsoleHandle` recognises it; `handle >> 2` gives back `i`; and a different
slot index below `2^30` gives a different handle value. -/
theorem handle_encoding_roundtrip (i : Nat) (hi : i < 2 ^ 30) :
    (∀ (P : CONSOLE_PROCESS_DATA) (S : ServerState) (Handle : HANDLE) (Object Access : Nat)
        (Inheritable : Bool) (ShareMode : Nat) (alloc : Bool),
        FirstFreeSlot (HandleTableEntries P) = i →
        (Win32CsrInsertObject P S Handle Object Access Inheritable ShareMode alloc).1
          = NTSTATUS.STATUS_SUCCESS →
        (Win32CsrInsertObject P S Handle Object Access Inheritable ShareMode alloc).2.1
          = (i <<< 2) ||| 3) ∧
    ConsoleHandleOfIndex i = (i <<< 2) ||| 3 ∧
    ConsoleHandleOfIndex i &&& 3 = 3 ∧
    IsConsoleHandle (ConsoleHandleOfIndex i) = true ∧
    ConsoleHandleOfIndex i >>> 2 = i ∧
    (∀ j, j < 2 ^ 30 → j ≠ i → ConsoleHandleOfIndex j ≠ ConsoleHandleOfIndex i) := by
  have henc : ConsoleHandleOfIndex i = (i <<< 2) ||| 3 := by
    unfold ConsoleHandleOfIndex
    rw [Nat.mod_eq_of_lt]
    rw [Nat.shiftLeft_eq]
    omega
  refine ⟨?_, henc, handleOfIndex_tag i, ?_, handleOfIndex_decode i hi, ?_⟩
  · intro P S Handle Object Access Inheritable ShareMode alloc hidx hok
    rw [insert_handle P S Handle Object Access Inheritable ShareMode alloc hok, hidx, henc]
  · exact (isConsoleHandle_iff _).2 (handleOfIndex_tag i)
  · intro j hj hne heq
    rw [handleOfIndex_eq i hi, handleOfIndex_eq j hj] at heq
    have heq2 : (4 * j + 3 : Nat) = 4 * i + 3 := heq
    omega

theorem handle_encoding_roundtrip_witness :
    (6 : Nat) < 2 ^ 30 ∧ ConsoleHandleOfIndex 6 = 0x1B ∧ ConsoleHandleOfIndex 6 >>> 2 = 6 :=
  ⟨by decide, (handle_encoding_roundtrip 6 (by decide)).2.1.trans (by decide),
    (handle_encoding_roundtrip 6 (by decide)).2.2.2.2.1⟩

/-! ## Insert -/

theorem firstFreeSlot_le (t : List CONSOLE_IO_HANDLE) : FirstFreeSlot t ≤ t.length := by
  induction t with
  | nil => simp [FirstFreeSlot]
  | cons e t ih =>
    unfold FirstFreeSlot
    cases e.Object <;> simp
    omega

theorem firstFreeSlot_free (t : List CONSOLE_IO_HANDLE) (h : FirstFreeSlot t < t.length) :
    (t.getD (FirstFreeSlot t) ZeroEntry).Object = none := by
  induction t with
  | nil => simp at h
  | cons e t ih =>
    unfold FirstFreeSlot at h ⊢
    cases he : e.Object with
    | none => simpa using he
    | some o =>
      simp only [he] at h ⊢
      simp only [List.length_cons, Nat.add_lt_add_iff_right] at h
      simpa using ih h

theorem firstFreeSlot_occupied (t : List CONSOLE_IO_HANDLE) (j : Nat)
    (h : j < FirstFreeSlot t) : (t.getD j ZeroEntry).Object ≠ none := by
  induction t generalizing j with
  | nil => simp [FirstFreeSlot] at h
  | cons e t ih =>
    unfold FirstFreeSlot at h
    cases he : e.Object with
    | none => simp [he] at h
    | some o =>
      simp only [he] at h
      cases j with
      | zero => simp [he]
      | succ j => simpa using ih j (by omega)

theorem firstFreeSlot_full (t : List CONSOLE_IO_HANDLE)
    (h : ∀ e ∈ t, e.Object ≠ none) : FirstFreeSlot t = t.length := by
  induction t with
  | nil => rfl
  | cons e t ih =>
    unfold FirstFreeSlot
    cases he : e.Object with
    | none => exact absurd he (h e (List.mem_cons_self _ _))
    | some o =>
      simp only [List.length_cons, Nat.add_right_cancel_iff]
      exact ih (fun e' he' => h e' (List.mem_cons_of_mem _ he'))

/-- The function `Win32CsrInsertObject` in closed form. -/
theorem insert_eq (P : CONSOLE_PROCESS_DATA) (S : ServerState) (Handle : HANDLE)
    (Object Access : Nat) (Inheritable : Bool) (ShareMode : Nat) (alloc : Bool) :
    Win32CsrInsertObject P S Handle Object Access Inheritable ShareMode alloc =
      if FirstFreeSlot (HandleTableEntries P) ≥ HandleTableSize P ∧ alloc = false then
        (NTSTATUS.STATUS_UNSUCCESSFUL, Handle, P, S)
      else
        (NTSTATUS.STATUS_SUCCESS, ConsoleHandleOfIndex (FirstFreeSlot (HandleTableEntries P)),
          { P with HandleTable := some ((InsertBlock P).set (FirstFreeSlot (HandleTableEntries P))
              ⟨some Object, Access, Inheritable, ShareMode⟩) },
          Win32CsrCreateHandleEntry S ⟨some Object, Access, Inheritable, ShareMode⟩) := by
  unfold Win32CsrInsertObject InsertBlock
  simp only [size_enter, entries_enter]
  by_cases h1 : FirstFreeSlot (HandleTableEntries P) ≥ HandleTableSize P
  · cases alloc
    · simp [h1]
    · simp only [if_pos h1, if_true, and_false, if_false, Bool.true_eq_false]
      refine Prod.ext rfl (Prod.ext rfl (Prod.ext ?_ rfl))
      cases P
      simp [RtlLeaveCriticalSection, RtlEnterCriticalSection, HandleTableEntries]
  · have h2 : ¬ (FirstFreeSlot (HandleTableEntries P) ≥ HandleTableSize P ∧ alloc = false) :=
      fun h => h1 h.1
    simp only [if_neg h1, if_neg h2]
    refine Prod.ext rfl (Prod.ext rfl (Prod.ext ?_ rfl))
    cases P
    simp [RtlLeaveCriticalSection, RtlEnterCriticalSection, HandleTableEntries]

/-! ## Counters -/

theorem adjust_consoles (S : ServerState) (Entry : CONSOLE_IO_HANDLE) (Change : Int) :
    (AdjustHandleCounts S Entry Change).2.Consoles = S.Consoles ∧
    (AdjustHandleCounts S Entry Change).2.DeletedScreenBuffers = S.DeletedScreenBuffers ∧
    (AdjustHandleCounts S Entry Change).2.DeletedConsoles = S.DeletedConsoles := by
  unfold AdjustHandleCounts
  cases Entry.Object <;> simp

theorem adjust_handleCount (S : ServerState) (Entry : CONSOLE_IO_HANDLE) (Change : Int)
    (o : Nat) :
    ((AdjustHandleCounts S Entry Change).2.Objects o).HandleCount =
      (S.Objects o).HandleCount + (if Entry.Object = some o then Change else 0) := by
  unfold AdjustHandleCounts
  cases hobj : Entry.Object with
  | none => simp
  | some p =>
    by_cases hp : o = p
    · subst hp
      simp
    · have hp2 : p ≠ o := fun h => hp h.symm
      simp [Function.update_noteq hp, hp2]

theorem adjust_type (S : ServerState) (Entry : CONSOLE_IO_HANDLE) (Change : Int) (o : Nat) :
    ((AdjustHandleCounts S Entry Change).2.Objects o).Type_ = (S.Objects o).Type_ ∧
    ((AdjustHandleCounts S Entry Change).2.Objects o).Console = (S.Objects o).Console := by
  unfold AdjustHandleCounts
  cases hobj : Entry.Object with
  | none => simp
  | some p =>
    by_cases hp : o = p
    · subst hp
      simp
    · simp [Function.update_noteq hp]

theorem create_handleCount (S : ServerState) (Entry : CONSOLE_IO_HANDLE) (o : Nat) :
    ((Win32CsrCreateHandleEntry S Entry).Objects o).HandleCount =
      (S.Objects o).HandleCount + (if Entry.Object = some o then 1 else 0) :=
  adjust_handleCount S Entry 1 o

theorem deleteScreenBuffer_objects (S : ServerState) (b : Nat) :
    (ConioDeleteScreenBuffer S b).Objects = S.Objects := rfl

theorem close_handleCount (S : ServerState) (Entry : CONSOLE_IO_HANDLE) (o : Nat) :
    (((Win32CsrCloseHandleEntry S Entry).2.Objects o).HandleCount =
      (S.Objects o).HandleCount - (if Entry.Object = some o then 1 else 0)) ∧
    (Win32CsrCloseHandleEntry S Entry).1 = { Entry with Object := none } := by
  unfold Win32CsrCloseHandleEntry
  cases hobj : Entry.Object with
  | none =>
    refine ⟨by simp, ?_⟩
    cases Entry
    simp_all
  | some p =>
    have hadj := adjust_handleCount S Entry (-1) o
    rw [hobj] at hadj
    simp only
    refine ⟨?_, trivial⟩
    have key : ∀ S2 : ServerState, S2.Objects = (AdjustHandleCounts S Entry (-1)).2.Objects →
        (S2.Objects o).HandleCount
          = (S.Objects o).HandleCount - (if some p = some o then 1 else 0) := by
      intro S2 h2
      rw [h2, hadj]
      split <;> rfl
    apply key
    split_ifs <;> rfl

theorem openEntries_set (t : List CONSOLE_IO_HANDLE) (i : Nat) (e : CONSOLE_IO_HANDLE)
    (o : Nat) (hi : i < t.length) :
    (OpenEntries (t.set i e) o : Int) =
      OpenEntries t o - (if (t.getD i ZeroEntry).Object = some o then 1 else 0)
        + (if e.Object = some o then 1 else 0) := by
  induction t generalizing i with
  | nil => simp at hi
  | cons a t ih =>
    cases i with
    | zero =>
      simp only [List.set_cons_zero, OpenEntries, List.countP_cons, List.getD_cons_zero,
        decide_eq_true_eq]
      split <;> split <;> push_cast <;> omega
    | succ i =>
      have hi2 : i < t.length := by simpa using hi
      have := ih i hi2
      simp only [OpenEntries] at this
      simp only [List.set_cons_succ, OpenEntries, List.countP_cons, List.getD_cons_succ,
        decide_eq_true_eq]
      push_cast
      rw [this]
      omega

theorem openEntries_insertBlock (P : CONSOLE_PROCESS_DATA) (o : Nat) :
    OpenEntries (InsertBlock P) o = OpenEntries (HandleTableEntries P) o := by
  unfold InsertBlock
  split
  · simp [OpenEntries, List.countP_append, List.countP_replicate, ZeroEntry]
  · rfl

theorem firstFreeSlot_lt_insertBlock (P : CONSOLE_PROCESS_DATA) :
    FirstFreeSlot (HandleTableEntries P) < (InsertBlock P).length := by
  unfold InsertBlock
  have := firstFreeSlot_le (HandleTableEntries P)
  split
  · simp [IO_HANDLES_INCREMENT]
    omega
  · rename_i h
    unfold HandleTableSize at h
    omega

theorem insertBlock_slot_free (P : CONSOLE_PROCESS_DATA) :
    ((InsertBlock P).getD (FirstFreeSlot (HandleTableEntries P)) ZeroEntry).Object = none := by
  unfold InsertBlock
  have hle := firstFreeSlot_le (HandleTableEntries P)
  split
  · rename_i h
    unfold HandleTableSize at h
    have heq : FirstFreeSlot (HandleTableEntries P) = (HandleTableEntries P).length := by omega
    rw [heq, List.getD_eq_getElem?_getD, List.getElem?_append_right (le_refl _)]
    simp [IO_HANDLES_INCREMENT, ZeroEntry]
  · rename_i h
    unfold HandleTableSize at h
    exact firstFreeSlot_free _ (by omega)

/-- The counter invariant of one table: every object's `HandleCount` is the
number of occupied slots that reference it. -/
theorem insert_preserves_count (P : CONSOLE_PROCESS_DATA) (S : ServerState) (Handle : HANDLE)
    (Object Access : Nat) (Inheritable : Bool) (ShareMode : Nat) (alloc : Bool)
    (hinv : ∀ o, (S.Objects o).HandleCount = OpenEntries (HandleTableEntries P) o) (o : Nat) :
    ((Win32CsrInsertObject P S Handle Object Access Inheritable ShareMode alloc).2.2.2.Objects
        o).HandleCount =
      OpenEntries (HandleTableEntries
        (Win32CsrInsertObject P S Handle Object Access Inheritable ShareMode alloc).2.2.1) o := by
  rw [insert_eq]
  split
  · exact hinv o
  · simp only [entries_with]
    rw [openEntries_set _ _ _ _ (firstFreeSlot_lt_insertBlock P), insertBlock_slot_free,
      openEntries_insertBlock, create_handleCount, hinv o]
    simp

theorem release_preserves_count (P : CONSOLE_PROCESS_DATA) (S : ServerState) (Handle : HANDLE)
    (hinv : ∀ o, (S.Objects o).HandleCount = OpenEntries (HandleTableEntries P) o) (o : Nat) :
    ((Win32CsrReleaseObject P S Handle).2.2.Objects o).HandleCount =
      OpenEntries (HandleTableEntries (Win32CsrReleaseObject P S Handle).2.1) o := by
  unfold Win32CsrReleaseObject
  simp only [size_enter, at_enter, entries_enter]
  split
  · simpa using hinv o
  · rename_i h
    have hlt : Handle >>> 2 < (HandleTableEntries P).length := by
      unfold HandleTableSize at h
      push_neg at h
      exact h.1
    simp only [entries_leave, entries_with]
    rw [(close_handleCount S _ o).2, openEntries_set _ _ _ _ hlt, (close_handleCount S _ o).1,
      hinv o]
    simp [HandleTableAt]

/-- C1: for every sequence of `Win32CsrInsertObject` and
`Win32CsrReleaseObject` calls applied to a handle table with no occupied slot
(the objects' `HandleCount`s being 0), the `HandleCount` of every object equals
the number of currently occupied slots whose `Object` is that object. -/
theorem handleCount_counts_open_entries (P0 : CONSOLE_PROCESS_DATA) (S0 : ServerState)
    (ops : List TableOp)
    (hempty : ∀ e ∈ HandleTableEntries P0, e.Object = none)
    (hzero : ∀ o, (S0.Objects o).HandleCount = 0) (o : Nat) :
    ((RunTableOps (P0, S0) ops).2.Objects o).HandleCount =
      OpenEntries (HandleTableEntries (RunTableOps (P0, S0) ops).1) o := by
  have hinit : ∀ o, (S0.Objects o).HandleCount = OpenEntries (HandleTableEntries P0) o := by
    intro o
    rw [hzero o]
    have : OpenEntries (HandleTableEntries P0) o = 0 := by
      unfold OpenEntries
      rw [List.countP_eq_zero]
      intro e he
      simp [hempty e he]
    simp [this]
  have hrun : ∀ (ops : List TableOp) (ps : CONSOLE_PROCESS_DATA × ServerState),
      (∀ o, (ps.2.Objects o).HandleCount = OpenEntries (HandleTableEntries ps.1) o) →
      ∀ o, ((RunTableOps ps ops).2.Objects o).HandleCount =
        OpenEntries (HandleTableEntries (RunTableOps ps ops).1) o := by
    intro ops
    induction ops with
    | nil => exact fun ps h => h
    | cons op ops ih =>
      intro ps h
      unfold RunTableOps
      rw [List.foldl_cons]
      apply ih
      cases op with
      | Insert Object Access Inheritable ShareMode alloc =>
        exact insert_preserves_count ps.1 ps.2 _ Object Access Inheritable ShareMode alloc h
      | Release Handle => exact release_preserves_count ps.1 ps.2 Handle h
  exact hrun ops (P0, S0) hinit o

theorem handleCount_counts_open_entries_witness :
    ((RunTableOps (FreshProcess, FreshState)
        [TableOp.Insert 1 GENERIC_READ true 0 true, TableOp.Insert 1 GENERIC_WRITE false 0 true,
          TableOp.Release 3]).2.Objects 1).HandleCount =
      OpenEntries (HandleTableEntries (RunTableOps (FreshProcess, FreshState)
        [TableOp.Insert 1 GENERIC_READ true 0 true, TableOp.Insert 1 GENERIC_WRITE false 0 true,
          TableOp.Release 3]).1) 1 :=
  handleCount_counts_open_entries FreshProcess FreshState _ (by decide)
    (fun o => by unfold FreshState; dsimp only; split <;> rfl) 1

/-! ## Insert followed by lookup -/

/-- A handle with the tag, in range, on a slot occupied by `o`, whose access
overlaps the requested access, is locked successfully when no type is asked
for. -/
theorem lock_ok (P : CONSOLE_PROCESS_DATA) (S : ServerState) (Handle : HANDLE)
    (Object : Option Nat) (Access : Nat) (LockConsole : Bool) (o : Nat)
    (htag : Handle &&& 3 = 3) (hrange : Handle >>> 2 < HandleTableSize P)
    (hocc : (HandleTableAt P (Handle >>> 2)).Object = some o)
    (hacc : (HandleTableAt P (Handle >>> 2)).Access &&& Access ≠ 0) :
    (Win32CsrLockObject P S Handle Object Access LockConsole 0).1 = NTSTATUS.STATUS_SUCCESS ∧
    (Win32CsrLockObject P S Handle Object Access LockConsole 0).2.1 = some o := by
  have h1 : ¬ (IsConsoleHandle Handle = false ∨ Handle >>> 2 ≥ HandleTableSize P) := by
    have := (isConsoleHandle_iff Handle).2 htag
    simp [this, hrange]
  unfold Win32CsrLockObject
  simp only [size_enter, at_enter, if_neg h1, hocc]
  simp [hacc]

theorem insert_success_table (P : CONSOLE_PROCESS_DATA) (S : ServerState) (Handle : HANDLE)
    (Object Access : Nat) (Inheritable : Bool) (ShareMode : Nat) (alloc : Bool)
    (hok : (Win32CsrInsertObject P S Handle Object Access Inheritable ShareMode alloc).1
      = NTSTATUS.STATUS_SUCCESS) :
    Win32CsrInsertObject P S Handle Object Access Inheritable ShareMode alloc =
      (NTSTATUS.STATUS_SUCCESS, ConsoleHandleOfIndex (FirstFreeSlot (HandleTableEntries P)),
        { P with HandleTable := some ((InsertBlock P).set (FirstFreeSlot (HandleTableEntries P))
            ⟨some Object, Access, Inheritable, ShareMode⟩) },
        Win32CsrCreateHandleEntry S ⟨some Object, Access, Inheritable, ShareMode⟩) := by
  rw [insert_eq] at hok ⊢
  split at hok
  · simp at hok
  · rename_i h
    rw [if_neg h]

/-- C7: when `Win32CsrInsertObject` succeeds on a table of fewer than `2^30`
slots and returns the handle `h`, the slot `h >> 2` holds exactly
`(Object, Access, Inheritable, ShareMode)` and the object's `HandleCount` is one
more than before; a following `Win32CsrLockObject` of `h` with a requested
access that overlaps `Access` and type 0 succeeds and returns that object. -/
theorem insert_then_lock (P : CONSOLE_PROCESS_DATA) (S : ServerState) (Handle : HANDLE)
    (Object Access : Nat) (Inheritable : Bool) (ShareMode : Nat) (alloc : Bool)
    (hsize : HandleTableSize P < 2 ^ 30)
    (hok : (Win32CsrInsertObject P S Handle Object Access Inheritable ShareMode alloc).1
      = NTSTATUS.STATUS_SUCCESS) :
    HandleTableAt (Win32CsrInsertObject P S Handle Object Access Inheritable ShareMode alloc).2.2.1
        ((Win32CsrInsertObject P S Handle Object Access Inheritable ShareMode alloc).2.1 >>> 2)
      = ⟨some Object, Access, Inheritable, ShareMode⟩ ∧
    ((Win32CsrInsertObject P S Handle Object Access Inheritable ShareMode alloc).2.2.2.Objects
        Object).HandleCount = (S.Objects Object).HandleCount + 1 ∧
    ∀ (ObjectOut : Option Nat) (Required : Nat) (LockConsole : Bool),
      Access &&& Required ≠ 0 →
      (Win32CsrLockObject
          (Win32CsrInsertObject P S Handle Object Access Inheritable ShareMode alloc).2.2.1
          (Win32CsrInsertObject P S Handle Object Access Inheritable ShareMode alloc).2.2.2
          (Win32CsrInsertObject P S Handle Object Access Inheritable ShareMode alloc).2.1
          ObjectOut Required LockConsole 0).1 = NTSTATUS.STATUS_SUCCESS ∧
      (Win32CsrLockObject
          (Win32CsrInsertObject P S Handle Object Access Inheritable ShareMode alloc).2.2.1
          (Win32CsrInsertObject P S Handle Object Access Inheritable ShareMode alloc).2.2.2
          (Win32CsrInsertObject P S Handle Object Access Inheritable ShareMode alloc).2.1
          ObjectOut Required LockConsole 0).2.1 = some Object := by
  rw [insert_success_table P S Handle Object Access Inheritable ShareMode alloc hok]
  have hle := firstFreeSlot_le (HandleTableEntries P)
  have hi : FirstFreeSlot (HandleTableEntries P) < 2 ^ 30 := by
    unfold HandleTableSize at hsize
    omega
  have hlt := firstFreeSlot_lt_insertBlock P
  have hat : HandleTableAt
      { P with HandleTable := some ((InsertBlock P).set (FirstFreeSlot (HandleTableEntries P))
          ⟨some Object, Access, Inheritable, ShareMode⟩) }
      (ConsoleHandleOfIndex (FirstFreeSlot (HandleTableEntries P)) >>> 2)
        = ⟨some Object, Access, Inheritable, ShareMode⟩ := by
    rw [handleOfIndex_decode _ hi]
    unfold HandleTableAt
    rw [entries_with, List.getD_eq_getElem?_getD, List.getElem?_set_self hlt]
    rfl
  refine ⟨hat, ?_, ?_⟩
  · simp [create_handleCount]
  · intro ObjectOut Required LockConsole hacc
    apply lock_ok
    · exact handleOfIndex_tag _
    · rw [handleOfIndex_decode _ hi]
      unfold HandleTableSize
      rw [entries_with, List.length_set]
      exact hlt
    · rw [hat]
    · rw [hat]
      exact hacc

theorem insert_then_lock_witness :
    HandleTableSize ExampleProcess < 2 ^ 30 ∧
    HandleTableAt
        (Win32CsrInsertObject ExampleProcess ExampleState 0 2 GENERIC_WRITE false 3 true).2.2.1
        ((Win32CsrInsertObject ExampleProcess ExampleState 0 2 GENERIC_WRITE false 3
          true).2.1 >>> 2)
      = ⟨some 2, GENERIC_WRITE, false, 3⟩ :=
  ⟨by decide,
    (insert_then_lock ExampleProcess ExampleState 0 2 GENERIC_WRITE false 3 true (by decide)
      (by decide)).1⟩

/-! ## Growth -/

/-- C8: on a table of size `n` in which every slot is occupied (`n = 0`
included), a successful `Win32CsrInsertObject` makes the table size exactly
`n + 6` (`IO_HANDLES_INCREMENT`), keeps the slots `0..n-1`, writes the new
entry at index `n` and leaves the slots `n+1..n+5` free. -/
theorem insert_into_full_table (P : CONSOLE_PROCESS_DATA) (S : ServerState) (Handle : HANDLE)
    (Object Access : Nat) (Inheritable : Bool) (ShareMode : Nat) (alloc : Bool)
    (hfull : ∀ e ∈ HandleTableEntries P, e.Object ≠ none)
    (hok : (Win32CsrInsertObject P S Handle Object Access Inheritable ShareMode alloc).1
      = NTSTATUS.STATUS_SUCCESS) :
    IO_HANDLES_INCREMENT = 6 ∧
    HandleTableSize
        (Win32CsrInsertObject P S Handle Object Access Inheritable ShareMode alloc).2.2.1
      = HandleTableSize P + 6 ∧
    HandleTableEntries
        (Win32CsrInsertObject P S Handle Object Access Inheritable ShareMode alloc).2.2.1
      = HandleTableEntries P ++
          (⟨some Object, Access, Inheritable, ShareMode⟩ :: List.replicate 5 ZeroEntry) ∧
    (∀ j, j < HandleTableSize P →
      HandleTableAt
          (Win32CsrInsertObject P S Handle Object Access Inheritable ShareMode alloc).2.2.1 j
        = HandleTableAt P j) ∧
    HandleTableAt
        (Win32CsrInsertObject P S Handle Object Access Inheritable ShareMode alloc).2.2.1
        (HandleTableSize P)
      = ⟨some Object, Access, Inheritable, ShareMode⟩ ∧
    (∀ j, HandleTableSize P < j → j < HandleTableSize P + 6 →
      (HandleTableAt
          (Win32CsrInsertObject P S Handle Object Access Inheritable ShareMode alloc).2.2.1
          j).Object = none) := by
  have hfirst := firstFreeSlot_full _ hfull
  have hentries : HandleTableEntries
      (Win32CsrInsertObject P S Handle Object Access Inheritable ShareMode alloc).2.2.1
        = HandleTableEntries P ++
          (⟨some Object, Access, Inheritable, ShareMode⟩ :: List.replicate 5 ZeroEntry) := by
    rw [insert_success_table P S Handle Object Access Inheritable ShareMode alloc hok]
    simp only [entries_with]
    unfold InsertBlock
    rw [if_pos (by unfold HandleTableSize; omega), hfirst]
    simp [IO_HANDLES_INCREMENT, List.replicate]
  refine ⟨rfl, ?_, hentries, ?_, ?_, ?_⟩
  · unfold HandleTableSize
    rw [hentries]
    simp
  · intro j hj
    unfold HandleTableAt
    unfold HandleTableSize at hj
    rw [hentries, List.getD_eq_getElem?_getD, List.getD_eq_getElem?_getD,
      List.getElem?_append_left hj]
  · unfold HandleTableAt HandleTableSize
    rw [hentries, List.getD_eq_getElem?_getD, List.getElem?_append_right (le_refl _)]
    simp
  · intro j hj1 hj2
    unfold HandleTableAt
    unfold HandleTableSize at hj1 hj2
    rw [hentries, List.getD_eq_getElem?_getD, List.getElem?_append_right (by omega)]
    obtain ⟨k, hk⟩ : ∃ k, j - (HandleTableEntries P).length = k + 1 :=
      ⟨j - (HandleTableEntries P).length - 1, by omega⟩
    rw [hk, List.getElem?_cons_succ]
    have hk5 : k < 5 := by omega
    rw [List.getElem?_replicate, if_pos hk5]
    rfl

theorem insert_into_full_table_witness :
    (∀ e ∈ HandleTableEntries ExampleProcess, e.Object ≠ none) ∧
    HandleTableEntries
        (Win32CsrInsertObject ExampleProcess ExampleState 0 2 GENERIC_WRITE false 3 true).2.2.1
      = HandleTableEntries ExampleProcess ++
          (⟨some 2, GENERIC_WRITE, false, 3⟩ :: List.replicate 5 ZeroEntry) :=
  ⟨by decide,
    (insert_into_full_table ExampleProcess ExampleState 0 2 GENERIC_WRITE false 3 true
      (by decide) (by decide)).2.2.1⟩

/-! ## Seven inserts on the empty table -/

/-- Counterexample to C9 as written: seven inserts of screen buffer 1 on the
`NULL` table of `FreshProcess` make the table larger twice, not once. -/
theorem seven_inserts_counterexample :
    (InsertMany FreshProcess FreshState
        [(1, GENERIC_READ, true, 0), (1, GENERIC_READ, true, 0), (1, GENERIC_READ, true, 0),
          (1, GENERIC_READ, true, 0), (1, GENERIC_READ, true, 0), (1, GENERIC_READ, true, 0),
          (1, GENERIC_READ, true, 0)]).2.1 = 2 ∧
    ¬ ((InsertMany FreshProcess FreshState
          [(1, GENERIC_READ, true, 0), (1, GENERIC_READ, true, 0), (1, GENERIC_READ, true, 0),
            (1, GENERIC_READ, true, 0), (1, GENERIC_READ, true, 0), (1, GENERIC_READ, true, 0),
            (1, GENERIC_READ, true, 0)]).2.1 = 1 ∧
        (InsertMany FreshProcess FreshState
          [(1, GENERIC_READ, true, 0), (1, GENERIC_READ, true, 0), (1, GENERIC_READ, true, 0),
            (1, GENERIC_READ, true, 0), (1, GENERIC_READ, true, 0), (1, GENERIC_READ, true, 0),
            (1, GENERIC_READ, true, 0)]).1.getD 6 0 = 0x1B) := by
  decide

theorem insert_step (P : CONSOLE_PROCESS_DATA) (S : ServerState) (Handle : HANDLE)
    (Object Access : Nat) (Inheritable : Bool) (ShareMode : Nat) :
    Win32CsrInsertObject P S Handle Object Access Inheritable ShareMode true =
      (NTSTATUS.STATUS_SUCCESS, ConsoleHandleOfIndex (FirstFreeSlot (HandleTableEntries P)),
        { P with HandleTable := some ((InsertBlock P).set (FirstFreeSlot (HandleTableEntries P))
            ⟨some Object, Access, Inheritable, ShareMode⟩) },
        Win32CsrCreateHandleEntry S ⟨some Object, Access, Inheritable, ShareMode⟩) := by
  rw [insert_eq]
  simp

/-- C9 (amended): seven calls of `Win32CsrInsertObject` in a row, every
allocation succeeding, on the `NULL` table (size 0) make the table larger
exactly twice (the first call takes it from 0 to 6 slots, the seventh from 6 to
12); the returned handles are `0x3, 0x7, 0xB, 0xF, 0x13, 0x17, 0x1B`, so the
seventh is `(6 << 2) | 3 = 0x1B`. -/
theorem seven_inserts (P : CONSOLE_PROCESS_DATA) (S : ServerState)
    (a1 a2 a3 a4 a5 a6 a7 : Nat × Nat × Bool × Nat) (hnull : P.HandleTable = none) :
    (InsertMany P S [a1, a2, a3, a4, a5, a6, a7]).2.1 = 2 ∧
    (InsertMany P S [a1, a2, a3, a4, a5, a6, a7]).1 = [0x3, 0x7, 0xB, 0xF, 0x13, 0x17, 0x1B] ∧
    (InsertMany P S [a1, a2, a3, a4, a5, a6, a7]).1.getD 6 0 = (6 <<< 2) ||| 3 ∧
    HandleTableSize (InsertMany P S [a1, a2, a3, a4, a5, a6, a7]).2.2.1 = 12 := by
  have h0 : HandleTableEntries P = [] := by simp [HandleTableEntries, hnull]
  simp [InsertMany, insert_step, InsertBlock, HandleTableSize, h0, FirstFreeSlot,
    IO_HANDLES_INCREMENT, List.replicate, ZeroEntry, ConsoleHandleOfIndex]

theorem seven_inserts_witness :
    FreshProcess.HandleTable = none ∧
    (InsertMany FreshProcess FreshState
        [(0, GENERIC_READ, true, 3), (1, GENERIC_WRITE, true, 3), (1, GENERIC_WRITE, true, 3),
          (2, GENERIC_READ, false, 0), (2, GENERIC_READ, false, 1), (0, GENERIC_READ, true, 2),
          (1, GENERIC_READ, true, 0)]).2.1 = 2 ∧
    (InsertMany FreshProcess FreshState
        [(0, GENERIC_READ, true, 3), (1, GENERIC_WRITE, true, 3), (1, GENERIC_WRITE, true, 3),
          (2, GENERIC_READ, false, 0), (2, GENERIC_READ, false, 1), (0, GENERIC_READ, true, 2),
          (1, GENERIC_READ, true, 0)]).1 = [0x3, 0x7, 0xB, 0xF, 0x13, 0x17, 0x1B] :=
  ⟨rfl,
    (seven_inserts FreshProcess FreshState (0, GENERIC_READ, true, 3) (1, GENERIC_WRITE, true, 3)
      (1, GENERIC_WRITE, true, 3) (2, GENERIC_READ, false, 0) (2, GENERIC_READ, false, 1)
      (0, GENERIC_READ, true, 2) (1, GENERIC_READ, true, 0) rfl).1,
    (seven_inserts FreshProcess FreshState (0, GENERIC_READ, true, 3) (1, GENERIC_WRITE, true, 3)
      (1, GENERIC_WRITE, true, 3) (2, GENERIC_READ, false, 0) (2, GENERIC_READ, false, 1)
      (0, GENERIC_READ, true, 2) (1, GENERIC_READ, true, 0) rfl).2.1⟩

/-! ## The standard handles of a new console -/

theorem create_consoles (S : ServerState) (Entry : CONSOLE_IO_HANDLE) :
    (Win32CsrCreateHandleEntry S Entry).Consoles = S.Consoles :=
  (adjust_consoles S Entry 1).1

/-- C10: `Win32CsrInitHandlesTable` on a process with a console `c` and an
empty table (size 0), the allocation succeeding, returns the handles `0x3`,
`0x7`, `0xB` in that order; slot 0 references the console's input buffer, slots
1 and 2 both reference its active screen buffer, each of the three with access
`GENERIC_READ | GENERIC_WRITE`, inheritable, and share mode
`FILE_SHARE_READ | FILE_SHARE_WRITE`; the slots 3 to 5 are free. -/
theorem init_standard_handles (P : CONSOLE_PROCESS_DATA) (S : ServerState) (c : Nat)
    (pInputHandle pOutputHandle pErrorHandle : HANDLE) (a2 a3 : Bool)
    (hconsole : P.Console = some c) (hempty : HandleTableSize P = 0) :
    ∃ r, Win32CsrInitHandlesTable P S pInputHandle pOutputHandle pErrorHandle true a2 a3
        = some r ∧
      r.Status = NTSTATUS.STATUS_SUCCESS ∧
      r.InputHandle = 0x3 ∧ r.OutputHandle = 0x7 ∧ r.ErrorHandle = 0xB ∧
      HandleTableEntries r.ProcessData =
        [⟨some (S.Consoles c).InputBuffer, GENERIC_READ ||| GENERIC_WRITE, true,
            FILE_SHARE_READ ||| FILE_SHARE_WRITE⟩,
          ⟨some (S.Consoles c).ActiveBuffer, GENERIC_READ ||| GENERIC_WRITE, true,
            FILE_SHARE_READ ||| FILE_SHARE_WRITE⟩,
          ⟨some (S.Consoles c).ActiveBuffer, GENERIC_READ ||| GENERIC_WRITE, true,
            FILE_SHARE_READ ||| FILE_SHARE_WRITE⟩,
          ZeroEntry, ZeroEntry, ZeroEntry] := by
  have h0 : HandleTableEntries P = [] := List.length_eq_zero.mp hempty
  unfold Win32CsrInitHandlesTable
  simp only [hconsole]
  cases a2 <;> cases a3 <;>
    simp [insert_step, insert_eq, InsertBlock, HandleTableSize, h0, FirstFreeSlot,
      IO_HANDLES_INCREMENT, List.replicate, ZeroEntry, ConsoleHandleOfIndex, NT_SUCCESS,
      create_consoles]

theorem init_standard_handles_witness :
    FreshProcess.Console = some 0 ∧ HandleTableSize FreshProcess = 0 ∧
    ∃ r, Win32CsrInitHandlesTable FreshProcess FreshState 0 0 0 true false false = some r ∧
      r.Status = NTSTATUS.STATUS_SUCCESS ∧
      r.InputHandle = 0x3 ∧ r.OutputHandle = 0x7 ∧ r.ErrorHandle = 0xB ∧
      HandleTableEntries r.ProcessData =
        [⟨some 0, GENERIC_READ ||| GENERIC_WRITE, true, FILE_SHARE_READ ||| FILE_SHARE_WRITE⟩,
          ⟨some 1, GENERIC_READ ||| GENERIC_WRITE, true, FILE_SHARE_READ ||| FILE_SHARE_WRITE⟩,
          ⟨some 1, GENERIC_READ ||| GENERIC_WRITE, true, FILE_SHARE_READ ||| FILE_SHARE_WRITE⟩,
          ZeroEntry, ZeroEntry, ZeroEntry] :=
  ⟨rfl, rfl, init_standard_handles FreshProcess FreshState 0 0 0 0 false false rfl rfl⟩

/-! ## The five counters -/

theorem adjust_objects_other (S : ServerState) (Entry : CONSOLE_IO_HANDLE) (Change : Int)
    (o : Nat) (h : Entry.Object ≠ some o) :
    (AdjustHandleCounts S Entry Change).2.Objects o = S.Objects o := by
  unfold AdjustHandleCounts
  cases hobj : Entry.Object with
  | none => rfl
  | some p =>
    have hp : o ≠ p := fun hop => h (by rw [hobj, hop])
    simp [Function.update_noteq hp]

theorem adjust_counter (k : CounterKind) (S : ServerState) (Entry : CONSOLE_IO_HANDLE)
    (Change : Int) (o : Nat) :
    CounterValue k ((AdjustHandleCounts S Entry Change).2.Objects o) =
      CounterValue k (S.Objects o) + Change * EntryCount k Entry o := by
  by_cases h : Entry.Object = some o
  · unfold AdjustHandleCounts EntryCount
    simp only [h, Function.update_same, true_and]
    cases k <;> simp only [CounterValue, CountsFor, decide_eq_true_eq] <;>
      split <;> simp_all
  · rw [adjust_objects_other S Entry Change o h]
    simp [EntryCount, h]

theorem create_counter (k : CounterKind) (S : ServerState) (Entry : CONSOLE_IO_HANDLE)
    (o : Nat) :
    CounterValue k ((Win32CsrCreateHandleEntry S Entry).Objects o) =
      CounterValue k (S.Objects o) + EntryCount k Entry o := by
  unfold Win32CsrCreateHandleEntry
  rw [adjust_counter]
  simp

theorem close_objects (S : ServerState) (Entry : CONSOLE_IO_HANDLE) :
    (Win32CsrCloseHandleEntry S Entry).2.Objects = (AdjustHandleCounts S Entry (-1)).2.Objects ∧
    (Win32CsrCloseHandleEntry S Entry).1 = { Entry with Object := none } := by
  unfold Win32CsrCloseHandleEntry
  cases hobj : Entry.Object with
  | none =>
    refine ⟨by simp [AdjustHandleCounts, hobj], ?_⟩
    cases Entry
    simp_all
  | some p =>
    simp only
    refine ⟨?_, trivial⟩
    split_ifs <;> rfl

theorem close_counter (k : CounterKind) (S : ServerState) (Entry : CONSOLE_IO_HANDLE)
    (o : Nat) :
    CounterValue k ((Win32CsrCloseHandleEntry S Entry).2.Objects o) =
      CounterValue k (S.Objects o) - EntryCount k Entry o := by
  rw [(close_objects S Entry).1, adjust_counter]
  omega

theorem countEntries_cons (k : CounterKind) (e : CONSOLE_IO_HANDLE)
    (t : List CONSOLE_IO_HANDLE) (o : Nat) :
    CountEntries k (e :: t) o = CountEntries k t o + EntryCount k e o := by
  unfold CountEntries EntryCount
  rw [List.countP_cons]
  simp only [Bool.and_eq_true, decide_eq_true_eq]

theorem entryCount_free (k : CounterKind) (e : CONSOLE_IO_HANDLE) (o : Nat)
    (h : e.Object = none) : EntryCount k e o = 0 := by
  simp [EntryCount, h]

theorem countEntries_free (k : CounterKind) (t : List CONSOLE_IO_HANDLE) (o : Nat)
    (h : ∀ e ∈ t, e.Object = none) : CountEntries k t o = 0 := by
  unfold CountEntries
  rw [List.countP_eq_zero]
  intro e he
  simp [h e he]

theorem countEntries_append (k : CounterKind) (t u : List CONSOLE_IO_HANDLE) (o : Nat) :
    CountEntries k (t ++ u) o = CountEntries k t o + CountEntries k u o := by
  unfold CountEntries
  rw [List.countP_append]

theorem countEntries_set (k : CounterKind) (t : List CONSOLE_IO_HANDLE) (i : Nat)
    (e : CONSOLE_IO_HANDLE) (o : Nat) (hi : i < t.length) :
    CountEntries k (t.set i e) o + EntryCount k (t.getD i ZeroEntry) o =
      CountEntries k t o + EntryCount k e o := by
  induction t generalizing i with
  | nil => simp at hi
  | cons a t ih =>
    cases i with
    | zero =>
      simp only [List.set_cons_zero, countEntries_cons, List.getD_cons_zero]
      omega
    | succ i =>
      have hi2 : i < t.length := by simpa using hi
      have := ih i hi2
      simp only [List.set_cons_succ, countEntries_cons, List.getD_cons_succ]
      omega

theorem balanced_refl (k : CounterKind) (o : Nat) (t : List CONSOLE_IO_HANDLE)
    (S : ServerState) : Balanced k o t S t S := rfl

theorem balanced_trans {k : CounterKind} {o : Nat} {t1 t2 t3 : List CONSOLE_IO_HANDLE}
    {S1 S2 S3 : ServerState} (h12 : Balanced k o t1 S1 t2 S2) (h23 : Balanced k o t2 S2 t3 S3) :
    Balanced k o t1 S1 t3 S3 := by
  unfold Balanced at *
  omega

theorem countEntries_insertBlock (k : CounterKind) (P : CONSOLE_PROCESS_DATA) (o : Nat) :
    CountEntries k (InsertBlock P) o = CountEntries k (HandleTableEntries P) o := by
  unfold InsertBlock
  split
  · rw [countEntries_append, countEntries_free k (List.replicate _ _) o]
    · rfl
    · intro e he
      rw [(List.mem_replicate.mp he).2]
      rfl
  · rfl

theorem balanced_insert (k : CounterKind) (o : Nat) (P : CONSOLE_PROCESS_DATA)
    (S : ServerState) (Handle : HANDLE) (Object Access : Nat) (Inheritable : Bool)
    (ShareMode : Nat) (alloc : Bool) :
    Balanced k o (HandleTableEntries P) S
      (HandleTableEntries
        (Win32CsrInsertObject P S Handle Object Access Inheritable ShareMode alloc).2.2.1)
      (Win32CsrInsertObject P S Handle Object Access Inheritable ShareMode alloc).2.2.2 := by
  rw [insert_eq]
  split
  · exact balanced_refl k o _ S
  · simp only [entries_with]
    unfold Balanced
    have h1 := countEntries_set k (InsertBlock P) (FirstFreeSlot (HandleTableEntries P))
      ⟨some Object, Access, Inheritable, ShareMode⟩ o (firstFreeSlot_lt_insertBlock P)
    rw [entryCount_free k _ o (insertBlock_slot_free P), countEntries_insertBlock] at h1
    rw [create_counter]
    omega

theorem balanced_release (k : CounterKind) (o : Nat) (P : CONSOLE_PROCESS_DATA)
    (S : ServerState) (Handle : HANDLE) :
    Balanced k o (HandleTableEntries P) S
      (HandleTableEntries (Win32CsrReleaseObject P S Handle).2.1)
      (Win32CsrReleaseObject P S Handle).2.2 := by
  unfold Win32CsrReleaseObject
  simp only [size_enter, at_enter, entries_enter]
  split
  · simpa using balanced_refl k o _ S
  · rename_i h
    have hlt : Handle >>> 2 < (HandleTableEntries P).length := by
      unfold HandleTableSize at h
      push_neg at h
      exact h.1
    simp only [entries_leave, entries_with]
    unfold Balanced
    have hfree : EntryCount k ({ HandleTableAt P (Handle >>> 2) with Object := none }) o = 0 :=
      entryCount_free k _ o rfl
    have h1 : CountEntries k ((HandleTableEntries P).set (Handle >>> 2)
          ({ HandleTableAt P (Handle >>> 2) with Object := none })) o
        + EntryCount k (HandleTableAt P (Handle >>> 2)) o
        = CountEntries k (HandleTableEntries P) o
          + EntryCount k ({ HandleTableAt P (Handle >>> 2) with Object := none }) o :=
      countEntries_set k (HandleTableEntries P) (Handle >>> 2) _ o hlt
    rw [hfree] at h1
    dsimp only at h1
    rw [close_counter, (close_objects S _).2]
    omega

theorem closeAll_counter (k : CounterKind) (o : Nat) (t : List CONSOLE_IO_HANDLE)
    (S : ServerState) :
    CounterValue k ((CloseAllEntries S t).2.Objects o) =
      CounterValue k (S.Objects o) - CountEntries k t o := by
  induction t generalizing S with
  | nil => simp [CloseAllEntries, CountEntries]
  | cons e t ih =>
    unfold CloseAllEntries
    simp only
    rw [ih, close_counter, countEntries_cons]
    omega

/-- The function `Win32CsrFreeHandlesTable` in closed form. -/
theorem free_eq (P : CONSOLE_PROCESS_DATA) (S : ServerState) :
    Win32CsrFreeHandlesTable P S =
      ({ P with HandleTable := none }, (CloseAllEntries S (HandleTableEntries P)).2) := by
  unfold Win32CsrFreeHandlesTable
  cases P with
  | mk Process ConsoleEvent Console ParentConsole ConsoleApp HandleTableLock HandleTable
      CtrlDispatcher =>
    cases HandleTable <;>
      simp [RtlEnterCriticalSection, RtlLeaveCriticalSection, HandleTableEntries,
        CloseAllEntries]

theorem balanced_free (k : CounterKind) (o : Nat) (P : CONSOLE_PROCESS_DATA)
    (S : ServerState) :
    Balanced k o (HandleTableEntries P) S
      (HandleTableEntries (Win32CsrFreeHandlesTable P S).1)
      (Win32CsrFreeHandlesTable P S).2 := by
  rw [free_eq]
  unfold Balanced
  rw [closeAll_counter]
  simp [HandleTableEntries, CountEntries]

theorem inheritEntries_list (S : ServerState) (t : List CONSOLE_IO_HANDLE) :
    (InheritEntries S t).1 = t.map InheritedSlot := by
  induction t generalizing S with
  | nil => rfl
  | cons e t ih =>
    unfold InheritEntries
    split
    · rename_i h
      simp [ih, InheritedSlot, h]
    · rename_i h
      simp [ih, InheritedSlot, h]

theorem inheritEntries_counter (k : CounterKind) (o : Nat) (t : List CONSOLE_IO_HANDLE)
    (S : ServerState) :
    CounterValue k ((InheritEntries S t).2.Objects o) =
      CounterValue k (S.Objects o) + CountEntries k (InheritEntries S t).1 o := by
  induction t generalizing S with
  | nil => simp [InheritEntries, CountEntries]
  | cons e t ih =>
    unfold InheritEntries
    split
    · simp only [countEntries_cons]
      rw [ih, create_counter]
      push_cast
      omega
    · simp only [countEntries_cons]
      rw [ih, entryCount_free k ZeroEntry o rfl]
      simp

theorem balanced_inherit (k : CounterKind) (o : Nat) (Source Target : CONSOLE_PROCESS_DATA)
    (S : ServerState) (alloc : Bool) :
    Balanced k o (HandleTableEntries Target) S
      (HandleTableEntries (Win32CsrInheritHandlesTable Source Target S alloc).2.2.1)
      (Win32CsrInheritHandlesTable Source Target S alloc).2.2.2 := by
  unfold Win32CsrInheritHandlesTable
  cases hT : Target.HandleTable with
  | some t => exact balanced_refl k o _ S
  | none =>
    cases alloc
    · exact balanced_refl k o _ S
    · simp only [if_true, entries_with, entries_enter]
      unfold Balanced
      rw [inheritEntries_counter]
      simp [HandleTableEntries, hT, CountEntries]

/-! ## Failure of the initialisation -/

theorem insert_failure (P : CONSOLE_PROCESS_DATA) (S : ServerState) (Handle : HANDLE)
    (Object Access : Nat) (Inheritable : Bool) (ShareMode : Nat) (alloc : Bool)
    (h : NT_SUCCESS (Win32CsrInsertObject P S Handle Object Access Inheritable ShareMode
      alloc).1 = false) :
    Win32CsrInsertObject P S Handle Object Access Inheritable ShareMode alloc =
      (NTSTATUS.STATUS_UNSUCCESSFUL, Handle, P, S) := by
  rw [insert_eq] at h ⊢
  split at h
  · rename_i hc
    rw [if_pos hc]
  · simp [NT_SUCCESS] at h

theorem insert_same_except_table (P : CONSOLE_PROCESS_DATA) (S : ServerState) (Handle : HANDLE)
    (Object Access : Nat) (Inheritable : Bool) (ShareMode : Nat) (alloc : Bool) :
    ({ (Win32CsrInsertObject P S Handle Object Access Inheritable ShareMode alloc).2.2.1 with
        HandleTable := none } : CONSOLE_PROCESS_DATA) = { P with HandleTable := none } := by
  rw [insert_eq]
  split <;> rfl

theorem free_leave_enter (P P1 : CONSOLE_PROCESS_DATA) (S : ServerState)
    (h : ({ P1 with HandleTable := none } : CONSOLE_PROCESS_DATA)
      = { RtlEnterCriticalSection P with HandleTable := none }) :
    (Win32CsrFreeHandlesTable (RtlLeaveCriticalSection P1) S).1
      = { P with HandleTable := none } := by
  rw [free_eq]
  cases P
  cases P1
  simp only [RtlEnterCriticalSection, RtlLeaveCriticalSection,
    CONSOLE_PROCESS_DATA.mk.injEq] at h ⊢
  obtain ⟨h1, h2, h3, h4, h5, h6, -, h8⟩ := h
  subst h1 h2 h3 h4 h5 h6 h8
  simp

/-- What `Win32CsrInitHandlesTable` returns when it does not succeed: the
status `STATUS_UNSUCCESSFUL` of the failed insert, the three `OUT` handles as
the caller passed them, and the process data with the `NULL` table. -/
theorem init_failure_shape (P : CONSOLE_PROCESS_DATA) (S : ServerState)
    (pInputHandle pOutputHandle pErrorHandle : HANDLE) (a1 a2 a3 : Bool) (r : InitResult)
    (hr : Win32CsrInitHandlesTable P S pInputHandle pOutputHandle pErrorHandle a1 a2 a3
      = some r)
    (hfail : r.Status ≠ NTSTATUS.STATUS_SUCCESS) :
    r.Status = NTSTATUS.STATUS_UNSUCCESSFUL ∧
    r.InputHandle = pInputHandle ∧ r.OutputHandle = pOutputHandle ∧
    r.ErrorHandle = pErrorHandle ∧
    r.ProcessData = { P with HandleTable := none } := by
  unfold Win32CsrInitHandlesTable at hr
  rcases Option.eq_none_or_eq_some P.Console with hc | ⟨c, hc⟩
  · simp [hc] at hr
  · simp only [hc] at hr
    split_ifs at hr with h1 h2 h3
    · rw [insert_failure _ _ _ _ _ _ _ _ h1] at hr
      simp only [Option.some.injEq] at hr
      subst hr
      exact ⟨rfl, rfl, rfl, rfl, free_leave_enter P _ S rfl⟩
    · rw [insert_failure _ _ _ _ _ _ _ _ h2] at hr
      simp only [Option.some.injEq] at hr
      subst hr
      exact ⟨rfl, rfl, rfl, rfl, free_leave_enter P _ _ (insert_same_except_table _ _ _ _ _ _ _ _)⟩
    · rw [insert_failure _ _ _ _ _ _ _ _ h3] at hr
      simp only [Option.some.injEq] at hr
      subst hr
      refine ⟨rfl, rfl, rfl, rfl, free_leave_enter P _ _ ?_⟩
      rw [insert_same_except_table, insert_same_except_table]
    · simp only [Option.some.injEq] at hr
      subst hr
      exact absurd rfl hfail

theorem balanced_free_leave (k : CounterKind) (o : Nat) (P : CONSOLE_PROCESS_DATA)
    (S : ServerState) :
    Balanced k o (HandleTableEntries P) S
      (HandleTableEntries (Win32CsrFreeHandlesTable (RtlLeaveCriticalSection P) S).1)
      (Win32CsrFreeHandlesTable (RtlLeaveCriticalSection P) S).2 :=
  balanced_free k o (RtlLeaveCriticalSection P) S

theorem balanced_init (k : CounterKind) (o : Nat) (P : CONSOLE_PROCESS_DATA) (S : ServerState)
    (pInputHandle pOutputHandle pErrorHandle : HANDLE) (a1 a2 a3 : Bool) (r : InitResult)
    (hr : Win32CsrInitHandlesTable P S pInputHandle pOutputHandle pErrorHandle a1 a2 a3
      = some r) :
    Balanced k o (HandleTableEntries P) S (HandleTableEntries r.ProcessData) r.State := by
  unfold Win32CsrInitHandlesTable at hr
  rcases Option.eq_none_or_eq_some P.Console with hc | ⟨c, hc⟩
  · simp [hc] at hr
  · simp only [hc] at hr
    have b1 : Balanced k o (HandleTableEntries P) S _ _ :=
      balanced_insert k o (RtlEnterCriticalSection P) S INVALID_HANDLE_VALUE
        (S.Consoles c).InputBuffer (GENERIC_READ ||| GENERIC_WRITE) true
        (FILE_SHARE_READ ||| FILE_SHARE_WRITE) a1
    generalize Win32CsrInsertObject (RtlEnterCriticalSection P) S INVALID_HANDLE_VALUE
      (S.Consoles c).InputBuffer (GENERIC_READ ||| GENERIC_WRITE) true
      (FILE_SHARE_READ ||| FILE_SHARE_WRITE) a1 = r1 at hr b1
    have b2 := balanced_insert k o r1.2.2.1 r1.2.2.2 INVALID_HANDLE_VALUE
      (r1.2.2.2.Consoles c).ActiveBuffer (GENERIC_READ ||| GENERIC_WRITE) true
      (FILE_SHARE_READ ||| FILE_SHARE_WRITE) a2
    generalize Win32CsrInsertObject r1.2.2.1 r1.2.2.2 INVALID_HANDLE_VALUE
      (r1.2.2.2.Consoles c).ActiveBuffer (GENERIC_READ ||| GENERIC_WRITE) true
      (FILE_SHARE_READ ||| FILE_SHARE_WRITE) a2 = r2 at hr b2
    have b3 := balanced_insert k o r2.2.2.1 r2.2.2.2 INVALID_HANDLE_VALUE
      (r2.2.2.2.Consoles c).ActiveBuffer (GENERIC_READ ||| GENERIC_WRITE) true
      (FILE_SHARE_READ ||| FILE_SHARE_WRITE) a3
    generalize Win32CsrInsertObject r2.2.2.1 r2.2.2.2 INVALID_HANDLE_VALUE
      (r2.2.2.2.Consoles c).ActiveBuffer (GENERIC_READ ||| GENERIC_WRITE) true
      (FILE_SHARE_READ ||| FILE_SHARE_WRITE) a3 = r3 at hr b3
    split_ifs at hr with h1 h2 h3
    all_goals
      simp only [Option.some.injEq] at hr
      subst hr
    · exact balanced_trans b1 (balanced_free_leave k o r1.2.2.1 r1.2.2.2)
    · exact balanced_trans (balanced_trans b1 b2) (balanced_free_leave k o r2.2.2.1 r2.2.2.2)
    · exact balanced_trans (balanced_trans (balanced_trans b1 b2) b3)
        (balanced_free_leave k o r3.2.2.1 r3.2.2.2)
    · exact balanced_trans (balanced_trans b1 b2) b3

/-- After a failed `Win32CsrInitHandlesTable` every slot of the table has been
closed, the ones from before the call included: each counter of each object
ends at its value before the call minus the number of slots that the table held
on it before the call. -/
theorem init_failure_counters (P : CONSOLE_PROCESS_DATA) (S : ServerState)
    (pInputHandle pOutputHandle pErrorHandle : HANDLE) (a1 a2 a3 : Bool) (r : InitResult)
    (hr : Win32CsrInitHandlesTable P S pInputHandle pOutputHandle pErrorHandle a1 a2 a3
      = some r)
    (hfail : r.Status ≠ NTSTATUS.STATUS_SUCCESS) (k : CounterKind) (o : Nat) :
    CounterValue k (r.State.Objects o) =
      CounterValue k (S.Objects o) - CountEntries k (HandleTableEntries P) o := by
  obtain ⟨_, _, _, _, hP⟩ :=
    init_failure_shape P S pInputHandle pOutputHandle pErrorHandle a1 a2 a3 r hr hfail
  have hb := balanced_init k o P S pInputHandle pOutputHandle pErrorHandle a1 a2 a3 r hr
  unfold Balanced at hb
  rw [hP] at hb
  have h0 : CountEntries k
      (HandleTableEntries ({ P with HandleTable := none } : CONSOLE_PROCESS_DATA)) o = 0 := rfl
  rw [h0] at hb
  omega

/-- C11: `Win32CsrInitHandlesTable` fails atomically.  It is called on a table
without occupied slot (its caller `Win32CsrAllocateConsole` runs after
`Win32CsrReleaseConsole` has freed the table).  When it does not succeed, one
of its inserts has failed and it returns the status of that insert (every
failed insert returns `STATUS_UNSUCCESSFUL`), leaves the process with the `NULL`
table of size 0, does not write the caller's three handle variables, and every
counter of every object, those of the input buffer and of the active screen
buffer among them, is back at its value before the call. -/
theorem init_failure (P : CONSOLE_PROCESS_DATA) (S : ServerState)
    (pInputHandle pOutputHandle pErrorHandle : HANDLE) (a1 a2 a3 : Bool) (r : InitResult)
    (hempty : ∀ e ∈ HandleTableEntries P, e.Object = none)
    (hr : Win32CsrInitHandlesTable P S pInputHandle pOutputHandle pErrorHandle a1 a2 a3
      = some r)
    (hfail : r.Status ≠ NTSTATUS.STATUS_SUCCESS) :
    r.Status = NTSTATUS.STATUS_UNSUCCESSFUL ∧
    (∀ (P1 : CONSOLE_PROCESS_DATA) (S1 : ServerState) (Handle : HANDLE) (Object Access : Nat)
        (Inheritable : Bool) (ShareMode : Nat) (alloc : Bool),
        NT_SUCCESS (Win32CsrInsertObject P1 S1 Handle Object Access Inheritable ShareMode
          alloc).1 = false →
        (Win32CsrInsertObject P1 S1 Handle Object Access Inheritable ShareMode alloc).1
          = r.Status) ∧
    r.ProcessData.HandleTable = none ∧ HandleTableSize r.ProcessData = 0 ∧
    r.InputHandle = pInputHandle ∧ r.OutputHandle = pOutputHandle ∧
    r.ErrorHandle = pErrorHandle ∧
    (∀ k o, CounterValue k (r.State.Objects o) = CounterValue k (S.Objects o)) ∧
    (∃ (P1 : CONSOLE_PROCESS_DATA) (S1 : ServerState) (Object : Nat) (alloc : Bool),
      NT_SUCCESS (Win32CsrInsertObject P1 S1 INVALID_HANDLE_VALUE Object
        (GENERIC_READ ||| GENERIC_WRITE) true (FILE_SHARE_READ ||| FILE_SHARE_WRITE)
        alloc).1 = false ∧
      r.Status = (Win32CsrInsertObject P1 S1 INVALID_HANDLE_VALUE Object
        (GENERIC_READ ||| GENERIC_WRITE) true (FILE_SHARE_READ ||| FILE_SHARE_WRITE)
        alloc).1) := by
  obtain ⟨hst, hin, hout, herr, hP⟩ :=
    init_failure_shape P S pInputHandle pOutputHandle pErrorHandle a1 a2 a3 r hr hfail
  have hins : ∃ (P1 : CONSOLE_PROCESS_DATA) (S1 : ServerState) (Object : Nat) (alloc : Bool),
      NT_SUCCESS (Win32CsrInsertObject P1 S1 INVALID_HANDLE_VALUE Object
        (GENERIC_READ ||| GENERIC_WRITE) true (FILE_SHARE_READ ||| FILE_SHARE_WRITE)
        alloc).1 = false ∧
      r.Status = (Win32CsrInsertObject P1 S1 INVALID_HANDLE_VALUE Object
        (GENERIC_READ ||| GENERIC_WRITE) true (FILE_SHARE_READ ||| FILE_SHARE_WRITE)
        alloc).1 := by
    unfold Win32CsrInitHandlesTable at hr
    rcases Option.eq_none_or_eq_some P.Console with hc | ⟨c, hc⟩
    · rw [hc] at hr
      exact Option.noConfusion hr
    · rw [hc] at hr
      dsimp only at hr
      split_ifs at hr with h1 h2 h3
      · cases hr
        exact ⟨_, _, _, _, h1, rfl⟩
      · cases hr
        exact ⟨_, _, _, _, h2, rfl⟩
      · cases hr
        exact ⟨_, _, _, _, h3, rfl⟩
      · cases hr
        exact absurd rfl hfail
  refine ⟨hst, ?_, ?_, ?_, hin, hout, herr, ?_, hins⟩
  · intro P1 S1 Handle Object Access Inheritable ShareMode alloc hf
    rw [insert_failure P1 S1 Handle Object Access Inheritable ShareMode alloc hf, hst]
  · rw [hP]
  · rw [hP]
    rfl
  · intro k o
    rw [init_failure_counters P S pInputHandle pOutputHandle pErrorHandle a1 a2 a3 r hr hfail k o,
      countEntries_free k _ o hempty]
    simp

theorem init_failure_witness :
    ∃ r, Win32CsrInitHandlesTable SmallProcess FreshState 1 2 3 true true false = some r ∧
      r.Status ≠ NTSTATUS.STATUS_SUCCESS ∧
      r.ProcessData.HandleTable = none ∧
      r.InputHandle = 1 ∧ r.OutputHandle = 2 ∧ r.ErrorHandle = 3 ∧
      ∀ k o, CounterValue k (r.State.Objects o) = CounterValue k (FreshState.Objects o) :=
  ⟨(Win32CsrInitHandlesTable SmallProcess FreshState 1 2 3 true true false).get (by decide),
    (Option.some_get _).symm, by decide,
    (init_failure SmallProcess FreshState 1 2 3 true true false _ (by decide)
      (Option.some_get _).symm (by decide)).2.2.1,
    (init_failure SmallProcess FreshState 1 2 3 true true false _ (by decide)
      (Option.some_get _).symm (by decide)).2.2.2.2.1,
    (init_failure SmallProcess FreshState 1 2 3 true true false _ (by decide)
      (Option.some_get _).symm (by decide)).2.2.2.2.2.1,
    (init_failure SmallProcess FreshState 1 2 3 true true false _ (by decide)
      (Option.some_get _).symm (by decide)).2.2.2.2.2.2.1,
    (init_failure SmallProcess FreshState 1 2 3 true true false _ (by decide)
      (Option.some_get _).symm (by decide)).2.2.2.2.2.2.2.1⟩

/-! ## Allocation failure of an insert -/

/-- An insert on a table without free slot whose allocation fails returns
`STATUS_UNSUCCESSFUL` and changes nothing. -/
theorem insert_alloc_failure (P : CONSOLE_PROCESS_DATA) (S : ServerState) (Handle : HANDLE)
    (Object Access : Nat) (Inheritable : Bool) (ShareMode : Nat)
    (hfull : ∀ e ∈ HandleTableEntries P, e.Object ≠ none) :
    Win32CsrInsertObject P S Handle Object Access Inheritable ShareMode false =
      (NTSTATUS.STATUS_UNSUCCESSFUL, Handle, P, S) := by
  rw [insert_eq, if_pos]
  exact ⟨by rw [firstFreeSlot_full _ hfull]; exact le_refl _, rfl⟩

/-- C12 (the code at the failing input): on the `NULL` table, the allocation
failing, `Win32CsrInsertObject` returns `STATUS_UNSUCCESSFUL`, which stands for
`Unsuccessful` and not for `ResourceExhausted`; the allocation failure of
`Win32CsrInheritHandlesTable` returns `STATUS_NO_MEMORY`, which does. -/
theorem insert_alloc_failure_status :
    (Win32CsrInsertObject FreshProcess FreshState 0 1 GENERIC_READ true 0 false).1
      = NTSTATUS.STATUS_UNSUCCESSFUL ∧
    ErrorCodeOf (Win32CsrInsertObject FreshProcess FreshState 0 1 GENERIC_READ true 0 false).1
      = some ErrorCode.Unsuccessful ∧
    ErrorCodeOf (Win32CsrInsertObject FreshProcess FreshState 0 1 GENERIC_READ true 0 false).1
      ≠ some ErrorCode.ResourceExhausted ∧
    ErrorCodeOf (Win32CsrInheritHandlesTable ExampleProcess FreshProcess ExampleState false).1
      = some ErrorCode.ResourceExhausted := by
  decide

/-! ## Release -/

/-- The function `Win32CsrReleaseObject` in closed form. -/
theorem release_eq (P : CONSOLE_PROCESS_DATA) (S : ServerState) (Handle : HANDLE) :
    Win32CsrReleaseObject P S Handle =
      if Handle >>> 2 ≥ HandleTableSize P ∨ (HandleTableAt P (Handle >>> 2)).Object = none then
        (NTSTATUS.STATUS_INVALID_HANDLE, P, S)
      else
        (NTSTATUS.STATUS_SUCCESS,
          { P with HandleTable := some ((HandleTableEntries P).set (Handle >>> 2)
              { HandleTableAt P (Handle >>> 2) with Object := none }) },
          (Win32CsrCloseHandleEntry S (HandleTableAt P (Handle >>> 2))).2) := by
  unfold Win32CsrReleaseObject
  simp only [size_enter, at_enter, entries_enter]
  split
  · simp
  · refine Prod.ext rfl (Prod.ext ?_ rfl)
    rw [(close_objects S _).2]
    cases P
    simp [RtlLeaveCriticalSection, RtlEnterCriticalSection]

/-- C13: `Win32CsrReleaseObject` returns `STATUS_INVALID_HANDLE` if and only if
the decoded slot index `Handle >> 2` is not below the table size or the indexed
slot is free, and `STATUS_SUCCESS` in every other case. -/
theorem release_status (P : CONSOLE_PROCESS_DATA) (S : ServerState) (Handle : HANDLE) :
    ((Win32CsrReleaseObject P S Handle).1 = NTSTATUS.STATUS_INVALID_HANDLE ↔
      (Handle >>> 2 ≥ HandleTableSize P ∨ (HandleTableAt P (Handle >>> 2)).Object = none)) ∧
    ((Win32CsrReleaseObject P S Handle).1 = NTSTATUS.STATUS_SUCCESS ↔
      ¬ (Handle >>> 2 ≥ HandleTableSize P ∨
        (HandleTableAt P (Handle >>> 2)).Object = none)) := by
  rw [release_eq]
  split <;> simp_all

theorem entryCount_of_object (k : CounterKind) (e : CONSOLE_IO_HANDLE) (o : Nat)
    (h : e.Object = some o) : EntryCount k e o = if CountsFor k e = true then 1 else 0 := by
  simp [EntryCount, h]

theorem close_objects_other (S : ServerState) (Entry : CONSOLE_IO_HANDLE) (o : Nat)
    (h : Entry.Object ≠ some o) :
    (Win32CsrCloseHandleEntry S Entry).2.Objects o = S.Objects o := by
  rw [(close_objects S Entry).1]
  exact adjust_objects_other S Entry (-1) o h

/-- C14: a successful `Win32CsrReleaseObject` of handle `h` clears slot
`h >> 2` (its `Object` becomes `NULL`, its other fields stay), keeps the table
size and every other slot, lowers the `HandleCount` of the object the slot
referenced by exactly 1, lowers its `AccessRead` / `AccessWrite` by 1 exactly
when the slot's `Access` has `GENERIC_READ` / `GENERIC_WRITE` and its
`ExclusiveRead` / `ExclusiveWrite` by 1 exactly when the slot's `ShareMode`
lacks `FILE_SHARE_READ` / `FILE_SHARE_WRITE`, and leaves every other object as
it was. -/
theorem release_success_effect (P : CONSOLE_PROCESS_DATA) (S : ServerState) (Handle : HANDLE)
    (hok : (Win32CsrReleaseObject P S Handle).1 = NTSTATUS.STATUS_SUCCESS) :
    ∃ o, (HandleTableAt P (Handle >>> 2)).Object = some o ∧
      HandleTableAt (Win32CsrReleaseObject P S Handle).2.1 (Handle >>> 2)
        = { HandleTableAt P (Handle >>> 2) with Object := none } ∧
      HandleTableSize (Win32CsrReleaseObject P S Handle).2.1 = HandleTableSize P ∧
      (∀ j, j ≠ Handle >>> 2 →
        HandleTableAt (Win32CsrReleaseObject P S Handle).2.1 j = HandleTableAt P j) ∧
      ((Win32CsrReleaseObject P S Handle).2.2.Objects o).HandleCount
        = (S.Objects o).HandleCount - 1 ∧
      ((Win32CsrReleaseObject P S Handle).2.2.Objects o).AccessRead
        = (S.Objects o).AccessRead
          - (if (HandleTableAt P (Handle >>> 2)).Access &&& GENERIC_READ ≠ 0 then 1 else 0) ∧
      ((Win32CsrReleaseObject P S Handle).2.2.Objects o).AccessWrite
        = (S.Objects o).AccessWrite
          - (if (HandleTableAt P (Handle >>> 2)).Access &&& GENERIC_WRITE ≠ 0 then 1 else 0) ∧
      ((Win32CsrReleaseObject P S Handle).2.2.Objects o).ExclusiveRead
        = (S.Objects o).ExclusiveRead
          - (if (HandleTableAt P (Handle >>> 2)).ShareMode &&& FILE_SHARE_READ = 0
              then 1 else 0) ∧
      ((Win32CsrReleaseObject P S Handle).2.2.Objects o).ExclusiveWrite
        = (S.Objects o).ExclusiveWrite
          - (if (HandleTableAt P (Handle >>> 2)).ShareMode &&& FILE_SHARE_WRITE = 0
              then 1 else 0) ∧
      (∀ o1, o1 ≠ o →
        (Win32CsrReleaseObject P S Handle).2.2.Objects o1 = S.Objects o1) := by
  rw [release_eq] at hok ⊢
  split at hok
  · simp at hok
  · rename_i hcond
    rw [if_neg hcond]
    push_neg at hcond
    obtain ⟨hlt, hocc⟩ := hcond
    obtain ⟨o, ho⟩ := Option.ne_none_iff_exists'.mp hocc
    have hlt2 : Handle >>> 2 < (HandleTableEntries P).length := hlt
    have hcnt : ∀ k, CounterValue k
        ((Win32CsrCloseHandleEntry S (HandleTableAt P (Handle >>> 2))).2.Objects o)
          = CounterValue k (S.Objects o)
            - (if CountsFor k (HandleTableAt P (Handle >>> 2)) = true then 1 else 0) := by
      intro k
      rw [close_counter, entryCount_of_object k _ o ho]
      split <;> simp
    refine ⟨o, ho, ?_, ?_, ?_, ?_, ?_, ?_, ?_, ?_, ?_⟩
    · unfold HandleTableAt
      rw [entries_with, List.getD_eq_getElem?_getD, List.getElem?_set_self hlt2]
      rfl
    · unfold HandleTableSize
      rw [entries_with, List.length_set]
    · intro j hj
      unfold HandleTableAt
      rw [entries_with, List.getD_eq_getElem?_getD, List.getElem?_set_ne (fun h => hj h.symm),
        List.getD_eq_getElem?_getD]
    · simpa [CounterValue, CountsFor] using hcnt CounterKind.HandleCount
    · simpa [CounterValue, CountsFor] using hcnt CounterKind.AccessRead
    · simpa [CounterValue, CountsFor] using hcnt CounterKind.AccessWrite
    · simpa [CounterValue, CountsFor] using hcnt CounterKind.ExclusiveRead
    · simpa [CounterValue, CountsFor] using hcnt CounterKind.ExclusiveWrite
    · intro o1 ho1
      exact close_objects_other S _ o1 (by rw [ho]; exact fun h => ho1 (Option.some.inj h).symm)

theorem release_success_effect_witness :
    (Win32CsrReleaseObject ExampleProcess ExampleState 3).1 = NTSTATUS.STATUS_SUCCESS ∧
    ∃ o, (HandleTableAt ExampleProcess (3 >>> 2)).Object = some o ∧
      HandleTableAt (Win32CsrReleaseObject ExampleProcess ExampleState 3).2.1 (3 >>> 2)
        = { HandleTableAt ExampleProcess (3 >>> 2) with Object := none } ∧
      ((Win32CsrReleaseObject ExampleProcess ExampleState 3).2.2.Objects o).HandleCount
        = (ExampleState.Objects o).HandleCount - 1 :=
  ⟨by decide,
    (release_success_effect ExampleProcess ExampleState 3 (by decide)).imp
      (fun _ h => ⟨h.1, h.2.1, h.2.2.2.2.1⟩)⟩

/-! ## The deletion cascade -/

theorem flink_append (l1 l2 : List Nat) (p : Nat) (h : p ∉ l1) :
    ListEntry_Flink (l1 ++ p :: l2) p = l2.head? := by
  induction l1 with
  | nil => simp [ListEntry_Flink]
  | cons a l1 ih =>
    have ha : a ≠ p := fun hap => h (by simp [hap])
    have hp : p ∉ l1 := fun hp => h (List.mem_cons_of_mem _ hp)
    simp [ListEntry_Flink, ha, ih hp]

/-- In a ring without repetition, the two links of a member are equal exactly
when the member is the only one: both then point to the list head. -/
theorem links_differ_iff (ring : List Nat) (p : Nat) (hmem : p ∈ ring) (hnd : ring.Nodup) :
    ListEntry_Flink ring p ≠ ListEntry_Blink ring p ↔ ring ≠ [p] := by
  obtain ⟨l1, l2, rfl⟩ := List.append_of_mem hmem
  have hnd2 := List.nodup_append.mp hnd
  have hp1 : p ∉ l1 := fun h => hnd2.2.2 h (List.mem_cons_self _ _)
  have hp2 : p ∉ l2 := (List.nodup_cons.mp hnd2.2.1).1
  have hf : ListEntry_Flink (l1 ++ p :: l2) p = l2.head? := flink_append l1 l2 p hp1
  have hb : ListEntry_Blink (l1 ++ p :: l2) p = l1.reverse.head? := by
    unfold ListEntry_Blink
    rw [List.reverse_append, List.reverse_cons, List.append_assoc]
    exact flink_append l2.reverse l1.reverse p (by simpa using hp2)
  rw [hf, hb]
  constructor
  · intro hne heq
    apply hne
    cases l1 with
    | nil =>
      cases l2 with
      | nil => rfl
      | cons b l2 => simp at heq
    | cons a l1 => simp at heq
  · intro hne heq
    cases l2 with
    | nil =>
      cases l1 with
      | nil => exact hne rfl
      | cons a l1 =>
        have : (a :: l1).reverse ≠ [] := by simp
        rw [List.head?_nil] at heq
        exact this (List.head?_eq_none_iff.mp heq.symm)
    | cons b l2 =>
      rw [List.head?_cons] at heq
      have hb1 : b ∈ l1.reverse := List.mem_of_mem_head? heq.symm
      exact hnd2.2.2 (List.mem_reverse.mp hb1) (List.mem_cons_of_mem _ (List.mem_cons_self _ _))

theorem adjust_returns (S : ServerState) (Entry : CONSOLE_IO_HANDLE) (Change : Int) (p : Nat)
    (h : Entry.Object = some p) :
    (AdjustHandleCounts S Entry Change).1 = (S.Objects p).HandleCount + Change := by
  unfold AdjustHandleCounts
  simp [h]

/-- C15: closing a slot that references object `p` (a screen buffer being a
member of the ring of its console, the ring without repetition) calls
`ConioDeleteScreenBuffer`, once and on `p`, exactly when `p` is a screen buffer,
its `HandleCount` after the decrement is 0 and it is not the sole buffer of the
ring; in every other case no destructor is called.  So the last handle of a
non-sole screen buffer deletes it, the last handle of the sole buffer does not,
and an input buffer is never deleted. -/
theorem close_deletes_iff (S : ServerState) (Entry : CONSOLE_IO_HANDLE) (p : Nat)
    (hobj : Entry.Object = some p)
    (hring : (S.Objects p).Type_ = CONIO_SCREEN_BUFFER_MAGIC →
      p ∈ (S.Consoles (S.Objects p).Console).BufferList ∧
      (S.Consoles (S.Objects p).Console).BufferList.Nodup) :
    (Win32CsrCloseHandleEntry S Entry).2.DeletedScreenBuffers =
        S.DeletedScreenBuffers ++
          (if (S.Objects p).Type_ = CONIO_SCREEN_BUFFER_MAGIC ∧
              (S.Objects p).HandleCount - 1 = 0 ∧
              (S.Consoles (S.Objects p).Console).BufferList ≠ [p]
            then [p] else []) ∧
    ((S.Objects p).Type_ = CONIO_INPUT_BUFFER_MAGIC →
      (Win32CsrCloseHandleEntry S Entry).2.DeletedScreenBuffers = S.DeletedScreenBuffers) ∧
    (Win32CsrCloseHandleEntry S Entry).2.DeletedConsoles = S.DeletedConsoles := by
  have hadj := adjust_consoles S Entry (-1)
  have hty := adjust_type S Entry (-1) p
  have hret := adjust_returns S Entry (-1) p hobj
  have main : (Win32CsrCloseHandleEntry S Entry).2.DeletedScreenBuffers =
      S.DeletedScreenBuffers ++
        (if (S.Objects p).Type_ = CONIO_SCREEN_BUFFER_MAGIC ∧
            (S.Objects p).HandleCount - 1 = 0 ∧
            (S.Consoles (S.Objects p).Console).BufferList ≠ [p]
          then [p] else []) := by
    unfold Win32CsrCloseHandleEntry
    simp only [hobj, hret, hty.1, hty.2, hadj.1]
    by_cases h0 : (S.Objects p).HandleCount + -1 = 0
    · have h0b : (S.Objects p).HandleCount - 1 = 0 := by omega
      by_cases hT : (S.Objects p).Type_ = CONIO_SCREEN_BUFFER_MAGIC
      · obtain ⟨hmem, hnd⟩ := hring hT
        have hiff := links_differ_iff _ p hmem hnd
        by_cases hsole : (S.Consoles (S.Objects p).Console).BufferList = [p]
        · have hl : ¬ (ListEntry_Flink (S.Consoles (S.Objects p).Console).BufferList p ≠
              ListEntry_Blink (S.Consoles (S.Objects p).Console).BufferList p) :=
            fun h => hiff.mp h hsole
          simp only [h0, hT, if_true, if_neg hl]
          simp [hadj.2.1, hsole]
        · have hl := hiff.mpr hsole
          simp only [h0, hT, if_true, if_pos hl]
          simp [ConioDeleteScreenBuffer, hadj.2.1, h0b, hsole]
      · simp [h0, hT, hadj.2.1]
    · have h0b : ¬ (S.Objects p).HandleCount - 1 = 0 := by omega
      simp [h0, h0b, hadj.2.1]
  refine ⟨main, ?_, ?_⟩
  · intro hin
    rw [main, if_neg]
    · simp
    · rintro ⟨hT, -⟩
      rw [hin] at hT
      exact absurd hT (by decide)
  · unfold Win32CsrCloseHandleEntry
    simp only [hobj]
    split_ifs <;> exact hadj.2.2

theorem close_deletes_iff_witness :
    (ExampleState.Objects 1).Type_ = CONIO_SCREEN_BUFFER_MAGIC ∧
    (ExampleState.Objects 1).HandleCount = 1 ∧
    (ExampleState.Consoles (ExampleState.Objects 1).Console).BufferList = [1, 2] ∧
    (Win32CsrCloseHandleEntry ExampleState ⟨some 1, GENERIC_READ, true, 0⟩).2.DeletedScreenBuffers
      = [1] :=
  ⟨rfl, rfl, rfl,
    (close_deletes_iff ExampleState ⟨some 1, GENERIC_READ, true, 0⟩ 1 rfl
      (fun _ => ⟨by decide, by decide⟩)).1.trans (by decide)⟩

/-! ## AdjustHandleCounts -/

/-- C16: `AdjustHandleCounts(Entry, Change)` on a slot that references object
`p` adds `Change` to `AccessRead` exactly when the slot's `Access` has
`GENERIC_READ`, to `AccessWrite` exactly when it has `GENERIC_WRITE`, to
`ExclusiveRead` exactly when the slot's `ShareMode` lacks `FILE_SHARE_READ`, to
`ExclusiveWrite` exactly when it lacks `FILE_SHARE_WRITE`, always adds `Change`
to `HandleCount`, keeps the type and console of `p`, every other object, every
console and the destructor records, and returns the new `HandleCount`; this
holds for every `Change`, so for `+1` and `-1`. -/
theorem adjust_effect (S : ServerState) (Entry : CONSOLE_IO_HANDLE) (Change : Int) (p : Nat)
    (hobj : Entry.Object = some p) :
    (AdjustHandleCounts S Entry Change).2.Objects p =
      { Type_ := (S.Objects p).Type_
        Console := (S.Objects p).Console
        AccessRead := (S.Objects p).AccessRead
          + (if Entry.Access &&& GENERIC_READ ≠ 0 then Change else 0)
        AccessWrite := (S.Objects p).AccessWrite
          + (if Entry.Access &&& GENERIC_WRITE ≠ 0 then Change else 0)
        ExclusiveRead := (S.Objects p).ExclusiveRead
          + (if Entry.ShareMode &&& FILE_SHARE_READ = 0 then Change else 0)
        ExclusiveWrite := (S.Objects p).ExclusiveWrite
          + (if Entry.ShareMode &&& FILE_SHARE_WRITE = 0 then Change else 0)
        HandleCount := (S.Objects p).HandleCount + Change } ∧
    (∀ o, o ≠ p → (AdjustHandleCounts S Entry Change).2.Objects o = S.Objects o) ∧
    (AdjustHandleCounts S Entry Change).2.Consoles = S.Consoles ∧
    (AdjustHandleCounts S Entry Change).2.DeletedScreenBuffers = S.DeletedScreenBuffers ∧
    (AdjustHandleCounts S Entry Change).2.DeletedConsoles = S.DeletedConsoles ∧
    (AdjustHandleCounts S Entry Change).1 = (S.Objects p).HandleCount + Change ∧
    (AdjustHandleCounts S Entry Change).1
      = ((AdjustHandleCounts S Entry Change).2.Objects p).HandleCount := by
  have hc := adjust_consoles S Entry Change
  refine ⟨?_, ?_, hc.1, hc.2.1, hc.2.2, adjust_returns S Entry Change p hobj, ?_⟩
  · unfold AdjustHandleCounts
    simp only [hobj, Function.update_same, Object_t.mk.injEq, true_and]
    refine ⟨?_, ?_, ?_, ?_⟩ <;> split <;> simp
  · intro o ho
    exact adjust_objects_other S Entry Change o
      (by rw [hobj]; exact fun h => ho (Option.some.inj h).symm)
  · unfold AdjustHandleCounts
    simp [hobj]

theorem adjust_effect_witness :
    (⟨some 1, GENERIC_READ, true, FILE_SHARE_READ⟩ : CONSOLE_IO_HANDLE).Object = some 1 ∧
    (AdjustHandleCounts ExampleState ⟨some 1, GENERIC_READ, true, FILE_SHARE_READ⟩ (-1)).2.Objects 1
      = ⟨CONIO_SCREEN_BUFFER_MAGIC, 0, 0, 0, 1, 0, 0⟩ ∧
    (AdjustHandleCounts ExampleState ⟨some 1, GENERIC_READ, true, FILE_SHARE_READ⟩ (-1)).1 = 0 :=
  ⟨rfl,
    (adjust_effect ExampleState ⟨some 1, GENERIC_READ, true, FILE_SHARE_READ⟩ (-1) 1 rfl).1.trans
      (by decide),
    (adjust_effect ExampleState ⟨some 1, GENERIC_READ, true, FILE_SHARE_READ⟩ (-1) 1
      rfl).2.2.2.2.2.1.trans (by decide)⟩

/-! ## Inherit -/

theorem inherit_source (Source Target : CONSOLE_PROCESS_DATA) (S : ServerState)
    (alloc : Bool) : (Win32CsrInheritHandlesTable Source Target S alloc).2.1 = Source := by
  unfold Win32CsrInheritHandlesTable
  cases Target.HandleTable with
  | some t => simp
  | none => cases alloc <;> simp

/-- Counterexample to C18 as written: inheriting onto the one-slot table of
`ExampleProcess` returns `STATUS_UNSUCCESSFUL`, the generic failure status, and
no status of the file stands for `AlreadyInitialized`. -/
theorem inherit_onto_table_counterexample :
    0 < HandleTableSize ExampleProcess ∧
    (Win32CsrInheritHandlesTable ExampleProcess ExampleProcess ExampleState true).1
      = NTSTATUS.STATUS_UNSUCCESSFUL ∧
    ErrorCodeOf (Win32CsrInheritHandlesTable ExampleProcess ExampleProcess ExampleState true).1
      ≠ some ErrorCode.AlreadyInitialized := by
  decide

/-- C18 (amended): `Win32CsrInheritHandlesTable` onto a target whose table is
non-empty (or, more generally, allocated: the code tests the table pointer
only) returns `STATUS_UNSUCCESSFUL`, the `Unsuccessful` error, whatever the
allocation would do, and changes neither the target, nor the source, nor the
server state (so no counter of any object). -/
theorem inherit_onto_table (Source Target : CONSOLE_PROCESS_DATA) (S : ServerState)
    (alloc : Bool) (h : 0 < HandleTableSize Target ∨ Target.HandleTable ≠ none) :
    Win32CsrInheritHandlesTable Source Target S alloc
      = (NTSTATUS.STATUS_UNSUCCESSFUL, Source, Target, S) ∧
    ErrorCodeOf (Win32CsrInheritHandlesTable Source Target S alloc).1
      = some ErrorCode.Unsuccessful := by
  have hT : Target.HandleTable ≠ none := by
    rcases h with h | h
    · intro hnone
      simp [HandleTableSize, HandleTableEntries, hnone] at h
    · exact h
  obtain ⟨t, ht⟩ := Option.ne_none_iff_exists'.mp hT
  have heq : Win32CsrInheritHandlesTable Source Target S alloc
      = (NTSTATUS.STATUS_UNSUCCESSFUL, Source, Target, S) := by
    unfold Win32CsrInheritHandlesTable
    simp [ht]
  exact ⟨heq, by rw [heq]; rfl⟩

theorem inherit_onto_table_witness :
    (0 < HandleTableSize ExampleProcess ∨ ExampleProcess.HandleTable ≠ none) ∧
    Win32CsrInheritHandlesTable BusyProcess ExampleProcess ExampleState true
      = (NTSTATUS.STATUS_UNSUCCESSFUL, BusyProcess, ExampleProcess, ExampleState) :=
  ⟨Or.inl (by decide),
    (inherit_onto_table BusyProcess ExampleProcess ExampleState true (Or.inl (by decide))).1⟩

theorem countEntries_handleCount (t : List CONSOLE_IO_HANDLE) (o : Nat) :
    CountEntries CounterKind.HandleCount t o = OpenEntries t o := by
  unfold CountEntries OpenEntries
  simp [CountsFor]

theorem countEntries_inherited (t : List CONSOLE_IO_HANDLE) (o : Nat) :
    CountEntries CounterKind.HandleCount (t.map InheritedSlot) o =
      t.countP (fun e => decide (e.Object = some o) && e.Inheritable) := by
  induction t with
  | nil => rfl
  | cons e t ih =>
    rw [List.map_cons, countEntries_cons, ih, List.countP_cons]
    congr 1
    unfold EntryCount InheritedSlot CountsFor
    cases h1 : e.Object <;> cases h2 : e.Inheritable <;> simp [ZeroEntry, h1]

/-- The function `Win32CsrInheritHandlesTable` on a target with the `NULL`
table, the allocation succeeding. -/
theorem inherit_eq_success (Source Target : CONSOLE_PROCESS_DATA) (S : ServerState)
    (hT : Target.HandleTable = none) :
    Win32CsrInheritHandlesTable Source Target S true =
      (NTSTATUS.STATUS_SUCCESS, Source,
        TargetWithTable Target ((HandleTableEntries Source).map InheritedSlot),
        (InheritEntries S (HandleTableEntries Source)).2) := by
  unfold Win32CsrInheritHandlesTable TargetWithTable
  simp [hT, inheritEntries_list]

/-- C19: after a successful `Win32CsrInheritHandlesTable` the target table was
`NULL` before, the target size equals the source size, the target slot at every
index below that size equals the source slot when that one is occupied and
inheritable and is a zeroed (free) slot otherwise, the source is unchanged, and
the `HandleCount` of every object grew by exactly the number of occupied
inheritable source slots that reference it. -/
theorem inherit_success (Source Target : CONSOLE_PROCESS_DATA) (S : ServerState)
    (alloc : Bool)
    (hok : (Win32CsrInheritHandlesTable Source Target S alloc).1 = NTSTATUS.STATUS_SUCCESS) :
    Target.HandleTable = none ∧
    HandleTableSize (Win32CsrInheritHandlesTable Source Target S alloc).2.2.1
      = HandleTableSize Source ∧
    (∀ i, i < HandleTableSize Source →
      (((HandleTableAt Source i).Object ≠ none ∧ (HandleTableAt Source i).Inheritable = true) →
        HandleTableAt (Win32CsrInheritHandlesTable Source Target S alloc).2.2.1 i
          = HandleTableAt Source i) ∧
      (¬ ((HandleTableAt Source i).Object ≠ none ∧
          (HandleTableAt Source i).Inheritable = true) →
        HandleTableAt (Win32CsrInheritHandlesTable Source Target S alloc).2.2.1 i
            = ZeroEntry ∧
          (HandleTableAt (Win32CsrInheritHandlesTable Source Target S alloc).2.2.1
            i).Object = none)) ∧
    (Win32CsrInheritHandlesTable Source Target S alloc).2.1 = Source ∧
    (∀ o, ((Win32CsrInheritHandlesTable Source Target S alloc).2.2.2.Objects o).HandleCount
      = (S.Objects o).HandleCount
        + (HandleTableEntries Source).countP
            (fun e => decide (e.Object = some o) && e.Inheritable)) := by
  have hT : Target.HandleTable = none := by
    unfold Win32CsrInheritHandlesTable at hok
    cases hT : Target.HandleTable with
    | some t => simp [hT] at hok
    | none => rfl
  have halloc : alloc = true := by
    unfold Win32CsrInheritHandlesTable at hok
    cases alloc with
    | false => simp [hT] at hok
    | true => rfl
  subst halloc
  rw [inherit_eq_success Source Target S hT]
  have hat : ∀ i, i < HandleTableSize Source →
      HandleTableAt (TargetWithTable Target ((HandleTableEntries Source).map InheritedSlot)) i
        = InheritedSlot (HandleTableAt Source i) := by
    intro i hi
    unfold HandleTableAt TargetWithTable
    unfold HandleTableSize at hi
    rw [entries_with, List.getD_eq_getElem?_getD, List.getD_eq_getElem?_getD,
      List.getElem?_map, List.getElem?_eq_getElem hi]
    rfl
  refine ⟨hT, ?_, ?_, rfl, ?_⟩
  · unfold HandleTableSize TargetWithTable
    rw [entries_with, List.length_map]
  · intro i hi
    constructor
    · intro hc
      rw [hat i hi, InheritedSlot, if_pos hc]
    · intro hc
      rw [hat i hi, InheritedSlot, if_neg hc]
      exact ⟨rfl, rfl⟩
  · intro o
    have hcnt := inheritEntries_counter CounterKind.HandleCount o (HandleTableEntries Source) S
    rw [inheritEntries_list, countEntries_inherited] at hcnt
    exact hcnt

theorem inherit_success_witness :
    (Win32CsrInheritHandlesTable ExampleProcess FreshProcess ExampleState true).1
      = NTSTATUS.STATUS_SUCCESS ∧
    HandleTableSize (Win32CsrInheritHandlesTable ExampleProcess FreshProcess ExampleState
      true).2.2.1 = HandleTableSize ExampleProcess ∧
    ((Win32CsrInheritHandlesTable ExampleProcess FreshProcess ExampleState
      true).2.2.2.Objects 1).HandleCount = 2 :=
  ⟨by decide,
    (inherit_success ExampleProcess FreshProcess ExampleState true (by decide)).2.1,
    ((inherit_success ExampleProcess FreshProcess ExampleState true
      (by decide)).2.2.2.2 1).trans (by decide)⟩

/-! ## Freeing a table -/

/-- C20: `Win32CsrFreeHandlesTable` leaves the process with the `NULL` table
and size 0 (its other fields as they were), having closed every occupied slot
once: the `HandleCount` of every object drops by the number of slots that
referenced it (and each of its other counters by the number of slots it
counted); a second call changes nothing. -/
theorem free_all (P : CONSOLE_PROCESS_DATA) (S : ServerState) :
    (Win32CsrFreeHandlesTable P S).1 = { P with HandleTable := none } ∧
    (Win32CsrFreeHandlesTable P S).1.HandleTable = none ∧
    HandleTableSize (Win32CsrFreeHandlesTable P S).1 = 0 ∧
    (∀ o, ((Win32CsrFreeHandlesTable P S).2.Objects o).HandleCount
      = (S.Objects o).HandleCount - OpenEntries (HandleTableEntries P) o) ∧
    (∀ k o, CounterValue k ((Win32CsrFreeHandlesTable P S).2.Objects o)
      = CounterValue k (S.Objects o) - CountEntries k (HandleTableEntries P) o) ∧
    Win32CsrFreeHandlesTable (Win32CsrFreeHandlesTable P S).1 (Win32CsrFreeHandlesTable P S).2
      = Win32CsrFreeHandlesTable P S := by
  have hcnt : ∀ k o, CounterValue k ((Win32CsrFreeHandlesTable P S).2.Objects o)
      = CounterValue k (S.Objects o) - CountEntries k (HandleTableEntries P) o := by
    intro k o
    rw [free_eq]
    exact closeAll_counter k o _ S
  refine ⟨by rw [free_eq], by rw [free_eq], by rw [free_eq]; rfl, ?_, hcnt, ?_⟩
  · intro o
    have := hcnt CounterKind.HandleCount o
    rw [countEntries_handleCount] at this
    exact this
  · rw [free_eq (Win32CsrFreeHandlesTable P S).1, free_eq P S]
    rfl

/-! ## The counters over all processes -/

theorem totalEntries_set (k : CounterKind) (o : Nat) (Ps : List CONSOLE_PROCESS_DATA)
    (i : Nat) (P P1 : CONSOLE_PROCESS_DATA) (hP : Ps[i]? = some P) :
    TotalEntries k (Ps.set i P1) o + CountEntries k (HandleTableEntries P) o =
      TotalEntries k Ps o + CountEntries k (HandleTableEntries P1) o := by
  induction Ps generalizing i with
  | nil => simp at hP
  | cons Q Ps ih =>
    cases i with
    | zero =>
      simp only [List.getElem?_cons_zero, Option.some.injEq] at hP
      subst hP
      simp only [TotalEntries, List.set_cons_zero, List.map_cons, List.sum_cons]
      omega
    | succ i =>
      simp only [List.getElem?_cons_succ] at hP
      have := ih i hP
      simp only [TotalEntries, List.set_cons_succ, List.map_cons, List.sum_cons] at this ⊢
      omega

theorem set_same (Ps : List CONSOLE_PROCESS_DATA) (i : Nat) (P : CONSOLE_PROCESS_DATA)
    (hP : Ps[i]? = some P) : Ps.set i P = Ps := by
  induction Ps generalizing i with
  | nil => rfl
  | cons Q Ps ih =>
    cases i with
    | zero =>
      simp only [List.getElem?_cons_zero, Option.some.injEq] at hP
      rw [hP, List.set_cons_zero]
    | succ i =>
      simp only [List.getElem?_cons_succ] at hP
      rw [List.set_cons_succ, ih i hP]

/-- A call that keeps one process and the state in step keeps the counters
equal to the totals over all processes. -/
theorem totals_update (Ps : List CONSOLE_PROCESS_DATA) (S S1 : ServerState) (i : Nat)
    (P P1 : CONSOLE_PROCESS_DATA) (hP : Ps[i]? = some P)
    (hb : ∀ k o, Balanced k o (HandleTableEntries P) S (HandleTableEntries P1) S1)
    (hinv : ∀ k o, CounterValue k (S.Objects o) = TotalEntries k Ps o) (k : CounterKind)
    (o : Nat) :
    CounterValue k (S1.Objects o) = TotalEntries k (Ps.set i P1) o := by
  have h1 := totalEntries_set k o Ps i P P1 hP
  have h2 := hb k o
  have h3 := hinv k o
  unfold Balanced at h2
  omega

theorem step_keeps_totals (W : World) (op : WorldOp)
    (hinv : ∀ k o, CounterValue k (W.State.Objects o) = TotalEntries k W.Processes o)
    (k : CounterKind) (o : Nat) :
    CounterValue k ((StepWorldOp W op).State.Objects o) =
      TotalEntries k (StepWorldOp W op).Processes o := by
  cases op with
  | Insert pid Object Access Inheritable ShareMode alloc =>
    rcases hP : W.Processes[pid]? with _ | P
    · simp only [StepWorldOp, hP]
      exact hinv k o
    · simp only [StepWorldOp, hP]
      exact totals_update W.Processes W.State _ pid P _ hP
        (fun k o => balanced_insert k o P W.State _ Object Access Inheritable ShareMode alloc)
        hinv k o
  | Release pid Handle =>
    rcases hP : W.Processes[pid]? with _ | P
    · simp only [StepWorldOp, hP]
      exact hinv k o
    · simp only [StepWorldOp, hP]
      exact totals_update W.Processes W.State _ pid P _ hP
        (fun k o => balanced_release k o P W.State Handle) hinv k o
  | Inherit src dst alloc =>
    rcases hS : W.Processes[src]? with _ | Source
    · simp only [StepWorldOp, hS]
      exact hinv k o
    · rcases hT : W.Processes[dst]? with _ | Target
      · simp only [StepWorldOp, hS, hT]
        exact hinv k o
      · simp only [StepWorldOp, hS, hT]
        rw [inherit_source, set_same W.Processes src Source hS]
        exact totals_update W.Processes W.State _ dst Target _ hT
          (fun k o => balanced_inherit k o Source Target W.State alloc) hinv k o
  | FreeAll pid =>
    rcases hP : W.Processes[pid]? with _ | P
    · simp only [StepWorldOp, hP]
      exact hinv k o
    · simp only [StepWorldOp, hP]
      exact totals_update W.Processes W.State _ pid P _ hP
        (fun k o => balanced_free k o P W.State) hinv k o
  | Init pid a1 a2 a3 =>
    rcases hP : W.Processes[pid]? with _ | P
    · simp only [StepWorldOp, hP]
      exact hinv k o
    · rcases hr : Win32CsrInitHandlesTable P W.State INVALID_HANDLE_VALUE INVALID_HANDLE_VALUE
          INVALID_HANDLE_VALUE a1 a2 a3 with _ | r
      · simp only [StepWorldOp, hP, hr]
        exact hinv k o
      · simp only [StepWorldOp, hP, hr]
        exact totals_update W.Processes W.State _ pid P _ hP
          (fun k o => balanced_init k o P W.State _ _ _ a1 a2 a3 r hr) hinv k o

theorem run_keeps_totals (ops : List WorldOp) (W : World)
    (hinv : ∀ k o, CounterValue k (W.State.Objects o) = TotalEntries k W.Processes o)
    (k : CounterKind) (o : Nat) :
    CounterValue k ((RunWorldOps W ops).State.Objects o) =
      TotalEntries k (RunWorldOps W ops).Processes o := by
  induction ops generalizing W with
  | nil => exact hinv k o
  | cons op ops ih =>
    unfold RunWorldOps
    rw [List.foldl_cons]
    exact ih (StepWorldOp W op) (fun k o => step_keeps_totals W op hinv k o)

theorem totalEntries_free (k : CounterKind) (o : Nat) (Ps : List CONSOLE_PROCESS_DATA)
    (h : ∀ P ∈ Ps, ∀ e ∈ HandleTableEntries P, e.Object = none) : TotalEntries k Ps o = 0 := by
  induction Ps with
  | nil => rfl
  | cons Q Ps ih =>
    simp only [TotalEntries, List.map_cons, List.sum_cons]
    rw [countEntries_free k _ o (h Q (List.mem_cons_self _ _))]
    have := ih (fun P hP => h P (List.mem_cons_of_mem _ hP))
    simp only [TotalEntries] at this
    omega

/-- C17: starting from tables without occupied slot and counters at 0, after
any sequence of `Win32CsrInsertObject`, `Win32CsrReleaseObject`,
`Win32CsrInheritHandlesTable`, `Win32CsrFreeHandlesTable` and
`Win32CsrInitHandlesTable` calls on any processes, for every object `o`:
`HandleCount` is the number of occupied slots referencing `o` over all tables,
`AccessRead` / `AccessWrite` the number of those slots whose `Access` has
`GENERIC_READ` / `GENERIC_WRITE`, and `ExclusiveRead` / `ExclusiveWrite` the
number of those slots whose `ShareMode` lacks `FILE_SHARE_READ` /
`FILE_SHARE_WRITE`. -/
theorem counters_count_all_tables (W0 : World) (ops : List WorldOp)
    (hempty : ∀ P ∈ W0.Processes, ∀ e ∈ HandleTableEntries P, e.Object = none)
    (hzero : ∀ k o, CounterValue k (W0.State.Objects o) = 0) (o : Nat) :
    ((RunWorldOps W0 ops).State.Objects o).HandleCount =
      (((RunWorldOps W0 ops).Processes.map (fun P =>
        (HandleTableEntries P).countP (fun e => decide (e.Object = some o)))).sum : Nat) ∧
    ((RunWorldOps W0 ops).State.Objects o).AccessRead =
      (((RunWorldOps W0 ops).Processes.map (fun P =>
        (HandleTableEntries P).countP (fun e =>
          decide (e.Object = some o) && decide (e.Access &&& GENERIC_READ ≠ 0)))).sum : Nat) ∧
    ((RunWorldOps W0 ops).State.Objects o).AccessWrite =
      (((RunWorldOps W0 ops).Processes.map (fun P =>
        (HandleTableEntries P).countP (fun e =>
          decide (e.Object = some o) && decide (e.Access &&& GENERIC_WRITE ≠ 0)))).sum : Nat) ∧
    ((RunWorldOps W0 ops).State.Objects o).ExclusiveRead =
      (((RunWorldOps W0 ops).Processes.map (fun P =>
        (HandleTableEntries P).countP (fun e =>
          decide (e.Object = some o) && decide (e.ShareMode &&& FILE_SHARE_READ = 0)))).sum
        : Nat) ∧
    ((RunWorldOps W0 ops).State.Objects o).ExclusiveWrite =
      (((RunWorldOps W0 ops).Processes.map (fun P =>
        (HandleTableEntries P).countP (fun e =>
          decide (e.Object = some o) && decide (e.ShareMode &&& FILE_SHARE_WRITE = 0)))).sum
        : Nat) := by
  have hinit : ∀ k o, CounterValue k (W0.State.Objects o) = TotalEntries k W0.Processes o := by
    intro k o
    rw [hzero k o, totalEntries_free k o _ hempty]
    rfl
  have hrun := fun k => run_keeps_totals ops W0 hinit k o
  refine ⟨?_, hrun CounterKind.AccessRead, hrun CounterKind.AccessWrite,
    hrun CounterKind.ExclusiveRead, hrun CounterKind.ExclusiveWrite⟩
  have h := hrun CounterKind.HandleCount
  simp only [TotalEntries, countEntries_handleCount] at h
  exact h

theorem counters_count_all_tables_witness :
    (∀ P ∈ FreshWorld.Processes, ∀ e ∈ HandleTableEntries P, e.Object = none) ∧
    ((RunWorldOps FreshWorld
        [WorldOp.Init 0 true true true, WorldOp.Inherit 0 1 true, WorldOp.Release 1 7,
          WorldOp.Insert 1 2 GENERIC_WRITE false 0 true, WorldOp.FreeAll 0]).State.Objects
        1).HandleCount = 1 ∧
    ((RunWorldOps FreshWorld
        [WorldOp.Init 0 true true true, WorldOp.Inherit 0 1 true, WorldOp.Release 1 7,
          WorldOp.Insert 1 2 GENERIC_WRITE false 0 true, WorldOp.FreeAll 0]).State.Objects
        1).AccessRead = 1 :=
  ⟨by decide,
    (counters_count_all_tables FreshWorld _ (by decide)
      (fun k o => by cases k <;> simp only [CounterValue, FreshWorld, FreshState] <;> split <;> rfl)
      1).1.trans (by decide),
    (counters_count_all_tables FreshWorld _ (by decide)
      (fun k o => by cases k <;> simp only [CounterValue, FreshWorld, FreshState] <;> split <;> rfl)
      1).2.1.trans (by decide)⟩

/-! ## Sessions across the table functions -/

theorem sameSessions_refl (S : ServerState) : SameSessions S S :=
  ⟨fun _ => ⟨rfl, rfl, rfl, rfl, rfl⟩, rfl⟩

theorem sameSessions_trans {S1 S2 S3 : ServerState} (h1 : SameSessions S1 S2)
    (h2 : SameSessions S2 S3) : SameSessions S1 S3 := by
  refine ⟨fun c => ?_, h2.2.trans h1.2⟩
  obtain ⟨a1, a2, a3, a4, a5⟩ := h1.1 c
  obtain ⟨b1, b2, b3, b4, b5⟩ := h2.1 c
  exact ⟨b1.trans a1, b2.trans a2, b3.trans a3, b4.trans a4, b5.trans a5⟩

theorem sameSessions_of_consoles {S S1 : ServerState} (h1 : S1.Consoles = S.Consoles)
    (h2 : S1.DeletedConsoles = S.DeletedConsoles) : SameSessions S S1 :=
  ⟨fun c => by rw [h1]; exact ⟨rfl, rfl, rfl, rfl, rfl⟩, h2⟩

theorem sameSessions_adjust (S : ServerState) (Entry : CONSOLE_IO_HANDLE) (Change : Int) :
    SameSessions S (AdjustHandleCounts S Entry Change).2 :=
  sameSessions_of_consoles (adjust_consoles S Entry Change).1 (adjust_consoles S Entry Change).2.2

theorem sameSessions_create (S : ServerState) (Entry : CONSOLE_IO_HANDLE) :
    SameSessions S (Win32CsrCreateHandleEntry S Entry) :=
  sameSessions_adjust S Entry 1

theorem sameSessions_deleteScreenBuffer (S : ServerState) (b : Nat) :
    SameSessions S (ConioDeleteScreenBuffer S b) := by
  refine ⟨fun c => ?_, rfl⟩
  by_cases h : c = (S.Objects b).Console
  · subst h
    simp [ConioDeleteScreenBuffer]
  · simp [ConioDeleteScreenBuffer, Function.update_noteq h]

theorem sameSessions_close (S : ServerState) (Entry : CONSOLE_IO_HANDLE) :
    SameSessions S (Win32CsrCloseHandleEntry S Entry).2 := by
  unfold Win32CsrCloseHandleEntry
  cases Entry.Object with
  | none => exact sameSessions_refl S
  | some p =>
    have h := sameSessions_adjust S Entry (-1)
    dsimp only
    split_ifs
    · exact sameSessions_trans h (sameSessions_deleteScreenBuffer _ p)
    all_goals exact h

theorem sameSessions_closeAll (t : List CONSOLE_IO_HANDLE) (S : ServerState) :
    SameSessions S (CloseAllEntries S t).2 := by
  induction t generalizing S with
  | nil => exact sameSessions_refl S
  | cons e t ih =>
    exact sameSessions_trans (sameSessions_close S e) (ih _)

theorem sameSessions_free (P : CONSOLE_PROCESS_DATA) (S : ServerState) :
    SameSessions S (Win32CsrFreeHandlesTable P S).2 := by
  rw [free_eq]
  exact sameSessions_closeAll _ S

theorem sameSessions_insert (P : CONSOLE_PROCESS_DATA) (S : ServerState) (Handle : HANDLE)
    (Object Access : Nat) (Inheritable : Bool) (ShareMode : Nat) (alloc : Bool) :
    SameSessions S
      (Win32CsrInsertObject P S Handle Object Access Inheritable ShareMode alloc).2.2.2 := by
  rw [insert_eq]
  split
  · exact sameSessions_refl S
  · exact sameSessions_create S _

theorem sameSessions_inheritEntries (t : List CONSOLE_IO_HANDLE) (S : ServerState) :
    SameSessions S (InheritEntries S t).2 := by
  induction t generalizing S with
  | nil => exact sameSessions_refl S
  | cons e t ih =>
    unfold InheritEntries
    split_ifs
    · exact sameSessions_trans (sameSessions_create S e) (ih _)
    · exact ih S

theorem sameSessions_inherit (Source Target : CONSOLE_PROCESS_DATA) (S : ServerState)
    (alloc : Bool) :
    SameSessions S (Win32CsrInheritHandlesTable Source Target S alloc).2.2.2 := by
  unfold Win32CsrInheritHandlesTable
  cases Target.HandleTable with
  | some t => exact sameSessions_refl S
  | none =>
    cases alloc
    · exact sameSessions_refl S
    · exact sameSessions_inheritEntries _ S

theorem sameSessions_init (P : CONSOLE_PROCESS_DATA) (S : ServerState)
    (pInputHandle pOutputHandle pErrorHandle : HANDLE) (a1 a2 a3 : Bool) (r : InitResult)
    (hr : Win32CsrInitHandlesTable P S pInputHandle pOutputHandle pErrorHandle a1 a2 a3
      = some r) :
    SameSessions S r.State := by
  unfold Win32CsrInitHandlesTable at hr
  rcases Option.eq_none_or_eq_some P.Console with hc | ⟨c, hc⟩
  · simp [hc] at hr
  · simp only [hc] at hr
    have b1 : SameSessions S _ :=
      sameSessions_insert (RtlEnterCriticalSection P) S INVALID_HANDLE_VALUE
        (S.Consoles c).InputBuffer (GENERIC_READ ||| GENERIC_WRITE) true
        (FILE_SHARE_READ ||| FILE_SHARE_WRITE) a1
    generalize Win32CsrInsertObject (RtlEnterCriticalSection P) S INVALID_HANDLE_VALUE
      (S.Consoles c).InputBuffer (GENERIC_READ ||| GENERIC_WRITE) true
      (FILE_SHARE_READ ||| FILE_SHARE_WRITE) a1 = r1 at hr b1
    have b2 := sameSessions_insert r1.2.2.1 r1.2.2.2 INVALID_HANDLE_VALUE
      (r1.2.2.2.Consoles c).ActiveBuffer (GENERIC_READ ||| GENERIC_WRITE) true
      (FILE_SHARE_READ ||| FILE_SHARE_WRITE) a2
    generalize Win32CsrInsertObject r1.2.2.1 r1.2.2.2 INVALID_HANDLE_VALUE
      (r1.2.2.2.Consoles c).ActiveBuffer (GENERIC_READ ||| GENERIC_WRITE) true
      (FILE_SHARE_READ ||| FILE_SHARE_WRITE) a2 = r2 at hr b2
    have b3 := sameSessions_insert r2.2.2.1 r2.2.2.2 INVALID_HANDLE_VALUE
      (r2.2.2.2.Consoles c).ActiveBuffer (GENERIC_READ ||| GENERIC_WRITE) true
      (FILE_SHARE_READ ||| FILE_SHARE_WRITE) a3
    generalize Win32CsrInsertObject r2.2.2.1 r2.2.2.2 INVALID_HANDLE_VALUE
      (r2.2.2.2.Consoles c).ActiveBuffer (GENERIC_READ ||| GENERIC_WRITE) true
      (FILE_SHARE_READ ||| FILE_SHARE_WRITE) a3 = r3 at hr b3
    split_ifs at hr with h1 h2 h3
    all_goals
      simp only [Option.some.injEq] at hr
      subst hr
    · exact sameSessions_trans b1 (sameSessions_free _ _)
    · exact sameSessions_trans (sameSessions_trans b1 b2) (sameSessions_free _ _)
    · exact sameSessions_trans (sameSessions_trans (sameSessions_trans b1 b2) b3)
        (sameSessions_free _ _)
    · exact sameSessions_trans (sameSessions_trans b1 b2) b3

theorem init_isSome (P : CONSOLE_PROCESS_DATA) (S : ServerState) (c : Nat)
    (pInputHandle pOutputHandle pErrorHandle : HANDLE) (a1 a2 a3 : Bool)
    (hc : P.Console = some c) :
    ∃ r, Win32CsrInitHandlesTable P S pInputHandle pOutputHandle pErrorHandle a1 a2 a3
      = some r := by
  unfold Win32CsrInitHandlesTable
  simp only [hc]
  split_ifs <;> exact ⟨_, rfl⟩

/-! ## Unlocking and releasing a console -/

theorem unlock_objects (S : ServerState) (c : Nat) (b : Bool) :
    (Win32CsrUnlockConsole S c b).Objects = S.Objects ∧
    (Win32CsrUnlockConsole S c b).DeletedScreenBuffers = S.DeletedScreenBuffers := by
  unfold Win32CsrUnlockConsole
  cases b <;> dsimp only <;> split_ifs <;> exact ⟨rfl, rfl⟩

theorem unlock_deletedConsoles (S : ServerState) (c : Nat) (b : Bool) :
    (Win32CsrUnlockConsole S c b).DeletedConsoles =
      S.DeletedConsoles ++ (if (S.Consoles c).ReferenceCount - 1 = 0 then [c] else []) := by
  unfold Win32CsrUnlockConsole
  cases b <;>
    simp [InterlockedDecrementReferenceCount, LeaveCriticalSection, ConioDeleteConsole] <;>
    split_ifs <;> simp

theorem unlock_console_other (S : ServerState) (c : Nat) (b : Bool) (c1 : Nat) (h : c1 ≠ c) :
    (Win32CsrUnlockConsole S c b).Consoles c1 = S.Consoles c1 := by
  unfold Win32CsrUnlockConsole
  cases b <;>
    simp [InterlockedDecrementReferenceCount, LeaveCriticalSection, ConioDeleteConsole] <;>
    split_ifs <;> simp [Function.update_noteq h]

theorem unlock_console_self (S : ServerState) (c : Nat) (b : Bool) :
    ((Win32CsrUnlockConsole S c b).Consoles c).ReferenceCount
      = (S.Consoles c).ReferenceCount - 1 ∧
    ((Win32CsrUnlockConsole S c b).Consoles c).Lock
      = (if b then (S.Consoles c).Lock - 1 else (S.Consoles c).Lock) ∧
    ((Win32CsrUnlockConsole S c b).Consoles c).ProcessList = (S.Consoles c).ProcessList ∧
    ((Win32CsrUnlockConsole S c b).Consoles c).InputBuffer = (S.Consoles c).InputBuffer ∧
    ((Win32CsrUnlockConsole S c b).Consoles c).ActiveBuffer = (S.Consoles c).ActiveBuffer ∧
    ((Win32CsrUnlockConsole S c b).Consoles c).BufferList = (S.Consoles c).BufferList := by
  unfold Win32CsrUnlockConsole
  cases b <;>
    simp [InterlockedDecrementReferenceCount, LeaveCriticalSection, ConioDeleteConsole] <;>
    split_ifs <;> simp

theorem releaseConsole_none (P : CONSOLE_PROCESS_DATA) (S : ServerState)
    (h : P.Console = none) :
    Win32CsrReleaseConsole P S = Win32CsrFreeHandlesTable P S := by
  unfold Win32CsrReleaseConsole
  have : (Win32CsrFreeHandlesTable P S).1.Console = none := by rw [free_eq]; exact h
  simp only [this]

theorem releaseConsole_some (P : CONSOLE_PROCESS_DATA) (S : ServerState) (c : Nat)
    (h : P.Console = some c) :
    Win32CsrReleaseConsole P S =
      ({ P with HandleTable := none, Console := none },
        Win32CsrUnlockConsole
          (RemoveEntryList (EnterCriticalSection (Win32CsrFreeHandlesTable P S).2 c) c P.Process)
          c true) := by
  unfold Win32CsrReleaseConsole
  have h1 : (Win32CsrFreeHandlesTable P S).1.Console = some c := by rw [free_eq]; exact h
  simp only [h1]
  rw [free_eq]

theorem releaseConsole_sessions (P : CONSOLE_PROCESS_DATA) (S : ServerState) (c : Nat)
    (h : P.Console = some c) :
    (∀ c1, ((Win32CsrReleaseConsole P S).2.Consoles c1).ReferenceCount
        = (if c1 = c then (S.Consoles c).ReferenceCount - 1
          else (S.Consoles c1).ReferenceCount) ∧
      ((Win32CsrReleaseConsole P S).2.Consoles c1).ProcessList
        = (if c1 = c then (S.Consoles c).ProcessList.erase P.Process
          else (S.Consoles c1).ProcessList) ∧
      ((Win32CsrReleaseConsole P S).2.Consoles c1).Lock = (S.Consoles c1).Lock ∧
      ((Win32CsrReleaseConsole P S).2.Consoles c1).InputBuffer = (S.Consoles c1).InputBuffer ∧
      ((Win32CsrReleaseConsole P S).2.Consoles c1).ActiveBuffer
        = (S.Consoles c1).ActiveBuffer) ∧
    (Win32CsrReleaseConsole P S).2.DeletedConsoles
      = S.DeletedConsoles ++ (if (S.Consoles c).ReferenceCount - 1 = 0 then [c] else []) := by
  rw [releaseConsole_some P S c h]
  obtain ⟨hs, hd⟩ := sameSessions_free P S
  generalize (Win32CsrFreeHandlesTable P S).2 = SF at hs hd
  constructor
  · intro c1
    obtain ⟨h1, h2, h3, h4, h5⟩ := hs c1
    by_cases hc : c1 = c
    · subst hc
      have hu := unlock_console_self
        (RemoveEntryList (EnterCriticalSection SF c1) c1 P.Process) c1 true
      simp only [if_true] at hu ⊢
      obtain ⟨u1, u2, u3, u4, u5, _⟩ := hu
      rw [u1, u2, u3, u4, u5]
      simp [RemoveEntryList, EnterCriticalSection, h1, h2, h3, h4, h5]
    · rw [unlock_console_other _ _ _ _ hc]
      simp [RemoveEntryList, EnterCriticalSection, Function.update_noteq hc, hc, h1, h2, h3,
        h4, h5]
  · rw [unlock_deletedConsoles]
    simp [RemoveEntryList, EnterCriticalSection, hd, (hs c).1]

theorem releaseConsole_objects (P : CONSOLE_PROCESS_DATA) (S : ServerState) :
    (Win32CsrReleaseConsole P S).2.Objects = (Win32CsrFreeHandlesTable P S).2.Objects ∧
    (Win32CsrReleaseConsole P S).2.DeletedScreenBuffers
      = (Win32CsrFreeHandlesTable P S).2.DeletedScreenBuffers := by
  rcases Option.eq_none_or_eq_some P.Console with hc | ⟨c, hc⟩
  · rw [releaseConsole_none P S hc]
    exact ⟨rfl, rfl⟩
  · rw [releaseConsole_some P S c hc]
    obtain ⟨h1, h2⟩ := unlock_objects
      (RemoveEntryList (EnterCriticalSection (Win32CsrFreeHandlesTable P S).2 c) c P.Process)
      c true
    rw [h1, h2]
    exact ⟨rfl, rfl⟩

theorem releaseConsole_counter (k : CounterKind) (o : Nat) (P : CONSOLE_PROCESS_DATA)
    (S : ServerState) :
    CounterValue k ((Win32CsrReleaseConsole P S).2.Objects o)
      = CounterValue k (S.Objects o) - CountEntries k (HandleTableEntries P) o := by
  rw [(releaseConsole_objects P S).1, free_eq]
  exact closeAll_counter k o _ S

theorem releaseConsole_process (P : CONSOLE_PROCESS_DATA) (S : ServerState) :
    (Win32CsrReleaseConsole P S).1 = { P with HandleTable := none, Console := none } := by
  rcases Option.eq_none_or_eq_some P.Console with hc | ⟨c, hc⟩
  · rw [releaseConsole_none P S hc, free_eq]
    cases P
    simp_all
  · rw [releaseConsole_some P S c hc]

/-- C29: `Win32CsrReleaseConsole` on a process attached to console `c` empties
the table of the process (every slot closed, so each counter of each object
drops by the number of slots it counted), clears `Console`, removes the process
from the process list of `c`, lowers the reference count of `c` by exactly 1
and calls `ConioDeleteConsole` on `c`, once, if and only if the lowered count
is 0; the other consoles keep their count and process list. -/
theorem releaseConsole_effect (P : CONSOLE_PROCESS_DATA) (S : ServerState) (c : Nat)
    (h : P.Console = some c) :
    (Win32CsrReleaseConsole P S).1.HandleTable = none ∧
    HandleTableSize (Win32CsrReleaseConsole P S).1 = 0 ∧
    (Win32CsrReleaseConsole P S).1.Console = none ∧
    (∀ k o, CounterValue k ((Win32CsrReleaseConsole P S).2.Objects o)
      = CounterValue k (S.Objects o) - CountEntries k (HandleTableEntries P) o) ∧
    ((Win32CsrReleaseConsole P S).2.Consoles c).ProcessList
      = (S.Consoles c).ProcessList.erase P.Process ∧
    ((S.Consoles c).ProcessList.Nodup →
      P.Process ∉ ((Win32CsrReleaseConsole P S).2.Consoles c).ProcessList) ∧
    ((Win32CsrReleaseConsole P S).2.Consoles c).ReferenceCount
      = (S.Consoles c).ReferenceCount - 1 ∧
    (Win32CsrReleaseConsole P S).2.DeletedConsoles
      = S.DeletedConsoles ++ (if (S.Consoles c).ReferenceCount - 1 = 0 then [c] else []) ∧
    (∀ c1, c1 ≠ c →
      ((Win32CsrReleaseConsole P S).2.Consoles c1).ReferenceCount
        = (S.Consoles c1).ReferenceCount ∧
      ((Win32CsrReleaseConsole P S).2.Consoles c1).ProcessList
        = (S.Consoles c1).ProcessList) := by
  obtain ⟨hs, hd⟩ := releaseConsole_sessions P S c h
  have hp := releaseConsole_process P S
  have hl : ((Win32CsrReleaseConsole P S).2.Consoles c).ProcessList
      = (S.Consoles c).ProcessList.erase P.Process := by
    rw [(hs c).2.1, if_pos rfl]
  refine ⟨by rw [hp], by rw [hp]; rfl, by rw [hp], fun k o => releaseConsole_counter k o P S,
    hl, ?_, ?_, hd, ?_⟩
  · intro hnd
    rw [hl]
    exact fun hmem => (List.Nodup.mem_erase_iff hnd).mp hmem |>.1 rfl
  · rw [(hs c).1, if_pos rfl]
  · intro c1 hc1
    rw [(hs c1).1, (hs c1).2.1, if_neg hc1, if_neg hc1]
    exact ⟨rfl, rfl⟩

/-- Witness for C29: the process of `ExampleState` leaves console 0, whose
reference count drops from 1 to 0. -/
theorem releaseConsole_effect_witness :
    ExampleProcess.Console = some 0 ∧
    (Win32CsrReleaseConsole ExampleProcess ExampleState).1.Console = none ∧
    (Win32CsrReleaseConsole ExampleProcess ExampleState).2.DeletedConsoles = [0] := by
  have h := releaseConsole_effect ExampleProcess ExampleState 0 rfl
  refine ⟨rfl, h.2.2.1, ?_⟩
  rw [h.2.2.2.2.2.2.2.1]
  rfl

/-! ## Detach -/

theorem disconnect_process (P : CONSOLE_PROCESS_DATA) (S : ServerState) :
    (ConsoleDisconnect P S).1
      = { P with HandleTable := none, Console := none, HandleTableLock := 0 } := by
  unfold ConsoleDisconnect
  split_ifs with h
  · show RtlDeleteCriticalSection (Win32CsrReleaseConsole P S).1 = _
    rw [releaseConsole_process]
    rfl
  · have h1 : P.Console = none := by
      by_contra hc
      exact h (Or.inl hc)
    have h2 : P.HandleTable = none := by
      by_contra hc
      exact h (Or.inr hc)
    show RtlDeleteCriticalSection P = _
    cases P
    simp_all [RtlDeleteCriticalSection]

/-- C28: `ConsoleDisconnect` on a process whose `Console` and handle table are
both absent leaves the whole state as it is (no table, counter, process list
or reference count changes, no destructor call) and the process data as they
are up to the deleted table lock; and for every process and state, a second
`ConsoleDisconnect` after a first changes nothing more. -/
theorem disconnect_idempotent (P : CONSOLE_PROCESS_DATA) (S : ServerState) :
    (P.Console = none → P.HandleTable = none →
      (ConsoleDisconnect P S).2 = S ∧
      (ConsoleDisconnect P S).1 = RtlDeleteCriticalSection P ∧
      (ConsoleDisconnect P S).1.HandleTable = none ∧
      (ConsoleDisconnect P S).1.Console = none) ∧
    ConsoleDisconnect (ConsoleDisconnect P S).1 (ConsoleDisconnect P S).2
      = ConsoleDisconnect P S := by
  constructor
  · intro h1 h2
    unfold ConsoleDisconnect
    simp [h1, h2, RtlDeleteCriticalSection]
  · have hp := disconnect_process P S
    generalize ConsoleDisconnect P S = r at hp
    obtain ⟨P1, S1⟩ := r
    simp only at hp
    subst hp
    simp [ConsoleDisconnect, RtlDeleteCriticalSection]

/-- Witness for C28: a process without console and without table, in the state
`FreshState`. -/
theorem disconnect_idempotent_witness :
    (ConsoleDisconnect {} FreshState).2.DeletedConsoles = FreshState.DeletedConsoles ∧
    (ConsoleDisconnect {} FreshState).1 = {} := by
  have h := (disconnect_idempotent {} FreshState).1 rfl rfl
  exact ⟨by rw [h.1], h.2.1⟩

/-! ## Process creation -/

theorem newProcess_null_target (SourceProcess : Option CSR_PROCESS) (S : ServerState)
    (alloc : Bool) :
    ConsoleNewProcess SourceProcess none S alloc = (NTSTATUS.STATUS_INVALID_PARAMETER, none, S) :=
  rfl

theorem newProcess_inherits (Source Target : CSR_PROCESS) (S : ServerState)
    (ha : Source.Address ≠ Target.Address) (hc : Source.ServerData.Console ≠ none)
    (hcap : Target.IsConsoleApp = true) :
    ConsoleNewProcess (some Source) (some Target) S true =
      (NTSTATUS.STATUS_SUCCESS,
        some { TargetWithTable (NewProcessData Target)
            ((HandleTableEntries Source.ServerData).map InheritedSlot) with
          ParentConsole := Source.ServerData.Console },
        (InheritEntries S (HandleTableEntries Source.ServerData)).2) := by
  unfold ConsoleNewProcess
  simp only [if_neg ha]
  have h1 : Source.ServerData.Console ≠ none ∧ (NewProcessData Target).ConsoleApp = true :=
    ⟨hc, hcap⟩
  simp only [if_pos h1]
  rw [inherit_eq_success _ _ _ rfl]
  simp [NT_SUCCESS]

theorem newProcess_alloc_failure (Source Target : CSR_PROCESS) (S : ServerState)
    (ha : Source.Address ≠ Target.Address) (hc : Source.ServerData.Console ≠ none)
    (hcap : Target.IsConsoleApp = true) :
    ConsoleNewProcess (some Source) (some Target) S false =
      (NTSTATUS.STATUS_NO_MEMORY, some (NewProcessData Target), S) := by
  unfold ConsoleNewProcess
  simp only [if_neg ha]
  have h1 : Source.ServerData.Console ≠ none ∧ (NewProcessData Target).ConsoleApp = true :=
    ⟨hc, hcap⟩
  simp only [if_pos h1]
  simp [Win32CsrInheritHandlesTable, NewProcessData, NT_SUCCESS]

theorem newProcess_plain (SourceProcess : Option CSR_PROCESS) (Target : CSR_PROCESS)
    (S : ServerState) (alloc : Bool)
    (h : ¬ ∃ Source, SourceProcess = some Source ∧ Source.Address ≠ Target.Address ∧
      Source.ServerData.Console ≠ none ∧ Target.IsConsoleApp = true) :
    ConsoleNewProcess SourceProcess (some Target) S alloc =
      (NTSTATUS.STATUS_SUCCESS, some (NewProcessData Target), S) := by
  unfold ConsoleNewProcess
  cases SourceProcess with
  | none => rfl
  | some Source =>
    simp only
    by_cases ha : Source.Address = Target.Address
    · simp [ha, NewProcessData]
    · simp only [if_neg ha]
      have h1 : ¬ (Source.ServerData.Console ≠ none ∧
          (NewProcessData Target).ConsoleApp = true) := by
        intro hh
        exact h ⟨Source, rfl, ha, hh.1, hh.2⟩
      simp only [if_neg h1]

/-- C21: `ConsoleNewProcess` with a non-null child always leaves the child with
`Console` absent.  When it succeeds, then either the parent is non-null (a
process other than the child), has a console, and the child is a console
application, and then the child has `ParentConsole` set to the console of the
parent and its table filled by `Win32CsrInheritHandlesTable` (one slot per slot
of the parent, the occupied inheritable ones copied, the others free, every
counter raised by the copied slots it counts); or this is not the case, and
then the child has `ParentConsole` absent and the `NULL` table of size 0, and
the state is unchanged. -/
theorem newProcess_effect (SourceProcess : Option CSR_PROCESS) (Target : CSR_PROCESS)
    (S : ServerState) (alloc : Bool) :
    ∃ T, (ConsoleNewProcess SourceProcess (some Target) S alloc).2.1 = some T ∧
      T.Console = none ∧
      ((ConsoleNewProcess SourceProcess (some Target) S alloc).1 = NTSTATUS.STATUS_SUCCESS →
        ((∃ Source, SourceProcess = some Source ∧ Source.Address ≠ Target.Address ∧
            Source.ServerData.Console ≠ none ∧ Target.IsConsoleApp = true ∧
            T.ParentConsole = Source.ServerData.Console ∧
            T.HandleTable = some ((HandleTableEntries Source.ServerData).map InheritedSlot) ∧
            (Win32CsrInheritHandlesTable Source.ServerData (NewProcessData Target) S
              alloc).2.2.1 = { T with ParentConsole := none } ∧
            (ConsoleNewProcess SourceProcess (some Target) S alloc).2.2 =
              (Win32CsrInheritHandlesTable Source.ServerData (NewProcessData Target) S
                alloc).2.2.2 ∧
            (∀ k o, CounterValue k
                ((ConsoleNewProcess SourceProcess (some Target) S alloc).2.2.Objects o)
              = CounterValue k (S.Objects o) + CountEntries k (HandleTableEntries T) o)) ∨
          ((¬ ∃ Source, SourceProcess = some Source ∧ Source.Address ≠ Target.Address ∧
              Source.ServerData.Console ≠ none ∧ Target.IsConsoleApp = true) ∧
            T.ParentConsole = none ∧ T.HandleTable = none ∧ HandleTableSize T = 0 ∧
            (ConsoleNewProcess SourceProcess (some Target) S alloc).2.2 = S))) := by
  by_cases h : ∃ Source, SourceProcess = some Source ∧ Source.Address ≠ Target.Address ∧
      Source.ServerData.Console ≠ none ∧ Target.IsConsoleApp = true
  · obtain ⟨Source, rfl, ha, hc, hcap⟩ := h
    cases alloc
    · rw [newProcess_alloc_failure Source Target S ha hc hcap]
      exact ⟨_, rfl, rfl, fun hst => by simp at hst⟩
    · rw [newProcess_inherits Source Target S ha hc hcap]
      refine ⟨_, rfl, rfl, fun _ => Or.inl ⟨Source, rfl, ha, hc, hcap, rfl, rfl, ?_, ?_, ?_⟩⟩
      · rw [inherit_eq_success _ _ _ rfl]
        rfl
      · rw [inherit_eq_success _ _ _ rfl]
      · intro k o
        have := inheritEntries_counter k o (HandleTableEntries Source.ServerData) S
        rw [inheritEntries_list] at this
        exact this
  · rw [newProcess_plain SourceProcess Target S alloc h]
    exact ⟨_, rfl, rfl, fun _ => Or.inr ⟨h, rfl, rfl, rfl, rfl⟩⟩

/-- Witness for C21: the creation of `ChildProcess` by `ParentProcess` succeeds;
the child has no console yet, the console 0 of the parent as `ParentConsole`
and the inheritable slot of the parent in its table. -/
theorem newProcess_effect_witness :
    ∃ T, (ConsoleNewProcess (some ParentProcess) (some ChildProcess) ParentState true).2.1
        = some T ∧
      T.Console = none ∧ T.ParentConsole = some 0 ∧
      T.HandleTable = some [⟨some 1, GENERIC_READ ||| GENERIC_WRITE, true, 3⟩, ZeroEntry] := by
  obtain ⟨T, h1, h2, h3⟩ :=
    newProcess_effect (some ParentProcess) ChildProcess ParentState true
  refine ⟨T, h1, h2, ?_⟩
  rcases h3 (by decide) with ⟨Source, hs, _, _, _, hp, ht, _⟩ | ⟨hn, _⟩
  · cases hs
    exact ⟨hp, ht.trans (by decide)⟩
  · exact absurd ⟨ParentProcess, rfl, by decide, by decide, by decide⟩ hn

/-- Counterexample to C22 as written: the child is non-null, the parent holds a
console and the child is a console application, but the allocation of the
child's table fails: `ConsoleNewProcess` returns `STATUS_NO_MEMORY`, not
success. -/
theorem newProcess_status_counterexample :
    (ConsoleNewProcess (some ParentProcess) (some ChildProcess) ParentState false).1
      = NTSTATUS.STATUS_NO_MEMORY ∧
    NT_SUCCESS (ConsoleNewProcess (some ParentProcess) (some ChildProcess) ParentState
      false).1 = false := by
  decide

/-- C22 (amended): `ConsoleNewProcess` returns `STATUS_INVALID_PARAMETER` when
the child is null.  For a non-null child it returns `STATUS_NO_MEMORY` when the
parent is non-null (a process other than the child), has a console, the child
is a console application and the allocation of the child's table fails, and
then the child is left without table, `Console` and `ParentConsole` and the
state is unchanged; in every other case it returns `STATUS_SUCCESS`. -/
theorem newProcess_status (SourceProcess TargetProcess : Option CSR_PROCESS)
    (S : ServerState) (alloc : Bool) :
    (TargetProcess = none →
      (ConsoleNewProcess SourceProcess TargetProcess S alloc).1
        = NTSTATUS.STATUS_INVALID_PARAMETER) ∧
    (∀ Target, TargetProcess = some Target →
      (((∃ Source, SourceProcess = some Source ∧ Source.Address ≠ Target.Address ∧
            Source.ServerData.Console ≠ none ∧ Target.IsConsoleApp = true) ∧ alloc = false) →
        ConsoleNewProcess SourceProcess TargetProcess S alloc
          = (NTSTATUS.STATUS_NO_MEMORY, some (NewProcessData Target), S)) ∧
      (¬ ((∃ Source, SourceProcess = some Source ∧ Source.Address ≠ Target.Address ∧
            Source.ServerData.Console ≠ none ∧ Target.IsConsoleApp = true) ∧ alloc = false) →
        (ConsoleNewProcess SourceProcess TargetProcess S alloc).1
          = NTSTATUS.STATUS_SUCCESS)) := by
  constructor
  · rintro rfl
    rfl
  · rintro Target rfl
    constructor
    · rintro ⟨⟨Source, rfl, ha, hc, hcap⟩, rfl⟩
      exact newProcess_alloc_failure Source Target S ha hc hcap
    · intro h
      by_cases h1 : ∃ Source, SourceProcess = some Source ∧
          Source.Address ≠ Target.Address ∧
          Source.ServerData.Console ≠ none ∧ Target.IsConsoleApp = true
      · obtain ⟨Source, rfl, ha, hc, hcap⟩ := h1
        cases alloc
        · exact absurd ⟨⟨Source, rfl, ha, hc, hcap⟩, rfl⟩ h
        · rw [newProcess_inherits Source Target S ha hc hcap]
      · rw [newProcess_plain SourceProcess Target S alloc h1]

/-- Witness for C22: a root process (null parent) is created with success, and
the creation of `ChildProcess` by `ParentProcess` with a failing allocation
returns `STATUS_NO_MEMORY`. -/
theorem newProcess_status_witness :
    (ConsoleNewProcess none (some ChildProcess) ParentState false).1
      = NTSTATUS.STATUS_SUCCESS ∧
    (ConsoleNewProcess (some ParentProcess) (some ChildProcess) ParentState false).1
      = NTSTATUS.STATUS_NO_MEMORY :=
  ⟨((newProcess_status none (some ChildProcess) ParentState false).2 ChildProcess rfl).2
      (by simp),
    congrArg Prod.fst
      (((newProcess_status (some ParentProcess) (some ChildProcess) ParentState false).2
        ChildProcess rfl).1 ⟨⟨ParentProcess, rfl, by decide, by decide, by decide⟩, rfl⟩)⟩

/-! ## Allocation of a console -/

theorem init_empty_failure (P : CONSOLE_PROCESS_DATA) (S : ServerState) (c : Nat)
    (pInputHandle pOutputHandle pErrorHandle : HANDLE) (a2 a3 : Bool)
    (hc : P.Console = some c) (ht : P.HandleTable = none) :
    Win32CsrInitHandlesTable P S pInputHandle pOutputHandle pErrorHandle false a2 a3
      = some (InitResult.mk NTSTATUS.STATUS_UNSUCCESSFUL pInputHandle pOutputHandle
          pErrorHandle P S) := by
  have h0 : HandleTableEntries P = [] := by simp [HandleTableEntries, ht]
  unfold Win32CsrInitHandlesTable
  simp only [hc]
  simp [insert_eq, HandleTableSize, h0, FirstFreeSlot, NT_SUCCESS, free_eq, CloseAllEntries]
  cases P
  simp_all

theorem init_empty_success (P : CONSOLE_PROCESS_DATA) (S : ServerState) (c : Nat)
    (pInputHandle pOutputHandle pErrorHandle : HANDLE) (a2 a3 : Bool)
    (hc : P.Console = some c) (ht : P.HandleTable = none) :
    Win32CsrInitHandlesTable P S pInputHandle pOutputHandle pErrorHandle true a2 a3
      = some (InitResult.mk NTSTATUS.STATUS_SUCCESS 0x3 0x7 0xB
          { P with HandleTable := some (StandardTable S c) }
          (Win32CsrCreateHandleEntry (Win32CsrCreateHandleEntry (Win32CsrCreateHandleEntry S
            (StandardEntry (S.Consoles c).InputBuffer))
            (StandardEntry (S.Consoles c).ActiveBuffer))
            (StandardEntry (S.Consoles c).ActiveBuffer))) := by
  have h0 : HandleTableEntries P = [] := by simp [HandleTableEntries, ht]
  unfold Win32CsrInitHandlesTable
  simp only [hc]
  cases a2 <;> cases a3 <;>
    simp [insert_step, insert_eq, InsertBlock, HandleTableSize, h0, FirstFreeSlot,
      IO_HANDLES_INCREMENT, List.replicate, ZeroEntry, ConsoleHandleOfIndex, NT_SUCCESS,
      create_consoles, StandardTable, StandardEntry] <;>
    (cases P; simp_all [RtlLeaveCriticalSection, RtlEnterCriticalSection])

theorem nt_success_iff (s : NTSTATUS) : NT_SUCCESS s = true ↔ s = NTSTATUS.STATUS_SUCCESS := by
  cases s <;> simp [NT_SUCCESS]

theorem allocate_factory_failure (P : CONSOLE_PROCESS_DATA) (S : ServerState)
    (pInputHandle pOutputHandle pErrorHandle : HANDLE) (InitStatus : NTSTATUS)
    (NewConsole : Nat) (a1 a2 a3 : Bool) (h : NT_SUCCESS InitStatus = false) :
    Win32CsrAllocateConsole P S pInputHandle pOutputHandle pErrorHandle InitStatus NewConsole
        a1 a2 a3
      = some (AllocateResult.mk InitStatus pInputHandle pOutputHandle pErrorHandle P S) := by
  unfold Win32CsrAllocateConsole
  rw [if_pos h]

theorem allocate_init_failure (P : CONSOLE_PROCESS_DATA) (S : ServerState)
    (pInputHandle pOutputHandle pErrorHandle : HANDLE) (InitStatus : NTSTATUS)
    (NewConsole : Nat) (a2 a3 : Bool) (h : NT_SUCCESS InitStatus = true)
    (ht : P.HandleTable = none) :
    Win32CsrAllocateConsole P S pInputHandle pOutputHandle pErrorHandle InitStatus NewConsole
        false a2 a3
      = some (AllocateResult.mk NTSTATUS.STATUS_UNSUCCESSFUL pInputHandle pOutputHandle
          pErrorHandle { P with Console := none } (ConioDeleteConsole S NewConsole)) := by
  unfold Win32CsrAllocateConsole
  simp only [h, Bool.true_eq_false, if_false]
  rw [init_empty_failure { P with Console := some NewConsole } S NewConsole _ _ _ a2 a3 rfl ht]
  simp [NT_SUCCESS]

theorem allocate_success (P : CONSOLE_PROCESS_DATA) (S : ServerState)
    (pInputHandle pOutputHandle pErrorHandle : HANDLE) (InitStatus : NTSTATUS)
    (NewConsole : Nat) (a2 a3 : Bool) (h : NT_SUCCESS InitStatus = true)
    (ht : P.HandleTable = none) :
    Win32CsrAllocateConsole P S pInputHandle pOutputHandle pErrorHandle InitStatus NewConsole
        true a2 a3
      = some (AllocateResult.mk NTSTATUS.STATUS_SUCCESS 0x3 0x7 0xB
          { P with Console := some NewConsole, HandleTable := some (StandardTable S NewConsole) }
          (Win32CsrCreateHandleEntry (Win32CsrCreateHandleEntry (Win32CsrCreateHandleEntry S
            (StandardEntry (S.Consoles NewConsole).InputBuffer))
            (StandardEntry (S.Consoles NewConsole).ActiveBuffer))
            (StandardEntry (S.Consoles NewConsole).ActiveBuffer))) := by
  unfold Win32CsrAllocateConsole
  simp only [h, Bool.true_eq_false, if_false]
  rw [init_empty_success { P with Console := some NewConsole } S NewConsole _ _ _ a2 a3 rfl ht]
  simp [NT_SUCCESS]

/-! ## Connect -/

theorem connectAttach_success (P : CONSOLE_PROCESS_DATA) (S : ServerState) (c : Nat)
    (ConnectInfo : CONSOLE_CONNECTION_INFO) (DupStatus : NTSTATUS) (DupHandle : Nat)
    (hc : P.Console = some c) (hd : NT_SUCCESS DupStatus = true) :
    ConnectAttach P S ConnectInfo DupStatus DupHandle =
      some (ConnectResult.mk NTSTATUS.STATUS_SUCCESS
        (some { ConnectInfo with Console := some c, InputWaitHandle := some DupHandle })
        { P with ConsoleEvent := some DupHandle, CtrlDispatcher := ConnectInfo.CtrlDispatcher }
        (InsertHeadList (InterlockedIncrementReferenceCount S c) c P.Process)) := by
  unfold ConnectAttach
  simp only [hc, hd, Bool.true_eq_false, if_false]

theorem connectAttach_failure (P : CONSOLE_PROCESS_DATA) (S : ServerState) (c : Nat)
    (ConnectInfo : CONSOLE_CONNECTION_INFO) (DupStatus : NTSTATUS) (DupHandle : Nat)
    (hc : P.Console = some c) (hd : NT_SUCCESS DupStatus = false) :
    ConnectAttach P S ConnectInfo DupStatus DupHandle =
      some (ConnectResult.mk DupStatus (some ConnectInfo)
        (Win32CsrReleaseConsole P
          (InsertHeadList (InterlockedIncrementReferenceCount S c) c P.Process)).1
        (Win32CsrReleaseConsole P
          (InsertHeadList (InterlockedIncrementReferenceCount S c) c P.Process)).2) := by
  unfold ConnectAttach
  simp only [hc, hd, if_true]

theorem connect_reuse (P : CONSOLE_PROCESS_DATA) (S : ServerState)
    (ConnectInfo : CONSOLE_CONNECTION_INFO) (InitStatus : NTSTATUS) (NewConsole : Nat)
    (a1 a2 a3 : Bool) (DupStatus : NTSTATUS) (DupHandle : Nat) (c : Nat)
    (hn : ConnectInfo.ConsoleNeeded = true) (ha : P.ConsoleApp = true)
    (hc : ConnectInfo.Console = some c) (hp : P.ParentConsole = some c) :
    ConsoleConnect P S (some ConnectInfo) (some sizeof_CONSOLE_CONNECTION_INFO) InitStatus
        NewConsole a1 a2 a3 DupStatus DupHandle
      = ConnectAttach { P with Console := some c } S ConnectInfo DupStatus DupHandle := by
  have hlen : ¬ (sizeof_CONSOLE_CONNECTION_INFO ≠ sizeof_CONSOLE_CONNECTION_INFO) :=
    fun h => h rfl
  have hneed : ¬ (ConnectInfo.ConsoleNeeded = false ∨ P.ConsoleApp = false) := by
    simp [hn, ha]
  have hold : ¬ (ConnectInfo.Console = none ∨ ConnectInfo.Console ≠ P.ParentConsole) := by
    simp [hc, hp]
  unfold ConsoleConnect
  simp only [if_neg hlen, if_neg hneed, if_neg hold]
  rw [hc]

theorem connect_new (P : CONSOLE_PROCESS_DATA) (S : ServerState)
    (ConnectInfo : CONSOLE_CONNECTION_INFO) (InitStatus : NTSTATUS) (NewConsole : Nat)
    (a1 a2 a3 : Bool) (DupStatus : NTSTATUS) (DupHandle : Nat)
    (hn : ConnectInfo.ConsoleNeeded = true) (ha : P.ConsoleApp = true)
    (hnew : ConnectInfo.Console = none ∨ ConnectInfo.Console ≠ P.ParentConsole) :
    ConsoleConnect P S (some ConnectInfo) (some sizeof_CONSOLE_CONNECTION_INFO) InitStatus
        NewConsole a1 a2 a3 DupStatus DupHandle
      = if NT_SUCCESS InitStatus = false then
          some (ConnectResult.mk InitStatus (some ConnectInfo) (Win32CsrReleaseConsole P S).1
            (Win32CsrReleaseConsole P S).2)
        else if a1 = false then
          some (ConnectResult.mk NTSTATUS.STATUS_UNSUCCESSFUL (some ConnectInfo)
            (Win32CsrReleaseConsole P S).1
            (ConioDeleteConsole (Win32CsrReleaseConsole P S).2 NewConsole))
        else
          ConnectAttach
            { P with
              Console := some NewConsole
              HandleTable := some (StandardTable (Win32CsrReleaseConsole P S).2 NewConsole) }
            (Win32CsrCreateHandleEntry (Win32CsrCreateHandleEntry (Win32CsrCreateHandleEntry
              (Win32CsrReleaseConsole P S).2
              (StandardEntry ((Win32CsrReleaseConsole P S).2.Consoles NewConsole).InputBuffer))
              (StandardEntry ((Win32CsrReleaseConsole P S).2.Consoles NewConsole).ActiveBuffer))
              (StandardEntry ((Win32CsrReleaseConsole P S).2.Consoles NewConsole).ActiveBuffer))
            { ConnectInfo with InputHandle := 0x3, OutputHandle := 0x7, ErrorHandle := 0xB }
            DupStatus DupHandle := by
  have hp := releaseConsole_process P S
  have ht : (Win32CsrReleaseConsole P S).1.HandleTable = none := by rw [hp]
  have hlen : ¬ (sizeof_CONSOLE_CONNECTION_INFO ≠ sizeof_CONSOLE_CONNECTION_INFO) :=
    fun h => h rfl
  have hneed : ¬ (ConnectInfo.ConsoleNeeded = false ∨ P.ConsoleApp = false) := by
    simp [hn, ha]
  unfold ConsoleConnect
  simp only [if_neg hlen, if_neg hneed, if_pos hnew]
  by_cases h1 : NT_SUCCESS InitStatus = false
  · rw [allocate_factory_failure _ _ _ _ _ _ _ _ _ _ h1]
    simp only [if_pos h1]
  · have h1t : NT_SUCCESS InitStatus = true := by simpa using h1
    cases a1
    · rw [allocate_init_failure _ _ _ _ _ _ _ _ _ h1t ht]
      simp only [if_neg h1, if_true]
      simp only [NT_SUCCESS, if_true, hp]
    · rw [allocate_success _ _ _ _ _ _ _ _ _ h1t ht]
      simp only [if_neg h1, Bool.true_eq_false, if_false]
      simp only [NT_SUCCESS, Bool.true_eq_false, if_false, hp]

/-! ## Sessions across release, allocation and attachment -/

theorem sameSessions_release_none (P : CONSOLE_PROCESS_DATA) (S : ServerState)
    (h : P.Console = none) : SameSessions S (Win32CsrReleaseConsole P S).2 := by
  rw [releaseConsole_none P S h]
  exact sameSessions_free P S

theorem releaseConsole_buffers (P : CONSOLE_PROCESS_DATA) (S : ServerState) (c1 : Nat) :
    ((Win32CsrReleaseConsole P S).2.Consoles c1).InputBuffer = (S.Consoles c1).InputBuffer ∧
    ((Win32CsrReleaseConsole P S).2.Consoles c1).ActiveBuffer
      = (S.Consoles c1).ActiveBuffer := by
  rcases Option.eq_none_or_eq_some P.Console with hc | ⟨c, hc⟩
  · obtain ⟨_, _, h3, h4, _⟩ := (sameSessions_release_none P S hc).1 c1
    exact ⟨h3, h4⟩
  · obtain ⟨_, _, _, h3, h4⟩ := (releaseConsole_sessions P S c hc).1 c1
    exact ⟨h3, h4⟩

theorem standardTable_release (P : CONSOLE_PROCESS_DATA) (S : ServerState) (c : Nat) :
    StandardTable (Win32CsrReleaseConsole P S).2 c = StandardTable S c := by
  unfold StandardTable
  rw [(releaseConsole_buffers P S c).1, (releaseConsole_buffers P S c).2]

theorem countEntries_standardTable (k : CounterKind) (S : ServerState) (c o : Nat) :
    CountEntries k (StandardTable S c) o =
      EntryCount k (StandardEntry (S.Consoles c).InputBuffer) o
        + EntryCount k (StandardEntry (S.Consoles c).ActiveBuffer) o
        + EntryCount k (StandardEntry (S.Consoles c).ActiveBuffer) o := by
  unfold StandardTable
  rw [countEntries_cons, countEntries_cons, countEntries_cons,
    countEntries_free k [ZeroEntry, ZeroEntry, ZeroEntry] o (by simp [ZeroEntry])]
  omega

theorem standard_counter (k : CounterKind) (S : ServerState) (c o : Nat) :
    CounterValue k ((Win32CsrCreateHandleEntry (Win32CsrCreateHandleEntry
        (Win32CsrCreateHandleEntry S (StandardEntry (S.Consoles c).InputBuffer))
        (StandardEntry (S.Consoles c).ActiveBuffer))
        (StandardEntry (S.Consoles c).ActiveBuffer)).Objects o)
      = CounterValue k (S.Objects o) + CountEntries k (StandardTable S c) o := by
  rw [create_counter, create_counter, create_counter, countEntries_standardTable]
  push_cast
  ring

theorem sameSessions_standard (S : ServerState) (e1 e2 e3 : CONSOLE_IO_HANDLE) :
    SameSessions S (Win32CsrCreateHandleEntry (Win32CsrCreateHandleEntry
      (Win32CsrCreateHandleEntry S e1) e2) e3) :=
  sameSessions_trans (sameSessions_trans (sameSessions_create S e1) (sameSessions_create _ e2))
    (sameSessions_create _ e3)

theorem attach_sessions (S : ServerState) (c pid c1 : Nat) :
    ((InsertHeadList (InterlockedIncrementReferenceCount S c) c pid).Consoles c1).ReferenceCount
      = (if c1 = c then (S.Consoles c).ReferenceCount + 1 else (S.Consoles c1).ReferenceCount) ∧
    ((InsertHeadList (InterlockedIncrementReferenceCount S c) c pid).Consoles c1).ProcessList
      = (if c1 = c then pid :: (S.Consoles c).ProcessList else (S.Consoles c1).ProcessList) ∧
    ((InsertHeadList (InterlockedIncrementReferenceCount S c) c pid).Consoles c1).Lock
      = (S.Consoles c1).Lock ∧
    ((InsertHeadList (InterlockedIncrementReferenceCount S c) c pid).Consoles c1).InputBuffer
      = (S.Consoles c1).InputBuffer ∧
    ((InsertHeadList (InterlockedIncrementReferenceCount S c) c pid).Consoles c1).ActiveBuffer
      = (S.Consoles c1).ActiveBuffer := by
  by_cases h : c1 = c
  · subst h
    simp [InsertHeadList, InterlockedIncrementReferenceCount]
  · simp [InsertHeadList, InterlockedIncrementReferenceCount, Function.update_noteq h, h]

theorem attach_objects (S : ServerState) (c pid : Nat) :
    (InsertHeadList (InterlockedIncrementReferenceCount S c) c pid).Objects = S.Objects ∧
    (InsertHeadList (InterlockedIncrementReferenceCount S c) c pid).DeletedConsoles
      = S.DeletedConsoles ∧
    (InsertHeadList (InterlockedIncrementReferenceCount S c) c pid).DeletedScreenBuffers
      = S.DeletedScreenBuffers :=
  ⟨rfl, rfl, rfl⟩

/-- The rollback of an attachment: releasing the console right after the
increment and the insertion into the process list leaves the sessions as they
were, up to the destructor call on `c` when its count was 0. -/
theorem sameSessions_rollback (P : CONSOLE_PROCESS_DATA) (S : ServerState) (c : Nat)
    (hc : P.Console = some c) :
    SameSessions (if (S.Consoles c).ReferenceCount = 0 then ConioDeleteConsole S c else S)
      (Win32CsrReleaseConsole P
        (InsertHeadList (InterlockedIncrementReferenceCount S c) c P.Process)).2 := by
  obtain ⟨hs, hd⟩ := releaseConsole_sessions P
    (InsertHeadList (InterlockedIncrementReferenceCount S c) c P.Process) c hc
  have hcons : ∀ c1, (if (S.Consoles c).ReferenceCount = 0 then ConioDeleteConsole S c
      else S).Consoles c1 = S.Consoles c1 := by
    intro c1
    split_ifs <;> rfl
  constructor
  · intro c1
    obtain ⟨h1, h2, h3, h4, h5⟩ := hs c1
    obtain ⟨a1, a2, a3, a4, a5⟩ := attach_sessions S c P.Process c1
    rw [hcons, h1, h2, h3, h4, h5, a3, a4, a5]
    obtain ⟨b1, b2, _⟩ := attach_sessions S c P.Process c
    rw [b1, b2, a1, a2, if_pos rfl, if_pos rfl]
    by_cases h : c1 = c
    · subst h
      simp
    · simp [h]
  · rw [hd, (attach_sessions S c P.Process c).1, if_pos rfl]
    have : (S.Consoles c).ReferenceCount + 1 - 1 = (S.Consoles c).ReferenceCount := by ring
    rw [this]
    split_ifs <;> simp [ConioDeleteConsole, attach_objects]

/-! ## The attach protocol: Connect -/

/-- C23: `ConsoleConnect` with well-formed connection info returns
`STATUS_SUCCESS` and attaches nothing when the caller does not need a console
or the process is not a console application: the process data (`Console`, the
handle table and all other fields), the whole state (reference counts, process
lists, counters, destructor calls) and the connection info are as before. -/
theorem connect_not_needed (P : CONSOLE_PROCESS_DATA) (S : ServerState)
    (ConnectInfo : CONSOLE_CONNECTION_INFO) (InitStatus : NTSTATUS) (NewConsole : Nat)
    (a1 a2 a3 : Bool) (DupStatus : NTSTATUS) (DupHandle : Nat)
    (h : ConnectInfo.ConsoleNeeded = false ∨ P.ConsoleApp = false) :
    ∃ r, ConsoleConnect P S (some ConnectInfo) (some sizeof_CONSOLE_CONNECTION_INFO)
        InitStatus NewConsole a1 a2 a3 DupStatus DupHandle = some r ∧
      r.Status = NTSTATUS.STATUS_SUCCESS ∧ r.ProcessData = P ∧ r.State = S ∧
      r.ConnectionInfo = some ConnectInfo ∧
      r.ProcessData.Console = P.Console ∧ r.ProcessData.HandleTable = P.HandleTable := by
  have hlen : ¬ (sizeof_CONSOLE_CONNECTION_INFO ≠ sizeof_CONSOLE_CONNECTION_INFO) :=
    fun h => h rfl
  refine ⟨ConnectResult.mk NTSTATUS.STATUS_SUCCESS (some ConnectInfo) P S, ?_, rfl, rfl, rfl,
    rfl, rfl, rfl⟩
  unfold ConsoleConnect
  simp only [if_neg hlen, if_pos h]

/-- Witness for C23: the process of `ExampleState` connects without needing a
console. -/
theorem connect_not_needed_witness :
    ∃ r, ConsoleConnect ExampleProcess ExampleState (some { ConsoleNeeded := false })
        (some sizeof_CONSOLE_CONNECTION_INFO) NTSTATUS.STATUS_SUCCESS 1 true true true
        NTSTATUS.STATUS_SUCCESS 0 = some r ∧
      r.Status = NTSTATUS.STATUS_SUCCESS ∧ r.ProcessData = ExampleProcess := by
  obtain ⟨r, h1, h2, h3, _⟩ := connect_not_needed ExampleProcess ExampleState
    { ConsoleNeeded := false } NTSTATUS.STATUS_SUCCESS 1 true true true
    NTSTATUS.STATUS_SUCCESS 0 (Or.inl rfl)
  exact ⟨r, h1, h2, h3⟩

theorem connect_new_success (P : CONSOLE_PROCESS_DATA) (S : ServerState)
    (ConnectInfo : CONSOLE_CONNECTION_INFO) (InitStatus : NTSTATUS) (NewConsole : Nat)
    (a1 a2 a3 : Bool) (DupStatus : NTSTATUS) (DupHandle : Nat) (r : ConnectResult)
    (hn : ConnectInfo.ConsoleNeeded = true) (ha : P.ConsoleApp = true)
    (hnew : ConnectInfo.Console = none ∨ ConnectInfo.Console ≠ P.ParentConsole)
    (hr : ConsoleConnect P S (some ConnectInfo) (some sizeof_CONSOLE_CONNECTION_INFO)
      InitStatus NewConsole a1 a2 a3 DupStatus DupHandle = some r)
    (hok : r.Status = NTSTATUS.STATUS_SUCCESS) :
    NT_SUCCESS InitStatus = true ∧ a1 = true ∧ NT_SUCCESS DupStatus = true ∧
    r = ConnectResult.mk NTSTATUS.STATUS_SUCCESS
      (some { ConnectInfo with
        InputHandle := 0x3, OutputHandle := 0x7, ErrorHandle := 0xB,
        Console := some NewConsole, InputWaitHandle := some DupHandle })
      { P with
        Console := some NewConsole
        HandleTable := some (StandardTable S NewConsole)
        ConsoleEvent := some DupHandle
        CtrlDispatcher := ConnectInfo.CtrlDispatcher }
      (InsertHeadList (InterlockedIncrementReferenceCount
        (Win32CsrCreateHandleEntry (Win32CsrCreateHandleEntry (Win32CsrCreateHandleEntry
          (Win32CsrReleaseConsole P S).2
          (StandardEntry ((Win32CsrReleaseConsole P S).2.Consoles NewConsole).InputBuffer))
          (StandardEntry ((Win32CsrReleaseConsole P S).2.Consoles NewConsole).ActiveBuffer))
          (StandardEntry ((Win32CsrReleaseConsole P S).2.Consoles NewConsole).ActiveBuffer))
        NewConsole) NewConsole P.Process) := by
  rw [connect_new P S ConnectInfo InitStatus NewConsole a1 a2 a3 DupStatus DupHandle hn ha
    hnew] at hr
  by_cases h1 : NT_SUCCESS InitStatus = false
  · rw [if_pos h1] at hr
    cases hr
    simp only at hok
    rw [hok] at h1
    simp [NT_SUCCESS] at h1
  · rw [if_neg h1] at hr
    have h1t : NT_SUCCESS InitStatus = true := by simpa using h1
    cases a1
    · simp only [if_true] at hr
      cases hr
      simp at hok
    · simp only [Bool.true_eq_false, if_false] at hr
      by_cases h2 : NT_SUCCESS DupStatus = false
      · rw [connectAttach_failure _ _ NewConsole _ _ _ rfl h2] at hr
        cases hr
        simp only at hok
        rw [hok] at h2
        simp [NT_SUCCESS] at h2
      · have h2t : NT_SUCCESS DupStatus = true := by simpa using h2
        rw [connectAttach_success _ _ NewConsole _ _ _ rfl h2t] at hr
        cases hr
        rw [standardTable_release]
        exact ⟨h1t, rfl, h2t, rfl⟩

/-- C25: the new-session path of `ConsoleConnect`.  When a console is needed,
the process is a console application without console, and the requested console
is absent or differs from `ParentConsole`, a successful `ConsoleConnect` has
discarded the tentatively inherited table (each counter of each object is
lowered by the slots of the old table that it counted) and attached the
console `NewConsole` made by the session factory: the table holds exactly the
input buffer in slot 0 and the active screen buffer in slots 1 and 2, returned
as the handles `0x3`, `0x7`, `0xB` (the other three slots are free), every
counter is raised by the slots of the new table it counts, the reference count
of `NewConsole` is raised by exactly 1 and the process heads its process list;
no other console changes and no console is destroyed. -/
theorem connect_new_session (P : CONSOLE_PROCESS_DATA) (S : ServerState)
    (ConnectInfo : CONSOLE_CONNECTION_INFO) (InitStatus : NTSTATUS) (NewConsole : Nat)
    (a1 a2 a3 : Bool) (DupStatus : NTSTATUS) (DupHandle : Nat) (r : ConnectResult)
    (hn : ConnectInfo.ConsoleNeeded = true) (ha : P.ConsoleApp = true)
    (hnew : ConnectInfo.Console = none ∨ ConnectInfo.Console ≠ P.ParentConsole)
    (hcon : P.Console = none)
    (hr : ConsoleConnect P S (some ConnectInfo) (some sizeof_CONSOLE_CONNECTION_INFO)
      InitStatus NewConsole a1 a2 a3 DupStatus DupHandle = some r)
    (hok : r.Status = NTSTATUS.STATUS_SUCCESS) :
    r.ProcessData.Console = some NewConsole ∧
    HandleTableEntries r.ProcessData =
      [StandardEntry (S.Consoles NewConsole).InputBuffer,
        StandardEntry (S.Consoles NewConsole).ActiveBuffer,
        StandardEntry (S.Consoles NewConsole).ActiveBuffer,
        ZeroEntry, ZeroEntry, ZeroEntry] ∧
    (∃ Info, r.ConnectionInfo = some Info ∧ Info.Console = some NewConsole ∧
      Info.InputHandle = ConsoleHandleOfIndex 0 ∧ Info.InputHandle = 0x3 ∧
      Info.OutputHandle = ConsoleHandleOfIndex 1 ∧ Info.OutputHandle = 0x7 ∧
      Info.ErrorHandle = ConsoleHandleOfIndex 2 ∧ Info.ErrorHandle = 0xB) ∧
    (∀ k o, CounterValue k (r.State.Objects o) =
      CounterValue k (S.Objects o) - CountEntries k (HandleTableEntries P) o
        + CountEntries k (HandleTableEntries r.ProcessData) o) ∧
    (r.State.Consoles NewConsole).ReferenceCount
      = (S.Consoles NewConsole).ReferenceCount + 1 ∧
    (r.State.Consoles NewConsole).ProcessList
      = P.Process :: (S.Consoles NewConsole).ProcessList ∧
    (∀ c1, c1 ≠ NewConsole →
      (r.State.Consoles c1).ReferenceCount = (S.Consoles c1).ReferenceCount ∧
      (r.State.Consoles c1).ProcessList = (S.Consoles c1).ProcessList) ∧
    r.State.DeletedConsoles = S.DeletedConsoles := by
  obtain ⟨_, _, _, rfl⟩ := connect_new_success P S ConnectInfo InitStatus NewConsole a1 a2 a3
    DupStatus DupHandle r hn ha hnew hr hok
  obtain ⟨hs, hd⟩ := sameSessions_trans (sameSessions_release_none P S hcon)
    (sameSessions_standard (Win32CsrReleaseConsole P S).2
      (StandardEntry ((Win32CsrReleaseConsole P S).2.Consoles NewConsole).InputBuffer)
      (StandardEntry ((Win32CsrReleaseConsole P S).2.Consoles NewConsole).ActiveBuffer)
      (StandardEntry ((Win32CsrReleaseConsole P S).2.Consoles NewConsole).ActiveBuffer))
  refine ⟨rfl, rfl, ⟨_, rfl, rfl, rfl, rfl, rfl, rfl, rfl, rfl⟩, ?_, ?_, ?_, ?_, ?_⟩
  · intro k o
    dsimp only
    rw [(attach_objects _ NewConsole P.Process).1,
      standard_counter k (Win32CsrReleaseConsole P S).2 NewConsole o,
      releaseConsole_counter, standardTable_release]
    rfl
  · dsimp only
    rw [(attach_sessions _ NewConsole P.Process NewConsole).1, if_pos rfl, (hs NewConsole).1]
  · dsimp only
    rw [(attach_sessions _ NewConsole P.Process NewConsole).2.1, if_pos rfl,
      (hs NewConsole).2.2.2.2]
  · intro c1 hc1
    dsimp only
    rw [(attach_sessions _ NewConsole P.Process c1).1,
      (attach_sessions _ NewConsole P.Process c1).2.1, if_neg hc1, if_neg hc1, (hs c1).1,
      (hs c1).2.2.2.2]
    exact ⟨rfl, rfl⟩
  · exact hd

/-- Witness for C25: the inheriting child asks for a new console; console 1 is
made for it and has reference count 1 afterwards. -/
theorem connect_new_session_witness :
    ∃ r, ConsoleConnect InheritedProcess InheritedState (some {})
        (some sizeof_CONSOLE_CONNECTION_INFO) NTSTATUS.STATUS_SUCCESS 1 true true true
        NTSTATUS.STATUS_SUCCESS 77 = some r ∧
      r.Status = NTSTATUS.STATUS_SUCCESS ∧
      r.ProcessData.Console = some 1 ∧
      HandleTableEntries r.ProcessData =
        [StandardEntry 3, StandardEntry 4, StandardEntry 4, ZeroEntry, ZeroEntry, ZeroEntry] ∧
      (r.State.Consoles 1).ReferenceCount = 1 ∧
      (r.State.Objects 1).HandleCount = 2 := by
  have hsome : ∃ r, ConsoleConnect InheritedProcess InheritedState (some {})
      (some sizeof_CONSOLE_CONNECTION_INFO) NTSTATUS.STATUS_SUCCESS 1 true true true
      NTSTATUS.STATUS_SUCCESS 77 = some r ∧ r.Status = NTSTATUS.STATUS_SUCCESS :=
    ⟨_, rfl, rfl⟩
  obtain ⟨r, hr, hok⟩ := hsome
  have h := connect_new_session InheritedProcess InheritedState {} NTSTATUS.STATUS_SUCCESS 1
    true true true NTSTATUS.STATUS_SUCCESS 77 r rfl rfl (Or.inl rfl) rfl hr hok
  refine ⟨r, hr, hok, h.1, h.2.1, h.2.2.2.2.1.trans (by decide), ?_⟩
  have hc := h.2.2.2.1 CounterKind.HandleCount 1
  rw [h.2.1] at hc
  exact hc.trans (by decide)

/-- Counterexample to C26 as written: the inheriting child asks for a new
console and the session factory fails with `STATUS_NO_MEMORY`.  The call
returns that error, but the table the child had inherited is gone and the
`HandleCount` of screen buffer 1 is 2 instead of the 3 before the call. -/
theorem connect_early_failure_counterexample :
    ∃ r, ConsoleConnect InheritedProcess InheritedState (some {})
        (some sizeof_CONSOLE_CONNECTION_INFO) NTSTATUS.STATUS_NO_MEMORY 1 true true true
        NTSTATUS.STATUS_SUCCESS 77 = some r ∧
      r.Status = NTSTATUS.STATUS_NO_MEMORY ∧
      InheritedProcess.HandleTable
        = some [⟨some 1, GENERIC_READ ||| GENERIC_WRITE, true, 3⟩, ZeroEntry] ∧
      r.ProcessData.HandleTable = none ∧
      (InheritedState.Objects 1).HandleCount = 3 ∧
      (r.State.Objects 1).HandleCount = 2 :=
  ⟨_, rfl, rfl, rfl, rfl, rfl, by decide⟩

/-- C26 (amended): when a console is needed, the process is a console
application and the requested console is absent or differs from
`ParentConsole`, and `ConsoleConnect` fails before the event duplication (the
session factory fails, or it succeeds and the first allocation of
`Win32CsrInitHandlesTable` fails), then the call returns the triggering error
(the status of the factory, or `STATUS_UNSUCCESSFUL` of the failed insert) and
leaves the connection info as it was, but the process has been released
before: its table is `NULL`, `Console` is absent, `ParentConsole` and the other
fields are as before, and each counter of each object is lowered by the slots
of the old table that it counted; a console made by the factory has been
destroyed again.  For a process without console the reference counts and
process lists are unchanged, and if it had no table either, the process data
and the objects are unchanged. -/
theorem connect_early_failure (P : CONSOLE_PROCESS_DATA) (S : ServerState)
    (ConnectInfo : CONSOLE_CONNECTION_INFO) (InitStatus : NTSTATUS) (NewConsole : Nat)
    (a1 a2 a3 : Bool) (DupStatus : NTSTATUS) (DupHandle : Nat)
    (hn : ConnectInfo.ConsoleNeeded = true) (ha : P.ConsoleApp = true)
    (hnew : ConnectInfo.Console = none ∨ ConnectInfo.Console ≠ P.ParentConsole)
    (hfail : NT_SUCCESS InitStatus = false ∨ a1 = false) :
    ∃ r, ConsoleConnect P S (some ConnectInfo) (some sizeof_CONSOLE_CONNECTION_INFO)
        InitStatus NewConsole a1 a2 a3 DupStatus DupHandle = some r ∧
      r.Status = (if NT_SUCCESS InitStatus = false then InitStatus
        else NTSTATUS.STATUS_UNSUCCESSFUL) ∧
      NT_SUCCESS r.Status = false ∧
      r.ConnectionInfo = some ConnectInfo ∧
      r.ProcessData = { P with HandleTable := none, Console := none } ∧
      r.ProcessData.ParentConsole = P.ParentConsole ∧
      r.ProcessData = (Win32CsrReleaseConsole P S).1 ∧
      r.State = (if NT_SUCCESS InitStatus = false then (Win32CsrReleaseConsole P S).2
        else ConioDeleteConsole (Win32CsrReleaseConsole P S).2 NewConsole) ∧
      (∀ k o, CounterValue k (r.State.Objects o)
        = CounterValue k (S.Objects o) - CountEntries k (HandleTableEntries P) o) ∧
      (P.Console = none →
        (∀ c, (r.State.Consoles c).ReferenceCount = (S.Consoles c).ReferenceCount ∧
          (r.State.Consoles c).ProcessList = (S.Consoles c).ProcessList) ∧
        r.State.DeletedConsoles = S.DeletedConsoles ++
          (if NT_SUCCESS InitStatus = false then [] else [NewConsole])) ∧
      (P.Console = none → P.HandleTable = none →
        r.ProcessData = P ∧ r.State.Objects = S.Objects) := by
  have hp := releaseConsole_process P S
  have hcount : ∀ k o, CounterValue k ((Win32CsrReleaseConsole P S).2.Objects o)
      = CounterValue k (S.Objects o) - CountEntries k (HandleTableEntries P) o :=
    fun k o => releaseConsole_counter k o P S
  have hsame : P.Console = none → SameSessions S (Win32CsrReleaseConsole P S).2 :=
    sameSessions_release_none P S
  have hobj : P.Console = none → P.HandleTable = none →
      { P with HandleTable := none, Console := none } = P ∧
      (Win32CsrReleaseConsole P S).2.Objects = S.Objects := by
    intro h1 h2
    constructor
    · cases P
      simp_all
    · rw [releaseConsole_none P S h1, free_eq]
      simp [HandleTableEntries, h2, CloseAllEntries]
  rw [connect_new P S ConnectInfo InitStatus NewConsole a1 a2 a3 DupStatus DupHandle hn ha hnew]
  by_cases h1 : NT_SUCCESS InitStatus = false
  · simp only [if_pos h1]
    refine ⟨_, rfl, rfl, h1, rfl, hp, by rw [hp], rfl, rfl, hcount, ?_, ?_⟩
    · intro hc
      obtain ⟨hs, hd⟩ := hsame hc
      exact ⟨fun c => ⟨(hs c).1, (hs c).2.2.2.2⟩, by simp [hd]⟩
    · intro hc ht
      exact ⟨hp.trans (hobj hc ht).1, (hobj hc ht).2⟩
  · have ha1 : a1 = false := hfail.resolve_left h1
    simp only [if_neg h1, ha1, if_true]
    refine ⟨_, rfl, rfl, rfl, rfl, hp, by rw [hp], rfl, rfl, hcount, ?_, ?_⟩
    · intro hc
      obtain ⟨hs, hd⟩ := hsame hc
      exact ⟨fun c => ⟨(hs c).1, (hs c).2.2.2.2⟩, by simp [ConioDeleteConsole, hd]⟩
    · intro hc ht
      exact ⟨hp.trans (hobj hc ht).1, (hobj hc ht).2⟩

/-- Witness for C26: the inheriting child asks for a new console and the
session factory fails. -/
theorem connect_early_failure_witness :
    ∃ r, ConsoleConnect InheritedProcess InheritedState (some {})
        (some sizeof_CONSOLE_CONNECTION_INFO) NTSTATUS.STATUS_NO_MEMORY 1 true true true
        NTSTATUS.STATUS_SUCCESS 77 = some r ∧
      r.Status = NTSTATUS.STATUS_NO_MEMORY ∧
      r.ProcessData.HandleTable = none ∧ r.ProcessData.ParentConsole = some 0 := by
  obtain ⟨r, h1, h2, _, _, h5, h6, _⟩ := connect_early_failure InheritedProcess InheritedState
    {} NTSTATUS.STATUS_NO_MEMORY 1 true true true NTSTATUS.STATUS_SUCCESS 77 rfl rfl
    (Or.inl rfl) (Or.inl rfl)
  exact ⟨r, h1, h2.trans (by decide), by rw [h5], h6⟩

theorem attach_rollback (PA : CONSOLE_PROCESS_DATA) (S1 : ServerState) (c : Nat)
    (ConnectInfo : CONSOLE_CONNECTION_INFO) (DupStatus : NTSTATUS) (DupHandle : Nat)
    (hc : PA.Console = some c) (hd : NT_SUCCESS DupStatus = false) :
    ∃ r, ConnectAttach PA S1 ConnectInfo DupStatus DupHandle = some r ∧
      r.Status = DupStatus ∧
      r.ProcessData = { PA with HandleTable := none, Console := none } ∧
      (r.ProcessData, r.State) = Win32CsrReleaseConsole PA
        (InsertHeadList (InterlockedIncrementReferenceCount S1 c) c PA.Process) ∧
      SameSessions
        (if (S1.Consoles c).ReferenceCount = 0 then ConioDeleteConsole S1 c else S1) r.State ∧
      (∀ k o, CounterValue k (r.State.Objects o)
        = CounterValue k (S1.Objects o) - CountEntries k (HandleTableEntries PA) o) := by
  rw [connectAttach_failure PA S1 c ConnectInfo DupStatus DupHandle hc hd]
  refine ⟨_, rfl, rfl, releaseConsole_process _ _, rfl, sameSessions_rollback PA S1 c hc, ?_⟩
  intro k o
  exact releaseConsole_counter k o PA _

/-- C27: when `ConsoleConnect` of a process without console has reached the
event duplication (on the path that reuses the parent console `c`, or on the
new-session path after the console `c` was made and the standard handles were
inserted) and `NtDuplicateObject` fails, the call returns the status of the
duplication after `Win32CsrReleaseConsole`, the function of the detach: the
table is `NULL` with size 0 (every slot closed), `Console` is absent, the
process list and the reference count of every console are what they were
before the call, and `ConioDeleteConsole` is called on `c`, once, if and only
if that reference count is 0. -/
theorem connect_dup_failure (P : CONSOLE_PROCESS_DATA) (S : ServerState)
    (ConnectInfo : CONSOLE_CONNECTION_INFO) (InitStatus : NTSTATUS) (NewConsole : Nat)
    (a1 a2 a3 : Bool) (DupStatus : NTSTATUS) (DupHandle : Nat) (c : Nat)
    (hn : ConnectInfo.ConsoleNeeded = true) (ha : P.ConsoleApp = true)
    (hcon : P.Console = none)
    (hpath : (ConnectInfo.Console = some c ∧ P.ParentConsole = some c) ∨
      ((ConnectInfo.Console = none ∨ ConnectInfo.Console ≠ P.ParentConsole) ∧
        NT_SUCCESS InitStatus = true ∧ a1 = true ∧ NewConsole = c))
    (hdup : NT_SUCCESS DupStatus = false) :
    ∃ r, ConsoleConnect P S (some ConnectInfo) (some sizeof_CONSOLE_CONNECTION_INFO)
        InitStatus NewConsole a1 a2 a3 DupStatus DupHandle = some r ∧
      r.Status = DupStatus ∧
      r.ProcessData.HandleTable = none ∧ HandleTableSize r.ProcessData = 0 ∧
      r.ProcessData.Console = none ∧ r.ProcessData.ParentConsole = P.ParentConsole ∧
      (∃ PA SA, PA.Console = some c ∧ PA.Process = P.Process ∧
        (SA.Consoles c).ProcessList = P.Process :: (S.Consoles c).ProcessList ∧
        (SA.Consoles c).ReferenceCount = (S.Consoles c).ReferenceCount + 1 ∧
        (r.ProcessData, r.State) = Win32CsrReleaseConsole PA SA) ∧
      (∀ c1, (r.State.Consoles c1).ReferenceCount = (S.Consoles c1).ReferenceCount ∧
        (r.State.Consoles c1).ProcessList = (S.Consoles c1).ProcessList) ∧
      r.State.DeletedConsoles = S.DeletedConsoles ++
        (if (S.Consoles c).ReferenceCount = 0 then [c] else []) ∧
      (∀ k o, CounterValue k (r.State.Objects o)
        = CounterValue k (S.Objects o) - CountEntries k (HandleTableEntries P) o) := by
  have key : ∀ (PA : CONSOLE_PROCESS_DATA) (S1 : ServerState) (Info : CONSOLE_CONNECTION_INFO),
      PA.Console = some c → PA.Process = P.Process → PA.ParentConsole = P.ParentConsole →
      SameSessions S S1 →
      (∀ k o, CounterValue k (S1.Objects o) - CountEntries k (HandleTableEntries PA) o
        = CounterValue k (S.Objects o) - CountEntries k (HandleTableEntries P) o) →
      ∃ r, ConnectAttach PA S1 Info DupStatus DupHandle = some r ∧
        r.Status = DupStatus ∧
        r.ProcessData.HandleTable = none ∧ HandleTableSize r.ProcessData = 0 ∧
        r.ProcessData.Console = none ∧ r.ProcessData.ParentConsole = P.ParentConsole ∧
        (∃ PA SA, PA.Console = some c ∧ PA.Process = P.Process ∧
          (SA.Consoles c).ProcessList = P.Process :: (S.Consoles c).ProcessList ∧
          (SA.Consoles c).ReferenceCount = (S.Consoles c).ReferenceCount + 1 ∧
          (r.ProcessData, r.State) = Win32CsrReleaseConsole PA SA) ∧
        (∀ c1, (r.State.Consoles c1).ReferenceCount = (S.Consoles c1).ReferenceCount ∧
          (r.State.Consoles c1).ProcessList = (S.Consoles c1).ProcessList) ∧
        r.State.DeletedConsoles = S.DeletedConsoles ++
          (if (S.Consoles c).ReferenceCount = 0 then [c] else []) ∧
        (∀ k o, CounterValue k (r.State.Objects o)
          = CounterValue k (S.Objects o) - CountEntries k (HandleTableEntries P) o) := by
    intro PA S1 Info hc hpid hpar hsame hcnt
    obtain ⟨r, h1, h2, h3, h4, ⟨h5, h5d⟩, h6⟩ :=
      attach_rollback PA S1 c Info DupStatus DupHandle hc hdup
    obtain ⟨hs, hsd⟩ := hsame
    have hcons : ∀ c1, (if (S1.Consoles c).ReferenceCount = 0 then ConioDeleteConsole S1 c
        else S1).Consoles c1 = S1.Consoles c1 := by
      intro c1
      split_ifs <;> rfl
    refine ⟨r, h1, h2, by rw [h3], by rw [h3]; rfl, by rw [h3], by rw [h3]; exact hpar,
      ⟨PA, _, hc, hpid, ?_, ?_, h4⟩, ?_, ?_, ?_⟩
    · rw [(attach_sessions S1 c PA.Process c).2.1, if_pos rfl, (hs c).2.2.2.2, hpid]
    · rw [(attach_sessions S1 c PA.Process c).1, if_pos rfl, (hs c).1]
    · intro c1
      rw [(h5 c1).1, (h5 c1).2.2.2.2, hcons, (hs c1).1, (hs c1).2.2.2.2]
      exact ⟨rfl, rfl⟩
    · rw [h5d, (hs c).1]
      split_ifs <;> simp [ConioDeleteConsole, hsd]
    · intro k o
      rw [h6, hcnt]
  rcases hpath with ⟨hc, hp⟩ | ⟨hnew, hinit, ha1, rfl⟩
  · rw [connect_reuse P S ConnectInfo InitStatus NewConsole a1 a2 a3 DupStatus DupHandle c hn ha
      hc hp]
    exact key _ S ConnectInfo rfl rfl rfl (sameSessions_refl S) (fun k o => rfl)
  · rw [connect_new P S ConnectInfo InitStatus NewConsole a1 a2 a3 DupStatus DupHandle hn ha
      hnew]
    have h1 : ¬ NT_SUCCESS InitStatus = false := by simp [hinit]
    simp only [if_neg h1, ha1, Bool.true_eq_false, if_false]
    refine key _ _ _ rfl rfl rfl
      (sameSessions_trans (sameSessions_release_none P S hcon) (sameSessions_standard _ _ _ _))
      ?_
    intro k o
    rw [standard_counter k (Win32CsrReleaseConsole P S).2 NewConsole o,
      releaseConsole_counter]
    simp only [HandleTableEntries, Option.getD_some]
    ring

/-- Witness for C27: the inheriting child asks for the console 0 of its parent
and the event duplication fails; console 0 keeps its reference count 1 and is
not destroyed. -/
theorem connect_dup_failure_witness :
    ∃ r, ConsoleConnect InheritedProcess InheritedState (some { Console := some 0 })
        (some sizeof_CONSOLE_CONNECTION_INFO) NTSTATUS.STATUS_SUCCESS 1 true true true
        NTSTATUS.STATUS_UNSUCCESSFUL 77 = some r ∧
      r.Status = NTSTATUS.STATUS_UNSUCCESSFUL ∧ r.ProcessData.Console = none ∧
      (r.State.Consoles 0).ReferenceCount = 1 ∧ r.State.DeletedConsoles = [] := by
  obtain ⟨r, h1, h2, _, _, h5, _, _, h8, h9, _⟩ := connect_dup_failure InheritedProcess
    InheritedState { Console := some 0 } NTSTATUS.STATUS_SUCCESS 1 true true true
    NTSTATUS.STATUS_UNSUCCESSFUL 77 0 rfl rfl rfl (Or.inl ⟨rfl, rfl⟩) rfl
  exact ⟨r, h1, h2, h5, (h8 0).1.trans (by decide), h9.trans (by decide)⟩

/-! ## The reuse scenario -/

theorem map_inheritedSlot_free (t : List CONSOLE_IO_HANDLE) (h : ∀ e ∈ t, e.Object = none) :
    t.map InheritedSlot = List.replicate t.length ZeroEntry := by
  induction t with
  | nil => rfl
  | cons e t ih =>
    have he : e.Object = none := h e (List.mem_cons_self e t)
    rw [List.map_cons, ih (fun x hx => h x (List.mem_cons_of_mem e hx))]
    simp [InheritedSlot, he, List.replicate]

/-- C24: the reuse scenario.  Process `A` holds console `c` and a table whose
first two slots are an inheritable handle `e1` on an object and a
non-inheritable alias `e2` of it, all other slots free.  After
`ConsoleNewProcess(A, B)` for a console application `B` (allocation succeeding)
and a `ConsoleConnect` of `B` that asks for `c` and whose event duplication
succeeds, the connect has returned `STATUS_SUCCESS`, `B` has `Console = c`, the
table of `B` holds `e1` in slot 0 and nothing else (the slot of the alias is
free), `B` heads the process list of `c`, and the reference count of `c` is
exactly 1 higher than before the connect. -/
theorem reuse_scenario (A B : CSR_PROCESS) (S : ServerState) (c o : Nat)
    (e1 e2 : CONSOLE_IO_HANDLE) (rest : List CONSOLE_IO_HANDLE)
    (ConnectInfo : CONSOLE_CONNECTION_INFO) (InitStatus : NTSTATUS) (NewConsole : Nat)
    (a1 a2 a3 : Bool) (DupStatus : NTSTATUS) (DupHandle : Nat)
    (hAB : A.Address ≠ B.Address) (hA : A.ServerData.Console = some c)
    (hB : B.IsConsoleApp = true)
    (htable : HandleTableEntries A.ServerData = e1 :: e2 :: rest)
    (he1 : e1.Object = some o ∧ e1.Inheritable = true)
    (he2 : e2.Object = some o ∧ e2.Inheritable = false)
    (hrest : ∀ e ∈ rest, e.Object = none)
    (hn : ConnectInfo.ConsoleNeeded = true) (hc : ConnectInfo.Console = some c)
    (hdup : NT_SUCCESS DupStatus = true) :
    ∃ T S1 r, ConsoleNewProcess (some A) (some B) S true
        = (NTSTATUS.STATUS_SUCCESS, some T, S1) ∧
      ConsoleConnect T S1 (some ConnectInfo) (some sizeof_CONSOLE_CONNECTION_INFO) InitStatus
        NewConsole a1 a2 a3 DupStatus DupHandle = some r ∧
      r.Status = NTSTATUS.STATUS_SUCCESS ∧
      r.ProcessData.Console = some c ∧
      HandleTableEntries r.ProcessData
        = e1 :: ZeroEntry :: List.replicate rest.length ZeroEntry ∧
      (∀ i, 1 ≤ i → (HandleTableAt r.ProcessData i).Object = none) ∧
      (r.State.Consoles c).ProcessList = B.Address :: (S1.Consoles c).ProcessList ∧
      B.Address ∈ (r.State.Consoles c).ProcessList ∧
      (r.State.Consoles c).ReferenceCount = (S1.Consoles c).ReferenceCount + 1 := by
  have hAc : A.ServerData.Console ≠ none := by simp [hA]
  have hentries : (HandleTableEntries A.ServerData).map InheritedSlot
      = e1 :: ZeroEntry :: List.replicate rest.length ZeroEntry := by
    rw [htable, List.map_cons, List.map_cons, map_inheritedSlot_free rest hrest]
    simp [InheritedSlot, he1.1, he1.2, he2.2]
  have hconn : ∀ (T : CONSOLE_PROCESS_DATA) (S1 : ServerState), T.ConsoleApp = true →
      T.ParentConsole = some c →
      ConsoleConnect T S1 (some ConnectInfo) (some sizeof_CONSOLE_CONNECTION_INFO) InitStatus
        NewConsole a1 a2 a3 DupStatus DupHandle =
      some (ConnectResult.mk NTSTATUS.STATUS_SUCCESS
        (some { ConnectInfo with Console := some c, InputWaitHandle := some DupHandle })
        { ({ T with Console := some c } : CONSOLE_PROCESS_DATA) with
          ConsoleEvent := some DupHandle, CtrlDispatcher := ConnectInfo.CtrlDispatcher }
        (InsertHeadList (InterlockedIncrementReferenceCount S1 c) c T.Process)) :=
    fun T S1 h1 h2 =>
      (connect_reuse T S1 ConnectInfo InitStatus NewConsole a1 a2 a3 DupStatus DupHandle c hn h1
        hc h2).trans (connectAttach_success _ _ c ConnectInfo DupStatus DupHandle rfl hdup)
  refine ⟨_, _, _, newProcess_inherits A B S hAB hAc hB, hconn _ _ hB hA, rfl, rfl, ?_, ?_, ?_,
    ?_, ?_⟩
  · exact hentries
  · intro i hi
    show ((HandleTableEntries _).getD i ZeroEntry).Object = none
    have : HandleTableEntries
        ({ ({ ({ TargetWithTable (NewProcessData B)
              ((HandleTableEntries A.ServerData).map InheritedSlot) with
            ParentConsole := A.ServerData.Console } : CONSOLE_PROCESS_DATA) with
          Console := some c } : CONSOLE_PROCESS_DATA) with
          ConsoleEvent := some DupHandle, CtrlDispatcher := ConnectInfo.CtrlDispatcher })
        = e1 :: ZeroEntry :: List.replicate rest.length ZeroEntry := hentries
    rw [this]
    obtain ⟨j, rfl⟩ : ∃ j, i = j + 1 := ⟨i - 1, by omega⟩
    rw [List.getD_cons_succ]
    cases j with
    | zero => rfl
    | succ j =>
      rw [List.getD_cons_succ, List.getD_eq_getElem?_getD, List.getElem?_replicate]
      split_ifs <;> rfl
  · exact (attach_sessions _ c B.Address c).2.1.trans (by rw [if_pos rfl])
  · have := (attach_sessions (InheritEntries S (HandleTableEntries A.ServerData)).2 c
      B.Address c).2.1
    rw [if_pos rfl] at this
    show B.Address ∈ ((InsertHeadList _ c B.Address).Consoles c).ProcessList
    rw [this]
    exact List.mem_cons_self _ _
  · exact (attach_sessions _ c B.Address c).1.trans (by rw [if_pos rfl])

/-- Witness for C24: `ParentProcess` creates `ChildProcess`, which then
connects to console 0. -/
theorem reuse_scenario_witness :
    ∃ T S1 r, ConsoleNewProcess (some ParentProcess) (some ChildProcess) ParentState true
        = (NTSTATUS.STATUS_SUCCESS, some T, S1) ∧
      ConsoleConnect T S1 (some { Console := some 0 }) (some sizeof_CONSOLE_CONNECTION_INFO)
        NTSTATUS.STATUS_SUCCESS 1 true true true NTSTATUS.STATUS_SUCCESS 77 = some r ∧
      r.ProcessData.Console = some 0 ∧
      HandleTableEntries r.ProcessData
        = [⟨some 1, GENERIC_READ ||| GENERIC_WRITE, true, 3⟩, ZeroEntry] ∧
      (r.State.Consoles 0).ProcessList = 11 :: (S1.Consoles 0).ProcessList := by
  obtain ⟨T, S1, r, h1, h2, _, h4, h5, _, h7, _⟩ := reuse_scenario ParentProcess ChildProcess
    ParentState 0 1 ⟨some 1, GENERIC_READ ||| GENERIC_WRITE, true, 3⟩
    ⟨some 1, GENERIC_READ ||| GENERIC_WRITE, false, 3⟩ [] { Console := some 0 }
    NTSTATUS.STATUS_SUCCESS 1 true true true NTSTATUS.STATUS_SUCCESS 77 (by decide) rfl rfl rfl
    ⟨rfl, rfl⟩ ⟨rfl, rfl⟩ (by simp) rfl rfl rfl
  exact ⟨T, S1, r, h1, h2, h4, h5, h7⟩

/-! ## The reference count of a session -/

theorem attached_set (Ps : List CONSOLE_PROCESS_DATA) (i : Nat) (P P1 : CONSOLE_PROCESS_DATA)
    (c : Nat) (hP : Ps[i]? = some P) :
    Attached (Ps.set i P1) c + (if P.Console = some c then 1 else 0) =
      Attached Ps c + (if P1.Console = some c then 1 else 0) := by
  induction Ps generalizing i with
  | nil => simp at hP
  | cons Q Ps ih =>
    cases i with
    | zero =>
      simp only [List.getElem?_cons_zero, Option.some.injEq] at hP
      subst hP
      simp only [Attached, List.set_cons_zero, List.countP_cons, decide_eq_true_eq]
      omega
    | succ i =>
      simp only [List.getElem?_cons_succ] at hP
      have := ih i hP
      simp only [Attached, List.set_cons_succ, List.countP_cons, decide_eq_true_eq] at this ⊢
      omega

theorem attached_same (Ps : List CONSOLE_PROCESS_DATA) (i : Nat) (P P1 : CONSOLE_PROCESS_DATA)
    (c : Nat) (hP : Ps[i]? = some P) (h : P1.Console = P.Console) :
    Attached (Ps.set i P1) c = Attached Ps c := by
  have := attached_set Ps i P P1 c hP
  rw [h] at this
  omega

theorem attached_pos (Ps : List CONSOLE_PROCESS_DATA) (i : Nat) (P : CONSOLE_PROCESS_DATA)
    (c : Nat) (hP : Ps[i]? = some P) (hc : P.Console = some c) : 0 < Attached Ps c := by
  unfold Attached
  rw [List.countP_pos_iff]
  exact ⟨P, List.getElem?_mem hP, by simp [hc]⟩

theorem sessionStep_refl (W : SessionWorld) : SessionStep W W := by
  refine ⟨fun _ => rfl, [], by simp, Or.inl rfl, fun c h1 h2 => by omega, fun c h => ?_⟩
  rcases h with h | h
  · simp at h
  · exact absurd rfl h

theorem sessionStep_update (W : SessionWorld) (pid : Nat) (P P1 : CONSOLE_PROCESS_DATA)
    (S1 : ServerState) (L1 D : List Nat) (hP : W.Processes[pid]? = some P)
    (hrc : ∀ c, (S1.Consoles c).ReferenceCount + (if P.Console = some c then 1 else 0)
        + W.Lookups.count c
      = (W.State.Consoles c).ReferenceCount + (if P1.Console = some c then 1 else 0)
        + L1.count c)
    (hD : S1.DeletedConsoles = W.State.DeletedConsoles ++ D)
    (hD1 : D = [] ∨ ∃ c, D = [c] ∧ (S1.Consoles c).ReferenceCount = 0)
    (hD2 : ∀ c, 0 < (W.State.Consoles c).ReferenceCount →
      (S1.Consoles c).ReferenceCount = 0 → D = [c])
    (hD3 : ∀ c, c ∈ D ∨ (S1.Consoles c).ReferenceCount ≠ (W.State.Consoles c).ReferenceCount →
      c ∉ W.State.DeletedConsoles ∨ 0 < Attached W.Processes c + W.Lookups.count c) :
    SessionStep W ⟨W.Processes.set pid P1, S1, L1⟩ := by
  refine ⟨fun c => ?_, D, hD, hD1, hD2, hD3⟩
  have h1 := attached_set W.Processes pid P P1 c hP
  have h2 := hrc c
  dsimp only
  split_ifs at h1 h2 <;> omega

theorem connectAttach_sessions (PA : CONSOLE_PROCESS_DATA) (S1 : ServerState) (c : Nat)
    (ConnectInfo : CONSOLE_CONNECTION_INFO) (DupStatus : NTSTATUS) (DupHandle : Nat)
    (r : ConnectResult) (hc : PA.Console = some c)
    (hr : ConnectAttach PA S1 ConnectInfo DupStatus DupHandle = some r) :
    ∃ D, r.State.DeletedConsoles = S1.DeletedConsoles ++ D ∧
      (∀ c1, (r.State.Consoles c1).ReferenceCount
        = (S1.Consoles c1).ReferenceCount
          + (if r.ProcessData.Console = some c1 then 1 else 0)) ∧
      (D = [] ∨ ∃ c, D = [c] ∧ (r.State.Consoles c).ReferenceCount = 0) ∧
      (∀ c1, c1 ∈ D ∨ r.ProcessData.Console = some c1 → c1 = c) := by
  by_cases hd : NT_SUCCESS DupStatus = false
  · obtain ⟨r1, h1, _, h3, _, ⟨h5, h5d⟩, _⟩ :=
      attach_rollback PA S1 c ConnectInfo DupStatus DupHandle hc hd
    rw [hr] at h1
    cases h1
    have hcons : ∀ c1, (if (S1.Consoles c).ReferenceCount = 0 then ConioDeleteConsole S1 c
        else S1).Consoles c1 = S1.Consoles c1 := by
      intro c1
      split_ifs <;> rfl
    have hrc : ∀ c1, (r.State.Consoles c1).ReferenceCount = (S1.Consoles c1).ReferenceCount :=
      fun c1 => by rw [(h5 c1).1, hcons]
    refine ⟨if (S1.Consoles c).ReferenceCount = 0 then [c] else [], ?_, ?_, ?_, ?_⟩
    · rw [h5d]
      split_ifs <;> simp [ConioDeleteConsole]
    · intro c1
      rw [hrc, h3]
      simp
    · by_cases h0 : (S1.Consoles c).ReferenceCount = 0
      · rw [if_pos h0]
        exact Or.inr ⟨c, rfl, (hrc c).trans h0⟩
      · rw [if_neg h0]
        exact Or.inl rfl
    · intro c1 h
      rcases h with h | h
      · split_ifs at h
        · simpa using h
        · simp at h
      · rw [h3] at h
        simp at h
  · have hdt : NT_SUCCESS DupStatus = true := by simpa using hd
    rw [connectAttach_success PA S1 c ConnectInfo DupStatus DupHandle hc hdt] at hr
    cases hr
    refine ⟨[], by simp [attach_objects], ?_, Or.inl rfl, ?_⟩
    · intro c1
      dsimp only
      rw [(attach_sessions S1 c PA.Process c1).1, hc]
      by_cases h : c1 = c
      · subst h
        simp
      · have h2 : ¬ (some c = some c1) := fun hh => h (Option.some.inj hh).symm
        simp [h, h2]
    · intro c1 h
      rcases h with h | h
      · simp at h
      · dsimp only at h
        rw [hc] at h
        exact (Option.some.inj h).symm

theorem connect_sessions (P : CONSOLE_PROCESS_DATA) (S : ServerState)
    (ConnectionInfo : Option CONSOLE_CONNECTION_INFO) (ConnectionInfoLength : Option Nat)
    (InitStatus : NTSTATUS) (NewConsole : Nat) (a1 a2 a3 : Bool) (DupStatus : NTSTATUS)
    (DupHandle : Nat) (r : ConnectResult) (hcon : P.Console = none)
    (hfresh : (S.Consoles NewConsole).ReferenceCount = 0)
    (hr : ConsoleConnect P S ConnectionInfo ConnectionInfoLength InitStatus NewConsole a1 a2 a3
      DupStatus DupHandle = some r) :
    ∃ D, r.State.DeletedConsoles = S.DeletedConsoles ++ D ∧
      (∀ c1, (r.State.Consoles c1).ReferenceCount
        = (S.Consoles c1).ReferenceCount
          + (if r.ProcessData.Console = some c1 then 1 else 0)) ∧
      (D = [] ∨ ∃ c, D = [c] ∧ (r.State.Consoles c).ReferenceCount = 0) ∧
      (∀ c1, c1 ∈ D ∨ r.ProcessData.Console = some c1 →
        c1 = NewConsole ∨ RequestedConsole ConnectionInfo = some c1) := by
  have same : ∀ r1 : ConnectResult, r1.ProcessData = P → r1.State = S →
      ∃ D, r1.State.DeletedConsoles = S.DeletedConsoles ++ D ∧
        (∀ c1, (r1.State.Consoles c1).ReferenceCount
          = (S.Consoles c1).ReferenceCount
            + (if r1.ProcessData.Console = some c1 then 1 else 0)) ∧
        (D = [] ∨ ∃ c, D = [c] ∧ (r1.State.Consoles c).ReferenceCount = 0) ∧
        (∀ c1, c1 ∈ D ∨ r1.ProcessData.Console = some c1 →
          c1 = NewConsole ∨ RequestedConsole ConnectionInfo = some c1) := by
    intro r1 h1 h2
    refine ⟨[], by simp [h2], fun c1 => ?_, Or.inl rfl, fun c1 h => ?_⟩
    · rw [h1, h2, hcon]
      simp
    · rw [h1, hcon] at h
      simp at h
  have transfer : ∀ (PA : CONSOLE_PROCESS_DATA) (S1 : ServerState) (c : Nat)
      (Info : CONSOLE_CONNECTION_INFO), PA.Console = some c → SameSessions S S1 →
      (c = NewConsole ∨ RequestedConsole ConnectionInfo = some c) →
      ConnectAttach PA S1 Info DupStatus DupHandle = some r →
      ∃ D, r.State.DeletedConsoles = S.DeletedConsoles ++ D ∧
        (∀ c1, (r.State.Consoles c1).ReferenceCount
          = (S.Consoles c1).ReferenceCount
            + (if r.ProcessData.Console = some c1 then 1 else 0)) ∧
        (D = [] ∨ ∃ c, D = [c] ∧ (r.State.Consoles c).ReferenceCount = 0) ∧
        (∀ c1, c1 ∈ D ∨ r.ProcessData.Console = some c1 →
          c1 = NewConsole ∨ RequestedConsole ConnectionInfo = some c1) := by
    intro PA S1 c Info hc hsame hwhich hatt
    obtain ⟨D, h1, h2, h3, h4⟩ :=
      connectAttach_sessions PA S1 c Info DupStatus DupHandle r hc hatt
    refine ⟨D, by rw [h1, hsame.2], fun c1 => by rw [h2, (hsame.1 c1).1], h3, fun c1 h => ?_⟩
    rw [h4 c1 h]
    exact hwhich
  cases ConnectionInfo with
  | none =>
    simp only [ConsoleConnect, Option.some.injEq] at hr
    subst hr
    exact same _ rfl rfl
  | some ConnectInfo =>
    cases ConnectionInfoLength with
    | none =>
      simp only [ConsoleConnect, Option.some.injEq] at hr
      subst hr
      exact same _ rfl rfl
    | some Length =>
      by_cases hlen : Length ≠ sizeof_CONSOLE_CONNECTION_INFO
      · simp only [ConsoleConnect, if_pos hlen, Option.some.injEq] at hr
        subst hr
        exact same _ rfl rfl
      · have hl : Length = sizeof_CONSOLE_CONNECTION_INFO := by
          by_contra h
          exact hlen h
        subst hl
        by_cases hneed : ConnectInfo.ConsoleNeeded = false ∨ P.ConsoleApp = false
        · simp only [ConsoleConnect, if_neg hlen, if_pos hneed, Option.some.injEq] at hr
          subst hr
          exact same _ rfl rfl
        · have hn : ConnectInfo.ConsoleNeeded = true := by
            cases h : ConnectInfo.ConsoleNeeded
            · exact absurd (Or.inl h) hneed
            · rfl
          have ha : P.ConsoleApp = true := by
            cases h : P.ConsoleApp
            · exact absurd (Or.inr h) hneed
            · rfl
          by_cases hnew : ConnectInfo.Console = none ∨ ConnectInfo.Console ≠ P.ParentConsole
          · rw [connect_new P S ConnectInfo InitStatus NewConsole a1 a2 a3 DupStatus DupHandle
              hn ha hnew] at hr
            have hrel := sameSessions_release_none P S hcon
            have hpc : (Win32CsrReleaseConsole P S).1.Console = none := by
              rw [releaseConsole_process]
            by_cases h1 : NT_SUCCESS InitStatus = false
            · rw [if_pos h1] at hr
              cases hr
              refine ⟨[], by simp [hrel.2], fun c1 => ?_, Or.inl rfl, fun c1 h => ?_⟩
              · dsimp only
                rw [hpc, (hrel.1 c1).1]
                simp
              · dsimp only at h
                rw [hpc] at h
                simp at h
            · rw [if_neg h1] at hr
              cases a1
              · simp only [if_true] at hr
                cases hr
                refine ⟨[NewConsole], by simp [ConioDeleteConsole, hrel.2], fun c1 => ?_,
                  Or.inr ⟨NewConsole, rfl, ?_⟩, fun c1 h => ?_⟩
                · show ((Win32CsrReleaseConsole P S).2.Consoles c1).ReferenceCount = _
                  rw [hpc, (hrel.1 c1).1]
                  simp
                · show ((Win32CsrReleaseConsole P S).2.Consoles NewConsole).ReferenceCount = 0
                  rw [(hrel.1 NewConsole).1, hfresh]
                · dsimp only at h
                  rw [hpc] at h
                  simp at h
                  exact Or.inl h
              · simp only [Bool.true_eq_false, if_false] at hr
                exact transfer _ _ NewConsole _ rfl
                  (sameSessions_trans hrel (sameSessions_standard _ _ _ _)) (Or.inl rfl) hr
          · have hc : ∃ c, ConnectInfo.Console = some c ∧ P.ParentConsole = some c := by
              rcases Option.eq_none_or_eq_some ConnectInfo.Console with h | ⟨c, h⟩
              · exact absurd (Or.inl h) hnew
              · refine ⟨c, h, ?_⟩
                by_contra hp
                exact hnew (Or.inr (fun heq => hp (heq ▸ h)))
            obtain ⟨c, hc1, hc2⟩ := hc
            rw [connect_reuse P S ConnectInfo InitStatus NewConsole a1 a2 a3 DupStatus DupHandle
              c hn ha hc1 hc2] at hr
            exact transfer _ S c _ rfl (sameSessions_refl S) (Or.inr hc1) hr

theorem connectAttach_isSome (P : CONSOLE_PROCESS_DATA) (S : ServerState) (c : Nat)
    (ConnectInfo : CONSOLE_CONNECTION_INFO) (DupStatus : NTSTATUS) (DupHandle : Nat)
    (hc : P.Console = some c) :
    ∃ r, ConnectAttach P S ConnectInfo DupStatus DupHandle = some r := by
  cases hd : NT_SUCCESS DupStatus
  · exact ⟨_, connectAttach_failure P S c ConnectInfo DupStatus DupHandle hc hd⟩
  · exact ⟨_, connectAttach_success P S c ConnectInfo DupStatus DupHandle hc hd⟩

/-- The function `ConsoleConnect` gives a result on every input: it never uses a
`NULL` console. -/
theorem connect_isSome (P : CONSOLE_PROCESS_DATA) (S : ServerState)
    (ConnectionInfo : Option CONSOLE_CONNECTION_INFO) (ConnectionInfoLength : Option Nat)
    (InitStatus : NTSTATUS) (NewConsole : Nat) (a1 a2 a3 : Bool) (DupStatus : NTSTATUS)
    (DupHandle : Nat) :
    ∃ r, ConsoleConnect P S ConnectionInfo ConnectionInfoLength InitStatus NewConsole a1 a2 a3
      DupStatus DupHandle = some r := by
  cases ConnectionInfo with
  | none => exact ⟨_, rfl⟩
  | some ConnectInfo =>
    cases ConnectionInfoLength with
    | none => exact ⟨_, rfl⟩
    | some Length =>
      by_cases hlen : Length ≠ sizeof_CONSOLE_CONNECTION_INFO
      · simp only [ConsoleConnect, if_pos hlen]
        exact ⟨_, rfl⟩
      · have hl : Length = sizeof_CONSOLE_CONNECTION_INFO := by
          by_contra h
          exact hlen h
        subst hl
        by_cases hneed : ConnectInfo.ConsoleNeeded = false ∨ P.ConsoleApp = false
        · simp only [ConsoleConnect, if_neg hlen, if_pos hneed]
          exact ⟨_, rfl⟩
        · have hn : ConnectInfo.ConsoleNeeded = true := by
            cases h : ConnectInfo.ConsoleNeeded
            · exact absurd (Or.inl h) hneed
            · rfl
          have ha : P.ConsoleApp = true := by
            cases h : P.ConsoleApp
            · exact absurd (Or.inr h) hneed
            · rfl
          by_cases hnew : ConnectInfo.Console = none ∨ ConnectInfo.Console ≠ P.ParentConsole
          · rw [connect_new P S ConnectInfo InitStatus NewConsole a1 a2 a3 DupStatus DupHandle
              hn ha hnew]
            split_ifs
            · exact ⟨_, rfl⟩
            · exact ⟨_, rfl⟩
            · exact connectAttach_isSome _ _ NewConsole _ _ _ rfl
          · have hc : ∃ c, ConnectInfo.Console = some c ∧ P.ParentConsole = some c := by
              rcases Option.eq_none_or_eq_some ConnectInfo.Console with h | ⟨c, h⟩
              · exact absurd (Or.inl h) hnew
              · refine ⟨c, h, ?_⟩
                by_contra hp
                exact hnew (Or.inr (fun heq => hp (heq ▸ h)))
            obtain ⟨c, hc1, hc2⟩ := hc
            rw [connect_reuse P S ConnectInfo InitStatus NewConsole a1 a2 a3 DupStatus DupHandle
              c hn ha hc1 hc2]
            exact connectAttach_isSome _ _ c _ _ _ rfl

theorem step_connect (W : SessionWorld) (pid : Nat)
    (ConnectionInfo : Option CONSOLE_CONNECTION_INFO) (ConnectionInfoLength : Option Nat)
    (InitStatus : NTSTATUS) (NewConsole : Nat) (a1 a2 a3 : Bool) (DupStatus : NTSTATUS)
    (DupHandle : Nat)
    (hp : ProtocolCall W (.Connect pid ConnectionInfo ConnectionInfoLength InitStatus
      NewConsole a1 a2 a3 DupStatus DupHandle) = true) :
    SessionStep W (StepSessionOp W (.Connect pid ConnectionInfo ConnectionInfoLength InitStatus
      NewConsole a1 a2 a3 DupStatus DupHandle)) := by
  rcases hP : W.Processes[pid]? with _ | P
  · simp only [StepSessionOp, hP]
    exact sessionStep_refl W
  · simp only [ProtocolCall, hP, decide_eq_true_eq] at hp
    have hg : P.Console = none ∧ (W.State.Consoles NewConsole).ReferenceCount = 0 ∧
        NewConsole ∉ W.State.DeletedConsoles ∧
        RequestedConsole ConnectionInfo ∉ W.State.DeletedConsoles.map some := hp
    simp only [StepSessionOp, hP]
    rcases hr : ConsoleConnect P W.State ConnectionInfo ConnectionInfoLength InitStatus
        NewConsole a1 a2 a3 DupStatus DupHandle with _ | r
    · exact sessionStep_refl W
    · obtain ⟨D, h1, h2, h3, h4⟩ := connect_sessions P W.State ConnectionInfo
        ConnectionInfoLength InitStatus NewConsole a1 a2 a3 DupStatus DupHandle r hg.1
        hg.2.1 hr
      refine sessionStep_update W pid P r.ProcessData r.State W.Lookups D hP ?_ h1 h3 ?_ ?_
      · intro c
        rw [h2 c, hg.1]
        simp only [reduceCtorEq, if_false]
        split_ifs <;> ring
      · intro c hpos hzero
        rw [h2 c] at hzero
        split_ifs at hzero <;> omega
      · intro c hc
        left
        have hwhich : c = NewConsole ∨ RequestedConsole ConnectionInfo = some c := by
          rcases hc with hc | hc
          · exact h4 c (Or.inl hc)
          · refine h4 c (Or.inr ?_)
            by_contra hne
            rw [h2 c, if_neg hne] at hc
            simp at hc
        rcases hwhich with rfl | hreq
        · exact hg.2.2.1
        · intro hmem
          exact hg.2.2.2 (hreq ▸ List.mem_map_of_mem some hmem)

theorem disconnect_sessions (P : CONSOLE_PROCESS_DATA) (S : ServerState) :
    ∃ D, (ConsoleDisconnect P S).2.DeletedConsoles = S.DeletedConsoles ++ D ∧
      (∀ c1, ((ConsoleDisconnect P S).2.Consoles c1).ReferenceCount
          + (if P.Console = some c1 then 1 else 0)
        = (S.Consoles c1).ReferenceCount) ∧
      (D = [] ∨ ∃ c, D = [c] ∧ ((ConsoleDisconnect P S).2.Consoles c).ReferenceCount = 0) ∧
      (∀ c, 0 < (S.Consoles c).ReferenceCount →
        ((ConsoleDisconnect P S).2.Consoles c).ReferenceCount = 0 → D = [c]) ∧
      (∀ c1, c1 ∈ D → P.Console = some c1) := by
  rcases Option.eq_none_or_eq_some P.Console with hc | ⟨c, hc⟩
  · have hsame : SameSessions S (ConsoleDisconnect P S).2 := by
      unfold ConsoleDisconnect
      split_ifs
      · exact sameSessions_release_none P S hc
      · exact sameSessions_refl S
    refine ⟨[], by simp [hsame.2], fun c1 => ?_, Or.inl rfl, fun c h1 h2 => ?_,
      fun c1 h => by simp at h⟩
    · rw [(hsame.1 c1).1, hc]
      simp
    · rw [(hsame.1 c).1] at h2
      omega
  · have hstate : (ConsoleDisconnect P S).2 = (Win32CsrReleaseConsole P S).2 := by
      unfold ConsoleDisconnect
      have hg : P.Console ≠ none ∨ P.HandleTable ≠ none := Or.inl (by simp [hc])
      rw [if_pos hg]
    obtain ⟨hs, hd⟩ := releaseConsole_sessions P S c hc
    rw [hstate]
    refine ⟨if (S.Consoles c).ReferenceCount - 1 = 0 then [c] else [], hd, fun c1 => ?_, ?_,
      fun c1 h1 h2 => ?_, fun c1 h => ?_⟩
    · rw [(hs c1).1, hc]
      by_cases h : c1 = c
      · subst h
        simp
      · have h2 : ¬ (some c = some c1) := fun hh => h (Option.some.inj hh).symm
        simp [h, h2]
    · by_cases h0 : (S.Consoles c).ReferenceCount - 1 = 0
      · rw [if_pos h0]
        exact Or.inr ⟨c, rfl, by rw [(hs c).1, if_pos rfl]; exact h0⟩
      · rw [if_neg h0]
        exact Or.inl rfl
    · rw [(hs c1).1] at h2
      by_cases h : c1 = c
      · subst h
        rw [if_pos rfl] at h2
        rw [if_pos h2]
      · rw [if_neg h] at h2
        omega
    · split_ifs at h
      · rw [hc]
        simp at h
        rw [h]
      · simp at h

theorem step_detach (W : SessionWorld) (pid : Nat) :
    SessionStep W (StepSessionOp W (.Detach pid)) := by
  rcases hP : W.Processes[pid]? with _ | P
  · simp only [StepSessionOp, hP]
    exact sessionStep_refl W
  · simp only [StepSessionOp, hP]
    obtain ⟨D, h1, h2, h3, h4, h5⟩ := disconnect_sessions P W.State
    refine sessionStep_update W pid P _ _ W.Lookups D hP ?_ h1 h3 h4 ?_
    · intro c
      have hp : (ConsoleDisconnect P W.State).1.Console = none := by rw [disconnect_process]
      rw [hp, h2 c]
      simp
    · intro c hc
      right
      have hpc : P.Console = some c := by
        rcases hc with hc | hc
        · exact h5 c hc
        · by_contra hne
          have := h2 c
          rw [if_neg hne] at this
          exact hc (by omega)
      have := attached_pos W.Processes pid P c hP hpc
      omega

theorem unlock_sessions (S : ServerState) (c : Nat) (b : Bool) :
    ∃ D, (Win32CsrUnlockConsole S c b).DeletedConsoles = S.DeletedConsoles ++ D ∧
      (∀ c1, ((Win32CsrUnlockConsole S c b).Consoles c1).ReferenceCount
        = (S.Consoles c1).ReferenceCount - (if c1 = c then 1 else 0)) ∧
      (D = [] ∨
        ∃ c2, D = [c2] ∧ ((Win32CsrUnlockConsole S c b).Consoles c2).ReferenceCount = 0) ∧
      (∀ c1, 0 < (S.Consoles c1).ReferenceCount →
        ((Win32CsrUnlockConsole S c b).Consoles c1).ReferenceCount = 0 → D = [c1]) ∧
      (∀ c1, c1 ∈ D → c1 = c) := by
  have hrc : ∀ c1, ((Win32CsrUnlockConsole S c b).Consoles c1).ReferenceCount
      = (S.Consoles c1).ReferenceCount - (if c1 = c then 1 else 0) := by
    intro c1
    by_cases h : c1 = c
    · subst h
      rw [(unlock_console_self S c1 b).1]
      simp
    · rw [unlock_console_other S c b c1 h]
      simp [h]
  refine ⟨if (S.Consoles c).ReferenceCount - 1 = 0 then [c] else [],
    unlock_deletedConsoles S c b, hrc, ?_, fun c1 h1 h2 => ?_, fun c1 h => ?_⟩
  · by_cases h0 : (S.Consoles c).ReferenceCount - 1 = 0
    · rw [if_pos h0]
      exact Or.inr ⟨c, rfl, by rw [hrc c, if_pos rfl]; exact h0⟩
    · rw [if_neg h0]
      exact Or.inl rfl
  · rw [hrc c1] at h2
    by_cases h : c1 = c
    · subst h
      rw [if_pos rfl] at h2
      rw [if_pos h2]
    · rw [if_neg h] at h2
      omega
  · split_ifs at h
    · simpa using h
    · simp at h

theorem sessionStep_unlock (W : SessionWorld) (c : Nat) (b : Bool) (hmem : c ∈ W.Lookups) :
    SessionStep W
      { W with State := Win32CsrUnlockConsole W.State c b, Lookups := W.Lookups.erase c } := by
  obtain ⟨D, h1, h2, h3, h4, h5⟩ := unlock_sessions W.State c b
  have hpos : 0 < W.Lookups.count c := List.count_pos_iff.mpr hmem
  refine ⟨fun c1 => ?_, D, h1, h3, h4, fun c1 hc => ?_⟩
  · dsimp only
    rw [h2 c1]
    by_cases h : c1 = c
    · subst h
      rw [List.count_erase_self]
      simp only [if_true]
      omega
    · rw [List.count_erase_of_ne h]
      simp [h]
  · right
    have hc1 : c1 = c := by
      rcases hc with hc | hc
      · exact h5 c1 hc
      · by_contra hne
        dsimp only at hc
        rw [h2 c1, if_neg hne] at hc
        simp at hc
    subst hc1
    omega

theorem step_unlock (W : SessionWorld) (x : Nat) (b : Bool) :
    (ProtocolCall W (.UnlockObject x b) = true →
      SessionStep W (StepSessionOp W (.UnlockObject x b))) ∧
    (ProtocolCall W (.UnlockConsole x b) = true →
      SessionStep W (StepSessionOp W (.UnlockConsole x b))) := by
  constructor
  · intro hp
    simp only [ProtocolCall, decide_eq_true_eq] at hp
    simp only [StepSessionOp]
    exact sessionStep_unlock W _ b hp
  · intro hp
    simp only [ProtocolCall, decide_eq_true_eq] at hp
    simp only [StepSessionOp]
    exact sessionStep_unlock W x b hp

theorem lookup_sessions (S : ServerState) (c : Nat) (b : Bool) :
    (if b = true then EnterCriticalSection (InterlockedIncrementReferenceCount S c) c
      else InterlockedIncrementReferenceCount S c).DeletedConsoles = S.DeletedConsoles ∧
    ∀ c1, ((if b = true then EnterCriticalSection (InterlockedIncrementReferenceCount S c) c
        else InterlockedIncrementReferenceCount S c).Consoles c1).ReferenceCount
      = (S.Consoles c1).ReferenceCount + (if c1 = c then 1 else 0) := by
  constructor
  · cases b <;> rfl
  · intro c1
    by_cases h : c1 = c
    · subst h
      cases b <;> simp [EnterCriticalSection, InterlockedIncrementReferenceCount]
    · cases b <;>
        simp [EnterCriticalSection, InterlockedIncrementReferenceCount,
          Function.update_noteq h, h]

theorem lock_failure_same (P : CONSOLE_PROCESS_DATA) (S : ServerState) (Handle : HANDLE)
    (Object : Option Nat) (Access : Nat) (LockConsole : Bool) (Type_ : Nat)
    (hfail : (Win32CsrLockObject P S Handle Object Access LockConsole Type_).1
      ≠ NTSTATUS.STATUS_SUCCESS) :
    (Win32CsrLockObject P S Handle Object Access LockConsole Type_).2.2.1 = P ∧
    (Win32CsrLockObject P S Handle Object Access LockConsole Type_).2.2.2 = S := by
  unfold Win32CsrLockObject at hfail ⊢
  simp only [size_enter, at_enter] at hfail ⊢
  by_cases h1 : IsConsoleHandle Handle = false ∨ Handle >>> 2 ≥ HandleTableSize P
  · rw [if_pos h1]
    exact ⟨leave_enter P, rfl⟩
  · rw [if_neg h1] at hfail ⊢
    cases hobj : (HandleTableAt P (Handle >>> 2)).Object with
    | none => exact ⟨leave_enter P, rfl⟩
    | some o =>
      simp only [hobj] at hfail ⊢
      by_cases h2 : (HandleTableAt P (Handle >>> 2)).Access &&& Access = 0 ∨
          (Type_ ≠ 0 ∧ (S.Objects o).Type_ ≠ Type_)
      · rw [if_pos h2]
        exact ⟨leave_enter P, rfl⟩
      · rw [if_neg h2] at hfail
        exact absurd rfl hfail

theorem sessionStep_lookup (W : SessionWorld) (pid : Nat) (P : CONSOLE_PROCESS_DATA) (c : Nat)
    (b : Bool) (hP : W.Processes[pid]? = some P)
    (hc : c ∉ W.State.DeletedConsoles ∨ 0 < Attached W.Processes c + W.Lookups.count c) :
    SessionStep W
      { Processes := W.Processes.set pid P
        State := (if b = true then
          EnterCriticalSection (InterlockedIncrementReferenceCount W.State c) c
          else InterlockedIncrementReferenceCount W.State c)
        Lookups := c :: W.Lookups } := by
  obtain ⟨h1, h2⟩ := lookup_sessions W.State c b
  refine sessionStep_update W pid P P _ _ [] hP ?_ (by simp [h1]) (Or.inl rfl) ?_ ?_
  · intro c1
    rw [h2 c1, List.count_cons]
    by_cases h : c1 = c
    · subst h
      simp
      ring
    · have h3 : ¬ (c = c1) := fun hh => h hh.symm
      simp [h, h3]
  · intro c1 hpos hzero
    rw [h2 c1] at hzero
    split_ifs at hzero <;> omega
  · intro c1 hc1
    rcases hc1 with hc1 | hc1
    · simp at hc1
    · have : c1 = c := by
        by_contra hne
        rw [h2 c1, if_neg hne] at hc1
        simp at hc1
      rw [this]
      exact hc

theorem sessionStep_same (W : SessionWorld) (pid : Nat) (P : CONSOLE_PROCESS_DATA)
    (hP : W.Processes[pid]? = some P) :
    SessionStep W { W with Processes := W.Processes.set pid P, State := W.State } := by
  rw [set_same W.Processes pid P hP]
  exact sessionStep_refl W

theorem step_lockObject (W : SessionWorld) (pid : Nat) (Handle : HANDLE) (Access : Nat)
    (LockConsole : Bool) (Type_ : Nat)
    (hp : ProtocolCall W (.LockObject pid Handle Access LockConsole Type_) = true) :
    SessionStep W (StepSessionOp W (.LockObject pid Handle Access LockConsole Type_)) := by
  rcases hP : W.Processes[pid]? with _ | P
  · simp only [StepSessionOp, hP]
    exact sessionStep_refl W
  · simp only [ProtocolCall, hP] at hp
    simp only [StepSessionOp, hP]
    by_cases hok : (Win32CsrLockObject P W.State Handle none Access LockConsole Type_).1
        = NTSTATUS.STATUS_SUCCESS
    · obtain ⟨o, _, heq⟩ := lock_success_shape P W.State Handle none Access LockConsole Type_
        hok
      rw [heq] at hp
      have hdel : (W.State.Objects o).Console ∉ W.State.DeletedConsoles := by
        simpa using hp
      rw [heq]
      exact sessionStep_lookup W pid P _ LockConsole hP (Or.inl hdel)
    · obtain ⟨h1, h2⟩ := lock_failure_same P W.State Handle none Access LockConsole Type_ hok
      rcases hr : Win32CsrLockObject P W.State Handle none Access LockConsole Type_ with
        ⟨st, ob, P1, S1⟩
      rw [hr] at hok h1 h2
      dsimp only at hok h1 h2
      subst h1 h2
      cases st
      · exact absurd rfl hok
      all_goals exact sessionStep_same W pid P1 hP

theorem step_consoleFromProcessData (W : SessionWorld) (pid : Nat) (LockConsole : Bool) :
    SessionStep W (StepSessionOp W (.ConsoleFromProcessData pid LockConsole)) := by
  rcases hP : W.Processes[pid]? with _ | P
  · simp only [StepSessionOp, hP]
    exact sessionStep_refl W
  · simp only [StepSessionOp, hP]
    rcases Option.eq_none_or_eq_some P.Console with hc | ⟨c, hc⟩
    · have heq : ConioConsoleFromProcessData P W.State LockConsole
          = (NTSTATUS.STATUS_INVALID_HANDLE, none, P, W.State) := by
        unfold ConioConsoleFromProcessData
        have : (RtlEnterCriticalSection P).Console = none := hc
        simp only [this, leave_enter]
      rw [heq]
      exact sessionStep_same W pid P hP
    · have heq : ConioConsoleFromProcessData P W.State LockConsole
          = (NTSTATUS.STATUS_SUCCESS, some c, P,
            (if LockConsole = true then
              EnterCriticalSection (InterlockedIncrementReferenceCount W.State c) c
              else InterlockedIncrementReferenceCount W.State c)) := by
        unfold ConioConsoleFromProcessData
        have : (RtlEnterCriticalSection P).Console = some c := hc
        simp only [this, leave_enter]
      rw [heq]
      refine sessionStep_lookup W pid P c LockConsole hP (Or.inr ?_)
      have := attached_pos W.Processes pid P c hP hc
      omega

theorem inherit_target_console (Source Target : CONSOLE_PROCESS_DATA) (S : ServerState)
    (alloc : Bool) :
    (Win32CsrInheritHandlesTable Source Target S alloc).2.2.1.Console = Target.Console := by
  unfold Win32CsrInheritHandlesTable
  rcases Option.eq_none_or_eq_some Target.HandleTable with ht | ⟨t, ht⟩
  · cases alloc <;> simp [ht]
  · simp [ht]

/-- The function `ConsoleNewProcess` leaves the sessions as they are, and the
process it makes has no console. -/
theorem newProcess_sessions (SourceProcess TargetProcess : Option CSR_PROCESS)
    (S : ServerState) (alloc : Bool) :
    SameSessions S (ConsoleNewProcess SourceProcess TargetProcess S alloc).2.2 ∧
    ∀ T1, (ConsoleNewProcess SourceProcess TargetProcess S alloc).2.1 = some T1 →
      T1.Console = none := by
  unfold ConsoleNewProcess
  cases TargetProcess with
  | none => exact ⟨sameSessions_refl S, fun T1 h => Option.noConfusion h⟩
  | some Target =>
    cases SourceProcess with
    | none =>
      refine ⟨sameSessions_refl S, fun T1 h => ?_⟩
      cases h
      rfl
    | some Source =>
      dsimp only
      generalize (if Source.Address = Target.Address then NewProcessData Target
        else Source.ServerData) = Src
      by_cases hc : Src.Console ≠ none ∧ (NewProcessData Target).ConsoleApp = true
      · rw [if_pos hc]
        by_cases hf : NT_SUCCESS
            (Win32CsrInheritHandlesTable Src (NewProcessData Target) S alloc).1 = false
        · rw [if_pos hf]
          refine ⟨sameSessions_inherit _ _ S alloc, fun T1 h => ?_⟩
          rw [← Option.some.inj h, inherit_target_console]
          rfl
        · rw [if_neg hf]
          refine ⟨sameSessions_inherit _ _ S alloc, fun T1 h => ?_⟩
          rw [← Option.some.inj h]
          show (Win32CsrInheritHandlesTable Src (NewProcessData Target) S alloc).2.2.1.Console
            = none
          rw [inherit_target_console]
          rfl
      · rw [if_neg hc]
        refine ⟨sameSessions_refl S, fun T1 h => ?_⟩
        rw [← Option.some.inj h]
        rfl

theorem step_newProcess (W : SessionWorld) (source : Option Nat) (target : Nat)
    (IsConsoleApp alloc : Bool)
    (hp : ProtocolCall W (.NewProcess source target IsConsoleApp alloc) = true) :
    SessionStep W (StepSessionOp W (.NewProcess source target IsConsoleApp alloc)) := by
  rcases hT : W.Processes[target]? with _ | T
  · simp only [StepSessionOp, hT]
    exact sessionStep_refl W
  · simp only [ProtocolCall, hT, decide_eq_true_eq] at hp
    have key : ∀ Src : Option CSR_PROCESS,
        SessionStep W (NewProcessIn W Src target T IsConsoleApp alloc) := by
      intro Src
      unfold NewProcessIn
      obtain ⟨hs, hcon⟩ := newProcess_sessions Src
        (some (CSR_PROCESS.mk target IsConsoleApp T)) W.State alloc
      dsimp only
      rcases h1 : (ConsoleNewProcess Src (some (CSR_PROCESS.mk target IsConsoleApp T))
          W.State alloc).2.1 with _ | T1
      · exact sessionStep_refl W
      · have hc1 := hcon T1 h1
        refine sessionStep_update W target T T1
          (ConsoleNewProcess Src (some (CSR_PROCESS.mk target IsConsoleApp T))
            W.State alloc).2.2 W.Lookups [] hT ?_ (by simp [hs.2])
          (Or.inl rfl) ?_ ?_
        · intro c
          rw [(hs.1 c).1, hp, hc1]
        · intro c hpos hzero
          rw [(hs.1 c).1] at hzero
          omega
        · intro c hc
          rcases hc with hc | hc
          · simp at hc
          · exact absurd (hs.1 c).1 hc
    cases source with
    | none =>
      simp only [StepSessionOp, hT]
      exact key none
    | some src =>
      rcases hS : W.Processes[src]? with _ | P
      · simp only [StepSessionOp, hT, hS]
        exact sessionStep_refl W
      · simp only [StepSessionOp, hT, hS]
        exact key _

theorem step_sessionStep (W : SessionWorld) (op : SessionOp)
    (hp : ProtocolCall W op = true) :
    SessionStep W (StepSessionOp W op) := by
  cases op with
  | NewProcess source target IsConsoleApp alloc =>
    exact step_newProcess W source target IsConsoleApp alloc hp
  | Connect pid ConnectionInfo ConnectionInfoLength InitStatus NewConsole a1 a2 a3 DupStatus
      DupHandle =>
    exact step_connect W pid ConnectionInfo ConnectionInfoLength InitStatus NewConsole a1 a2 a3
      DupStatus DupHandle hp
  | Detach pid => exact step_detach W pid
  | LockObject pid Handle Access LockConsole Type_ =>
    exact step_lockObject W pid Handle Access LockConsole Type_ hp
  | ConsoleFromProcessData pid LockConsole => exact step_consoleFromProcessData W pid LockConsole
  | UnlockObject Object IsConsoleLocked => exact (step_unlock W Object IsConsoleLocked).1 hp
  | UnlockConsole Console IsConsoleLocked => exact (step_unlock W Console IsConsoleLocked).2 hp

theorem step_invariants (W : SessionWorld) (op : SessionOp)
    (hp : ProtocolCall W op = true)
    (hinv : ReferenceCountInvariant W)
    (hdead : ∀ c ∈ W.State.DeletedConsoles, (W.State.Consoles c).ReferenceCount = 0)
    (honce : ∀ c, DestructorCalls W.State c ≤ 1) :
    ReferenceCountInvariant (StepSessionOp W op) ∧
    (∀ c ∈ (StepSessionOp W op).State.DeletedConsoles,
      ((StepSessionOp W op).State.Consoles c).ReferenceCount = 0) ∧
    (∀ c, DestructorCalls (StepSessionOp W op).State c ≤ 1) := by
  obtain ⟨heq, D, hD, hD1, _, hD3⟩ := step_sessionStep W op hp
  have hquiet : ∀ c ∈ W.State.DeletedConsoles,
      c ∉ D ∧ ((StepSessionOp W op).State.Consoles c).ReferenceCount = 0 := by
    intro c hc
    have h0 := hdead c hc
    have hi := hinv c
    have hnone : ¬ (c ∉ W.State.DeletedConsoles ∨
        0 < Attached W.Processes c + W.Lookups.count c) := by
      rintro (h | h)
      · exact h hc
      · omega
    have := fun h => hnone (hD3 c h)
    refine ⟨fun h => this (Or.inl h), ?_⟩
    by_contra hne
    exact this (Or.inr (fun heq2 => hne (heq2.trans h0)))
  refine ⟨fun c => ?_, fun c hc => ?_, fun c => ?_⟩
  · have h1 := heq c
    have h2 := hinv c
    omega
  · rw [hD, List.mem_append] at hc
    rcases hc with hc | hc
    · exact (hquiet c hc).2
    · rcases hD1 with h | ⟨c1, h, h0⟩
      · rw [h] at hc
        simp at hc
      · rw [h] at hc
        simp at hc
        rw [hc]
        exact h0
  · unfold DestructorCalls at honce ⊢
    rw [hD, List.count_append]
    by_cases hc : c ∈ W.State.DeletedConsoles
    · have : List.count c D = 0 := List.count_eq_zero_of_not_mem (hquiet c hc).1
      have := honce c
      omega
    · have h0 : List.count c W.State.DeletedConsoles = 0 := List.count_eq_zero_of_not_mem hc
      rcases hD1 with h | ⟨c1, h, _⟩
      · rw [h0, h]
        simp
      · rw [h0, h, List.count_singleton]
        split_ifs <;> omega

theorem run_invariants (ops : List SessionOp) (W : SessionWorld)
    (hp : RunKeepsProtocol W ops = true)
    (hinv : ReferenceCountInvariant W)
    (hdead : ∀ c ∈ W.State.DeletedConsoles, (W.State.Consoles c).ReferenceCount = 0)
    (honce : ∀ c, DestructorCalls W.State c ≤ 1) :
    ReferenceCountInvariant (RunSessionOps W ops) ∧
    (∀ c ∈ (RunSessionOps W ops).State.DeletedConsoles,
      ((RunSessionOps W ops).State.Consoles c).ReferenceCount = 0) ∧
    (∀ c, DestructorCalls (RunSessionOps W ops).State c ≤ 1) := by
  induction ops generalizing W with
  | nil => exact ⟨hinv, hdead, honce⟩
  | cons op ops ih =>
    unfold RunSessionOps
    rw [List.foldl_cons]
    simp only [RunKeepsProtocol, Bool.and_eq_true] at hp
    obtain ⟨h1, h2, h3⟩ := step_invariants W op hp.1 hinv hdead honce
    exact ih (StepSessionOp W op) hp.2 h1 h2 h3

theorem attached_detached (Ps : List CONSOLE_PROCESS_DATA) (c : Nat)
    (h : ∀ P ∈ Ps, P.Console = none) : Attached Ps c = 0 := by
  unfold Attached
  rw [List.countP_eq_zero]
  intro P hP
  simp [h P hP]

/-- The invariants of a run that keeps to the protocol, from a fresh start. -/
theorem run_from_fresh (W0 : SessionWorld) (ops : List SessionOp)
    (hfresh : ∀ c, (W0.State.Consoles c).ReferenceCount = 0)
    (hdeleted : W0.State.DeletedConsoles = [])
    (hdetached : ∀ P ∈ W0.Processes, P.Console = none)
    (hlookups : W0.Lookups = [])
    (hp : RunKeepsProtocol W0 ops = true) :
    ReferenceCountInvariant (RunSessionOps W0 ops) ∧
    (∀ c ∈ (RunSessionOps W0 ops).State.DeletedConsoles,
      ((RunSessionOps W0 ops).State.Consoles c).ReferenceCount = 0) ∧
    (∀ c, DestructorCalls (RunSessionOps W0 ops).State c ≤ 1) := by
  have hinv0 : ReferenceCountInvariant W0 := by
    intro c1
    rw [hfresh c1, attached_detached _ c1 hdetached, hlookups]
    rfl
  have hdead0 : ∀ c ∈ W0.State.DeletedConsoles, (W0.State.Consoles c).ReferenceCount = 0 :=
    fun c _ => hfresh c
  have honce0 : ∀ c, DestructorCalls W0.State c ≤ 1 := by
    intro c1
    unfold DestructorCalls
    rw [hdeleted]
    simp
  exact run_invariants ops W0 hp hinv0 hdead0 honce0

/-- C30: the reference count of a session, and where the code breaks it.
A parent connects and gets the new console 0, creates a child, which takes
console 0 as its `ParentConsole` without a reference, and exits: the count of
console 0 is back at 0 and `ConioDeleteConsole` is called on it.  The child then
connects to the console of its parent: `ConsoleConnect` takes the reuse branch
on the destroyed console and raises its count to 1; and when the child exits
the destructor is called on console 0 a second time.
Apart from such calls the invariant holds.  Start with every console new
(reference count 0, never destroyed), no process attached and no lookup under
way, and run any sequence of `ConsoleNewProcess`, `ConsoleConnect`,
`ConsoleDisconnect`, lookups (`Win32CsrLockObject`,
`ConioConsoleFromProcessData`) and unlocks (`Win32CsrUnlockObject`,
`Win32CsrUnlockConsole`) in which every call is a `ProtocolCall`.  In the state
reached, for every console `c`: the reference count equals the number of
attached processes plus the number of lookups not yet unlocked; so it is 0
exactly when no process is attached and no lookup is outstanding;
`ConioDeleteConsole` was called on `c` at most once; if it was called, the
reference count is 0, no process is attached and no lookup is outstanding; and
a further such call that brings a positive reference count to 0 makes the one
destructor call on `c`, at that moment. -/
theorem referenceCount_invariant :
    ((∀ c, (ParentAndChild.State.Consoles c).ReferenceCount = 0) ∧
      ParentAndChild.State.DeletedConsoles = [] ∧
      (∀ P ∈ ParentAndChild.Processes, P.Console = none) ∧
      RunKeepsProtocol ParentAndChild ParentExits = true ∧
      (RunSessionOps ParentAndChild ParentExits).Processes.map
          (fun P => (P.Console, P.ParentConsole)) = [(none, none), (none, some 0)] ∧
      ((RunSessionOps ParentAndChild ParentExits).State.Consoles 0).ReferenceCount = 0 ∧
      DestructorCalls (RunSessionOps ParentAndChild ParentExits).State 0 = 1 ∧
      ProtocolCall (RunSessionOps ParentAndChild ParentExits) ChildConnects = false ∧
      (RunSessionOps ParentAndChild (ParentExits ++ [ChildConnects])).Processes.map
          (fun P => P.Console) = [none, some 0] ∧
      ((RunSessionOps ParentAndChild (ParentExits ++ [ChildConnects])).State.Consoles
        0).ReferenceCount = 1 ∧
      DestructorCalls
        (RunSessionOps ParentAndChild (ParentExits ++ [ChildConnects])).State 0 = 1 ∧
      ((RunSessionOps ParentAndChild
        (ParentExits ++ [ChildConnects, SessionOp.Detach 1])).State.Consoles
        0).ReferenceCount = 0 ∧
      DestructorCalls (RunSessionOps ParentAndChild
        (ParentExits ++ [ChildConnects, SessionOp.Detach 1])).State 0 = 2) ∧
    (∀ (W0 : SessionWorld) (ops : List SessionOp) (op : SessionOp) (c : Nat),
      (∀ c, (W0.State.Consoles c).ReferenceCount = 0) →
      W0.State.DeletedConsoles = [] →
      (∀ P ∈ W0.Processes, P.Console = none) →
      W0.Lookups = [] →
      RunKeepsProtocol W0 ops = true →
      ProtocolCall (RunSessionOps W0 ops) op = true →
      ((RunSessionOps W0 ops).State.Consoles c).ReferenceCount
        = (Attached (RunSessionOps W0 ops).Processes c : Int)
          + (RunSessionOps W0 ops).Lookups.count c ∧
      (((RunSessionOps W0 ops).State.Consoles c).ReferenceCount = 0 ↔
        Attached (RunSessionOps W0 ops).Processes c = 0 ∧
        (RunSessionOps W0 ops).Lookups.count c = 0) ∧
      DestructorCalls (RunSessionOps W0 ops).State c ≤ 1 ∧
      (DestructorCalls (RunSessionOps W0 ops).State c = 1 →
        ((RunSessionOps W0 ops).State.Consoles c).ReferenceCount = 0 ∧
        Attached (RunSessionOps W0 ops).Processes c = 0 ∧
        (RunSessionOps W0 ops).Lookups.count c = 0) ∧
      (0 < ((RunSessionOps W0 ops).State.Consoles c).ReferenceCount →
        ((StepSessionOp (RunSessionOps W0 ops) op).State.Consoles c).ReferenceCount = 0 →
        DestructorCalls (RunSessionOps W0 ops).State c = 0 ∧
        DestructorCalls (StepSessionOp (RunSessionOps W0 ops) op).State c = 1)) := by
  refine ⟨⟨fun _ => rfl, rfl, by decide, by decide, by decide, by decide, by decide, by decide,
    by decide, by decide, by decide, by decide, by decide⟩, ?_⟩
  intro W0 ops op c hfresh hdeleted hdetached hlookups hrun hop
  obtain ⟨hinv, hdead, honce⟩ :=
    run_from_fresh W0 ops hfresh hdeleted hdetached hlookups hrun
  have hi := hinv c
  have hzero : ((RunSessionOps W0 ops).State.Consoles c).ReferenceCount = 0 ↔
      Attached (RunSessionOps W0 ops).Processes c = 0 ∧
      (RunSessionOps W0 ops).Lookups.count c = 0 := by
    constructor
    · intro h
      constructor <;> omega
    · intro h
      omega
  refine ⟨hi, hzero, honce c, ?_, ?_⟩
  · intro h1
    have hmem : c ∈ (RunSessionOps W0 ops).State.DeletedConsoles := by
      apply List.count_pos_iff.mp
      unfold DestructorCalls at h1
      omega
    exact ⟨hdead c hmem, hzero.mp (hdead c hmem)⟩
  · intro hpos hz
    obtain ⟨_, D, hD, _, hD2, _⟩ := step_sessionStep (RunSessionOps W0 ops) op hop
    have hDc := hD2 c hpos hz
    have hnot : c ∉ (RunSessionOps W0 ops).State.DeletedConsoles := by
      intro hmem
      have := hdead c hmem
      omega
    have h0 : DestructorCalls (RunSessionOps W0 ops).State c = 0 :=
      List.count_eq_zero_of_not_mem hnot
    refine ⟨h0, ?_⟩
    unfold DestructorCalls at h0 ⊢
    rw [hD, List.count_append, h0, hDc]
    simp

/-- Witness for C30: process 0 makes console 0, process 1 joins it, process 0
looks up its input handle, both processes detach, and the unlock of the lookup
brings the count from 1 to 0: the one destructor call on console 0. -/
theorem referenceCount_invariant_witness :
    (∀ c, (SessionExample.State.Consoles c).ReferenceCount = 0) ∧
    (∀ P ∈ SessionExample.Processes, P.Console = none) ∧
    RunKeepsProtocol SessionExample
      [SessionOp.Connect 0 (some {}) (some sizeof_CONSOLE_CONNECTION_INFO)
          NTSTATUS.STATUS_SUCCESS 0 true true true NTSTATUS.STATUS_SUCCESS 77,
        SessionOp.Connect 1 (some { Console := some 0 }) (some sizeof_CONSOLE_CONNECTION_INFO)
          NTSTATUS.STATUS_SUCCESS 1 true true true NTSTATUS.STATUS_SUCCESS 78,
        SessionOp.LockObject 0 3 GENERIC_READ true 0,
        SessionOp.Detach 0, SessionOp.Detach 1] = true ∧
    ((RunSessionOps SessionExample
      [SessionOp.Connect 0 (some {}) (some sizeof_CONSOLE_CONNECTION_INFO)
          NTSTATUS.STATUS_SUCCESS 0 true true true NTSTATUS.STATUS_SUCCESS 77,
        SessionOp.Connect 1 (some { Console := some 0 }) (some sizeof_CONSOLE_CONNECTION_INFO)
          NTSTATUS.STATUS_SUCCESS 1 true true true NTSTATUS.STATUS_SUCCESS 78,
        SessionOp.LockObject 0 3 GENERIC_READ true 0,
        SessionOp.Detach 0, SessionOp.Detach 1]).State.Consoles 0).ReferenceCount = 1 ∧
    DestructorCalls (StepSessionOp (RunSessionOps SessionExample
      [SessionOp.Connect 0 (some {}) (some sizeof_CONSOLE_CONNECTION_INFO)
          NTSTATUS.STATUS_SUCCESS 0 true true true NTSTATUS.STATUS_SUCCESS 77,
        SessionOp.Connect 1 (some { Console := some 0 }) (some sizeof_CONSOLE_CONNECTION_INFO)
          NTSTATUS.STATUS_SUCCESS 1 true true true NTSTATUS.STATUS_SUCCESS 78,
        SessionOp.LockObject 0 3 GENERIC_READ true 0,
        SessionOp.Detach 0, SessionOp.Detach 1]) (SessionOp.UnlockObject 0 true)).State 0
      = 1 :=
  ⟨fun _ => rfl, by decide, by decide, by decide,
    ((referenceCount_invariant.2 SessionExample _ (SessionOp.UnlockObject 0 true) 0
      (fun _ => rfl) rfl (by decide) rfl (by decide) (by decide)).2.2.2.2 (by decide)
      (by decide)).2⟩

/-! ## Slot reuse and the lowest free slot -/

theorem firstFreeSlot_le_free (t : List CONSOLE_IO_HANDLE) (j : Nat)
    (hj : (t.getD j ZeroEntry).Object = none) : FirstFreeSlot t ≤ j := by
  by_contra h
  exact firstFreeSlot_occupied t j (not_le.mp h) hj

theorem at_set_self (P : CONSOLE_PROCESS_DATA) (i : Nat) (e : CONSOLE_IO_HANDLE)
    (hi : i < HandleTableSize P) :
    HandleTableAt { P with HandleTable := some ((HandleTableEntries P).set i e) } i = e := by
  unfold HandleTableAt
  rw [entries_with, List.getD_eq_getElem?_getD, List.getElem?_set_self hi]
  rfl

theorem at_set_ne (P : CONSOLE_PROCESS_DATA) (i j : Nat) (e : CONSOLE_IO_HANDLE)
    (hj : j ≠ i) :
    HandleTableAt { P with HandleTable := some ((HandleTableEntries P).set i e) } j =
      HandleTableAt P j := by
  unfold HandleTableAt
  rw [entries_with, List.getD_eq_getElem?_getD, List.getElem?_set_ne (fun h => hj h.symm),
    ← List.getD_eq_getElem?_getD]

theorem size_set (P : CONSOLE_PROCESS_DATA) (i : Nat) (e : CONSOLE_IO_HANDLE) :
    HandleTableSize { P with HandleTable := some ((HandleTableEntries P).set i e) } =
      HandleTableSize P := by
  unfold HandleTableSize
  rw [entries_with, List.length_set]

/-- An insert into a table with a free slot: it succeeds whatever the allocator
would do and writes the entry at the first free slot of the same table. -/
theorem insert_free_slot (P : CONSOLE_PROCESS_DATA) (S : ServerState) (Handle : HANDLE)
    (Object Access : Nat) (Inheritable : Bool) (ShareMode : Nat) (alloc : Bool)
    (hfree : FirstFreeSlot (HandleTableEntries P) < HandleTableSize P) :
    Win32CsrInsertObject P S Handle Object Access Inheritable ShareMode alloc =
      (NTSTATUS.STATUS_SUCCESS, ConsoleHandleOfIndex (FirstFreeSlot (HandleTableEntries P)),
        { P with HandleTable := some ((HandleTableEntries P).set
            (FirstFreeSlot (HandleTableEntries P))
            ⟨some Object, Access, Inheritable, ShareMode⟩) },
        Win32CsrCreateHandleEntry S ⟨some Object, Access, Inheritable, ShareMode⟩) := by
  rw [insert_eq, if_neg (fun h => absurd hfree (not_lt.mpr h.1))]
  unfold InsertBlock
  rw [if_neg (not_le.mpr hfree)]

/-- An insert that makes the table larger: the entry goes to the slot after
the old table. -/
theorem insert_grow (P : CONSOLE_PROCESS_DATA) (S : ServerState) (Handle : HANDLE)
    (Object Access : Nat) (Inheritable : Bool) (ShareMode : Nat)
    (hfull : FirstFreeSlot (HandleTableEntries P) ≥ HandleTableSize P) :
    Win32CsrInsertObject P S Handle Object Access Inheritable ShareMode true =
      (NTSTATUS.STATUS_SUCCESS, ConsoleHandleOfIndex (HandleTableSize P),
        { P with HandleTable := some ((HandleTableEntries P ++
            List.replicate IO_HANDLES_INCREMENT ZeroEntry).set (HandleTableSize P)
            ⟨some Object, Access, Inheritable, ShareMode⟩) },
        Win32CsrCreateHandleEntry S ⟨some Object, Access, Inheritable, ShareMode⟩) := by
  have hi : FirstFreeSlot (HandleTableEntries P) = HandleTableSize P :=
    le_antisymm (firstFreeSlot_le _) hfull
  rw [insert_step]
  unfold InsertBlock
  rw [if_pos hfull, hi]

theorem handleOfIndex_injective (i j : Nat) (hi : i < 2 ^ 30) (hj : j < 2 ^ 30)
    (h : ConsoleHandleOfIndex i = ConsoleHandleOfIndex j) : i = j := by
  rw [handleOfIndex_eq i hi, handleOfIndex_eq j hj] at h
  have h2 : 4 * i + 3 = 4 * j + 3 := h
  omega

/-- The size of the table after an insert: the same, or six slots more. -/
theorem insert_size (P : CONSOLE_PROCESS_DATA) (S : ServerState) (Handle : HANDLE)
    (Object Access : Nat) (Inheritable : Bool) (ShareMode : Nat) (alloc : Bool) :
    HandleTableSize (Win32CsrInsertObject P S Handle Object Access Inheritable ShareMode
      alloc).2.2.1 = HandleTableSize P ∨
    HandleTableSize (Win32CsrInsertObject P S Handle Object Access Inheritable ShareMode
      alloc).2.2.1 = HandleTableSize P + IO_HANDLES_INCREMENT := by
  by_cases hfree : FirstFreeSlot (HandleTableEntries P) < HandleTableSize P
  · left
    rw [insert_free_slot P S Handle Object Access Inheritable ShareMode alloc hfree]
    exact size_set P _ _
  · cases alloc
    · left
      rw [insert_eq, if_pos ⟨not_lt.mp hfree, rfl⟩]
    · right
      rw [insert_grow P S Handle Object Access Inheritable ShareMode (not_lt.mp hfree)]
      unfold HandleTableSize
      rw [entries_with, List.length_set, List.length_append, List.length_replicate]

/-- C35: an insert into a table that has a free slot succeeds, whatever the
allocator would do, and writes the new entry at the smallest free index `i`:
the slot `i` was free and every slot below it occupied, the size is the same,
the slot `i` holds the new entry, every other slot is as before, and the
returned handle is `(i << 2) | 3`.  For a table of less than `2 ^ 30` slots the
handle returned by any successful insert is `4 * i + 3` and differs from the
handle of every slot that was occupied. -/
theorem insert_lowest_free_slot (P : CONSOLE_PROCESS_DATA) (S : ServerState) (Handle : HANDLE)
    (Object Access : Nat) (Inheritable : Bool) (ShareMode : Nat) (alloc : Bool)
    (hsize : HandleTableSize P < 2 ^ 30) :
    ((∃ j, j < HandleTableSize P ∧ (HandleTableAt P j).Object = none) →
      FirstFreeSlot (HandleTableEntries P) < HandleTableSize P ∧
      (HandleTableAt P (FirstFreeSlot (HandleTableEntries P))).Object = none ∧
      (∀ j, j < FirstFreeSlot (HandleTableEntries P) → (HandleTableAt P j).Object ≠ none) ∧
      (Win32CsrInsertObject P S Handle Object Access Inheritable ShareMode alloc).1
        = NTSTATUS.STATUS_SUCCESS ∧
      HandleTableSize (Win32CsrInsertObject P S Handle Object Access Inheritable ShareMode
        alloc).2.2.1 = HandleTableSize P ∧
      HandleTableAt (Win32CsrInsertObject P S Handle Object Access Inheritable ShareMode
        alloc).2.2.1 (FirstFreeSlot (HandleTableEntries P))
        = ⟨some Object, Access, Inheritable, ShareMode⟩ ∧
      (∀ j, j ≠ FirstFreeSlot (HandleTableEntries P) →
        HandleTableAt (Win32CsrInsertObject P S Handle Object Access Inheritable ShareMode
          alloc).2.2.1 j = HandleTableAt P j) ∧
      (Win32CsrInsertObject P S Handle Object Access Inheritable ShareMode alloc).2.1
        = (FirstFreeSlot (HandleTableEntries P) <<< 2) ||| 3) ∧
    ((Win32CsrInsertObject P S Handle Object Access Inheritable ShareMode alloc).1
        = NTSTATUS.STATUS_SUCCESS →
      (Win32CsrInsertObject P S Handle Object Access Inheritable ShareMode alloc).2.1
        = 4 * FirstFreeSlot (HandleTableEntries P) + 3 ∧
      ∀ j, j < HandleTableSize P → (HandleTableAt P j).Object ≠ none →
        ConsoleHandleOfIndex j ≠
          (Win32CsrInsertObject P S Handle Object Access Inheritable ShareMode alloc).2.1) := by
  have hle : FirstFreeSlot (HandleTableEntries P) ≤ HandleTableSize P := firstFreeSlot_le _
  have hi30 : FirstFreeSlot (HandleTableEntries P) < 2 ^ 30 := lt_of_le_of_lt hle hsize
  constructor
  · rintro ⟨j, hj, hnone⟩
    have hfree : FirstFreeSlot (HandleTableEntries P) < HandleTableSize P :=
      lt_of_le_of_lt (firstFreeSlot_le_free _ j hnone) hj
    rw [insert_free_slot P S Handle Object Access Inheritable ShareMode alloc hfree]
    refine ⟨hfree, firstFreeSlot_free _ hfree, fun k hk => firstFreeSlot_occupied _ k hk, rfl,
      size_set P _ _, at_set_self P _ _ hfree, fun k hk => at_set_ne P _ k _ hk, ?_⟩
    show ConsoleHandleOfIndex _ = _
    unfold ConsoleHandleOfIndex
    rw [Nat.mod_eq_of_lt]
    rw [Nat.shiftLeft_eq]
    omega
  · intro hok
    have hh := insert_handle P S Handle Object Access Inheritable ShareMode alloc hok
    rw [hh]
    refine ⟨handleOfIndex_eq _ hi30, fun j hj hocc heq => ?_⟩
    have hji := handleOfIndex_injective j _ (lt_trans hj hsize) hi30 heq
    rcases Nat.lt_or_ge (FirstFreeSlot (HandleTableEntries P)) (HandleTableSize P) with h | h
    · exact hocc (hji ▸ firstFreeSlot_free _ h)
    · omega

theorem insert_lowest_free_slot_witness :
    (Win32CsrInsertObject BusyProcess BusyState 0 0 GENERIC_READ true 3 false).1
      = NTSTATUS.STATUS_SUCCESS ∧
    (Win32CsrInsertObject BusyProcess BusyState 0 0 GENERIC_READ true 3 false).2.1 = 23 :=
  ⟨((insert_lowest_free_slot BusyProcess BusyState 0 0 GENERIC_READ true 3 false
      (by decide)).1 ⟨5, by decide, by decide⟩).2.2.2.1,
   ((insert_lowest_free_slot BusyProcess BusyState 0 0 GENERIC_READ true 3 false
      (by decide)).1 ⟨5, by decide, by decide⟩).2.2.2.2.2.2.2⟩

/-! ## Release and the tag bits -/

/-- C36: `Win32CsrReleaseObject`, and `SrvCloseHandle` which is a call of it,
does not look at the two low bits of the handle: two handles with the same
`Handle >> 2` have the same outcome, and a handle whose low bits are not `0b11`
but whose index names an occupied slot is released with `STATUS_SUCCESS`,
although `Win32CsrLockObject` rejects it with `STATUS_INVALID_HANDLE`. -/
theorem release_ignores_tag_bits (P : CONSOLE_PROCESS_DATA) (S : ServerState)
    (Handle : HANDLE) (hrange : Handle >>> 2 < HandleTableSize P)
    (hocc : (HandleTableAt P (Handle >>> 2)).Object ≠ none) :
    SrvCloseHandle P S Handle = Win32CsrReleaseObject P S Handle ∧
    (∀ Handle2 : HANDLE, Handle2 >>> 2 = Handle >>> 2 →
      Win32CsrReleaseObject P S Handle2 = Win32CsrReleaseObject P S Handle) ∧
    (Win32CsrReleaseObject P S Handle).1 = NTSTATUS.STATUS_SUCCESS ∧
    ((Win32CsrReleaseObject P S Handle).2.1 =
      { P with HandleTable := some ((HandleTableEntries P).set (Handle >>> 2)
          { HandleTableAt P (Handle >>> 2) with Object := none }) }) ∧
    (Handle &&& 3 ≠ 3 → ∀ Object Access LockConsole Type_,
      (Win32CsrLockObject P S Handle Object Access LockConsole Type_).1
        = NTSTATUS.STATUS_INVALID_HANDLE) := by
  have hc : ¬ (Handle >>> 2 ≥ HandleTableSize P ∨
      (HandleTableAt P (Handle >>> 2)).Object = none) := by
    rintro (h | h)
    · exact absurd hrange (not_lt.mpr h)
    · exact hocc h
  refine ⟨rfl, fun Handle2 h2 => ?_, ?_, ?_, fun htag Object Access LockConsole Type_ => ?_⟩
  · rw [release_eq P S Handle2, release_eq P S Handle, h2]
  · rw [release_eq, if_neg hc]
  · rw [release_eq, if_neg hc]
  · have hb : IsConsoleHandle Handle = false := by
      cases hb : IsConsoleHandle Handle
      · rfl
      · exact absurd ((isConsoleHandle_iff Handle).1 hb) htag
    unfold Win32CsrLockObject
    simp [hb]

theorem release_ignores_tag_bits_witness :
    ((Win32CsrReleaseObject ExampleProcess ExampleState 0x0).1 = NTSTATUS.STATUS_SUCCESS ∧
      (Win32CsrLockObject ExampleProcess ExampleState 0x0 none GENERIC_READ false 0).1
        = NTSTATUS.STATUS_INVALID_HANDLE) ∧
    ((Win32CsrReleaseObject BusyProcess BusyState 0x4).1 = NTSTATUS.STATUS_SUCCESS ∧
      (Win32CsrLockObject BusyProcess BusyState 0x4 none GENERIC_READ false 0).1
        = NTSTATUS.STATUS_INVALID_HANDLE ∧
      Win32CsrReleaseObject BusyProcess BusyState 0x7
        = Win32CsrReleaseObject BusyProcess BusyState 0x4) :=
  ⟨⟨(release_ignores_tag_bits ExampleProcess ExampleState 0x0 (by decide) (by decide)).2.2.1,
      (release_ignores_tag_bits ExampleProcess ExampleState 0x0 (by decide)
        (by decide)).2.2.2.2 (by decide) none GENERIC_READ false 0⟩,
    ⟨(release_ignores_tag_bits BusyProcess BusyState 0x4 (by decide) (by decide)).2.2.1,
      (release_ignores_tag_bits BusyProcess BusyState 0x4 (by decide)
        (by decide)).2.2.2.2 (by decide) none GENERIC_READ false 0,
      (release_ignores_tag_bits BusyProcess BusyState 0x4 (by decide) (by decide)).2.1 0x7
        (by decide)⟩⟩

/-! ## Verifying a handle -/

theorem verify_eq (P : CONSOLE_PROCESS_DATA) (ConsoleHandle : HANDLE) :
    SrvVerifyConsoleIoHandle P ConsoleHandle =
      (if IsConsoleHandle ConsoleHandle = false ∨ ConsoleHandle >>> 2 ≥ HandleTableSize P ∨
          (HandleTableAt P (ConsoleHandle >>> 2)).Object = none then
        NTSTATUS.STATUS_INVALID_HANDLE
      else NTSTATUS.STATUS_SUCCESS, P) := by
  unfold SrvVerifyConsoleIoHandle
  simp only [size_enter, at_enter, leave_enter]

/-- A slot that is occupied stays occupied over an insert. -/
theorem insert_keeps_occupied (P : CONSOLE_PROCESS_DATA) (S : ServerState) (Handle : HANDLE)
    (Object Access : Nat) (Inheritable : Bool) (ShareMode : Nat) (alloc : Bool) (k : Nat)
    (hk : k < HandleTableSize P) (hocc : (HandleTableAt P k).Object ≠ none) :
    k < HandleTableSize (Win32CsrInsertObject P S Handle Object Access Inheritable ShareMode
      alloc).2.2.1 ∧
    HandleTableAt (Win32CsrInsertObject P S Handle Object Access Inheritable ShareMode
      alloc).2.2.1 k = HandleTableAt P k := by
  by_cases hfree : FirstFreeSlot (HandleTableEntries P) < HandleTableSize P
  · rw [insert_free_slot P S Handle Object Access Inheritable ShareMode alloc hfree]
    refine ⟨by rw [size_set]; exact hk, at_set_ne P _ k _ ?_⟩
    rintro rfl
    exact hocc (firstFreeSlot_free _ hfree)
  · cases alloc
    · rw [insert_eq, if_pos ⟨not_lt.mp hfree, rfl⟩]
      exact ⟨hk, rfl⟩
    · rw [insert_grow P S Handle Object Access Inheritable ShareMode (not_lt.mp hfree)]
      have hk2 : k < (HandleTableEntries P).length := hk
      constructor
      · unfold HandleTableSize
        rw [entries_with, List.length_set, List.length_append]
        omega
      · unfold HandleTableAt
        rw [entries_with, List.getD_eq_getElem?_getD,
          List.getElem?_set_ne (fun h => by unfold HandleTableSize at h; omega),
          List.getElem?_append_left hk2, ← List.getD_eq_getElem?_getD]

/-- The slot that a successful insert has written is in range and occupied. -/
theorem insert_slot_occupied (P : CONSOLE_PROCESS_DATA) (S : ServerState) (Handle : HANDLE)
    (Object Access : Nat) (Inheritable : Bool) (ShareMode : Nat) (alloc : Bool)
    (hok : (Win32CsrInsertObject P S Handle Object Access Inheritable ShareMode alloc).1
      = NTSTATUS.STATUS_SUCCESS) :
    FirstFreeSlot (HandleTableEntries P) <
      HandleTableSize (Win32CsrInsertObject P S Handle Object Access Inheritable ShareMode
        alloc).2.2.1 ∧
    HandleTableAt (Win32CsrInsertObject P S Handle Object Access Inheritable ShareMode
        alloc).2.2.1 (FirstFreeSlot (HandleTableEntries P))
      = ⟨some Object, Access, Inheritable, ShareMode⟩ := by
  by_cases hfree : FirstFreeSlot (HandleTableEntries P) < HandleTableSize P
  · rw [insert_free_slot P S Handle Object Access Inheritable ShareMode alloc hfree]
    exact ⟨by rw [size_set]; exact hfree, at_set_self P _ _ hfree⟩
  · cases alloc
    · rw [insert_eq, if_pos ⟨not_lt.mp hfree, rfl⟩] at hok
      exact NTSTATUS.noConfusion hok
    · have hi : FirstFreeSlot (HandleTableEntries P) = HandleTableSize P :=
        le_antisymm (firstFreeSlot_le _) (not_lt.mp hfree)
      rw [insert_grow P S Handle Object Access Inheritable ShareMode (not_lt.mp hfree), hi]
      have hlt : HandleTableSize P <
          (HandleTableEntries P ++ List.replicate IO_HANDLES_INCREMENT ZeroEntry).length := by
        rw [List.length_append, List.length_replicate]
        unfold HandleTableSize IO_HANDLES_INCREMENT
        omega
      constructor
      · unfold HandleTableSize at hlt ⊢
        rw [entries_with, List.length_set]
        exact hlt
      · unfold HandleTableAt
        rw [entries_with, List.getD_eq_getElem?_getD, List.getElem?_set_self hlt]
        rfl

/-- A slot that is occupied stays occupied over a release of another slot. -/
theorem release_keeps_occupied (P : CONSOLE_PROCESS_DATA) (S : ServerState) (Handle : HANDLE)
    (k : Nat) (hne : Handle >>> 2 ≠ k) :
    HandleTableSize (Win32CsrReleaseObject P S Handle).2.1 = HandleTableSize P ∧
    HandleTableAt (Win32CsrReleaseObject P S Handle).2.1 k = HandleTableAt P k := by
  rw [release_eq]
  split_ifs with h
  · exact ⟨rfl, rfl⟩
  · exact ⟨size_set P _ _, at_set_ne P _ k _ (fun h2 => hne h2.symm)⟩

theorem run_keeps_occupied (k : Nat) (ops : List TableOp) :
    ∀ ps : CONSOLE_PROCESS_DATA × ServerState,
      (∀ op ∈ ops, ReleasesSlot k op = false) →
      k < HandleTableSize ps.1 → (HandleTableAt ps.1 k).Object ≠ none →
      k < HandleTableSize (RunTableOps ps ops).1 ∧
      (HandleTableAt (RunTableOps ps ops).1 k).Object ≠ none := by
  induction ops with
  | nil => intro ps _ hk hocc; exact ⟨hk, hocc⟩
  | cons op ops ih =>
    intro ps hops hk hocc
    have hstep : k < HandleTableSize (StepTableOp ps op).1 ∧
        (HandleTableAt (StepTableOp ps op).1 k).Object ≠ none := by
      cases op with
      | Insert Object Access Inheritable ShareMode alloc =>
        have h := insert_keeps_occupied ps.1 ps.2 INVALID_HANDLE_VALUE Object Access
          Inheritable ShareMode alloc k hk hocc
        exact ⟨h.1, by
          show (HandleTableAt (Win32CsrInsertObject ps.1 ps.2 INVALID_HANDLE_VALUE Object Access
            Inheritable ShareMode alloc).2.2.1 k).Object ≠ none
          rw [h.2]; exact hocc⟩
      | Release Handle =>
        have hne : Handle >>> 2 ≠ k := by
          have h := hops (.Release Handle) (List.mem_cons_self _ _)
          simpa [ReleasesSlot] using h
        have h := release_keeps_occupied ps.1 ps.2 Handle k hne
        exact ⟨by
          show k < HandleTableSize (Win32CsrReleaseObject ps.1 ps.2 Handle).2.1
          rw [h.1]; exact hk, by
          show (HandleTableAt (Win32CsrReleaseObject ps.1 ps.2 Handle).2.1 k).Object ≠ none
          rw [h.2]; exact hocc⟩
    exact ih (StepTableOp ps op) (fun o ho => hops o (List.mem_cons_of_mem _ ho))
      hstep.1 hstep.2

/-- C38: `SrvVerifyConsoleIoHandle` gives back the process data as it was, and
its status is `STATUS_SUCCESS` exactly when the two low bits of the handle are
`0b11`, the index `Handle >> 2` is below the size of the table and the slot is
occupied; in every other case it is `STATUS_INVALID_HANDLE`.  For a table of
less than `2 ^ 30` slots it succeeds on the handle of a successful insert, also
after any later inserts and releases none of which names the slot of that
handle. -/
theorem verify_handle (P : CONSOLE_PROCESS_DATA) (ConsoleHandle : HANDLE) :
    (SrvVerifyConsoleIoHandle P ConsoleHandle).2 = P ∧
    ((SrvVerifyConsoleIoHandle P ConsoleHandle).1 = NTSTATUS.STATUS_SUCCESS ↔
      (ConsoleHandle &&& 3 = 3 ∧ ConsoleHandle >>> 2 < HandleTableSize P ∧
        (HandleTableAt P (ConsoleHandle >>> 2)).Object ≠ none)) ∧
    ((SrvVerifyConsoleIoHandle P ConsoleHandle).1 ≠ NTSTATUS.STATUS_SUCCESS →
      (SrvVerifyConsoleIoHandle P ConsoleHandle).1 = NTSTATUS.STATUS_INVALID_HANDLE) ∧
    (∀ (S : ServerState) (Handle : HANDLE) (Object Access : Nat) (Inheritable : Bool)
        (ShareMode : Nat) (alloc : Bool) (ops : List TableOp),
      HandleTableSize P < 2 ^ 30 →
      (Win32CsrInsertObject P S Handle Object Access Inheritable ShareMode alloc).1
        = NTSTATUS.STATUS_SUCCESS →
      (∀ op ∈ ops, ReleasesSlot
        ((Win32CsrInsertObject P S Handle Object Access Inheritable ShareMode alloc).2.1
          >>> 2) op = false) →
      (SrvVerifyConsoleIoHandle
        (RunTableOps (Win32CsrInsertObject P S Handle Object Access Inheritable ShareMode
          alloc).2.2 ops).1
        (Win32CsrInsertObject P S Handle Object Access Inheritable ShareMode alloc).2.1).1
        = NTSTATUS.STATUS_SUCCESS) := by
  have hiff : ∀ (Q : CONSOLE_PROCESS_DATA) (H : HANDLE),
      (SrvVerifyConsoleIoHandle Q H).1 = NTSTATUS.STATUS_SUCCESS ↔
        (H &&& 3 = 3 ∧ H >>> 2 < HandleTableSize Q ∧
          (HandleTableAt Q (H >>> 2)).Object ≠ none) := by
    intro Q H
    rw [verify_eq]
    by_cases hc : IsConsoleHandle H = false ∨ H >>> 2 ≥ HandleTableSize Q ∨
        (HandleTableAt Q (H >>> 2)).Object = none
    · rw [if_pos hc]
      constructor
      · intro h; exact NTSTATUS.noConfusion h
      · rintro ⟨h1, h2, h3⟩
        rcases hc with hc | hc | hc
        · rw [(isConsoleHandle_iff H).2 h1] at hc
          exact absurd hc (by decide)
        · exact absurd h2 (not_lt.mpr hc)
        · exact absurd hc h3
    · rw [if_neg hc]
      refine ⟨fun _ => ⟨?_, ?_, ?_⟩, fun _ => rfl⟩
      · cases hb : IsConsoleHandle H
        · exact absurd (Or.inl hb) hc
        · exact (isConsoleHandle_iff H).1 hb
      · exact not_le.mp (fun h => hc (Or.inr (Or.inl h)))
      · exact fun h => hc (Or.inr (Or.inr h))
  refine ⟨by rw [verify_eq], hiff P ConsoleHandle, ?_, ?_⟩
  · intro h
    rw [verify_eq] at h ⊢
    split_ifs with hc
    · rfl
    · rw [if_neg hc] at h
      exact absurd rfl h
  · intro S Handle Object Access Inheritable ShareMode alloc ops hsize hok hops
    have hh := insert_handle P S Handle Object Access Inheritable ShareMode alloc hok
    have hi30 : FirstFreeSlot (HandleTableEntries P) < 2 ^ 30 :=
      lt_of_le_of_lt (firstFreeSlot_le _) hsize
    have hslot := insert_slot_occupied P S Handle Object Access Inheritable ShareMode alloc hok
    rw [hh, handleOfIndex_decode _ hi30] at hops
    have hocc : (HandleTableAt (Win32CsrInsertObject P S Handle Object Access Inheritable
        ShareMode alloc).2.2.1 (FirstFreeSlot (HandleTableEntries P))).Object ≠ none := by
      rw [hslot.2]; exact fun h => Option.noConfusion h
    have hrun := run_keeps_occupied _ ops
      (Win32CsrInsertObject P S Handle Object Access Inheritable ShareMode alloc).2.2
      hops hslot.1 hocc
    rw [hiff, hh, handleOfIndex_decode _ hi30]
    exact ⟨handleOfIndex_tag _, hrun.1, hrun.2⟩

theorem verify_handle_witness :
    (SrvVerifyConsoleIoHandle BusyProcess 7).1 = NTSTATUS.STATUS_SUCCESS ∧
    (SrvVerifyConsoleIoHandle BusyProcess 4).1 = NTSTATUS.STATUS_INVALID_HANDLE ∧
    (SrvVerifyConsoleIoHandle
      (RunTableOps (Win32CsrInsertObject BusyProcess BusyState 0 0 GENERIC_READ true 3
        false).2.2 [.Release 7, .Insert 0 GENERIC_READ false 3 true]).1
      (Win32CsrInsertObject BusyProcess BusyState 0 0 GENERIC_READ true 3 false).2.1).1
      = NTSTATUS.STATUS_SUCCESS :=
  ⟨(verify_handle BusyProcess 7).2.1.2 (by decide),
    (verify_handle BusyProcess 4).2.2.1 (by decide),
    (verify_handle BusyProcess 0).2.2.2 BusyState 0 0 GENERIC_READ true 3 false
      [.Release 7, .Insert 0 GENERIC_READ false 3 true] (by decide) (by decide)
      (by
        intro op hop
        simp only [List.mem_cons, List.mem_singleton, List.not_mem_nil, or_false] at hop
        rcases hop with rfl | rfl
        · decide
        · rfl)⟩

/-! ## Duplicating a handle -/

theorem insert_enter (P : CONSOLE_PROCESS_DATA) (S : ServerState) (Handle : HANDLE)
    (Object Access : Nat) (Inheritable : Bool) (ShareMode : Nat) (alloc : Bool) :
    Win32CsrInsertObject (RtlEnterCriticalSection P) S Handle Object Access Inheritable
        ShareMode alloc =
      ((Win32CsrInsertObject P S Handle Object Access Inheritable ShareMode alloc).1,
        (Win32CsrInsertObject P S Handle Object Access Inheritable ShareMode alloc).2.1,
        RtlEnterCriticalSection
          (Win32CsrInsertObject P S Handle Object Access Inheritable ShareMode alloc).2.2.1,
        (Win32CsrInsertObject P S Handle Object Access Inheritable ShareMode alloc).2.2.2) := by
  rw [insert_eq, insert_eq]
  have hb : InsertBlock (RtlEnterCriticalSection P) = InsertBlock P := rfl
  simp only [entries_enter, size_enter, hb]
  split_ifs <;> rfl

theorem leave_with_enter (Q : CONSOLE_PROCESS_DATA) (t : Option (List CONSOLE_IO_HANDLE)) :
    RtlLeaveCriticalSection { RtlEnterCriticalSection Q with HandleTable := t } =
      { Q with HandleTable := t } := by
  cases Q
  simp [RtlLeaveCriticalSection, RtlEnterCriticalSection]

theorem insert_lock (P : CONSOLE_PROCESS_DATA) (S : ServerState) (Handle : HANDLE)
    (Object Access : Nat) (Inheritable : Bool) (ShareMode : Nat) (alloc : Bool) :
    (Win32CsrInsertObject P S Handle Object Access Inheritable ShareMode
      alloc).2.2.1.HandleTableLock = P.HandleTableLock := by
  have h := congrArg (fun Q : CONSOLE_PROCESS_DATA => Q.HandleTableLock)
    (insert_same_except_table P S Handle Object Access Inheritable ShareMode alloc)
  exact h

theorem free_lock (P : CONSOLE_PROCESS_DATA) (S : ServerState) :
    (Win32CsrFreeHandlesTable P S).1.HandleTableLock = P.HandleTableLock := by
  rw [free_eq]

theorem init_lock (P : CONSOLE_PROCESS_DATA) (S : ServerState)
    (pInputHandle pOutputHandle pErrorHandle : HANDLE) (a1 a2 a3 : Bool) (r : InitResult)
    (hr : Win32CsrInitHandlesTable P S pInputHandle pOutputHandle pErrorHandle a1 a2 a3
      = some r) :
    r.ProcessData.HandleTableLock = P.HandleTableLock := by
  unfold Win32CsrInitHandlesTable at hr
  rcases Option.eq_none_or_eq_some P.Console with hc | ⟨c, hc⟩
  · rw [hc] at hr
    exact Option.noConfusion hr
  · rw [hc] at hr
    have hl : ∀ Q : CONSOLE_PROCESS_DATA,
        Q.HandleTableLock = P.HandleTableLock + 1 →
        (RtlLeaveCriticalSection Q).HandleTableLock = P.HandleTableLock := by
      intro Q hQ
      show Q.HandleTableLock - 1 = _
      omega
    have h0 : (RtlEnterCriticalSection P).HandleTableLock = P.HandleTableLock + 1 := rfl
    dsimp only at hr
    split_ifs at hr with h1 h2 h3
    all_goals
      cases hr
      simp only [free_lock]
      apply hl
      simp only [insert_lock, h0]

/-- What `SrvDuplicateHandle` does, with the table lock left out: it is taken
on entry and given back on every path. -/
theorem duplicate_eq (P : CONSOLE_PROCESS_DATA) (S : ServerState) (ConsoleHandle : HANDLE)
    (Access : Nat) (Inheritable : Bool) (Options : Nat) (alloc : Bool) :
    SrvDuplicateHandle P S ConsoleHandle Access Inheritable Options alloc =
      if ConsoleHandle >>> 2 ≥ HandleTableSize P then
        some (DuplicateResult.mk .STATUS_INVALID_HANDLE ConsoleHandle P S)
      else
        match (HandleTableAt P (ConsoleHandle >>> 2)).Object with
        | none => some (DuplicateResult.mk .STATUS_INVALID_HANDLE ConsoleHandle P S)
        | some Object =>
          match DuplicateAccess (HandleTableAt P (ConsoleHandle >>> 2)) Access Options with
          | none => some (DuplicateResult.mk .STATUS_INVALID_PARAMETER ConsoleHandle P S)
          | some DesiredAccess =>
            let r := Win32CsrInsertObject P S ConsoleHandle Object DesiredAccess Inheritable
              (HandleTableAt P (ConsoleHandle >>> 2)).ShareMode alloc
            if NT_SUCCESS r.1 = true ∧ Options &&& DUPLICATE_CLOSE_SOURCE ≠ 0 then
              if FirstFreeSlot (HandleTableEntries P) ≥ HandleTableSize P then none
              else
                some (DuplicateResult.mk r.1 r.2.1
                  { r.2.2.1 with HandleTable := some ((HandleTableEntries r.2.2.1).set
                      (ConsoleHandle >>> 2)
                      (Win32CsrCloseHandleEntry r.2.2.2
                        (HandleTableAt r.2.2.1 (ConsoleHandle >>> 2))).1) }
                  (Win32CsrCloseHandleEntry r.2.2.2
                    (HandleTableAt r.2.2.1 (ConsoleHandle >>> 2))).2)
            else some (DuplicateResult.mk r.1 r.2.1 r.2.2.1 r.2.2.2) := by
  unfold SrvDuplicateHandle
  simp only [size_enter, at_enter, entries_enter, leave_enter, insert_enter]
  by_cases h1 : ConsoleHandle >>> 2 ≥ HandleTableSize P
  · rw [if_pos h1, if_pos h1]
  · rw [if_neg h1, if_neg h1]
    rcases Option.eq_none_or_eq_some (HandleTableAt P (ConsoleHandle >>> 2)).Object with
      ho | ⟨o, ho⟩
    · simp only [ho]
    · simp only [ho]
      rcases Option.eq_none_or_eq_some
        (DuplicateAccess (HandleTableAt P (ConsoleHandle >>> 2)) Access Options) with
        ha | ⟨a, ha⟩
      · simp only [ha]
      · simp only [ha]
        by_cases hc : NT_SUCCESS (Win32CsrInsertObject P S ConsoleHandle o a Inheritable
            (HandleTableAt P (ConsoleHandle >>> 2)).ShareMode alloc).1 = true ∧
            Options &&& DUPLICATE_CLOSE_SOURCE ≠ 0
        · rw [if_pos hc, if_pos hc]
          by_cases hf : FirstFreeSlot (HandleTableEntries P) ≥ HandleTableSize P
          · rw [if_pos hf, if_pos hf]
          · rw [if_neg hf, if_neg hf]
            exact congrArg some (congrArg₂ _ (leave_with_enter _ _) rfl)
        · rw [if_neg hc, if_neg hc]

/-- The outcomes of `SrvDuplicateHandle` when it gives a result. -/
theorem duplicate_cases (P : CONSOLE_PROCESS_DATA) (S : ServerState) (ConsoleHandle : HANDLE)
    (Access : Nat) (Inheritable : Bool) (Options : Nat) (alloc : Bool) (r : DuplicateResult)
    (hr : SrvDuplicateHandle P S ConsoleHandle Access Inheritable Options alloc = some r) :
    (r = DuplicateResult.mk .STATUS_INVALID_HANDLE ConsoleHandle P S ∧
      (ConsoleHandle >>> 2 ≥ HandleTableSize P ∨
        (HandleTableAt P (ConsoleHandle >>> 2)).Object = none)) ∨
    (r = DuplicateResult.mk .STATUS_INVALID_PARAMETER ConsoleHandle P S ∧
      ConsoleHandle >>> 2 < HandleTableSize P ∧
      DuplicateAccess (HandleTableAt P (ConsoleHandle >>> 2)) Access Options = none) ∨
    (∃ o a, ConsoleHandle >>> 2 < HandleTableSize P ∧
      (HandleTableAt P (ConsoleHandle >>> 2)).Object = some o ∧
      DuplicateAccess (HandleTableAt P (ConsoleHandle >>> 2)) Access Options = some a ∧
      ((¬ (NT_SUCCESS (Win32CsrInsertObject P S ConsoleHandle o a Inheritable
            (HandleTableAt P (ConsoleHandle >>> 2)).ShareMode alloc).1 = true ∧
          Options &&& DUPLICATE_CLOSE_SOURCE ≠ 0) ∧
        r = DuplicateResult.mk
          (Win32CsrInsertObject P S ConsoleHandle o a Inheritable
            (HandleTableAt P (ConsoleHandle >>> 2)).ShareMode alloc).1
          (Win32CsrInsertObject P S ConsoleHandle o a Inheritable
            (HandleTableAt P (ConsoleHandle >>> 2)).ShareMode alloc).2.1
          (Win32CsrInsertObject P S ConsoleHandle o a Inheritable
            (HandleTableAt P (ConsoleHandle >>> 2)).ShareMode alloc).2.2.1
          (Win32CsrInsertObject P S ConsoleHandle o a Inheritable
            (HandleTableAt P (ConsoleHandle >>> 2)).ShareMode alloc).2.2.2) ∨
       (Options &&& DUPLICATE_CLOSE_SOURCE ≠ 0 ∧
        FirstFreeSlot (HandleTableEntries P) < HandleTableSize P ∧
        r = DuplicateResult.mk .STATUS_SUCCESS
          (ConsoleHandleOfIndex (FirstFreeSlot (HandleTableEntries P)))
          { P with HandleTable := some (((HandleTableEntries P).set
              (FirstFreeSlot (HandleTableEntries P))
              ⟨some o, a, Inheritable, (HandleTableAt P (ConsoleHandle >>> 2)).ShareMode⟩).set
              (ConsoleHandle >>> 2)
              { HandleTableAt P (ConsoleHandle >>> 2) with Object := none }) }
          (Win32CsrCloseHandleEntry
            (Win32CsrCreateHandleEntry S
              ⟨some o, a, Inheritable, (HandleTableAt P (ConsoleHandle >>> 2)).ShareMode⟩)
            (HandleTableAt P (ConsoleHandle >>> 2))).2))) := by
  rw [duplicate_eq] at hr
  by_cases h1 : ConsoleHandle >>> 2 ≥ HandleTableSize P
  · rw [if_pos h1] at hr
    exact Or.inl ⟨(Option.some.inj hr).symm, Or.inl h1⟩
  · rw [if_neg h1] at hr
    rcases Option.eq_none_or_eq_some (HandleTableAt P (ConsoleHandle >>> 2)).Object with
      ho | ⟨o, ho⟩
    · simp only [ho] at hr
      exact Or.inl ⟨(Option.some.inj hr).symm, Or.inr ho⟩
    · simp only [ho] at hr
      rcases Option.eq_none_or_eq_some
        (DuplicateAccess (HandleTableAt P (ConsoleHandle >>> 2)) Access Options) with
        ha | ⟨a, ha⟩
      · simp only [ha] at hr
        exact Or.inr (Or.inl ⟨(Option.some.inj hr).symm, not_le.mp h1, ha⟩)
      · simp only [ha] at hr
        refine Or.inr (Or.inr ⟨o, a, not_le.mp h1, ho, ha, ?_⟩)
        by_cases hc : NT_SUCCESS (Win32CsrInsertObject P S ConsoleHandle o a Inheritable
            (HandleTableAt P (ConsoleHandle >>> 2)).ShareMode alloc).1 = true ∧
            Options &&& DUPLICATE_CLOSE_SOURCE ≠ 0
        · rw [if_pos hc] at hr
          by_cases hf : FirstFreeSlot (HandleTableEntries P) ≥ HandleTableSize P
          · rw [if_pos hf] at hr
            exact Option.noConfusion hr
          · rw [if_neg hf] at hr
            have hfree := not_le.mp hf
            refine Or.inr ⟨hc.2, hfree, ?_⟩
            have hne : ConsoleHandle >>> 2 ≠ FirstFreeSlot (HandleTableEntries P) := by
              intro h
              have := firstFreeSlot_free _ hfree
              rw [← h] at this
              have ho2 : (HandleTableAt P (ConsoleHandle >>> 2)).Object = none := this
              rw [ho] at ho2
              exact Option.noConfusion ho2
            rw [insert_free_slot P S ConsoleHandle o a Inheritable _ alloc hfree] at hr
            simp only [at_set_ne P _ _ _ hne, entries_with] at hr
            have hclose : (Win32CsrCloseHandleEntry
                (Win32CsrCreateHandleEntry S
                  ⟨some o, a, Inheritable, (HandleTableAt P (ConsoleHandle >>> 2)).ShareMode⟩)
                (HandleTableAt P (ConsoleHandle >>> 2))).1
                = { HandleTableAt P (ConsoleHandle >>> 2) with Object := none } := by
              unfold Win32CsrCloseHandleEntry
              simp only [ho]
            rw [hclose] at hr
            exact (Option.some.inj hr).symm
        · rw [if_neg hc] at hr
          exact Or.inl ⟨hc, (Option.some.inj hr).symm⟩

theorem duplicate_none_iff (P : CONSOLE_PROCESS_DATA) (S : ServerState) (ConsoleHandle : HANDLE)
    (Access : Nat) (Inheritable : Bool) (Options : Nat) (alloc : Bool) :
    SrvDuplicateHandle P S ConsoleHandle Access Inheritable Options alloc = none ↔
      (ConsoleHandle >>> 2 < HandleTableSize P ∧
        (HandleTableAt P (ConsoleHandle >>> 2)).Object ≠ none ∧
        DuplicateAccess (HandleTableAt P (ConsoleHandle >>> 2)) Access Options ≠ none ∧
        FirstFreeSlot (HandleTableEntries P) ≥ HandleTableSize P ∧ alloc = true ∧
        Options &&& DUPLICATE_CLOSE_SOURCE ≠ 0) := by
  rw [duplicate_eq]
  by_cases h1 : ConsoleHandle >>> 2 ≥ HandleTableSize P
  · rw [if_pos h1]
    exact ⟨fun h => Option.noConfusion h, fun h => absurd h.1 (not_lt.mpr h1)⟩
  · rw [if_neg h1]
    rcases Option.eq_none_or_eq_some (HandleTableAt P (ConsoleHandle >>> 2)).Object with
      ho | ⟨o, ho⟩
    · simp only [ho]
      exact ⟨fun h => Option.noConfusion h, fun h => absurd rfl h.2.1⟩
    · simp only [ho]
      rcases Option.eq_none_or_eq_some
        (DuplicateAccess (HandleTableAt P (ConsoleHandle >>> 2)) Access Options) with
        ha | ⟨a, ha⟩
      · simp only [ha]
        exact ⟨fun h => Option.noConfusion h, fun h => absurd rfl h.2.2.1⟩
      · simp only [ha]
        by_cases hf : FirstFreeSlot (HandleTableEntries P) ≥ HandleTableSize P
        · cases alloc
          · have hi : Win32CsrInsertObject P S ConsoleHandle o a Inheritable
                (HandleTableAt P (ConsoleHandle >>> 2)).ShareMode false
                = (NTSTATUS.STATUS_UNSUCCESSFUL, ConsoleHandle, P, S) := by
              rw [insert_eq, if_pos ⟨hf, rfl⟩]
            rw [hi, if_neg (fun h => Bool.noConfusion h.1)]
            exact ⟨fun h => Option.noConfusion h, fun h => Bool.noConfusion h.2.2.2.2.1⟩
          · rw [insert_step]
            by_cases hc : Options &&& DUPLICATE_CLOSE_SOURCE ≠ 0
            · rw [if_pos ⟨rfl, hc⟩, if_pos hf]
              exact ⟨fun _ => ⟨not_le.mp h1, fun h => Option.noConfusion h,
                fun h => Option.noConfusion h, hf, rfl, hc⟩, fun _ => rfl⟩
            · rw [if_neg (fun h => hc h.2)]
              exact ⟨fun h => Option.noConfusion h, fun h => absurd h.2.2.2.2.2 hc⟩
        · constructor
          · intro h
            split_ifs at h
          · intro h
            exact absurd h.2.2.2.1 hf

theorem duplicate_lock (P : CONSOLE_PROCESS_DATA) (S : ServerState) (ConsoleHandle : HANDLE)
    (Access : Nat) (Inheritable : Bool) (Options : Nat) (alloc : Bool) (r : DuplicateResult)
    (hr : SrvDuplicateHandle P S ConsoleHandle Access Inheritable Options alloc = some r) :
    r.ProcessData.HandleTableLock = P.HandleTableLock := by
  rcases duplicate_cases P S ConsoleHandle Access Inheritable Options alloc r hr with
    ⟨h, _⟩ | ⟨h, _⟩ | ⟨o, a, _, _, _, ⟨_, h⟩ | ⟨_, _, h⟩⟩
  · rw [h]
  · rw [h]
  · rw [h]; exact insert_lock _ _ _ _ _ _ _ _
  · rw [h]

theorem duplicate_size (P : CONSOLE_PROCESS_DATA) (S : ServerState) (ConsoleHandle : HANDLE)
    (Access : Nat) (Inheritable : Bool) (Options : Nat) (alloc : Bool) (r : DuplicateResult)
    (hr : SrvDuplicateHandle P S ConsoleHandle Access Inheritable Options alloc = some r) :
    HandleTableSize P ≤ HandleTableSize r.ProcessData := by
  rcases duplicate_cases P S ConsoleHandle Access Inheritable Options alloc r hr with
    ⟨h, _⟩ | ⟨h, _⟩ | ⟨o, a, _, _, _, ⟨_, h⟩ | ⟨_, _, h⟩⟩
  · rw [h]
  · rw [h]
  · rw [h]
    rcases insert_size P S ConsoleHandle o a Inheritable
      (HandleTableAt P (ConsoleHandle >>> 2)).ShareMode alloc with h2 | h2
    · exact le_of_eq h2.symm
    · show _ ≤ HandleTableSize _
      rw [h2]; exact Nat.le_add_right _ _
  · rw [h]
    unfold HandleTableSize
    rw [entries_with, List.length_set, List.length_set]

/-! ## The size of the table and the balance of the table lock -/

theorem lock_process (P : CONSOLE_PROCESS_DATA) (S : ServerState) (Handle : HANDLE)
    (Object : Option Nat) (Access : Nat) (LockConsole : Bool) (Type_ : Nat) :
    (Win32CsrLockObject P S Handle Object Access LockConsole Type_).2.2.1 = P := by
  by_cases hok : (Win32CsrLockObject P S Handle Object Access LockConsole Type_).1
      = NTSTATUS.STATUS_SUCCESS
  · obtain ⟨o, _, h⟩ := lock_success_shape P S Handle Object Access LockConsole Type_ hok
    rw [h]
  · exact (lock_failure_same P S Handle Object Access LockConsole Type_ hok).1

theorem release_size (P : CONSOLE_PROCESS_DATA) (S : ServerState) (Handle : HANDLE) :
    HandleTableSize (Win32CsrReleaseObject P S Handle).2.1 = HandleTableSize P := by
  rw [release_eq]
  split_ifs
  · rfl
  · exact size_set P _ _

theorem release_lock (P : CONSOLE_PROCESS_DATA) (S : ServerState) (Handle : HANDLE) :
    (Win32CsrReleaseObject P S Handle).2.1.HandleTableLock = P.HandleTableLock := by
  rw [release_eq]
  split_ifs <;> rfl

theorem inherit_lock (Source Target : CONSOLE_PROCESS_DATA) (S : ServerState) (alloc : Bool) :
    (Win32CsrInheritHandlesTable Source Target S alloc).2.1 = Source ∧
    (Win32CsrInheritHandlesTable Source Target S alloc).2.2.1.HandleTableLock
      = Target.HandleTableLock := by
  unfold Win32CsrInheritHandlesTable
  rcases Option.eq_none_or_eq_some Target.HandleTable with ht | ⟨t, ht⟩
  · cases alloc <;> simp [ht]
  · simp [ht]

theorem insertObjectLocks_eq (P : CONSOLE_PROCESS_DATA) (Object Access : Nat)
    (Inheritable : Bool) (ShareMode : Nat) (alloc : Bool) :
    InsertObjectLocks P Object Access Inheritable ShareMode alloc =
      [.EnterTable P.Process, .LeaveTable P.Process] := by
  unfold InsertObjectLocks CreateHandleEntryLocks
  split_ifs <;> rfl

theorem duplicateHandleLocks_balanced (P : CONSOLE_PROCESS_DATA) (S : ServerState)
    (ConsoleHandle : HANDLE) (Access : Nat) (Inheritable : Bool) (Options : Nat)
    (alloc : Bool) :
    HeldAfterAll {} (DuplicateHandleLocks P S ConsoleHandle Access Inheritable Options alloc)
      = {} := by
  unfold DuplicateHandleLocks
  simp only [insertObjectLocks_eq, CloseHandleEntryLocks, ite_self]
  split_ifs
  · rfl
  · split
    · rfl
    · split <;> rfl

/-- C39: the functions that take the table lock of a process give it back:
`Win32CsrInitHandlesTable`, `Win32CsrInsertObject`, `Win32CsrReleaseObject`,
`Win32CsrLockObject`, `Win32CsrInheritHandlesTable` (on the source, whose lock
it takes, and on the target), `Win32CsrFreeHandlesTable`,
`SrvVerifyConsoleIoHandle` and `SrvDuplicateHandle` return with the hold depth
of the table lock equal to the depth on entry, whenever they return a result;
`Win32CsrInitHandlesTable` returns one for every process with a console, and
the lock calls of `SrvDuplicateHandle` are balanced on every path.
`Win32CsrLockObject` raises the hold depth of the lock of the console of the
object by one when it succeeds with `LockConsole` set, leaving the locks of
the other consoles alone, and changes the lock of no console otherwise. -/
theorem table_lock_balance (P : CONSOLE_PROCESS_DATA) (S : ServerState) :
    (∀ (h1 h2 h3 : HANDLE) (a1 a2 a3 : Bool),
      (P.Console ≠ none → ∃ r, Win32CsrInitHandlesTable P S h1 h2 h3 a1 a2 a3 = some r) ∧
      ∀ r, Win32CsrInitHandlesTable P S h1 h2 h3 a1 a2 a3 = some r →
        r.ProcessData.HandleTableLock = P.HandleTableLock) ∧
    (∀ (Handle : HANDLE) (Object Access : Nat) (Inheritable : Bool) (ShareMode : Nat)
        (alloc : Bool),
      (Win32CsrInsertObject P S Handle Object Access Inheritable ShareMode
        alloc).2.2.1.HandleTableLock = P.HandleTableLock) ∧
    (∀ Handle : HANDLE,
      (Win32CsrReleaseObject P S Handle).2.1.HandleTableLock = P.HandleTableLock) ∧
    (∀ (Handle : HANDLE) (Object : Option Nat) (Access : Nat) (LockConsole : Bool)
        (Type_ : Nat),
      (Win32CsrLockObject P S Handle Object Access LockConsole Type_).2.2.1.HandleTableLock
        = P.HandleTableLock) ∧
    (∀ (Target : CONSOLE_PROCESS_DATA) (alloc : Bool),
      (Win32CsrInheritHandlesTable P Target S alloc).2.1.HandleTableLock
        = P.HandleTableLock ∧
      (Win32CsrInheritHandlesTable P Target S alloc).2.2.1.HandleTableLock
        = Target.HandleTableLock) ∧
    (Win32CsrFreeHandlesTable P S).1.HandleTableLock = P.HandleTableLock ∧
    (∀ ConsoleHandle : HANDLE,
      (SrvVerifyConsoleIoHandle P ConsoleHandle).2.HandleTableLock = P.HandleTableLock) ∧
    (∀ (ConsoleHandle : HANDLE) (Access : Nat) (Inheritable : Bool) (Options : Nat)
        (alloc : Bool),
      (∀ r, SrvDuplicateHandle P S ConsoleHandle Access Inheritable Options alloc = some r →
        r.ProcessData.HandleTableLock = P.HandleTableLock) ∧
      HeldAfterAll {} (DuplicateHandleLocks P S ConsoleHandle Access Inheritable Options alloc)
        = {}) ∧
    (∀ (Handle : HANDLE) (Object : Option Nat) (Access : Nat) (LockConsole : Bool)
        (Type_ : Nat),
      (((Win32CsrLockObject P S Handle Object Access LockConsole Type_).1
            = NTSTATUS.STATUS_SUCCESS ∧ LockConsole = true) →
        ∃ o, (HandleTableAt P (Handle >>> 2)).Object = some o ∧
          ((Win32CsrLockObject P S Handle Object Access LockConsole Type_).2.2.2.Consoles
            (S.Objects o).Console).Lock = (S.Consoles (S.Objects o).Console).Lock + 1 ∧
          ∀ c, c ≠ (S.Objects o).Console →
            ((Win32CsrLockObject P S Handle Object Access LockConsole Type_).2.2.2.Consoles
              c).Lock = (S.Consoles c).Lock) ∧
      (¬ ((Win32CsrLockObject P S Handle Object Access LockConsole Type_).1
            = NTSTATUS.STATUS_SUCCESS ∧ LockConsole = true) →
        ∀ c, ((Win32CsrLockObject P S Handle Object Access LockConsole Type_).2.2.2.Consoles
          c).Lock = (S.Consoles c).Lock)) := by
  refine ⟨fun h1 h2 h3 a1 a2 a3 => ⟨fun hc => ?_, fun r hr => init_lock P S h1 h2 h3 a1 a2 a3 r hr⟩,
    fun Handle Object Access Inheritable ShareMode alloc => insert_lock P S _ _ _ _ _ _,
    fun Handle => release_lock P S Handle,
    fun Handle Object Access LockConsole Type_ => by rw [lock_process],
    fun Target alloc => ⟨by rw [(inherit_lock P Target S alloc).1],
      (inherit_lock P Target S alloc).2⟩,
    free_lock P S,
    fun ConsoleHandle => by rw [verify_eq],
    fun ConsoleHandle Access Inheritable Options alloc =>
      ⟨fun r hr => duplicate_lock P S ConsoleHandle Access Inheritable Options alloc r hr,
        duplicateHandleLocks_balanced P S ConsoleHandle Access Inheritable Options alloc⟩,
    fun Handle Object Access LockConsole Type_ => ⟨?_, ?_⟩⟩
  · rcases Option.eq_none_or_eq_some P.Console with h | ⟨c, h⟩
    · exact absurd h hc
    · exact init_isSome P S c h1 h2 h3 a1 a2 a3 h
  · rintro ⟨hok, hl⟩
    obtain ⟨o, ho, h⟩ := lock_success_shape P S Handle Object Access LockConsole Type_ hok
    refine ⟨o, ho, ?_, ?_⟩
    · rw [h, hl]
      simp [EnterCriticalSection, InterlockedIncrementReferenceCount]
    · intro c hc
      rw [h, hl]
      simp [EnterCriticalSection, InterlockedIncrementReferenceCount, Function.update_noteq hc]
  · intro hn c
    by_cases hok : (Win32CsrLockObject P S Handle Object Access LockConsole Type_).1
        = NTSTATUS.STATUS_SUCCESS
    · have hl : LockConsole = false := by
        cases LockConsole
        · rfl
        · exact absurd ⟨hok, rfl⟩ hn
      obtain ⟨o, ho, h⟩ := lock_success_shape P S Handle Object Access LockConsole Type_ hok
      rw [h, hl]
      by_cases hc : c = (S.Objects o).Console
      · rw [hc]
        simp [InterlockedIncrementReferenceCount]
      · simp [InterlockedIncrementReferenceCount, Function.update_noteq hc]
    · rw [(lock_failure_same P S Handle Object Access LockConsole Type_ hok).2]

theorem table_lock_balance_witness :
    (∃ r, Win32CsrInitHandlesTable FreshProcess FreshState 0 0 0 true true true = some r ∧
      r.ProcessData.HandleTableLock = FreshProcess.HandleTableLock) ∧
    ((Win32CsrLockObject ExampleProcess ExampleState 3 none GENERIC_READ true 0).2.2.2.Consoles
      0).Lock = (ExampleState.Consoles 0).Lock + 1 ∧
    ((Win32CsrLockObject ExampleProcess ExampleState 3 none GENERIC_READ false 0).2.2.2.Consoles
      0).Lock = (ExampleState.Consoles 0).Lock :=
  ⟨(((table_lock_balance FreshProcess FreshState).1 0 0 0 true true true).1
      (by decide)).imp (fun r hr =>
        ⟨hr, ((table_lock_balance FreshProcess FreshState).1 0 0 0 true true true).2 r hr⟩),
    by
      obtain ⟨o, ho, h, _⟩ := ((table_lock_balance ExampleProcess ExampleState).2.2.2.2.2.2.2.2
        3 none GENERIC_READ true 0).1 ⟨by decide, rfl⟩
      have ho1 : o = 1 := by
        have h1 : (HandleTableAt ExampleProcess (3 >>> 2)).Object = some 1 := by decide
        rw [h1] at ho
        exact (Option.some.inj ho).symm
      rw [ho1] at h
      exact h,
    ((table_lock_balance ExampleProcess ExampleState).2.2.2.2.2.2.2.2
      3 none GENERIC_READ false 0).2 (fun h => Bool.noConfusion h.2) 0⟩

/-- C31: the table of a process never gets smaller under
`Win32CsrInsertObject` (the size stays or grows by `IO_HANDLES_INCREMENT`),
`Win32CsrReleaseObject`, `Win32CsrLockObject` (the size stays) and
`SrvDuplicateHandle`; only `Win32CsrFreeHandlesTable` sets the size to 0.  After
a successful release of the slot `Handle >> 2` that slot is free, and the next
insert, on any state and whatever the allocator would do, succeeds in a table
of the same size at a free slot not above it: at that very slot when every
slot below it is occupied. -/
theorem table_never_shrinks (P : CONSOLE_PROCESS_DATA) (S : ServerState) :
    (∀ (Handle : HANDLE) (Object Access : Nat) (Inheritable : Bool) (ShareMode : Nat)
        (alloc : Bool),
      HandleTableSize (Win32CsrInsertObject P S Handle Object Access Inheritable ShareMode
        alloc).2.2.1 = HandleTableSize P ∨
      HandleTableSize (Win32CsrInsertObject P S Handle Object Access Inheritable ShareMode
        alloc).2.2.1 = HandleTableSize P + IO_HANDLES_INCREMENT) ∧
    (∀ Handle : HANDLE,
      HandleTableSize (Win32CsrReleaseObject P S Handle).2.1 = HandleTableSize P) ∧
    (∀ (Handle : HANDLE) (Object : Option Nat) (Access : Nat) (LockConsole : Bool)
        (Type_ : Nat),
      HandleTableSize (Win32CsrLockObject P S Handle Object Access LockConsole Type_).2.2.1
        = HandleTableSize P) ∧
    (∀ (ConsoleHandle : HANDLE) (Access : Nat) (Inheritable : Bool) (Options : Nat)
        (alloc : Bool) (r : DuplicateResult),
      SrvDuplicateHandle P S ConsoleHandle Access Inheritable Options alloc = some r →
        HandleTableSize P ≤ HandleTableSize r.ProcessData) ∧
    HandleTableSize (Win32CsrFreeHandlesTable P S).1 = 0 ∧
    (∀ Handle : HANDLE, (Win32CsrReleaseObject P S Handle).1 = NTSTATUS.STATUS_SUCCESS →
      Handle >>> 2 < HandleTableSize (Win32CsrReleaseObject P S Handle).2.1 ∧
      (HandleTableAt (Win32CsrReleaseObject P S Handle).2.1 (Handle >>> 2)).Object = none ∧
      ∀ (S2 : ServerState) (Handle2 : HANDLE) (Object Access : Nat) (Inheritable : Bool)
          (ShareMode : Nat) (alloc : Bool),
        (Win32CsrInsertObject (Win32CsrReleaseObject P S Handle).2.1 S2 Handle2 Object Access
          Inheritable ShareMode alloc).1 = NTSTATUS.STATUS_SUCCESS ∧
        HandleTableSize (Win32CsrInsertObject (Win32CsrReleaseObject P S Handle).2.1 S2
          Handle2 Object Access Inheritable ShareMode alloc).2.2.1 = HandleTableSize P ∧
        FirstFreeSlot (HandleTableEntries (Win32CsrReleaseObject P S Handle).2.1)
          ≤ Handle >>> 2 ∧
        HandleTableAt (Win32CsrInsertObject (Win32CsrReleaseObject P S Handle).2.1 S2
            Handle2 Object Access Inheritable ShareMode alloc).2.2.1
            (FirstFreeSlot (HandleTableEntries (Win32CsrReleaseObject P S Handle).2.1))
          = ⟨some Object, Access, Inheritable, ShareMode⟩ ∧
        ((∀ j, j < Handle >>> 2 → (HandleTableAt P j).Object ≠ none) →
          (Win32CsrInsertObject (Win32CsrReleaseObject P S Handle).2.1 S2 Handle2 Object
            Access Inheritable ShareMode alloc).2.1 = ConsoleHandleOfIndex (Handle >>> 2) ∧
          HandleTableAt (Win32CsrInsertObject (Win32CsrReleaseObject P S Handle).2.1 S2
              Handle2 Object Access Inheritable ShareMode alloc).2.2.1 (Handle >>> 2)
            = ⟨some Object, Access, Inheritable, ShareMode⟩)) := by
  refine ⟨fun Handle Object Access Inheritable ShareMode alloc =>
      insert_size P S Handle Object Access Inheritable ShareMode alloc,
    fun Handle => release_size P S Handle,
    fun Handle Object Access LockConsole Type_ => by rw [lock_process],
    fun ConsoleHandle Access Inheritable Options alloc r hr =>
      duplicate_size P S ConsoleHandle Access Inheritable Options alloc r hr,
    by rw [free_eq]; rfl,
    fun Handle hok => ?_⟩
  have hc : ¬ (Handle >>> 2 ≥ HandleTableSize P ∨
      (HandleTableAt P (Handle >>> 2)).Object = none) := by
    intro h
    rw [release_eq, if_pos h] at hok
    exact NTSTATUS.noConfusion hok
  have hk : Handle >>> 2 < HandleTableSize P := not_le.mp (fun h => hc (Or.inl h))
  have hP1 : (Win32CsrReleaseObject P S Handle).2.1 =
      { P with HandleTable := some ((HandleTableEntries P).set (Handle >>> 2)
          { HandleTableAt P (Handle >>> 2) with Object := none }) } := by
    rw [release_eq, if_neg hc]
  have hsz : HandleTableSize (Win32CsrReleaseObject P S Handle).2.1 = HandleTableSize P :=
    release_size P S Handle
  have hnone : (HandleTableAt (Win32CsrReleaseObject P S Handle).2.1 (Handle >>> 2)).Object
      = none := by
    rw [hP1, at_set_self P _ _ hk]
  have hle : FirstFreeSlot (HandleTableEntries (Win32CsrReleaseObject P S Handle).2.1)
      ≤ Handle >>> 2 := firstFreeSlot_le_free _ _ hnone
  have hfree : FirstFreeSlot (HandleTableEntries (Win32CsrReleaseObject P S Handle).2.1)
      < HandleTableSize (Win32CsrReleaseObject P S Handle).2.1 := by
    rw [hsz]; exact lt_of_le_of_lt hle hk
  refine ⟨by rw [hsz]; exact hk, hnone, fun S2 Handle2 Object Access Inheritable ShareMode
    alloc => ?_⟩
  have hins := insert_free_slot (Win32CsrReleaseObject P S Handle).2.1 S2 Handle2 Object Access
    Inheritable ShareMode alloc hfree
  refine ⟨by rw [hins], by rw [hins, size_set, hsz], hle,
    by rw [hins]; exact at_set_self _ _ _ hfree, fun hlow => ?_⟩
  have heq : FirstFreeSlot (HandleTableEntries (Win32CsrReleaseObject P S Handle).2.1)
      = Handle >>> 2 := by
    refine le_antisymm hle (not_lt.mp (fun hlt => ?_))
    have h1 := firstFreeSlot_free _ hfree
    have h2 : HandleTableAt (Win32CsrReleaseObject P S Handle).2.1
        (FirstFreeSlot (HandleTableEntries (Win32CsrReleaseObject P S Handle).2.1))
        = HandleTableAt P
          (FirstFreeSlot (HandleTableEntries (Win32CsrReleaseObject P S Handle).2.1)) := by
      rw [hP1]
      exact at_set_ne P _ _ _ (ne_of_lt (by rw [hP1] at hlt; exact hlt))
    exact hlow _ hlt (by rw [← h2]; exact h1)
  constructor
  · rw [hins, heq]
  · rw [← heq, hins]
    exact at_set_self _ _ _ hfree

theorem table_never_shrinks_witness :
    (Win32CsrInsertObject (Win32CsrReleaseObject BusyProcess BusyState 7).2.1 BusyState 0 0
        GENERIC_READ true 3 false).2.1 = ConsoleHandleOfIndex (7 >>> 2) ∧
    HandleTableSize (Win32CsrInsertObject (Win32CsrReleaseObject BusyProcess BusyState 7).2.1
      BusyState 0 0 GENERIC_READ true 3 false).2.2.1 = HandleTableSize BusyProcess :=
  ⟨((((table_never_shrinks BusyProcess BusyState).2.2.2.2.2 7 (by decide)).2.2 BusyState 0 0
      GENERIC_READ true 3 false).2.2.2.2 (by decide)).1,
    (((table_never_shrinks BusyProcess BusyState).2.2.2.2.2 7 (by decide)).2.2 BusyState 0 0
      GENERIC_READ true 3 false).2.1⟩

/-! ## The access check and the source of a duplication -/

/-- C34: without `DUPLICATE_SAME_ACCESS`, `SrvDuplicateHandle` does not make
sure that the source handle has all the desired access flags; it tests
`(Entry->Access & DesiredAccess) == 0`, that is, only whether the two have a
flag in common.  On the handle 3 of `ExampleProcess`, open for reading only, the
request for `GENERIC_READ | GENERIC_WRITE` succeeds: the new entry of handle 7
has both flags, among them `GENERIC_WRITE` that the source lacks, and the
count of writers of the object goes up by one.  In general the status is
`STATUS_INVALID_PARAMETER` exactly when the source access and the requested
access have no flag in common. -/
theorem duplicate_access_escalation :
    ((HandleTableAt ExampleProcess (3 >>> 2)).Access = GENERIC_READ ∧
      (HandleTableAt ExampleProcess (3 >>> 2)).Access &&& GENERIC_WRITE = 0 ∧
      ∃ r, SrvDuplicateHandle ExampleProcess ExampleState 3 (GENERIC_READ ||| GENERIC_WRITE)
          false 0 true = some r ∧
        r.Status = NTSTATUS.STATUS_SUCCESS ∧ r.ConsoleHandle = 7 ∧
        HandleTableAt r.ProcessData (7 >>> 2)
          = ⟨some 1, GENERIC_READ ||| GENERIC_WRITE, false, 0⟩ ∧
        (HandleTableAt r.ProcessData (7 >>> 2)).Access &&& GENERIC_WRITE ≠ 0 ∧
        (r.State.Objects 1).AccessWrite = (ExampleState.Objects 1).AccessWrite + 1) ∧
    (∀ (P : CONSOLE_PROCESS_DATA) (S : ServerState) (ConsoleHandle : HANDLE) (Access : Nat)
        (Inheritable : Bool) (Options : Nat) (alloc : Bool),
      ConsoleHandle >>> 2 < HandleTableSize P →
      (HandleTableAt P (ConsoleHandle >>> 2)).Object ≠ none →
      Options &&& DUPLICATE_SAME_ACCESS = 0 →
      ((∃ r, SrvDuplicateHandle P S ConsoleHandle Access Inheritable Options alloc = some r ∧
          r.Status = NTSTATUS.STATUS_INVALID_PARAMETER) ↔
        (HandleTableAt P (ConsoleHandle >>> 2)).Access &&& Access = 0)) := by
  refine ⟨⟨by decide, by decide, _, rfl, by decide, by decide, by decide, by decide,
    by decide⟩, ?_⟩
  intro P S ConsoleHandle Access Inheritable Options alloc hk hocc hsame
  have hacc : DuplicateAccess (HandleTableAt P (ConsoleHandle >>> 2)) Access Options =
      if (HandleTableAt P (ConsoleHandle >>> 2)).Access &&& Access = 0 then none
      else some Access := by
    unfold DuplicateAccess
    rw [if_neg (fun h => h hsame)]
  constructor
  · rintro ⟨r, hr, hst⟩
    rcases duplicate_cases P S ConsoleHandle Access Inheritable Options alloc r hr with
      ⟨h, _⟩ | ⟨_, _, h⟩ | ⟨o, a, _, _, _, ⟨_, h⟩ | ⟨_, _, h⟩⟩
    · rw [h] at hst
      exact NTSTATUS.noConfusion hst
    · rw [hacc] at h
      by_contra hne
      rw [if_neg hne] at h
      exact Option.noConfusion h
    · rw [h] at hst
      have hst2 : (Win32CsrInsertObject P S ConsoleHandle o a Inheritable
          (HandleTableAt P (ConsoleHandle >>> 2)).ShareMode alloc).1
          = NTSTATUS.STATUS_INVALID_PARAMETER := hst
      rw [insert_eq] at hst2
      split_ifs at hst2
    · rw [h] at hst
      exact NTSTATUS.noConfusion hst
  · intro h0
    refine ⟨DuplicateResult.mk .STATUS_INVALID_PARAMETER ConsoleHandle P S, ?_, rfl⟩
    rw [duplicate_eq, if_neg (not_le.mpr hk)]
    obtain ⟨o, ho⟩ := Option.ne_none_iff_exists'.mp hocc
    simp only [ho, hacc, if_pos h0]

theorem getD_set_set (t : List CONSOLE_IO_HANDLE) (i k : Nat) (e f : CONSOLE_IO_HANDLE)
    (hi : i < t.length) (hne : k ≠ i) :
    ((t.set i e).set k f).getD i ZeroEntry = e := by
  rw [List.getD_eq_getElem?_getD, List.getElem?_set_ne hne, List.getElem?_set_self hi]
  rfl

theorem getD_set_outer (t : List CONSOLE_IO_HANDLE) (i k : Nat) (e f : CONSOLE_IO_HANDLE)
    (hk : k < t.length) :
    ((t.set i e).set k f).getD k ZeroEntry = f := by
  rw [List.getD_eq_getElem?_getD, List.getElem?_set_self (by rw [List.length_set]; exact hk)]
  rfl

theorem duplicateAccess_some (Entry : CONSOLE_IO_HANDLE) (Access Options a : Nat)
    (h : DuplicateAccess Entry Access Options = some a) :
    (Options &&& DUPLICATE_SAME_ACCESS ≠ 0 → a = Entry.Access) ∧
    (Options &&& DUPLICATE_SAME_ACCESS = 0 → a = Access ∧ Entry.Access &&& Access ≠ 0) := by
  unfold DuplicateAccess at h
  by_cases hs : Options &&& DUPLICATE_SAME_ACCESS ≠ 0
  · rw [if_pos hs] at h
    exact ⟨fun _ => (Option.some.inj h).symm, fun h0 => absurd h0 hs⟩
  · rw [if_neg hs] at h
    refine ⟨fun h1 => absurd h1 hs, fun _ => ?_⟩
    by_cases h0 : Entry.Access &&& Access = 0
    · rw [if_pos h0] at h
      exact Option.noConfusion h
    · rw [if_neg h0] at h
      exact ⟨(Option.some.inj h).symm, h0⟩

/-- C37: `SrvDuplicateHandle` with `DUPLICATE_CLOSE_SOURCE` on a table without
a free slot gives no defined result: the insert makes the table larger and
frees the block that `Entry` points into, and `Win32CsrCloseHandleEntry(Entry)`
then works on the freed block, not on the source slot of the new table; so for
the handle 3 of `ExampleProcess`.  Whenever the call gives a result with
`STATUS_SUCCESS`, the new entry, in the first slot that was free, has the object
and the share mode of the source, the requested inheritability and the chosen
access, the access of the source under `DUPLICATE_SAME_ACCESS`; with
`DUPLICATE_CLOSE_SOURCE` the source slot is free afterwards and `HandleCount` of
the object is what it was; without it the source slot is as before and
`HandleCount` is one more. -/
theorem duplicate_close_source :
    (FirstFreeSlot (HandleTableEntries ExampleProcess) = HandleTableSize ExampleProcess ∧
      (HandleTableAt ExampleProcess (3 >>> 2)).Object = some 1 ∧
      (Win32CsrInsertObject ExampleProcess ExampleState 3 1 GENERIC_READ false 0 true).1
        = NTSTATUS.STATUS_SUCCESS ∧
      HandleTableSize
        (Win32CsrInsertObject ExampleProcess ExampleState 3 1 GENERIC_READ false 0 true).2.2.1
        = HandleTableSize ExampleProcess + IO_HANDLES_INCREMENT ∧
      SrvDuplicateHandle ExampleProcess ExampleState 3 0 false
        (DUPLICATE_CLOSE_SOURCE ||| DUPLICATE_SAME_ACCESS) true = none) ∧
    (∀ (P : CONSOLE_PROCESS_DATA) (S : ServerState) (ConsoleHandle : HANDLE) (Access : Nat)
        (Inheritable : Bool) (Options : Nat) (alloc : Bool) (r : DuplicateResult) (o : Nat),
      SrvDuplicateHandle P S ConsoleHandle Access Inheritable Options alloc = some r →
      r.Status = NTSTATUS.STATUS_SUCCESS →
      (HandleTableAt P (ConsoleHandle >>> 2)).Object = some o →
      ∃ a, (Options &&& DUPLICATE_SAME_ACCESS ≠ 0 →
          a = (HandleTableAt P (ConsoleHandle >>> 2)).Access) ∧
        (Options &&& DUPLICATE_SAME_ACCESS = 0 → a = Access) ∧
        r.ConsoleHandle = ConsoleHandleOfIndex (FirstFreeSlot (HandleTableEntries P)) ∧
        FirstFreeSlot (HandleTableEntries P) < HandleTableSize r.ProcessData ∧
        FirstFreeSlot (HandleTableEntries P) ≠ ConsoleHandle >>> 2 ∧
        HandleTableAt r.ProcessData (FirstFreeSlot (HandleTableEntries P))
          = ⟨some o, a, Inheritable, (HandleTableAt P (ConsoleHandle >>> 2)).ShareMode⟩ ∧
        (Options &&& DUPLICATE_CLOSE_SOURCE ≠ 0 →
          (HandleTableAt r.ProcessData (ConsoleHandle >>> 2)).Object = none ∧
          (r.State.Objects o).HandleCount = (S.Objects o).HandleCount) ∧
        (Options &&& DUPLICATE_CLOSE_SOURCE = 0 →
          HandleTableAt r.ProcessData (ConsoleHandle >>> 2)
            = HandleTableAt P (ConsoleHandle >>> 2) ∧
          (r.State.Objects o).HandleCount = (S.Objects o).HandleCount + 1)) := by
  refine ⟨⟨by decide, by decide, by decide, by decide, rfl⟩, ?_⟩
  intro P S ConsoleHandle Access Inheritable Options alloc r o hr hok ho
  rcases duplicate_cases P S ConsoleHandle Access Inheritable Options alloc r hr with
    ⟨h, _⟩ | ⟨h, _⟩ | ⟨o2, a, hk, ho2, ha, ⟨hc, h⟩ | ⟨hclose, hfree, h⟩⟩
  · rw [h] at hok
    exact NTSTATUS.noConfusion hok
  · rw [h] at hok
    exact NTSTATUS.noConfusion hok
  · have hoo : o2 = o := Option.some.inj (ho2.symm.trans ho)
    rw [hoo] at hc h
    have hacc := duplicateAccess_some _ _ _ _ ha
    have hins : (Win32CsrInsertObject P S ConsoleHandle o a Inheritable
        (HandleTableAt P (ConsoleHandle >>> 2)).ShareMode alloc).1
        = NTSTATUS.STATUS_SUCCESS := by
      rw [h] at hok
      exact hok
    have hnc : Options &&& DUPLICATE_CLOSE_SOURCE = 0 := by
      by_contra hne
      exact hc ⟨by rw [hins]; rfl, hne⟩
    have hslot := insert_slot_occupied P S ConsoleHandle o a Inheritable
      (HandleTableAt P (ConsoleHandle >>> 2)).ShareMode alloc hins
    have hocc : (HandleTableAt P (ConsoleHandle >>> 2)).Object ≠ none := by
      rw [ho]; exact fun h => Option.noConfusion h
    have hkeep := insert_keeps_occupied P S ConsoleHandle o a Inheritable
      (HandleTableAt P (ConsoleHandle >>> 2)).ShareMode alloc (ConsoleHandle >>> 2) hk hocc
    have hne : FirstFreeSlot (HandleTableEntries P) ≠ ConsoleHandle >>> 2 := by
      intro heq
      rcases Nat.lt_or_ge (FirstFreeSlot (HandleTableEntries P)) (HandleTableSize P) with
        hlt | hge
      · have := firstFreeSlot_free _ hlt
        rw [heq] at this
        exact hocc this
      · rw [heq] at hge
        exact absurd hk (not_lt.mpr hge)
    refine ⟨a, hacc.1, fun h0 => (hacc.2 h0).1, ?_, ?_, hne, ?_, fun h1 => absurd hnc h1,
      fun _ => ⟨?_, ?_⟩⟩
    · rw [h]
      exact insert_handle P S ConsoleHandle o a Inheritable _ alloc hins
    · rw [h]; exact hslot.1
    · rw [h]; exact hslot.2
    · rw [h]; exact hkeep.2
    · rw [h]
      show ((Win32CsrInsertObject P S ConsoleHandle o a Inheritable
        (HandleTableAt P (ConsoleHandle >>> 2)).ShareMode alloc).2.2.2.Objects o).HandleCount = _
      rw [insert_success_table P S ConsoleHandle o a Inheritable _ alloc hins]
      show ((Win32CsrCreateHandleEntry S _).Objects o).HandleCount = _
      rw [create_handleCount]
      simp
  · have hoo : o2 = o := Option.some.inj (ho2.symm.trans ho)
    rw [hoo] at h
    have hacc := duplicateAccess_some _ _ _ _ ha
    have hne : ConsoleHandle >>> 2 ≠ FirstFreeSlot (HandleTableEntries P) := by
      intro heq
      have := firstFreeSlot_free _ hfree
      rw [← heq] at this
      have ho3 : (HandleTableAt P (ConsoleHandle >>> 2)).Object = none := this
      rw [ho] at ho3
      exact Option.noConfusion ho3
    have hfree2 : FirstFreeSlot (HandleTableEntries P) < (HandleTableEntries P).length := hfree
    have hk2 : ConsoleHandle >>> 2 < (HandleTableEntries P).length := hk
    refine ⟨a, hacc.1, fun h0 => (hacc.2 h0).1, by rw [h], ?_, fun h => hne h.symm, ?_,
      fun _ => ⟨?_, ?_⟩, fun h0 => absurd h0 hclose⟩
    · rw [h]
      unfold HandleTableSize
      rw [entries_with, List.length_set, List.length_set]
      exact hfree2
    · rw [h]
      unfold HandleTableAt
      rw [entries_with]
      exact getD_set_set _ _ _ _ _ hfree2 hne
    · rw [h]
      unfold HandleTableAt
      rw [entries_with, getD_set_outer _ _ _ _ _ hk2]
    · rw [h]
      show ((Win32CsrCloseHandleEntry _ _).2.Objects o).HandleCount = _
      rw [(close_handleCount _ _ o).1, create_handleCount]
      simp [ho]

theorem duplicate_close_source_witness :
    ∃ r, SrvDuplicateHandle BusyProcess BusyState 7 0 true
        (DUPLICATE_CLOSE_SOURCE ||| DUPLICATE_SAME_ACCESS) true = some r ∧
      r.ConsoleHandle = 23 ∧
      (HandleTableAt r.ProcessData (7 >>> 2)).Object = none ∧
      (r.State.Objects 0).HandleCount = (BusyState.Objects 0).HandleCount :=
  ⟨_, rfl, by decide,
    by
      obtain ⟨a, _, _, _, _, _, _, h, _⟩ := duplicate_close_source.2 BusyProcess BusyState 7 0
        true (DUPLICATE_CLOSE_SOURCE ||| DUPLICATE_SAME_ACCESS) true _ 0 rfl (by decide)
        (by decide)
      exact h (by decide)⟩

/-! ## The two lock domains -/

theorem heldAfterAll_append (h : HeldLocks) (l1 l2 : List LockEvent) :
    HeldAfterAll h (l1 ++ l2) = HeldAfterAll (HeldAfterAll h l1) l2 := by
  unfold HeldAfterAll
  rw [List.foldl_append]

theorem locksSeparate_append (l1 l2 : List LockEvent) :
    ∀ h : HeldLocks, LocksSeparate h l1 = true →
      LocksSeparate (HeldAfterAll h l1) l2 = true → LocksSeparate h (l1 ++ l2) = true := by
  induction l1 with
  | nil => intro h _ h2; exact h2
  | cons e l1 ih =>
    intro h h1 h2
    simp only [LocksSeparate, Bool.and_eq_true] at h1
    simp only [List.cons_append, LocksSeparate, Bool.and_eq_true]
    exact ⟨h1.1, ih _ h1.2 h2⟩

/-- Lock calls that keep the two domains apart and give back every lock taken
can be put one after the other. -/
theorem quiet_append (l1 l2 : List LockEvent)
    (h1 : LocksSeparate {} l1 = true ∧ HeldAfterAll {} l1 = {})
    (h2 : LocksSeparate {} l2 = true ∧ HeldAfterAll {} l2 = {}) :
    LocksSeparate {} (l1 ++ l2) = true ∧ HeldAfterAll {} (l1 ++ l2) = {} := by
  refine ⟨locksSeparate_append l1 l2 _ h1.1 (by rw [h1.2]; exact h2.1), ?_⟩
  rw [heldAfterAll_append, h1.2, h2.2]

theorem quiet_nil : LocksSeparate {} [] = true ∧ HeldAfterAll {} [] = {} := ⟨rfl, rfl⟩

theorem closeAllEntriesLocks_eq (t : List CONSOLE_IO_HANDLE) : CloseAllEntriesLocks t = [] := by
  induction t with
  | nil => rfl
  | cons e t ih =>
    unfold CloseAllEntriesLocks
    rw [ih]
    rfl

theorem inheritEntriesLocks_eq (t : List CONSOLE_IO_HANDLE) : InheritEntriesLocks t = [] := by
  induction t with
  | nil => rfl
  | cons e t ih =>
    unfold InheritEntriesLocks
    rw [ih]
    split_ifs <;> rfl

theorem freeHandlesTableLocks_eq (P : CONSOLE_PROCESS_DATA) :
    FreeHandlesTableLocks P = [.EnterTable P.Process, .LeaveTable P.Process] := by
  unfold FreeHandlesTableLocks
  cases P.HandleTable with
  | none => rfl
  | some t =>
    simp only [closeAllEntriesLocks_eq]
    rfl

theorem releaseObjectLocks_eq (P : CONSOLE_PROCESS_DATA) (Handle : HANDLE) :
    ReleaseObjectLocks P Handle = [.EnterTable P.Process, .LeaveTable P.Process] := by
  unfold ReleaseObjectLocks CloseHandleEntryLocks
  split_ifs <;> rfl

theorem inheritHandlesTableLocks_eq (Source Target : CONSOLE_PROCESS_DATA) (alloc : Bool) :
    InheritHandlesTableLocks Source Target alloc =
      [.EnterTable Source.Process, .LeaveTable Source.Process] := by
  unfold InheritHandlesTableLocks
  simp only [inheritEntriesLocks_eq]
  cases Target.HandleTable <;> cases alloc <;> rfl

theorem initHandlesTableLocks_quiet (P : CONSOLE_PROCESS_DATA) (S : ServerState)
    (a1 a2 a3 : Bool) (c : Nat) (hc : P.Console = some c) :
    LocksSeparate {} (InitHandlesTableLocks P S a1 a2 a3) = true ∧
    HeldAfterAll {} (InitHandlesTableLocks P S a1 a2 a3) = {} := by
  unfold InitHandlesTableLocks
  rw [hc]
  simp only [insertObjectLocks_eq, freeHandlesTableLocks_eq]
  split_ifs <;> exact ⟨rfl, rfl⟩

theorem initHandlesTableLocks_separate (P : CONSOLE_PROCESS_DATA) (S : ServerState)
    (a1 a2 a3 : Bool) :
    LocksSeparate {} (InitHandlesTableLocks P S a1 a2 a3) = true := by
  rcases Option.eq_none_or_eq_some P.Console with hc | ⟨c, hc⟩
  · unfold InitHandlesTableLocks
    rw [hc]
    rfl
  · exact (initHandlesTableLocks_quiet P S a1 a2 a3 c hc).1

theorem releaseConsoleLocks_quiet (P : CONSOLE_PROCESS_DATA) (S : ServerState) :
    LocksSeparate {} (ReleaseConsoleLocks P S) = true ∧
    HeldAfterAll {} (ReleaseConsoleLocks P S) = {} := by
  unfold ReleaseConsoleLocks
  rw [freeHandlesTableLocks_eq]
  cases (Win32CsrFreeHandlesTable P S).1.Console with
  | none => exact ⟨rfl, rfl⟩
  | some c => exact ⟨rfl, rfl⟩

theorem allocateConsoleLocks_quiet (P : CONSOLE_PROCESS_DATA) (S : ServerState)
    (InitStatus : NTSTATUS) (NewConsole : Nat) (a1 a2 a3 : Bool) :
    LocksSeparate {} (AllocateConsoleLocks P S InitStatus NewConsole a1 a2 a3) = true ∧
    HeldAfterAll {} (AllocateConsoleLocks P S InitStatus NewConsole a1 a2 a3) = {} := by
  unfold AllocateConsoleLocks
  split_ifs
  · exact quiet_nil
  · exact initHandlesTableLocks_quiet _ _ _ _ _ NewConsole rfl

theorem connectAttachLocks_quiet (P : CONSOLE_PROCESS_DATA) (S : ServerState)
    (DupStatus : NTSTATUS) :
    LocksSeparate {} (ConnectAttachLocks P S DupStatus) = true ∧
    HeldAfterAll {} (ConnectAttachLocks P S DupStatus) = {} := by
  unfold ConnectAttachLocks
  cases P.Console with
  | none => exact quiet_nil
  | some c =>
    dsimp only
    split_ifs
    · exact releaseConsoleLocks_quiet _ _
    · exact quiet_nil

theorem connectLocks_quiet (P : CONSOLE_PROCESS_DATA) (S : ServerState)
    (ConnectionInfo : Option CONSOLE_CONNECTION_INFO) (ConnectionInfoLength : Option Nat)
    (InitStatus : NTSTATUS) (NewConsole : Nat) (a1 a2 a3 : Bool) (DupStatus : NTSTATUS) :
    LocksSeparate {} (ConnectLocks P S ConnectionInfo ConnectionInfoLength InitStatus
      NewConsole a1 a2 a3 DupStatus) = true ∧
    HeldAfterAll {} (ConnectLocks P S ConnectionInfo ConnectionInfoLength InitStatus
      NewConsole a1 a2 a3 DupStatus) = {} := by
  unfold ConnectLocks
  cases ConnectionInfo with
  | none => exact quiet_nil
  | some ConnectInfo =>
    cases ConnectionInfoLength with
    | none => exact quiet_nil
    | some Length =>
      dsimp only
      have hl := quiet_append _ _ (releaseConsoleLocks_quiet P S)
        (allocateConsoleLocks_quiet (Win32CsrReleaseConsole P S).1 (Win32CsrReleaseConsole P S).2
          InitStatus NewConsole a1 a2 a3)
      by_cases h1 : Length ≠ sizeof_CONSOLE_CONNECTION_INFO
      · rw [if_pos h1]; exact quiet_nil
      · rw [if_neg h1]
        by_cases h2 : ConnectInfo.ConsoleNeeded = false ∨ P.ConsoleApp = false
        · rw [if_pos h2]; exact quiet_nil
        · rw [if_neg h2]
          by_cases h3 : ConnectInfo.Console = none ∨ ConnectInfo.Console ≠ P.ParentConsole
          · rw [if_pos h3]
            cases Win32CsrAllocateConsole (Win32CsrReleaseConsole P S).1
                (Win32CsrReleaseConsole P S).2 ConnectInfo.InputHandle ConnectInfo.OutputHandle
                ConnectInfo.ErrorHandle InitStatus NewConsole a1 a2 a3 with
            | none => exact hl
            | some a =>
              dsimp only
              split_ifs
              · exact hl
              · exact quiet_append _ _ hl (connectAttachLocks_quiet _ _ _)
          · rw [if_neg h3]
            exact connectAttachLocks_quiet _ _ _

/-- C32: no operation holds a table lock and a console lock at the same time.
The lock calls of `Win32CsrInitHandlesTable`, `Win32CsrInsertObject`,
`Win32CsrReleaseObject`, `Win32CsrLockObject`, `Win32CsrInheritHandlesTable`,
`Win32CsrFreeHandlesTable`, `ConsoleConnect` and `ConsoleDisconnect`, made in
order by a thread that holds no lock, never leave it with a lock of both
kinds.  `Win32CsrLockObject` enters and leaves the table lock first; it enters
the lock of the console of the object after that, and exactly when it succeeds
with `LockConsole` set. -/
theorem lock_domains_separate (P : CONSOLE_PROCESS_DATA) (S : ServerState) :
    (∀ a1 a2 a3 : Bool, LocksSeparate {} (InitHandlesTableLocks P S a1 a2 a3) = true) ∧
    (∀ (Object Access : Nat) (Inheritable : Bool) (ShareMode : Nat) (alloc : Bool),
      LocksSeparate {} (InsertObjectLocks P Object Access Inheritable ShareMode alloc) = true) ∧
    (∀ Handle : HANDLE, LocksSeparate {} (ReleaseObjectLocks P Handle) = true) ∧
    (∀ (Handle : HANDLE) (Object : Option Nat) (Access : Nat) (LockConsole : Bool)
        (Type_ : Nat),
      LocksSeparate {} (LockObjectLocks P S Handle Access LockConsole Type_) = true ∧
      (((Win32CsrLockObject P S Handle Object Access LockConsole Type_).1
            = NTSTATUS.STATUS_SUCCESS ∧ LockConsole = true) →
        ∃ o, (HandleTableAt P (Handle >>> 2)).Object = some o ∧
          LockObjectLocks P S Handle Access LockConsole Type_ =
            [.EnterTable P.Process, .LeaveTable P.Process,
              .EnterConsole (S.Objects o).Console]) ∧
      (¬ ((Win32CsrLockObject P S Handle Object Access LockConsole Type_).1
            = NTSTATUS.STATUS_SUCCESS ∧ LockConsole = true) →
        LockObjectLocks P S Handle Access LockConsole Type_ =
          [.EnterTable P.Process, .LeaveTable P.Process])) ∧
    (∀ (Target : CONSOLE_PROCESS_DATA) (alloc : Bool),
      LocksSeparate {} (InheritHandlesTableLocks P Target alloc) = true) ∧
    LocksSeparate {} (FreeHandlesTableLocks P) = true ∧
    (∀ (ConnectionInfo : Option CONSOLE_CONNECTION_INFO) (ConnectionInfoLength : Option Nat)
        (InitStatus : NTSTATUS) (NewConsole : Nat) (a1 a2 a3 : Bool) (DupStatus : NTSTATUS),
      LocksSeparate {} (ConnectLocks P S ConnectionInfo ConnectionInfoLength InitStatus
        NewConsole a1 a2 a3 DupStatus) = true) ∧
    LocksSeparate {} (DisconnectLocks P S) = true := by
  refine ⟨fun a1 a2 a3 => initHandlesTableLocks_separate P S a1 a2 a3,
    fun Object Access Inheritable ShareMode alloc => by rw [insertObjectLocks_eq]; rfl,
    fun Handle => by rw [releaseObjectLocks_eq]; rfl,
    fun Handle Object Access LockConsole Type_ => ?_,
    fun Target alloc => by rw [inheritHandlesTableLocks_eq]; rfl,
    by rw [freeHandlesTableLocks_eq]; rfl,
    fun ConnectionInfo ConnectionInfoLength InitStatus NewConsole a1 a2 a3 DupStatus =>
      (connectLocks_quiet P S ConnectionInfo ConnectionInfoLength InitStatus NewConsole
        a1 a2 a3 DupStatus).1,
    ?_⟩
  · unfold LockObjectLocks Win32CsrLockObject
    simp only [size_enter, at_enter, leave_enter]
    by_cases h1 : IsConsoleHandle Handle = false ∨ Handle >>> 2 ≥ HandleTableSize P
    · simp only [if_pos h1]
      simp [LocksSeparate, HoldAfter]
    · simp only [if_neg h1]
      rcases Option.eq_none_or_eq_some (HandleTableAt P (Handle >>> 2)).Object with
        ho | ⟨o, ho⟩
      · simp only [ho]
        simp [LocksSeparate, HoldAfter]
      · simp only [ho]
        by_cases h2 : (HandleTableAt P (Handle >>> 2)).Access &&& Access = 0 ∨
            (Type_ ≠ 0 ∧ (S.Objects o).Type_ ≠ Type_)
        · simp only [if_pos h2]
          simp [LocksSeparate, HoldAfter]
        · simp only [if_neg h2]
          cases LockConsole
          · simp [LocksSeparate, HoldAfter]
          · simp [LocksSeparate, HoldAfter]
  · unfold DisconnectLocks
    split_ifs
    · exact (releaseConsoleLocks_quiet P S).1
    · rfl

theorem lock_domains_separate_witness :
    LockObjectLocks ExampleProcess ExampleState 3 GENERIC_READ true 0 =
      [.EnterTable 0, .LeaveTable 0, .EnterConsole 0] ∧
    LocksSeparate {} (LockObjectLocks ExampleProcess ExampleState 3 GENERIC_READ true 0)
      = true :=
  ⟨by
      obtain ⟨o, ho, h⟩ := ((lock_domains_separate ExampleProcess ExampleState).2.2.2.1 3 none
        GENERIC_READ true 0).2.1 ⟨by decide, rfl⟩
      have ho1 : o = 1 := by
        have h1 : (HandleTableAt ExampleProcess (3 >>> 2)).Object = some 1 := by decide
        rw [h1] at ho
        exact (Option.some.inj ho).symm
      rw [ho1] at h
      exact h,
    ((lock_domains_separate ExampleProcess ExampleState).2.2.2.1 3 none GENERIC_READ true
      0).1⟩

/-! ## Concurrent closes -/

theorem close_check_act (S : ServerState) (Entry : CONSOLE_IO_HANDLE) (p : Nat)
    (hp : Entry.Object = some p) :
    (Win32CsrCloseHandleEntry S Entry).2 =
      CloseHandleEntryAct (CloseHandleEntryCheck S Entry p).2 p
        (CloseHandleEntryCheck S Entry p).1 := by
  unfold Win32CsrCloseHandleEntry CloseHandleEntryAct CloseHandleEntryCheck
  simp only [hp]
  by_cases h1 : (AdjustHandleCounts S Entry (-1)).1 = 0
  · by_cases h2 : ((AdjustHandleCounts S Entry (-1)).2.Objects p).Type_
        = CONIO_SCREEN_BUFFER_MAGIC
    · by_cases h3 : ListEntry_Flink ((AdjustHandleCounts S Entry (-1)).2.Consoles
          ((AdjustHandleCounts S Entry (-1)).2.Objects p).Console).BufferList p ≠
          ListEntry_Blink ((AdjustHandleCounts S Entry (-1)).2.Consoles
            ((AdjustHandleCounts S Entry (-1)).2.Objects p).Console).BufferList p
      · simp [h1, h2, h3]
      · simp [h1, h2, h3]
    · simp [h1, h2]
  · simp [h1]

/-- C33: the deletion sequence of a close does not run under the lock of the
console: `Win32CsrCloseHandleEntry` makes no lock call, its calls on
`Console->Lock` being commented out, and `Win32CsrReleaseObject` holds only the
table lock of the calling process, so that the closes of two processes can
overlap.  A close is its tests followed by its call of the destructor; when the
process 20 closes its handle on screen buffer 1 and the process 21 its handle
on screen buffer 2, each the only handle on its buffer, the two buffers being
the ring of console 0, and both make the tests before either calls the
destructor, both buffers are deleted and the ring is empty.  One close after
the other deletes buffer 1 only. -/
theorem close_without_session_lock :
    (∀ (S : ServerState) (Entry : CONSOLE_IO_HANDLE) (p : Nat), Entry.Object = some p →
      (Win32CsrCloseHandleEntry S Entry).2 =
        CloseHandleEntryAct (CloseHandleEntryCheck S Entry p).2 p
          (CloseHandleEntryCheck S Entry p).1) ∧
    (∀ Entry : CONSOLE_IO_HANDLE, CloseHandleEntryLocks Entry = []) ∧
    (∀ (P : CONSOLE_PROCESS_DATA) (Handle : HANDLE),
      ReleaseObjectLocks P Handle = [.EnterTable P.Process, .LeaveTable P.Process]) ∧
    Exclusive []
      [(1, .EnterTable FirstCloser.Process), (2, .EnterTable SecondCloser.Process),
        (1, .LeaveTable FirstCloser.Process), (2, .LeaveTable SecondCloser.Process)] = true ∧
    (TwoBufferState.Consoles 0).BufferList = [1, 2] ∧
    HandleTableAt FirstCloser (3 >>> 2) = ⟨some 1, GENERIC_READ, true, 3⟩ ∧
    HandleTableAt SecondCloser (3 >>> 2) = ⟨some 2, GENERIC_READ, true, 3⟩ ∧
    ((InterleavedCloses TwoBufferState (HandleTableAt FirstCloser (3 >>> 2)) 1
      (HandleTableAt SecondCloser (3 >>> 2)) 2).Consoles 0).BufferList = [] ∧
    (InterleavedCloses TwoBufferState (HandleTableAt FirstCloser (3 >>> 2)) 1
      (HandleTableAt SecondCloser (3 >>> 2)) 2).DeletedScreenBuffers = [1, 2] ∧
    ((Win32CsrReleaseObject SecondCloser
      (Win32CsrReleaseObject FirstCloser TwoBufferState 3).2.2 3).2.2.Consoles 0).BufferList
      = [2] ∧
    (Win32CsrReleaseObject SecondCloser
      (Win32CsrReleaseObject FirstCloser TwoBufferState 3).2.2 3).2.2.DeletedScreenBuffers
      = [1] :=
  ⟨close_check_act, fun _ => rfl, releaseObjectLocks_eq, by decide, by decide, by decide,
    by decide, by decide, by decide, by decide, by decide⟩

end Consrv
